import Mathlib

/-!
sifen-go-py: CDC generation, Module-11 check digits, RUC validation, XML signing

Shallow embedding of `internal/util/util.go`, `internal/signature/signer.go`,
`sifen/cache/cache.go`, `sifen/client.go`, `sifen/lote.go`, `sifen/events/events.go`,
`sifen/errors/errors.go`, `sifen/kude/kude.go` and the code they call.

Conventions of the embedding

* A Go `string` (and a `[]byte`) is a finite sequence of bytes: `GoString := List UInt8`,
  and `len(s)` is `List.length`.  String literals of the source are written `str "..."`
  (their UTF-8 bytes).
* A Go `int` is modelled by `Int`.  The only arithmetic of this file adds at most `9 * 10`
  per input byte, so a 64-bit `int` cannot overflow on any string that fits in memory.
* A Go result `(value, error)` is a pair whose second component is `Option String`
  (`none` is the `nil` error, `some msg` carries the text of `fmt.Errorf`).
* `strconv.Itoa`, `strconv.Atoi`, `strings.Split` and `time.Time.Format` belong to the Go
  standard library; they are modelled after their documented behaviour on a 64-bit
  platform.
* An XML tree of package `etree` is a value of type `Node`; a Go pointer to an element of
  a tree is the list of child indices that leads to it, and a mutation through the pointer
  is `Node.modifyAt`.  Parsing, writing, canonicalization, SHA-256, Base64 and the RSA
  signature are the fields of a `Library` every statement quantifies over.  The path
  `//*[@Id='%s']` of the signer is the documented attribute filter when the identifier has
  no character of the path syntax; for any other identifier the compiled path is what the
  library function `FindPath` makes of the text.
* The cache (`sifen/cache/cache.go`), the client (`sifen/client.go`, `sifen/lote.go`), the
  SOAP transport (`internal/soap/client.go`) and the errors (`sifen/errors/errors.go`) are
  embedded in state-passing style: a method takes the state and returns the state after
  the call, every reading of the clock is an argument, and what lies outside the
  repository (HTTP, `encoding/xml`, `archive/zip`) is a field of a `Runtime`.
* The event builders (`sifen/events/events.go`) return a pair of an optional event and an
  error; a pointer field of an event is an `Option`, the enumerations of
  `sifen/types/enums.go` are integers, and the readings of the clock and the layout of
  `time.Time.Format` are the fields of a `Clock`.
* The generator of the KuDE (`sifen/kude/kude.go`) reads the document through the
  structures `models.*`; a pointer to a group is an `Option`, a call ends as an `Ending`
  (a value, a nil dereference, or no return), and a `float64` that is only stored, compared
  or printed is its 64 bits.  SHA-256, the layout of a time and the verb `%.2f` are the
  fields of a `Formats`; `hex.EncodeToString` is embedded.  The arithmetic of
  `CalculateTotals` is exact: its numbers are rationals.
-/

namespace Sifen

set_option linter.dupNamespace false

/-! ## Go strings -/

/-- A Go string: a sequence of bytes. -/
abbrev GoString := List UInt8

/-- The bytes of a source literal (Go source files are UTF-8). -/
def str (s : String) : GoString := s.data.flatMap String.utf8EncodeChar

/-- Conversion `string(r)` of a rune (an `int32`) to a string: the UTF-8 encoding of the
code point, and U+FFFD for a value that is not a Unicode scalar value. -/
def runeString (r : Int) : GoString :=
  if 0 ≤ r ∧ r.toNat.isValidChar then String.utf8EncodeChar (Char.ofNat r.toNat)
  else [0xEF, 0xBF, 0xBD]

/-- Go `strings.Repeat(s, count)` for `count ≥ 0`. -/
def stringsRepeat (s : GoString) (count : Nat) : GoString :=
  (List.replicate count s).flatten

/-! ## Standard library: decimal conversion -/

/-- ASCII decimal digit test. -/
def isDigit (b : UInt8) : Bool := 48 ≤ b.toNat && b.toNat ≤ 57

/-- The decimal digits of `n`, most significant first, pushed in front of `acc`;
`fuel` bounds the number of divisions. -/
def decimalAux : Nat → Nat → GoString → GoString
  | 0, _, acc => acc
  | fuel + 1, n, acc =>
    if n / 10 = 0 then UInt8.ofNat (48 + n % 10) :: acc
    else decimalAux fuel (n / 10) (UInt8.ofNat (48 + n % 10) :: acc)

/-- Decimal text of a natural number (`"0"` for zero, no leading zeros otherwise). -/
def decimal (n : Nat) : GoString := decimalAux (n + 1) n []

/-- Go `strconv.Itoa`. -/
def Itoa (x : Int) : GoString :=
  if x < 0 then 45 :: decimal x.natAbs else decimal x.natAbs

/-- Reads a run of decimal digits, accumulating their value; `none` at the first byte
that is not a digit. -/
def parseDigits : GoString → Nat → Option Nat
  | [], n => some n
  | b :: rest, n => if isDigit b then parseDigits rest (n * 10 + (b.toNat - 48)) else none

/-- Go `strconv.Atoi` on a 64-bit platform: an optional sign followed by at least one
decimal digit, the value lying in the range of `int`; `none` stands for the error
result (syntax or range). -/
def Atoi (s : GoString) : Option Int :=
  match s with
  | [] => none
  | c :: rest =>
    let neg : Bool := c = 45
    let body : GoString := if c = 45 ∨ c = 43 then rest else s
    if body = [] then none
    else
      match parseDigits body 0 with
      | none => none
      | some n =>
        if neg then (if n ≤ 2 ^ 63 then some (-(n : Int)) else none)
        else (if n < 2 ^ 63 then some (n : Int) else none)

/-- Go `strings.Split(s, sep)` for a separator of one byte: the pieces between the
occurrences of `sep` (always at least one piece). -/
def stringsSplit (sep : UInt8) : GoString → List GoString
  | [] => [[]]
  | b :: rest =>
    if b = sep then [] :: stringsSplit sep rest
    else
      match stringsSplit sep rest with
      | [] => [[b]]
      | piece :: pieces => (b :: piece) :: pieces

/-! ## Standard library: `time.Time.Format` -/

/-- The calendar date a `time.Time` presents in its own location (what `t.Date()`
returns): any year, a month in 1..12 and a day in 1..31. -/
structure Time where
  year : Int
  month : Nat
  day : Nat
  month_ok : 1 ≤ month ∧ month ≤ 12
  day_ok : 1 ≤ day ∧ day ≤ 31

/-- Helper `appendInt` of package `time`: a sign for a negative value, then the decimal
digits zero-padded to `width`. -/
def appendInt (x : Int) (width : Nat) : GoString :=
  (if x < 0 then [45] else []) ++
    List.replicate (width - (decimal x.natAbs).length) 48 ++ decimal x.natAbs

/-- The layout `"20060102"` of `time.Time.Format`: four-digit year, two-digit month,
two-digit day. -/
def Time.Format20060102 (t : Time) : GoString :=
  appendInt t.year 4 ++ appendInt t.month 2 ++ appendInt t.day 2

/-! ## util.go -/

/-- LeftPad adds padding characters to the left of a string. -/
def LeftPad (s : GoString) (padChar : Int) (length : Int) : GoString :=
  if (s.length : Int) ≥ length then s
  else stringsRepeat (runeString padChar) (length - s.length).toNat ++ s

/-- RightPad adds padding characters to the right of a string. -/
def RightPad (s : GoString) (padChar : Int) (length : Int) : GoString :=
  if (s.length : Int) ≥ length then s
  else s ++ stringsRepeat (runeString padChar) (length - s.length).toNat

/-- CDCParams contains parameters for CDC generation.  The three `int16` fields are
integers; nothing below depends on their 16-bit range. -/
structure CDCParams where
  TipoDocumento : Int
  RUC : GoString
  DigitoVerificador : GoString
  Establecimiento : GoString
  PuntoExpedicion : GoString
  NumeroDocumento : GoString
  TipoContribuyente : Int
  FechaEmision : Time
  TipoEmision : Int
  CodigoSeguridad : GoString

/-- The expression `strconv.Atoi(string(cdc[i]))` of the two check-digit loops: the byte
is converted to the string holding that code point and parsed as an integer. -/
def atoiByte (b : UInt8) : Option Int := Atoi (runeString b.toNat)

/-- Weights of the CDC check digit. -/
def cdcWeights : List Int := [2, 3, 4, 5, 6, 7]

/-- Weights of the RUC check digit. -/
def rucWeights : List Int := [2, 3, 4, 5, 6, 7, 8, 9, 10]

/-- The loop of `CalculateCDCVerifyDigit`; the first argument lists the bytes still to be
visited, right-most byte of the input first, followed by `sum` and `weightIndex`. -/
def cdcLoop : GoString → Int → Nat → Int
  | [], sum, _ => sum
  | b :: rest, sum, weightIndex =>
    match atoiByte b with
    | none => cdcLoop rest sum weightIndex
    | some digit =>
      cdcLoop rest
        (sum + digit * cdcWeights.get
          ⟨weightIndex % cdcWeights.length, Nat.mod_lt _ (by decide)⟩)
        (weightIndex + 1)

/-- The tail shared by both check-digit functions: `11 - sum % 11`, with 10 and 11
replaced by 0. -/
def module11Result (sum : Int) : Int :=
  let remainder := sum % 11
  let result := 11 - remainder
  if result = 10 then 0
  else if result = 11 then 0
  else result

/-- CalculateCDCVerifyDigit calculates the verify digit for CDC using Module 11. -/
def CalculateCDCVerifyDigit (cdc : GoString) : Int :=
  module11Result (cdcLoop cdc.reverse 0 0)

/-- The loop of `CalculateRUCVerifyDigit`, in the same form as `cdcLoop`. -/
def rucLoop : GoString → Int → Nat → Int
  | [], sum, _ => sum
  | b :: rest, sum, weightIndex =>
    match atoiByte b with
    | none => rucLoop rest sum weightIndex
    | some digit =>
      rucLoop rest
        (if h : weightIndex < rucWeights.length then sum + digit * rucWeights.get ⟨weightIndex, h⟩
         else sum)
        (weightIndex + 1)

/-- CalculateRUCVerifyDigit calculates the verify digit for a RUC using Module 11. -/
def CalculateRUCVerifyDigit (baseRUC : GoString) : Int :=
  module11Result (rucLoop baseRUC.reverse 0 0)

/-- GenerateCDC generates the CDC (Código de Control) for a document. -/
def GenerateCDC (params : CDCParams) : GoString × Option String :=
  if params.RUC = [] then ([], some "RUC is required")
  else if params.Establecimiento.length ≠ 3 then
    ([], some "establecimiento must be 3 characters")
  else if params.PuntoExpedicion.length ≠ 3 then
    ([], some "punto expedicion must be 3 characters")
  else if params.NumeroDocumento.length ≠ 7 then
    ([], some "numero documento must be 7 characters")
  else if params.CodigoSeguridad.length ≠ 9 then
    ([], some "codigo seguridad must be 9 characters")
  else
    let tipoDoc := LeftPad (Itoa params.TipoDocumento) 48 2
    let rucPadded := LeftPad params.RUC 48 8
    let dv := LeftPad params.DigitoVerificador 48 1
    let fecha := params.FechaEmision.Format20060102
    let tipoContrib := Itoa params.TipoContribuyente
    let tipoEmision := Itoa params.TipoEmision
    let cdcWithoutDV := tipoDoc ++ rucPadded ++ dv ++ params.Establecimiento ++
      params.PuntoExpedicion ++ params.NumeroDocumento ++ tipoContrib ++ tipoEmision ++
      fecha ++ params.CodigoSeguridad
    let verifyDigit := CalculateCDCVerifyDigit cdcWithoutDV
    (cdcWithoutDV ++ Itoa verifyDigit, none)

/-- ValidateRUC validates a Paraguayan RUC. -/
def ValidateRUC (ruc : GoString) : Bool × Option String :=
  match stringsSplit 45 ruc with
  | [baseRUC, providedDV] =>
    match Atoi baseRUC with
    | none => (false, some "RUC base must be numeric")
    | some _ =>
      let calculatedDV := CalculateRUCVerifyDigit baseRUC
      match Atoi providedDV with
      | none => (false, some "verify digit must be numeric")
      | some expectedDV => (decide (calculatedDV = expectedDV), none)
  | _ => (false, some "RUC must contain hyphen separator")

/-- The bundle of `TestGenerateCDC`. -/
def testParams : CDCParams where
  TipoDocumento := 1
  RUC := str "80069563"
  DigitoVerificador := str "1"
  Establecimiento := str "001"
  PuntoExpedicion := str "001"
  NumeroDocumento := str "0000001"
  TipoContribuyente := 2
  FechaEmision := ⟨2024, 1, 15, by decide, by decide⟩
  TipoEmision := 1
  CodigoSeguridad := str "123456789"

/-! ## Reference definitions and inputs of the statements about `util.go` -/

/-- Value of a decimal digit byte, `none` for any other byte. -/
def digitVal (b : UInt8) : Option Int :=
  if isDigit b then some ((b.toNat : Int) - 48) else none

/-- The decimal digits of `s` read from right to left; other bytes are skipped. -/
def digitsRightToLeft (s : GoString) : List Int := s.reverse.filterMap digitVal

/-- Weighted sum of a digit sequence: the digit at position `i` (counted from `start`)
is multiplied by `weight i`. -/
def weightedSum (weight : Nat → Int) (digits : List Int) (start : Nat) : Int :=
  ((digits.enumFrom start).map (fun p => p.2 * weight p.1)).sum

/-- Module 11 of a sum: `11 - r` for `r = sum mod 11`, replaced by 0 when it is 10 or 11. -/
def module11 (sum : Int) : Int :=
  if 11 - sum % 11 = 10 ∨ 11 - sum % 11 = 11 then 0 else 11 - sum % 11

/-- Module-11 reference of the CDC: weights `(2,3,4,5,6,7)` cycled over all the digits. -/
def module11CDC (s : GoString) : Int :=
  module11 (weightedSum (fun i => cdcWeights.getD (i % 6) 0) (digitsRightToLeft s) 0)

/-- Module-11 reference of the RUC: weights `(2,...,10)` on the nine right-most digits. -/
def module11RUC (s : GoString) : Int :=
  module11 (weightedSum (fun i => rucWeights.getD i 0) ((digitsRightToLeft s).take 9) 0)

/-- The part of a CDC that precedes its check digit, as `GenerateCDC` assembles it. -/
def cdcWithoutDV (params : CDCParams) : GoString :=
  LeftPad (Itoa params.TipoDocumento) 48 2 ++ LeftPad params.RUC 48 8 ++
    LeftPad params.DigitoVerificador 48 1 ++ params.Establecimiento ++
    params.PuntoExpedicion ++ params.NumeroDocumento ++ Itoa params.TipoContribuyente ++
    Itoa params.TipoEmision ++ params.FechaEmision.Format20060102 ++ params.CodigoSeguridad

/-- The five width checks of `GenerateCDC` all pass. -/
def widthsAccepted (params : CDCParams) : Prop :=
  params.RUC ≠ [] ∧ params.Establecimiento.length = 3 ∧ params.PuntoExpedicion.length = 3 ∧
    params.NumeroDocumento.length = 7 ∧ params.CodigoSeguridad.length = 9

instance (params : CDCParams) : Decidable (widthsAccepted params) := by
  unfold widthsAccepted; infer_instance

/-- Every byte of the string is a decimal digit. -/
def allDigits (s : GoString) : Prop := ∀ b ∈ s, isDigit b = true

instance (s : GoString) : Decidable (allDigits s) := by
  unfold allDigits; infer_instance

/-- Numeric value of a string of decimal digits (most significant digit first). -/
def decimalValue (s : GoString) : Nat :=
  s.foldl (fun n b => n * 10 + (b.toNat - 48)) 0

/-- The test bundle with a RUC of nine characters; every width check passes. -/
def wideRUCParams : CDCParams := { testParams with RUC := str "123456789" }

/-- The test bundle with a RUC check digit of two characters; every width check passes. -/
def wideDVParams : CDCParams := { testParams with DigitoVerificador := str "10" }

/-! ## XML trees (package `etree`) -/

/-- An attribute of an element: namespace prefix, local name and value. -/
structure Attr where
  Space : GoString
  Key : GoString
  Value : GoString
deriving DecidableEq

/-- A token of an XML tree: an element with its attributes and child tokens, character
data, or any other token (comment, directive, processing instruction).  A document is the
element with empty tag that holds the top-level tokens. -/
inductive Node where
  | element (Space Tag : GoString) (Attr : List Attr) (Child : List Node)
  | charData (Data : GoString)
  | other (Data : GoString)

/-- A pointer to a token of a tree: the child indices leading to it from the root. -/
abbrev Pointer := List Nat

/-- The child tokens of an element. -/
def Node.Child : Node → List Node
  | .element _ _ _ ch => ch
  | _ => []

/-- The token is an element. -/
def Node.isElement : Node → Bool
  | .element _ _ _ _ => true
  | _ => false

/-- The token is character data. -/
def Node.isCharData : Node → Bool
  | .charData _ => true
  | _ => false

/-- The text of a character-data token. -/
def Node.Data : Node → GoString
  | .charData d => d
  | _ => []

mutual
/-- Number of tokens of a tree. -/
def Node.size : Node → Nat
  | .element _ _ _ ch => 1 + Node.sizeList ch
  | _ => 1
/-- Number of tokens of a list of trees. -/
def Node.sizeList : List Node → Nat
  | [] => 0
  | n :: ns => n.size + Node.sizeList ns
end

/-- The token a pointer designates. -/
def Node.at : Pointer → Node → Option Node
  | [], n => some n
  | i :: p, .element _ _ _ ch =>
    match ch[i]? with
    | some c => Node.at p c
    | none => none
  | _ :: _, _ => none

/-- Applies `f` to the `i`-th entry of a list. -/
def modifyNth {α : Type} (f : α → α) : Nat → List α → List α
  | _, [] => []
  | 0, x :: xs => f x :: xs
  | i + 1, x :: xs => x :: modifyNth f i xs

/-- In-place update through a pointer: the designated token becomes `f` of itself, the
rest of the tree is untouched. -/
def Node.modifyAt (f : Node → Node) : Pointer → Node → Node
  | [], n => f n
  | i :: p, .element s t a ch => .element s t a (modifyNth (Node.modifyAt f p) i ch)
  | _ :: _, n => n

/-- Splits `space:key` at the first colon (helper of `etree`). -/
def spaceDecompose (s : GoString) : GoString × GoString :=
  match s.span (fun b => b != 58) with
  | (_, []) => ([], s)
  | (space, _ :: key) => (space, key)

/-- Go `etree.NewElement(tag)`. -/
def NewElement (tag : GoString) : Node :=
  .element (spaceDecompose tag).1 (spaceDecompose tag).2 [] []

/-- Go `etree.NewDocument()`. -/
def NewDocument : Node := .element [] [] [] []

/-- Go `e.AddChild(t)` for a token `t` without parent: `t` becomes the last child. -/
def Node.AddChild (e t : Node) : Node :=
  match e with
  | .element s g a ch => .element s g a (ch ++ [t])
  | n => n

/-- Sets the attribute `space:key`, replacing the value when it is already present. -/
def setAttr (space key value : GoString) : List Attr → List Attr
  | [] => [⟨space, key, value⟩]
  | a :: rest =>
    if space = a.Space ∧ key = a.Key then { a with Value := value } :: rest
    else a :: setAttr space key value rest

/-- Go `e.CreateAttr(key, value)`. -/
def Node.CreateAttr (e : Node) (key value : GoString) : Node :=
  match e with
  | .element s g a ch =>
    .element s g (setAttr (spaceDecompose key).1 (spaceDecompose key).2 value a) ch
  | n => n

/-- Go `e.SetText(text)`: the leading run of character data is replaced by `text`
(by nothing when `text` is empty). -/
def Node.SetText (e : Node) (text : GoString) : Node :=
  match e with
  | .element s g a ch =>
    .element s g a
      ((if text = [] then [] else [Node.charData text]) ++ ch.dropWhile Node.isCharData)
  | n => n

/-- Go `e.Text()`: the character data that immediately follows the opening tag. -/
def Node.Text (e : Node) : GoString :=
  (e.Child.takeWhile Node.isCharData).flatMap Node.Data

/-- Replaces the first element of a token list by `e`, or appends `e` when there is none. -/
def replaceRoot (e : Node) : List Node → List Node
  | [] => [e]
  | t :: ts => if t.isElement then e :: ts else t :: replaceRoot e ts

/-- Go `d.SetRoot(e)` for an element `e` without parent. -/
def Node.SetRoot (d e : Node) : Node :=
  match d with
  | .element s g a ch => .element s g a (replaceRoot e ch)
  | n => n

/-- Go `e.Copy()`: a deep copy, which as a value is the tree itself. -/
def Node.Copy (e : Node) : Node := e

/-- Go `e.SelectElement(tag)`: the first child element with the given tag. -/
def Node.SelectElement (tag : GoString) (e : Node) : Option Node :=
  e.Child.find? (fun c => match c with
    | .element _ t _ _ => t = tag
    | _ => false)

/-- Go `parent.CreateElement(tag)` where `parent` points into the tree `root`: a new
element becomes the last child of the designated element; the result is the updated tree
and the pointer to the new element. -/
def CreateElement (root : Node) (parent : Pointer) (tag : GoString) : Node × Pointer :=
  (root.modifyAt (fun n => n.AddChild (NewElement tag)) parent,
    parent ++ [match root.at parent with
      | some n => n.Child.length
      | none => 0])

/-- The attribute filter `[@key='value']` of an `etree` path: some attribute of the
element has this local name and this value. -/
def hasAttrVal (key value : GoString) : Node → Bool
  | .element _ _ attrs _ => attrs.any (fun a => a.Key = key ∧ a.Value = value)
  | _ => false

/-- The child elements of a designated element, each with its pointer. -/
def elementChildren (pn : Pointer × Node) : List (Pointer × Node) :=
  (pn.2.Child.enum.filter (fun ic => ic.2.isElement)).map (fun ic => (pn.1 ++ [ic.1], ic.2))

/-- Search of the path `//*[@key='value']` among the elements of one depth, then of the
next depth: `etree` visits the descendants breadth-first. -/
def findLevels (key value : GoString) : Nat → List (Pointer × Node) → Option (Pointer × Node)
  | 0, _ => none
  | fuel + 1, level =>
    match level.find? (fun pn => hasAttrVal key value pn.2) with
    | some pn => some pn
    | none =>
      if level.isEmpty then none
      else findLevels key value fuel (level.flatMap elementChildren)

/-- The search of the path `//*[@Id='value']` of the documentation of `etree`: the first
element, in the order of the search, that carries an attribute `Id` with this value,
together with its pointer. -/
def findByID (doc : Node) (value : GoString) : Option (Pointer × Node) :=
  findLevels (str "Id") value doc.size (elementChildren ([], doc))

/-- The identifier is free of the characters of the path syntax of `etree` (the two
quotes, the two brackets and the slash): spliced between the quotes of `//*[@Id='%s']` it
is the value of the attribute filter and nothing else. -/
def pathSafe (elementID : GoString) : Bool :=
  elementID.all (fun b => b ≠ 39 && b ≠ 34 && b ≠ 91 && b ≠ 93 && b ≠ 47)

/-- How `doc.FindElement(path)` of `etree` ends for a path text: it panics (the text is
not a valid path), or it returns nil or a pointer to an element of the document. -/
inductive PathResult where
  | panic
  | result (elem : Option Pointer)

/-- How the search of `Sign` for its element ends: a panic, nil, or an element of the
document with its pointer. -/
inductive Found where
  | panic
  | nil
  | elem (e : Pointer × Node)

/-! ## signer.go -/

/-- The functions `Sign` takes from libraries: `etree` reading and writing, the `etree`
search `doc.FindElement(path)` as it compiles and runs an arbitrary path text (`FindPath`),
`c14n.Canonicalize` (on the bytes handed to the XML decoder), `sha256`,
`base64.StdEncoding.EncodeToString` and `rsa.SignPKCS1v15` with SHA-256; `K` is the type
of RSA private keys. -/
structure Library (K : Type) where
  ReadFromBytes : GoString → Except String Node
  WriteToBytes : Node → GoString
  FindPath : Node → GoString → PathResult
  Canonicalize : GoString → Except String GoString
  Sum256 : GoString → GoString
  EncodeToString : GoString → GoString
  SignPKCS1v15 : K → GoString → Except String GoString

/-- The field `tls.Certificate.PrivateKey`: an RSA key, a key of another type, or the
`nil` interface value. -/
inductive PrivateKey (K : Type) where
  | rsa (key : K)
  | notRSA
  | nil

/-- Go `tls.Certificate`: the certificate chain (DER) and the private key. -/
structure Certificate (K : Type) where
  Certificate : List GoString
  PrivateKey : PrivateKey K

/-- Signer handles XML Digital Signature logic. -/
structure Signer (K : Type) where
  Cert : Certificate K

/-- The errors `Sign` returns, one per `fmt.Errorf` of the source. -/
inductive SignError where
  | parse (cause : String)
  | notFound (elementID : GoString)
  | c14n (cause : String)
  | c14nSignedInfo (cause : String)
  | keyNotRSA
  | rsaSign (cause : String)

/-- How a call ends: a value, a returned error, or a run-time panic. -/
inductive Outcome (α : Type) where
  | ok (value : α)
  | error (err : SignError)
  | panic

/-- The text `fmt.Sprintf("//*[@Id='%s']", elementID)`: the identifier is spliced into the
path as it is. -/
def idPath (elementID : GoString) : GoString :=
  str "//*[@Id=" ++ [39] ++ elementID ++ [39] ++ str "]"

/-- Go `doc.FindElement(fmt.Sprintf("//*[@Id='%s']", elementID))`.  For an identifier free
of the characters of the path syntax the text is the path `//*[@Id='value']` of the
documentation, and the search is `findByID`.  Any other identifier changes the path
itself; what `etree` makes of that text is the library function `FindPath`, whose pointer
is read in the document.  `etree` returns an element of the document; a pointer that
designates none is a panic here. -/
def FindElement {K : Type} (lib : Library K) (doc : Node) (elementID : GoString) : Found :=
  if pathSafe elementID then
    match findByID doc elementID with
    | some e => .elem e
    | none => .nil
  else
    match lib.FindPath doc (idPath elementID) with
    | .panic => .panic
    | .result none => .nil
    | .result (some p) =>
      match doc.at p with
      | some e => if e.isElement then .elem (p, e) else .panic
      | none => .panic

/-- The `SignedInfo` element as steps 4 of `Sign` builds it. -/
def buildSignedInfo (elementID digestBase64 : GoString) : Node :=
  let signedInfo := NewElement (str "SignedInfo")
  let signedInfo := signedInfo.CreateAttr (str "xmlns") (str "http://www.w3.org/2000/09/xmldsig#")
  let c14nMethod := CreateElement signedInfo [] (str "CanonicalizationMethod")
  let signedInfo := c14nMethod.1.modifyAt
    (fun e => e.CreateAttr (str "Algorithm") (str "http://www.w3.org/2001/10/xml-exc-c14n#"))
    c14nMethod.2
  let sigMethod := CreateElement signedInfo [] (str "SignatureMethod")
  let signedInfo := sigMethod.1.modifyAt
    (fun e => e.CreateAttr (str "Algorithm")
      (str "http://www.w3.org/2001/04/xmldsig-more#rsa-sha256"))
    sigMethod.2
  let ref := CreateElement signedInfo [] (str "Reference")
  let signedInfo := ref.1.modifyAt
    (fun e => e.CreateAttr (str "URI") (str "#" ++ elementID)) ref.2
  let transforms := CreateElement signedInfo ref.2 (str "Transforms")
  let trans1 := CreateElement transforms.1 transforms.2 (str "Transform")
  let signedInfo := trans1.1.modifyAt
    (fun e => e.CreateAttr (str "Algorithm")
      (str "http://www.w3.org/2000/09/xmldsig#enveloped-signature"))
    trans1.2
  let trans2 := CreateElement signedInfo transforms.2 (str "Transform")
  let signedInfo := trans2.1.modifyAt
    (fun e => e.CreateAttr (str "Algorithm") (str "http://www.w3.org/2001/10/xml-exc-c14n#"))
    trans2.2
  let digestMethod := CreateElement signedInfo ref.2 (str "DigestMethod")
  let signedInfo := digestMethod.1.modifyAt
    (fun e => e.CreateAttr (str "Algorithm") (str "http://www.w3.org/2001/04/xmlenc#sha256"))
    digestMethod.2
  let digestVal := CreateElement signedInfo ref.2 (str "DigestValue")
  digestVal.1.modifyAt (fun e => e.SetText digestBase64) digestVal.2

/-- The `Signature` element as step 7 of `Sign` builds it, up to the text of the
certificate. -/
def buildSignature (signedInfo : Node) (signatureBase64 : GoString) : Node × Pointer :=
  let signatureElem := NewElement (str "Signature")
  let signatureElem :=
    signatureElem.CreateAttr (str "xmlns") (str "http://www.w3.org/2000/09/xmldsig#")
  let signatureElem := signatureElem.AddChild signedInfo
  let sigValElem := CreateElement signatureElem [] (str "SignatureValue")
  let signatureElem := sigValElem.1.modifyAt (fun e => e.SetText signatureBase64) sigValElem.2
  let keyInfoElem := CreateElement signatureElem [] (str "KeyInfo")
  let x509DataElem := CreateElement keyInfoElem.1 keyInfoElem.2 (str "X509Data")
  CreateElement x509DataElem.1 x509DataElem.2 (str "X509Certificate")

/-- Signer.Sign: signs the element of `xmlBytes` that the path built from `elementID`
finds and returns the document with the enveloped `Signature`. -/
def Signer.Sign {K : Type} (lib : Library K) (s : Signer K) (xmlBytes elementID : GoString) :
    Outcome GoString :=
  match lib.ReadFromBytes xmlBytes with
  | .error err => .error (.parse err)
  | .ok doc =>
    -- 1. Find the element to sign
    match FindElement lib doc elementID with
    | .panic => .panic
    | .nil => .error (.notFound elementID)
    | .elem elem =>
      -- 2. Canonicalize the element (Exclusive C14N)
      let docTemp := NewDocument.SetRoot elem.2.Copy
      let xmlBytesTemp := lib.WriteToBytes docTemp
      match lib.Canonicalize xmlBytesTemp with
      | .error err => .error (.c14n err)
      | .ok canonicalBytes =>
        -- 3. Calculate Digest
        let digest := lib.Sum256 canonicalBytes
        let digestBase64 := lib.EncodeToString digest
        -- 4. Construct SignedInfo
        let signedInfo := buildSignedInfo elementID digestBase64
        -- 5. Canonicalize SignedInfo
        let docSignedInfo := NewDocument.SetRoot signedInfo.Copy
        let siBytes := lib.WriteToBytes docSignedInfo
        match lib.Canonicalize siBytes with
        | .error err => .error (.c14nSignedInfo err)
        | .ok canonicalSiBytes =>
          -- 6. Sign SignedInfo digest
          match s.Cert.PrivateKey with
          | .notRSA => .error .keyNotRSA
          | .nil => .error .keyNotRSA
          | .rsa privKey =>
            let siDigest := lib.Sum256 canonicalSiBytes
            match lib.SignPKCS1v15 privKey siDigest with
            | .error err => .error (.rsaSign err)
            | .ok signature =>
              let signatureBase64 := lib.EncodeToString signature
              -- 7. Construct Signature Element
              let x509CertElem := buildSignature signedInfo signatureBase64
              match s.Cert.Certificate with
              | [] => .panic
              | leafCert :: _ =>
                let signatureElem := x509CertElem.1.modifyAt
                  (fun e => e.SetText (lib.EncodeToString leafCert)) x509CertElem.2
                -- 8. Append Signature to the located element
                let doc := doc.modifyAt (fun e => e.AddChild signatureElem) elem.1
                .ok (lib.WriteToBytes doc)

/-! ## The signature as the specification describes it -/

/-- The attribute `Algorithm` with the given URI. -/
def algorithmAttr (uri : String) : Attr := ⟨[], str "Algorithm", str uri⟩

/-- The attribute `xmlns` of XML Digital Signature. -/
def xmldsigAttr : Attr := ⟨[], str "xmlns", str "http://www.w3.org/2000/09/xmldsig#"⟩

/-- An element without namespace prefix. -/
def elem (tag : String) (attrs : List Attr) (children : List Node) : Node :=
  .element [] (str tag) attrs children

/-- The content of an element that holds only `text`. -/
def textContent (text : GoString) : List Node :=
  if text = [] then [] else [Node.charData text]

/-- `SignedInfo`: CanonicalizationMethod, SignatureMethod and one Reference to
`#elementID` with its Transforms, DigestMethod and DigestValue. -/
def signedInfoTree (elementID digestValue : GoString) : Node :=
  elem "SignedInfo" [xmldsigAttr]
    [elem "CanonicalizationMethod" [algorithmAttr "http://www.w3.org/2001/10/xml-exc-c14n#"] [],
     elem "SignatureMethod"
       [algorithmAttr "http://www.w3.org/2001/04/xmldsig-more#rsa-sha256"] [],
     elem "Reference" [⟨[], str "URI", str "#" ++ elementID⟩]
       [elem "Transforms" []
          [elem "Transform"
             [algorithmAttr "http://www.w3.org/2000/09/xmldsig#enveloped-signature"] [],
           elem "Transform" [algorithmAttr "http://www.w3.org/2001/10/xml-exc-c14n#"] []],
        elem "DigestMethod" [algorithmAttr "http://www.w3.org/2001/04/xmlenc#sha256"] [],
        elem "DigestValue" [] (textContent digestValue)]]

/-- `Signature`: SignedInfo, SignatureValue and KeyInfo/X509Data/X509Certificate. -/
def signatureTree (elementID digestValue signatureValue certificate : GoString) : Node :=
  elem "Signature" [xmldsigAttr]
    [signedInfoTree elementID digestValue,
     elem "SignatureValue" [] (textContent signatureValue),
     elem "KeyInfo" []
       [elem "X509Data" [] [elem "X509Certificate" [] (textContent certificate)]]]

/-- The canonical form of an element the signer digests: the element, copied into a
document of its own, written out and canonicalized (exclusive C14N). -/
def C14N {K : Type} (lib : Library K) (e : Node) : Except String GoString :=
  lib.Canonicalize (lib.WriteToBytes (NewDocument.SetRoot e.Copy))

/-- The last child token of an element. -/
def Node.lastChild (e : Node) : Option Node := e.Child.getLast?

/-- The text of `Signature/SignedInfo/Reference/DigestValue` for a given `Signature`. -/
def digestValueOf (signature : Node) : Option GoString :=
  (((signature.SelectElement (str "SignedInfo")).bind
    (Node.SelectElement (str "Reference"))).bind
    (Node.SelectElement (str "DigestValue"))).map Node.Text

/-! ## A small library instance for closed examples -/

/-- Writes the attributes of an element. -/
def renderAttrs : List Attr → GoString
  | [] => []
  | a :: rest => str " " ++ a.Key ++ str "=" ++ [34] ++ a.Value ++ [34] ++ renderAttrs rest

mutual
/-- Writes a token as XML text (no escaping). -/
def Node.render : Node → GoString
  | .element _ t a ch =>
    str "<" ++ t ++ renderAttrs a ++ str ">" ++ Node.renderList ch ++ str "</" ++ t ++ str ">"
  | .charData d => d
  | .other d => d
/-- Writes a list of tokens. -/
def Node.renderList : List Node → GoString
  | [] => []
  | n :: ns => n.render ++ Node.renderList ns
end

/-- A document with one element `DE` whose `Id` is `7`, holding one element `dVerFor`. -/
def sampleDocument : Node :=
  .element [] [] [] [elem "DE" [⟨[], str "Id", str "7"⟩] [elem "dVerFor" [] [.charData (str "150")]]]

/-- The breadth-first search of `findLevels` for the first element that passes a test. -/
def findLevelsBy (test : Node → Bool) : Nat → List (Pointer × Node) → Option (Pointer × Node)
  | 0, _ => none
  | fuel + 1, level =>
    match level.find? (fun pn => test pn.2) with
    | some pn => some pn
    | none =>
      if level.isEmpty then none
      else findLevelsBy test fuel (level.flatMap elementChildren)

/-- One filter of a path, the text between `[` and `]`, read as `@key='value'`: the key is
the text between `@` and the first `=`, the value the text between the quote that follows
and the next quote, which has to end the filter; `none` for any other text. -/
def parseAttrFilter (filter : GoString) : Option (GoString × GoString) :=
  match filter with
  | 64 :: rest =>
    match rest.dropWhile (fun b => b ≠ 61) with
    | 61 :: 39 :: body =>
      if body.dropWhile (fun b => b ≠ 39) = [39] then
        some (rest.takeWhile (fun b => b ≠ 61), body.takeWhile (fun b => b ≠ 39))
      else none
    | _ => none
  | _ => none

/-- The filters of a path segment: the pieces that follow each `[`, every one of which
has to end in `]`; `none` when a piece does not, or is not an attribute filter. -/
def parseFilters : List GoString → Option (List (GoString × GoString))
  | [] => some []
  | piece :: rest =>
    if piece.getLast? = some 93 then
      match parseAttrFilter piece.dropLast, parseFilters rest with
      | some filter, some filters => some (filter :: filters)
      | _, _ => none
    else none

/-- Stand-in for the search of `etree` on the paths `//*` followed by attribute filters
`[@key='value']`, after its path compiler: the segment is split at every `[`, a piece that
does not end in `]` or a filter with mismatched quotes makes the path invalid (a panic),
and the result is the first element, breadth-first, that passes every filter.  Any other
path panics here. -/
def samplePathSearch (doc : Node) (path : GoString) : PathResult :=
  match path with
  | 47 :: 47 :: 42 :: rest =>
    match stringsSplit 91 rest with
    | [] :: pieces =>
      match parseFilters pieces with
      | some filters =>
        .result ((findLevelsBy (fun e => filters.all (fun kv => hasAttrVal kv.1 kv.2 e))
          doc.size (elementChildren ([], doc))).map Prod.fst)
      | none => .panic
    | _ => .panic
  | _ => .panic

/-- Stand-ins with the types of the library functions: reading recognises the sample
document only, writing is `Node.renderList`, the search of a path is `samplePathSearch`,
the other functions return their argument. -/
def sampleLibrary : Library Unit where
  ReadFromBytes := fun b =>
    if b = Node.renderList sampleDocument.Child then .ok sampleDocument else .error "syntax error"
  WriteToBytes := fun d => Node.renderList d.Child
  FindPath := samplePathSearch
  Canonicalize := fun b => .ok b
  Sum256 := fun b => b
  EncodeToString := fun b => b
  SignPKCS1v15 := fun _ b => .ok b

/-- A signer with an RSA key and a one-certificate chain. -/
def sampleSigner : Signer Unit := ⟨⟨[str "CERT"], .rsa ()⟩⟩

/-- The sample document after signing with the stand-in library. -/
def sampleSigned : Node :=
  .element [] [] []
    [elem "DE" [⟨[], str "Id", str "7"⟩]
      [elem "dVerFor" [] [.charData (str "150")],
       signatureTree (str "7")
         (Node.renderList [elem "DE" [⟨[], str "Id", str "7"⟩]
           [elem "dVerFor" [] [.charData (str "150")]]])
         (Node.renderList [signedInfoTree (str "7")
           (Node.renderList [elem "DE" [⟨[], str "Id", str "7"⟩]
             [elem "dVerFor" [] [.charData (str "150")]]])])
         (str "CERT")]]

/-! ## Documents without the requested `Id` -/

mutual
/-- Some element of the tree (the root included) satisfies `p`. -/
def Node.anyElement (p : Node → Bool) : Node → Bool
  | .element s t a ch => p (.element s t a ch) || Node.anyElementList p ch
  | _ => false
/-- Some element of one of the trees satisfies `p`. -/
def Node.anyElementList (p : Node → Bool) : List Node → Bool
  | [] => false
  | n :: ns => n.anyElement p || Node.anyElementList p ns
end

/-- Stand-in library that reads the written form of the document `d` and nothing else;
the other functions are those of `sampleLibrary`. -/
def libraryReading (d : Node) : Library Unit :=
  { sampleLibrary with
    ReadFromBytes := fun b =>
      if b = Node.renderList d.Child then .ok d else .error "syntax error" }

/-- A document whose element `DE` carries the attributes `id` and `ID`, but not `Id`. -/
def otherCaseDocument : Node :=
  .element [] [] []
    [elem "DE" [⟨[], str "id", str "7"⟩, ⟨[], str "ID", str "7"⟩]
      [elem "dVerFor" [] [.charData (str "150")]]]

/-- The document `<r Id="a"></r>`: one element, whose `Id` is `a`. -/
def splicedDocument : Node :=
  .element [] [] [] [elem "r" [⟨[], str "Id", str "a"⟩] []]

/-- The identifier `a'][@Id='a`: spliced into the path it gives `//*[@Id='a'][@Id='a']`,
the filter `Id = a` twice. -/
def splicedID : GoString := str "a" ++ [39] ++ str "][@Id=" ++ [39] ++ str "a"

/-- The identifier `a'b`: spliced into the path it gives `//*[@Id='a'b']`, a filter with
mismatched quotes. -/
def quoteID : GoString := str "a" ++ [39] ++ str "b"

/-- The document `<r Id="a"></r>` after `Sign` with the identifier `a'][@Id='a` and the
stand-in library: the element `r` holds the `Signature`, whose reference is to
`#a'][@Id='a`. -/
def splicedSigned : Node :=
  .element [] [] []
    [elem "r" [⟨[], str "Id", str "a"⟩]
      [signatureTree splicedID
         (Node.renderList [elem "r" [⟨[], str "Id", str "a"⟩] []])
         (Node.renderList [signedInfoTree splicedID
           (Node.renderList [elem "r" [⟨[], str "Id", str "a"⟩] []])])
         (str "CERT")]]

/-! ## cache.go

A `time.Time` is an instant of the clock, an `Int` (nanoseconds); a `time.Duration` is an
`Int` as well.  `After` and `Before` are the strict orders.  Every call of `time.Now()`
is an explicit argument `now`.  A Go map is a list of key-value pairs with distinct keys;
the order in which a `range` loop visits the map is not fixed by the language, so it is
an explicit argument `order`, a permutation of the pairs. -/

/-- CacheConfig contiene la configuración del caché. -/
structure CacheConfig where
  DefaultTTL : Int
  RUCTTL : Int
  DETTL : Int
  MaxSize : Int
  EnableAutoCleanup : Bool
  CleanupInterval : Int
deriving DecidableEq

/-- One minute, in nanoseconds. -/
def minute : Int := 60 * 1000000000

/-- DefaultCacheConfig retorna configuración por defecto. -/
def DefaultCacheConfig : CacheConfig where
  DefaultTTL := 5 * minute
  RUCTTL := 30 * minute
  DETTL := 10 * minute
  MaxSize := 1000
  EnableAutoCleanup := true
  CleanupInterval := minute

/-- An entry of the cache. -/
structure cacheEntry (V : Type) where
  value : V
  expiration : Int
  hitCount : Int
deriving DecidableEq

/-- CacheStats contiene estadísticas del caché. -/
structure CacheStats where
  Hits : Int
  Misses : Int
  Evictions : Int
  Size : Int
  OldestEntry : Int
deriving DecidableEq

/-- Cache implementa un caché in-memory con TTL; `stopChClosed` tells whether the channel
`stopCh` has been closed. -/
structure Cache (V : Type) where
  config : CacheConfig
  entries : List (GoString × cacheEntry V)
  stats : CacheStats
  stopChClosed : Bool
deriving DecidableEq

/-- Map lookup `m[key]`. -/
def mapGet {α : Type} (m : List (GoString × α)) (key : GoString) : Option α :=
  (m.find? (fun p => p.1 = key)).map (fun p => p.2)

/-- Map deletion `delete(m, key)`. -/
def mapDelete {α : Type} (key : GoString) (m : List (GoString × α)) : List (GoString × α) :=
  m.filter (fun p => p.1 ≠ key)

/-- Map assignment `m[key] = v`. -/
def mapSet {α : Type} (key : GoString) (v : α) (m : List (GoString × α)) :
    List (GoString × α) :=
  (key, v) :: mapDelete key m

/-- Update of the value stored under `key` through its pointer. -/
def mapModify {α : Type} (key : GoString) (f : α → α) (m : List (GoString × α)) :
    List (GoString × α) :=
  m.map (fun p => if p.1 = key then (p.1, f p.2) else p)

/-- NewCache crea un nuevo caché. -/
def NewCache {V : Type} (config : CacheConfig) : Cache V where
  config := config
  entries := []
  stats := ⟨0, 0, 0, 0, 0⟩
  stopChClosed := false

/-- The loop of `evictOldest` over the visited pairs, with the running `oldestKey` and
`oldestTime`. -/
def evictLoop {V : Type} : List (GoString × cacheEntry V) → GoString → Int → GoString × Int
  | [], oldestKey, oldestTime => (oldestKey, oldestTime)
  | (key, entry) :: rest, oldestKey, oldestTime =>
    if oldestKey = [] ∨ entry.expiration < oldestTime then evictLoop rest key entry.expiration
    else evictLoop rest oldestKey oldestTime

/-- The helper `evictOldest`; `order` is the order in which the loop visits the map. -/
def Cache.evictOldest {V : Type} (c : Cache V) (order : List (GoString × cacheEntry V)) :
    Cache V :=
  let oldestKey := (evictLoop order [] 0).1
  if oldestKey ≠ [] then
    { c with
      entries := mapDelete oldestKey c.entries
      stats := { c.stats with Evictions := c.stats.Evictions + 1 } }
  else c

/-- Set almacena un valor con TTL personalizado. -/
def Cache.Set {V : Type} (c : Cache V) (key : GoString) (value : V) (ttl : Int) (now : Int)
    (order : List (GoString × cacheEntry V)) : Cache V :=
  let c := if c.config.MaxSize > 0 ∧ (c.entries.length : Int) ≥ c.config.MaxSize then
      c.evictOldest order
    else c
  { c with entries := mapSet key ⟨value, now + ttl, 0⟩ c.entries }

/-- The method `isExpired`, with the reading `now` of the clock. -/
def cacheEntry.isExpired {V : Type} (e : cacheEntry V) (now : Int) : Bool :=
  decide (e.expiration < now)

/-- Get obtiene un valor del caché: the value when the key is present and not expired
(`none` is the result `nil, false`), and the cache after the call. -/
def Cache.Get {V : Type} (c : Cache V) (key : GoString) (now : Int) : Option V × Cache V :=
  match mapGet c.entries key with
  | none => (none, { c with stats := { c.stats with Misses := c.stats.Misses + 1 } })
  | some entry =>
    if entry.isExpired now then
      (none, { c with
        entries := mapDelete key c.entries
        stats := { c.stats with Misses := c.stats.Misses + 1 } })
    else
      (some entry.value, { c with
        entries := mapModify key (fun e => { e with hitCount := e.hitCount + 1 }) c.entries
        stats := { c.stats with Hits := c.stats.Hits + 1 } })

/-- Delete elimina una entrada del caché. -/
def Cache.Delete {V : Type} (c : Cache V) (key : GoString) : Cache V :=
  { c with entries := mapDelete key c.entries }

/-- Clear limpia todo el caché. -/
def Cache.Clear {V : Type} (c : Cache V) : Cache V :=
  { c with entries := [] }

/-- The sweep `cleanup`: every entry whose expiration lies before `now` is deleted and
counted as an eviction. -/
def Cache.cleanup {V : Type} (c : Cache V) (now : Int) : Cache V :=
  { c with
    entries := c.entries.filter (fun p => ¬ p.2.expiration < now)
    stats := { c.stats with
      Evictions := c.stats.Evictions +
        (c.entries.filter (fun p => p.2.expiration < now)).length } }

/-- A cache of capacity one, for the closed statements. -/
def smallCache : Cache Nat := NewCache { DefaultCacheConfig with MaxSize := 1 }

/-- A full cache of capacity two holding the keys `a` (expiring first) and `b`. -/
def fullCache : Cache Nat :=
  { (NewCache { DefaultCacheConfig with MaxSize := 2 } : Cache Nat) with
    entries := [(str "a", ⟨1, 10, 0⟩), (str "b", ⟨2, 20, 0⟩)] }

/-! ## errors.go -/

/-- ErrorType categoriza el tipo de error. -/
inductive ErrorType where
  | VALIDATION
  | CRYPTOGRAPHY
  | NETWORK
  | SIFEN
  | BUSINESS
  | INTERNAL
deriving DecidableEq

/-- A Go value of interface type `error`: `nil`, an error that is not a `*SifenError`
(only its text matters here), or a `*SifenError` with its fields `Type`, `Code`, `Message`,
`Cause` and `Recoverable` (the field `Context` is never set by the code modelled here). -/
inductive GoError where
  | nil
  | errorf (text : GoString)
  | sifen (ErrType : ErrorType) (Code Message : GoString) (Cause : GoError)
      (Recoverable : Bool)
deriving DecidableEq

/-- The text of an `ErrorType`. -/
def ErrorType.text : ErrorType → GoString
  | .VALIDATION => str "VALIDATION"
  | .CRYPTOGRAPHY => str "CRYPTOGRAPHY"
  | .NETWORK => str "NETWORK"
  | .SIFEN => str "SIFEN"
  | .BUSINESS => str "BUSINESS"
  | .INTERNAL => str "INTERNAL"

/-- Error implementa la interfaz error. -/
def GoError.Error : GoError → GoString
  | .nil => []
  | .errorf text => text
  | .sifen t code message cause _ =>
    match cause with
    | .nil => str "[" ++ t.text ++ str "] " ++ code ++ str ": " ++ message
    | _ =>
      str "[" ++ t.text ++ str "] " ++ code ++ str ": " ++ message ++ str " (cause: " ++
        cause.Error ++ str ")"

/-- isRecoverableSifenCode determina si un error SIFEN es recuperable. -/
def isRecoverableSifenCode (code : GoString) : Bool :=
  code = str "0500" || code = str "0501" || code = str "0100"

/-- NewValidationError crea un error de validación. -/
def NewValidationError (code message : GoString) : GoError :=
  .sifen .VALIDATION code message .nil false

/-- NewCryptoError crea un error de criptografía. -/
def NewCryptoError (message : GoString) (cause : GoError) : GoError :=
  .sifen .CRYPTOGRAPHY (str "CRYPTO_ERROR") message cause false

/-- NewNetworkError crea un error de red. -/
def NewNetworkError (message : GoString) (cause : GoError) : GoError :=
  .sifen .NETWORK (str "NETWORK_ERROR") message cause true

/-- NewSifenResponseError crea un error desde respuesta SIFEN. -/
def NewSifenResponseError (code message : GoString) : GoError :=
  .sifen .SIFEN code message .nil (isRecoverableSifenCode code)

/-- NewBusinessError crea un error de negocio. -/
def NewBusinessError (code message : GoString) : GoError :=
  .sifen .BUSINESS code message .nil false

/-- NewInternalError crea un error interno. -/
def NewInternalError (message : GoString) (cause : GoError) : GoError :=
  .sifen .INTERNAL (str "INTERNAL_ERROR") message cause false

/-- ErrCDCInvalido indica que el CDC no tiene 44 caracteres. -/
def ErrCDCInvalido : GoError :=
  NewValidationError (str "VAL_001") (str "CDC debe tener 44 caracteres")

/-- ErrLoteVacio indica lote sin documentos. -/
def ErrLoteVacio : GoError :=
  NewBusinessError (str "BUS_001") (str "El lote debe contener al menos un documento")

/-- ErrLoteExcedeMaximo indica demasiados documentos en lote. -/
def ErrLoteExcedeMaximo : GoError :=
  NewBusinessError (str "BUS_002") (str "El lote excede el máximo de 50 documentos")

/-- ErrLoteTipoMixto indica mezcla de tipos en lote. -/
def ErrLoteTipoMixto : GoError :=
  NewBusinessError (str "BUS_003")
    (str "Todos los documentos del lote deben ser del mismo tipo")

/-- Go `strings.Contains(s, substr)`. -/
def stringsContains (s substr : GoString) : Bool :=
  s.tails.any (fun t => substr.isPrefixOf t)

/-- Wrap envuelve un error en SifenError; `toLower` is `strings.ToLower`. -/
def Wrap (toLower : GoString → GoString) (err : GoError) (message : GoString) : GoError :=
  match err with
  | .nil => .nil
  | .sifen t code m cause r => .sifen t code (message ++ str ": " ++ m) cause r
  | .errorf text =>
    let errStr := toLower (GoError.errorf text).Error
    if stringsContains errStr (str "timeout") then NewNetworkError message err
    else if stringsContains errStr (str "connection refused") then
      NewNetworkError message err
    else if stringsContains errStr (str "certificate") || stringsContains errStr (str "tls")
    then NewCryptoError message err
    else NewInternalError message err

/-- The text of an error returned by `Sign` (the format strings of `signer.go`). -/
def SignError.Error : SignError → GoString
  | .parse cause => str "failed to parse xml: " ++ str cause
  | .notFound elementID => str "element with Id='" ++ elementID ++ str "' not found"
  | .c14n cause => str "c14n failed: " ++ str cause
  | .c14nSignedInfo cause => str "c14n SignedInfo failed: " ++ str cause
  | .keyNotRSA => str "private key is not RSA"
  | .rsaSign cause => str "rsa sign failed: " ++ str cause

/-! ## request/types.go, response/types.go, models/de.go -/

/-- The request payloads; every one carries the request identifier `dId`. -/
inductive Payload where
  | REnviConsRUC (DId : Int) (DRUCCons : GoString)
  | REnviDe (DId : Int) (XDE : GoString)
  | REnviLoteDe (DId : Int) (XDEList : List GoString)
  | REnviConsDE (DId : Int) (DCdCDE : GoString)
  | REnviConsLoteDe (DId : Int) (DProtConsLote : GoString)
  | REnviEventoDe (DId : Int) (DEvReg : GoString)
deriving DecidableEq

/-- The field `DId` of a request. -/
def Payload.DId : Payload → Int
  | .REnviConsRUC d _ => d
  | .REnviDe d _ => d
  | .REnviLoteDe d _ => d
  | .REnviConsDE d _ => d
  | .REnviConsLoteDe d _ => d
  | .REnviEventoDe d _ => d

/-- BaseResponse: response code and message. -/
structure BaseResponse where
  DCodRes : GoString
  DMsgRes : GoString
deriving DecidableEq

/-- TxContRuc. -/
structure TxContRuc where
  DRUCCons : GoString
  DRazCons : GoString
  DCodEstCons : GoString
  DDesEstCons : GoString
  DRUCFactElec : GoString
deriving DecidableEq

/-- RespuestaConsultaRUC. -/
structure RespuestaConsultaRUC extends BaseResponse where
  XContRUC : TxContRuc
deriving DecidableEq

/-- TgResProc. -/
structure TgResProc where
  DCodRes : GoString
  DMsgRes : GoString
deriving DecidableEq

/-- TxProtDe; the processing date is an instant of the clock. -/
structure TxProtDe where
  Id : GoString
  DFecProc : Int
  DDigVal : GoString
  DEstRes : GoString
  DProtAut : GoString
  GResProc : List TgResProc
deriving DecidableEq

/-- RespuestaRecepcionDE. -/
structure RespuestaRecepcionDE extends BaseResponse where
  RProtDe : TxProtDe
deriving DecidableEq

/-- RespuestaRecepcionLoteDE. -/
structure RespuestaRecepcionLoteDE extends BaseResponse where
  DProtConsLot : GoString
  DTmpLot : Int
deriving DecidableEq

/-- RespuestaConsultaDE. -/
structure RespuestaConsultaDE extends BaseResponse where
  RProtDe : Option TxProtDe
  RDE : GoString
deriving DecidableEq

/-- TgResProcLote. -/
structure TgResProcLote where
  Id : GoString
  DEstRes : GoString
  DProtAut : GoString
  GResProc : List TgResProc
deriving DecidableEq

/-- RespuestaConsultaLoteDE. -/
structure RespuestaConsultaLoteDE extends BaseResponse where
  DEstLote : GoString
  DProtConsLot : GoString
  GResProcLote : List TgResProcLote
deriving DecidableEq

/-- TxProtEve. -/
structure TxProtEve where
  Id : GoString
  DFecProc : Int
  DCodRes : GoString
  DMsgRes : GoString
deriving DecidableEq

/-- RespuestaEvento. -/
structure RespuestaEvento extends BaseResponse where
  RProtEve : TxProtEve
deriving DecidableEq

/-- BodyRefResponse: the body of a reply, one optional field per reply shape. -/
structure BodyRefResponse where
  RResEnviConsRuc : Option RespuestaConsultaRUC
  RRetEnviDe : Option RespuestaRecepcionDE
  RRetEnviLoteDe : Option RespuestaRecepcionLoteDE
  RResEnviConsDe : Option RespuestaConsultaDE
  RResEnviConsLoteDe : Option RespuestaConsultaLoteDE
  RRetEnviEventoDe : Option RespuestaEvento
deriving DecidableEq

/-- TgTimb, reduced to the field the client reads. -/
structure TgTimb where
  ITiDE : Int
deriving DecidableEq

/-- DE, reduced to the fields the client reads. -/
structure DE where
  Id : GoString
  GTimb : TgTimb
deriving DecidableEq

/-- DocumentoElectronico, reduced to what the client reads (`DE.Id`, `DE.GTimb.ITiDE`);
`Contenido` stands for all the other fields, which only `xml.Marshal` reads. -/
structure DocumentoElectronico where
  DE : DE
  Contenido : GoString
deriving DecidableEq

/-! ## soap/client.go -/

/-- ClientConfig holds the necessary configuration for the SOAP client. -/
structure ClientConfig where
  TimeoutMs : Int
  UseClientCert : Bool
  ClientCertPath : GoString
  ClientCertPassword : GoString
  UserAgent : GoString

/-- An HTTP request as `Send` builds it. -/
structure HTTPRequest where
  Method : GoString
  URL : GoString
  Header : List (GoString × GoString)
  Body : GoString
deriving DecidableEq

/-- An HTTP response: the status code and what `ioutil.ReadAll(resp.Body)` returns. -/
structure HTTPResponse where
  StatusCode : Int
  Body : Except GoString GoString

/-- How writing the archive ends: an error of `Create`, of `Write` or of `Close`, or the
bytes of the archive. -/
inductive ZipOutcome where
  | createError (err : GoString)
  | writeError (err : GoString)
  | closeError (err : GoString)
  | ok (archive : GoString)

/-- What the client takes from outside the repository: the libraries of the signer,
`strings.ToLower`, `xml.Marshal` on a document, on a SOAP envelope with a given payload and
on a batch, `http.NewRequest` (only its error for a URL matters), the HTTP round trip,
`xml.Unmarshal` of a reply, and the ZIP writer (file name and content to archive).  Errors of libraries are
texts. -/
structure Runtime (K : Type) where
  lib : Library K
  ToLower : GoString → GoString
  MarshalDE : DocumentoElectronico → Except GoString GoString
  MarshalEnvelope : Payload → Except GoString GoString
  NewRequestError : GoString → Option GoString
  Do : HTTPRequest → Except GoString HTTPResponse
  Unmarshal : GoString → Except GoString BodyRefResponse
  MarshalLote : Int → List GoString → Except GoString GoString
  Zip : GoString → GoString → ZipOutcome

/-- The SOAP client: its configuration and the certificate loaded at construction. -/
structure SoapClient (K : Type) where
  config : ClientConfig
  cert : Certificate K

/-- GetCertificate. -/
def SoapClient.GetCertificate {K : Type} (c : SoapClient K) : Certificate K := c.cert

/-- Send: wraps the payload in a SOAP envelope, posts it and returns the body read and
the error. -/
def SoapClient.Send {K : Type} (rt : Runtime K) (c : SoapClient K) (url : GoString)
    (payload : Payload) : GoString × GoError :=
  match rt.MarshalEnvelope payload with
  | .error err => ([], .errorf (str "failed to marshal soap envelope: " ++ err))
  | .ok reqBody =>
    match rt.NewRequestError url with
    | some err => ([], .errorf (str "failed to create request: " ++ err))
    | none =>
      let userAgent := if c.config.UserAgent = [] then str "rshk-jsifenlib-go"
        else c.config.UserAgent
      let req : HTTPRequest :=
        { Method := str "POST"
          URL := url
          Header := [(str "Content-Type", str "application/xml; charset=utf-8"),
            (str "User-Agent", userAgent)]
          Body := reqBody }
      match rt.Do req with
      | .error err => ([], .errorf (str "request failed: " ++ err))
      | .ok resp =>
        match resp.Body with
        | .error err => ([], .errorf (str "failed to read response body: " ++ err))
        | .ok body =>
          if resp.StatusCode ≠ 200 then
            (body, .errorf (str "sifen returned status " ++ Itoa resp.StatusCode ++
              str ": " ++ body))
          else (body, .nil)

/-! ## cache.go: the caches of the client -/

/-- RUCCache especializado para consultas RUC. -/
structure RUCCache where
  cache : Cache RespuestaConsultaRUC
deriving DecidableEq

/-- DECache especializado para consultas DE. -/
structure DECache where
  cache : Cache RespuestaConsultaDE
deriving DecidableEq

/-- SifenCache combina todos los cachés específicos (the generic cache, which the client
never uses, holds byte strings here). -/
structure SifenCache where
  RUC : RUCCache
  DE : DECache
  Generic : Cache GoString
deriving DecidableEq

/-- NewSifenCacheWithConfig crea un caché unificado con configuración personalizada. -/
def NewSifenCacheWithConfig (config : CacheConfig) : SifenCache :=
  ⟨⟨NewCache config⟩, ⟨NewCache config⟩, NewCache config⟩

/-- GetRUC obtiene un RUC del caché. -/
def RUCCache.GetRUC (r : RUCCache) (ruc : GoString) (now : Int) :
    Option RespuestaConsultaRUC × RUCCache :=
  ((r.cache.Get (str "ruc:" ++ ruc) now).1, ⟨(r.cache.Get (str "ruc:" ++ ruc) now).2⟩)

/-- SetRUC almacena un RUC en el caché. -/
def RUCCache.SetRUC (r : RUCCache) (ruc : GoString) (resp : RespuestaConsultaRUC) (now : Int)
    (order : List (GoString × cacheEntry RespuestaConsultaRUC)) : RUCCache :=
  ⟨r.cache.Set (str "ruc:" ++ ruc) resp r.cache.config.RUCTTL now order⟩

/-- InvalidateRUC invalida una entrada RUC. -/
def RUCCache.InvalidateRUC (r : RUCCache) (ruc : GoString) : RUCCache :=
  ⟨r.cache.Delete (str "ruc:" ++ ruc)⟩

/-- GetDE obtiene un DE del caché por CDC. -/
def DECache.GetDE (d : DECache) (cdc : GoString) (now : Int) :
    Option RespuestaConsultaDE × DECache :=
  ((d.cache.Get (str "de:" ++ cdc) now).1, ⟨(d.cache.Get (str "de:" ++ cdc) now).2⟩)

/-- SetDE almacena un DE en el caché. -/
def DECache.SetDE (d : DECache) (cdc : GoString) (resp : RespuestaConsultaDE) (now : Int)
    (order : List (GoString × cacheEntry RespuestaConsultaDE)) : DECache :=
  ⟨d.cache.Set (str "de:" ++ cdc) resp d.cache.config.DETTL now order⟩

/-- InvalidateDE invalida una entrada DE. -/
def DECache.InvalidateDE (d : DECache) (cdc : GoString) : DECache :=
  ⟨d.cache.Delete (str "de:" ++ cdc)⟩

/-! ## config.go, client.go -/

/-- SifenConfig, with the fields the client reads. -/
structure SifenConfig where
  UrlBase : GoString
  UrlBaseLocal : GoString
  PathRecibe : GoString
  PathRecibeLote : GoString
  PathEvento : GoString
  PathConsultaLote : GoString
  PathConsultaRUC : GoString
  PathConsulta : GoString
  UsarCertificadoCliente : Bool
  IdCSC : GoString
  CSC : GoString
  UserAgent : GoString
  CacheConfig : CacheConfig

/-- SifenClient provides methods to interact with the SIFEN API. -/
structure SifenClient (K : Type) where
  config : SifenConfig
  soapClient : SoapClient K
  requestID : Int
  cache : SifenCache

/-- A call of `soapClient.Send`. -/
structure SendCall where
  url : GoString
  payload : Payload
deriving DecidableEq

/-- What a method of the client leaves behind: the response (`none` is the `nil`
pointer), the error, the client afterwards, and the calls of `soapClient.Send` it made. -/
structure Reply (K : Type) (α : Type) where
  resp : Option α
  err : GoError
  client : SifenClient K
  calls : List SendCall

/-- Wrap-around of a 64-bit signed integer. -/
def wrapInt64 (x : Int) : Int := (x + 2 ^ 63) % 2 ^ 64 - 2 ^ 63

/-- The helper `nextID`: increments the counter and returns it. -/
def SifenClient.nextID {K : Type} (c : SifenClient K) : Int × SifenClient K :=
  (wrapInt64 (c.requestID + 1), { c with requestID := wrapInt64 (c.requestID + 1) })

/-- The helper `getURL`. -/
def SifenClient.getURL {K : Type} (c : SifenClient K) (path : GoString) : GoString :=
  if c.config.UrlBase ≠ [] then c.config.UrlBase ++ path else c.config.UrlBaseLocal ++ path

/-- ConsultaRUC queries information about a RUC (tax ID); `tGet` and `tSet` are the clock
readings of the cache lookup and of the cache update. -/
def SifenClient.ConsultaRUC {K : Type} (rt : Runtime K) (c : SifenClient K) (ruc : GoString)
    (tGet tSet : Int) (order : List (GoString × cacheEntry RespuestaConsultaRUC)) :
    Reply K RespuestaConsultaRUC :=
  -- 1. Check Cache
  let got := c.cache.RUC.GetRUC ruc tGet
  let c := { c with cache := { c.cache with RUC := got.2 } }
  match got.1 with
  | some resp => ⟨some resp, .nil, c, []⟩
  | none =>
    let id := c.nextID
    let c := id.2
    let req := Payload.REnviConsRUC id.1 ruc
    let url := c.getURL c.config.PathConsultaRUC
    let sent := c.soapClient.Send rt url req
    match sent.2 with
    | .nil =>
      match rt.Unmarshal sent.1 with
      | .error err =>
        ⟨none, NewSifenResponseError (str "XML_ERROR")
          (str "failed to unmarshal response: " ++ err), c, [⟨url, req⟩]⟩
      | .ok env =>
        match env.RResEnviConsRuc with
        | none =>
          ⟨none, NewSifenResponseError (str "EMPTY_RESPONSE")
            (str "response body is empty or invalid type"), c, [⟨url, req⟩]⟩
        | some resp =>
          -- 2. Update Cache if successful
          if resp.DCodRes = str "0500" ∨ resp.DCodRes = str "0501" then
            ⟨some resp, .nil, c, [⟨url, req⟩]⟩
          else
            ⟨some resp, .nil,
              { c with cache := { c.cache with RUC := c.cache.RUC.SetRUC ruc resp tSet order } },
              [⟨url, req⟩]⟩
    | err => ⟨none, Wrap rt.ToLower err (str "ConsultaRUC failed"), c, [⟨url, req⟩]⟩

/-- ConsultaDE queries the status of a single electronic document by CDC; `tGet` and
`tSet` are the clock readings of the cache lookup and of the cache update. -/
def SifenClient.ConsultaDE {K : Type} (rt : Runtime K) (c : SifenClient K) (cdc : GoString)
    (tGet tSet : Int) (order : List (GoString × cacheEntry RespuestaConsultaDE)) :
    Reply K RespuestaConsultaDE :=
  if cdc.length ≠ 44 then ⟨none, ErrCDCInvalido, c, []⟩
  else
    -- 1. Check Cache
    let got := c.cache.DE.GetDE cdc tGet
    let c := { c with cache := { c.cache with DE := got.2 } }
    match got.1 with
    | some resp => ⟨some resp, .nil, c, []⟩
    | none =>
      let id := c.nextID
      let c := id.2
      let req := Payload.REnviConsDE id.1 cdc
      let url := c.getURL c.config.PathConsulta
      let sent := c.soapClient.Send rt url req
      match sent.2 with
      | .nil =>
        match rt.Unmarshal sent.1 with
        | .error err =>
          ⟨none, NewSifenResponseError (str "XML_ERROR")
            (str "failed to unmarshal response: " ++ err), c, [⟨url, req⟩]⟩
        | .ok env =>
          match env.RResEnviConsDe with
          | none =>
            ⟨none, NewSifenResponseError (str "EMPTY_RESPONSE")
              (str "response body is empty or invalid type"), c, [⟨url, req⟩]⟩
          | some resp =>
            -- 2. Cache if final state
            if resp.DCodRes = str "0260" ∨ resp.DCodRes = str "0530" then
              ⟨some resp, .nil,
                { c with cache := { c.cache with DE := c.cache.DE.SetDE cdc resp tSet order } },
                [⟨url, req⟩]⟩
            else ⟨some resp, .nil, c, [⟨url, req⟩]⟩
      | err => ⟨none, Wrap rt.ToLower err (str "ConsultaDE failed"), c, [⟨url, req⟩]⟩

/-- The block "sign if configured" that follows every `xml.Marshal` of a document: the
bytes are signed when the client uses a certificate whose private key is not `nil`. -/
def SifenClient.signIfConfigured {K : Type} (rt : Runtime K) (c : SifenClient K)
    (deBytes id : GoString) : Outcome GoString :=
  if c.config.UsarCertificadoCliente then
    match c.soapClient.GetCertificate.PrivateKey with
    | .nil => .ok deBytes
    | _ => (Signer.mk c.soapClient.GetCertificate).Sign rt.lib deBytes id
  else .ok deBytes

/-- How a loop over the documents of a batch ends: with the signed documents, with the
error it returns, or in a panic. -/
inductive LoopOutcome where
  | done (signed : List GoString)
  | failed (err : GoError)
  | panicked

/-- The loop of `RecepcionLoteDE` over the documents (values, never `nil` pointers). -/
def SifenClient.recepcionLoteLoop {K : Type} (rt : Runtime K) (c : SifenClient K) :
    List DocumentoElectronico → List GoString → LoopOutcome
  | [], xdeList => .done xdeList
  | de :: rest, xdeList =>
    match rt.MarshalDE de with
    | .error err =>
      .failed (Wrap rt.ToLower (.errorf err) (str "failed to marshal DE " ++ de.DE.Id))
    | .ok deBytes =>
      match c.signIfConfigured rt deBytes de.DE.Id with
      | .error err =>
        .failed (NewCryptoError (str "failed to sign DE " ++ de.DE.Id) (.errorf err.Error))
      | .panic => .panicked
      | .ok signedBytes => SifenClient.recepcionLoteLoop rt c rest (xdeList ++ [signedBytes])

/-- RecepcionLoteDE sends multiple electronic documents for batch processing; `none` is
a panic. -/
def SifenClient.RecepcionLoteDE {K : Type} (rt : Runtime K) (c : SifenClient K)
    (docs : List DocumentoElectronico) : Option (Reply K RespuestaRecepcionLoteDE) :=
  if docs.length = 0 then some ⟨none, ErrLoteVacio, c, []⟩
  else if docs.length > 50 then some ⟨none, ErrLoteExcedeMaximo, c, []⟩
  else
    match c.recepcionLoteLoop rt docs [] with
    | .panicked => none
    | .failed err => some ⟨none, err, c, []⟩
    | .done xdeList =>
      let id := c.nextID
      let c := id.2
      let req := Payload.REnviLoteDe id.1 xdeList
      let url := c.getURL c.config.PathRecibeLote
      let sent := c.soapClient.Send rt url req
      match sent.2 with
      | .nil =>
        match rt.Unmarshal sent.1 with
        | .error err =>
          some ⟨none, NewSifenResponseError (str "XML_ERROR")
            (str "failed to unmarshal response: " ++ err), c, [⟨url, req⟩]⟩
        | .ok env =>
          match env.RRetEnviLoteDe with
          | none =>
            some ⟨none, NewSifenResponseError (str "EMPTY_RESPONSE")
              (str "response body is empty or invalid type"), c, [⟨url, req⟩]⟩
          | some resp => some ⟨some resp, .nil, c, [⟨url, req⟩]⟩
      | err => some ⟨none, Wrap rt.ToLower err (str "RecepcionLoteDE failed"), c, [⟨url, req⟩]⟩

/-- What a call of `nextID` is used for: the identifier goes to an event builder, or it
becomes the `dId` of a request that is sent. -/
inductive IDUse where
  | builder
  | request
deriving DecidableEq

/-- The `dId` of the requests sent, in order, when the client calls `nextID` once for
each of the given uses. -/
def sentIDs {K : Type} (c : SifenClient K) : List IDUse → List Int
  | [] => []
  | .builder :: rest => sentIDs c.nextID.2 rest
  | .request :: rest => c.nextID.1 :: sentIDs c.nextID.2 rest

/-! ## A client and a runtime for closed examples -/

/-- A reply body without any reply shape. -/
def emptyBody : BodyRefResponse := ⟨none, none, none, none, none, none⟩

/-- Stand-ins for the outside of the repository: every library call succeeds, the server
answers with status 200, and every reply is decoded as `reply`. -/
def sampleRuntime (reply : BodyRefResponse) : Runtime Unit where
  lib := sampleLibrary
  ToLower := fun s => s
  MarshalDE := fun de => .ok de.Contenido
  MarshalEnvelope := fun p => .ok (Itoa p.DId)
  NewRequestError := fun _ => none
  Do := fun _ => .ok ⟨200, .ok []⟩
  Unmarshal := fun _ => .ok reply
  MarshalLote := fun _ docs => .ok docs.flatten
  Zip := fun _ content => .ok content

/-- A configuration without client certificate. -/
def sampleConfig : SifenConfig where
  UrlBase := []
  UrlBaseLocal := str "https://sifen-test.set.gov.py"
  PathRecibe := str "/de/ws/sync/recibe.wsdl"
  PathRecibeLote := str "/de/ws/async/recibe-lote.wsdl"
  PathEvento := str "/de/ws/eventos/evento.wsdl"
  PathConsultaLote := str "/de/ws/consultas/consulta-lote.wsdl"
  PathConsultaRUC := str "/de/ws/consultas/consulta-ruc.wsdl"
  PathConsulta := str "/de/ws/consultas/consulta.wsdl"
  UsarCertificadoCliente := false
  IdCSC := str "0002"
  CSC := str "EFGH0000000000000000000000000000"
  UserAgent := str "rshk-jsifenlib/0.2.4 (GoPort)"
  CacheConfig := DefaultCacheConfig

/-- A client as `NewSifenClient` returns it for `sampleConfig`. -/
def sampleClient : SifenClient Unit where
  config := sampleConfig
  soapClient := ⟨⟨15000, false, [], [], str "rshk-jsifenlib/0.2.4 (GoPort)"⟩, ⟨[], .nil⟩⟩
  requestID := 1
  cache := NewSifenCacheWithConfig sampleConfig.CacheConfig

/-- The CDC of `TestGenerateQRURL`, 44 characters long. -/
def sampleCDC : GoString := str "01800695631001001000000612021112917595714694"

/-- A document query reply with the given response code. -/
def consultaDEReply (code : String) : RespuestaConsultaDE :=
  { DCodRes := str code, DMsgRes := [], RProtDe := none, RDE := [] }

/-- A RUC query reply with the given response code. -/
def consultaRUCReply (code : String) : RespuestaConsultaRUC :=
  { DCodRes := str code, DMsgRes := [], XContRUC := ⟨[], [], [], [], []⟩ }

/-- A document with the given identifier and document type. -/
def sampleDE (id : String) (tipo : Int) : DocumentoElectronico :=
  { DE := { Id := str id, GTimb := { ITiDE := tipo } }, Contenido := str id }

/-- A batch reception reply. -/
def loteReply : RespuestaRecepcionLoteDE :=
  { DCodRes := str "0300", DMsgRes := [], DProtConsLot := str "12345", DTmpLot := 5 }

/-- A batch of 51 copies of one document. -/
def batch51 : List DocumentoElectronico := List.replicate 51 (sampleDE "A" 1)

/-! ## lote.go -/

/-- Constantes de lotes. -/
def MaxDocumentosLote : Int := 50

/-- Tamaño máximo, en KB, para envío de lote. -/
def MaxSizeLoteKB : Int := 10000

/-- Tamaño máximo, en KB, para consulta de resultado. -/
def MaxSizeConsultaLoteKB : Int := 1000

/-- LoteParams contiene los parámetros para crear un lote. -/
structure LoteParams where
  Documentos : List DocumentoElectronico
  TipoDocumento : Int

/-- The loop that checks that all documents have the type of the parameters: the index
and the first document whose type differs, if any. -/
def firstOtherType (tipo : Int) : List DocumentoElectronico → Nat →
    Option (Nat × DocumentoElectronico)
  | [], _ => none
  | doc :: rest, i =>
    if doc.DE.GTimb.ITiDE ≠ tipo then some (i, doc) else firstOtherType tipo rest (i + 1)

/-- The loop of `CrearLoteDE` that serializes and signs every document. -/
def SifenClient.crearLoteLoop {K : Type} (rt : Runtime K) (c : SifenClient K) :
    List DocumentoElectronico → List GoString → LoopOutcome
  | [], rdeList => .done rdeList
  | de :: rest, rdeList =>
    match rt.MarshalDE de with
    | .error err =>
      .failed (.errorf (str "error al serializar DE " ++ de.DE.Id ++ str ": " ++ err))
    | .ok deBytes =>
      match c.signIfConfigured rt deBytes de.DE.Id with
      | .error err =>
        .failed (.errorf (str "error al firmar DE " ++ de.DE.Id ++ str ": " ++ err.Error))
      | .panic => .panicked
      | .ok signedBytes => SifenClient.crearLoteLoop rt c rest (rdeList ++ [signedBytes])

/-- The XML declaration put in front of the batch. -/
def xmlDeclaration : GoString :=
  str "<?xml version=" ++ [34] ++ str "1.0" ++ [34] ++ str " encoding=" ++ [34] ++
    str "UTF-8" ++ [34] ++ str "?>"

/-- CrearLoteDE construye, comprime y codifica un lote de documentos; retorna el
contenido listo para enviar (Base64 del .zip).  `none` is a panic. -/
def SifenClient.CrearLoteDE {K : Type} (rt : Runtime K) (c : SifenClient K)
    (params : LoteParams) : Option (GoString × GoError) :=
  -- 1. Validaciones
  if params.Documentos.length = 0 then
    some ([], .errorf (str "se requiere al menos un documento"))
  else if (params.Documentos.length : Int) > MaxDocumentosLote then
    some ([], .errorf (str "máximo " ++ Itoa MaxDocumentosLote ++
      str " documentos por lote, recibidos: " ++ Itoa params.Documentos.length))
  else
    match firstOtherType params.TipoDocumento params.Documentos 0 with
    | some (i, doc) =>
      some ([], .errorf (str "documento " ++ Itoa i ++ str " tiene tipo " ++
        Itoa doc.DE.GTimb.ITiDE ++ str ", esperado " ++ Itoa params.TipoDocumento ++
        str " (todos deben ser del mismo tipo)"))
    | none =>
      -- 2. Firmar cada documento individualmente
      match c.crearLoteLoop rt params.Documentos [] with
      | .panicked => none
      | .failed err => some ([], err)
      | .done rdeList =>
        -- 3. Construir estructura del lote
        match rt.MarshalLote 150 rdeList with
        | .error err => some ([], .errorf (str "error al serializar lote: " ++ err))
        | .ok loteXML =>
          let loteXMLFull := xmlDeclaration ++ loteXML
          -- 4. Comprimir en formato .zip
          match rt.Zip (str "lote.xml") loteXMLFull with
          | .createError err =>
            some ([], .errorf (str "error al crear archivo en zip: " ++ err))
          | .writeError err => some ([], .errorf (str "error al escribir en zip: " ++ err))
          | .closeError err => some ([], .errorf (str "error al cerrar zip: " ++ err))
          | .ok zipBuffer =>
            -- Validar tamaño
            let sizeKB := (zipBuffer.length : Int) / 1024
            if sizeKB > MaxSizeLoteKB then
              some ([], .errorf (str "tamaño del lote " ++ Itoa sizeKB ++
                str " KB excede máximo permitido " ++ Itoa MaxSizeLoteKB ++ str " KB"))
            else
              -- 5. Codificar en Base64
              some (rt.lib.EncodeToString zipBuffer, .nil)

/-! ## Base64 (standard alphabet, with padding) -/

/-- The character of the standard Base64 alphabet for a value below 64. -/
def base64Char (n : Nat) : UInt8 :=
  if n < 26 then UInt8.ofNat (65 + n)
  else if n < 52 then UInt8.ofNat (97 + (n - 26))
  else if n < 62 then UInt8.ofNat (48 + (n - 52))
  else if n = 62 then 43
  else 47

/-- Go `base64.StdEncoding.EncodeToString`. -/
def base64Encode : GoString → GoString
  | a :: b :: c :: rest =>
    base64Char (a.toNat / 4) :: base64Char (a.toNat % 4 * 16 + b.toNat / 16) ::
      base64Char (b.toNat % 16 * 4 + c.toNat / 64) :: base64Char (c.toNat % 64) ::
      base64Encode rest
  | [a, b] =>
    [base64Char (a.toNat / 4), base64Char (a.toNat % 4 * 16 + b.toNat / 16),
      base64Char (b.toNat % 16 * 4), 61]
  | [a] => [base64Char (a.toNat / 4), base64Char (a.toNat % 4 * 16), 61, 61]
  | [] => []

/-- The stand-in runtime with the real Base64 encoder and a ZIP writer that returns the
given archive. -/
def archiveRuntime (archive : GoString) : Runtime Unit :=
  { sampleRuntime emptyBody with
    lib := { sampleLibrary with EncodeToString := base64Encode }
    Zip := fun _ _ => .ok archive }

/-- An archive of 7,680,001 bytes (7,500 KB and one byte). -/
def bigArchive : GoString := List.replicate 7680001 0

/-- A batch of one invoice. -/
def oneInvoice : LoteParams := ⟨[sampleDE "A" 1], 1⟩

/-! ## errors.go: the other predefined errors and the helper functions -/

/-- ErrRUCInvalido indica formato RUC inválido. -/
def ErrRUCInvalido : GoError :=
  NewValidationError (str "VAL_002") (str "Formato de RUC inválido")

/-- ErrRUCDigitoVerificador indica dígito verificador incorrecto. -/
def ErrRUCDigitoVerificador : GoError :=
  NewValidationError (str "VAL_003") (str "Dígito verificador de RUC incorrecto")

/-- ErrFechaInvalida indica fecha fuera de rango. -/
def ErrFechaInvalida : GoError :=
  NewValidationError (str "VAL_004") (str "Fecha inválida o fuera de rango")

/-- ErrMontoInvalido indica monto negativo o inválido. -/
def ErrMontoInvalido : GoError := NewValidationError (str "VAL_005") (str "Monto inválido")

/-- ErrDocumentoVacio indica documento sin items. -/
def ErrDocumentoVacio : GoError :=
  NewValidationError (str "VAL_006") (str "Documento sin items")

/-- ErrEstablecimientoInvalido indica establecimiento con formato incorrecto. -/
def ErrEstablecimientoInvalido : GoError :=
  NewValidationError (str "VAL_007") (str "Establecimiento debe tener 3 dígitos")

/-- ErrPuntoExpedicionInvalido indica punto de expedición con formato incorrecto. -/
def ErrPuntoExpedicionInvalido : GoError :=
  NewValidationError (str "VAL_008") (str "Punto de expedición debe tener 3 dígitos")

/-- ErrTimbradoInvalido indica número de timbrado inválido. -/
def ErrTimbradoInvalido : GoError :=
  NewValidationError (str "VAL_009") (str "Número de timbrado inválido")

/-- ErrMotivoCancelacionRequerido indica que falta el motivo de cancelación. -/
def ErrMotivoCancelacionRequerido : GoError :=
  NewValidationError (str "VAL_010") (str "Motivo de cancelación es requerido")

/-- ErrCertificadoNoEncontrado indica que no se encontró el certificado. -/
def ErrCertificadoNoEncontrado : GoError :=
  .sifen .CRYPTOGRAPHY (str "CRYPTO_001") (str "Certificado no encontrado") .nil false

/-- ErrCertificadoExpirado indica certificado vencido. -/
def ErrCertificadoExpirado : GoError :=
  .sifen .CRYPTOGRAPHY (str "CRYPTO_002") (str "Certificado expirado") .nil false

/-- ErrContrasenaCertificado indica contraseña incorrecta. -/
def ErrContrasenaCertificado : GoError :=
  .sifen .CRYPTOGRAPHY (str "CRYPTO_003") (str "Contraseña del certificado incorrecta") .nil
    false

/-- ErrFirmaInvalida indica error al firmar. -/
def ErrFirmaInvalida : GoError :=
  .sifen .CRYPTOGRAPHY (str "CRYPTO_004") (str "Error al generar firma digital") .nil false

/-- ErrClavePrivadaNoRSA indica que la clave no es RSA. -/
def ErrClavePrivadaNoRSA : GoError :=
  .sifen .CRYPTOGRAPHY (str "CRYPTO_005") (str "Clave privada no es RSA") .nil false

/-- ErrTimeoutConexion indica timeout de conexión. -/
def ErrTimeoutConexion : GoError :=
  .sifen .NETWORK (str "NET_001") (str "Timeout de conexión con SIFEN") .nil true

/-- ErrTimeoutLectura indica timeout de lectura. -/
def ErrTimeoutLectura : GoError :=
  .sifen .NETWORK (str "NET_002") (str "Timeout de lectura de respuesta SIFEN") .nil true

/-- ErrConexionRechazada indica conexión rechazada. -/
def ErrConexionRechazada : GoError :=
  .sifen .NETWORK (str "NET_003") (str "Conexión rechazada por servidor SIFEN") .nil true

/-- ErrTLSHandshake indica error en handshake TLS. -/
def ErrTLSHandshake : GoError :=
  .sifen .NETWORK (str "NET_004") (str "Error en handshake TLS con SIFEN") .nil false

/-- ErrSifenCDCDuplicado indica CDC ya existe. -/
def ErrSifenCDCDuplicado : GoError :=
  NewSifenResponseError (str "0160") (str "CDC duplicado - documento ya existe")

/-- ErrSifenEmisorNoAutorizado indica emisor no autorizado. -/
def ErrSifenEmisorNoAutorizado : GoError :=
  NewSifenResponseError (str "0161") (str "Emisor no autorizado para facturación electrónica")

/-- ErrSifenFirmaInvalida indica firma digital inválida. -/
def ErrSifenFirmaInvalida : GoError :=
  NewSifenResponseError (str "0102") (str "Firma digital inválida")

/-- ErrSifenXMLInvalido indica estructura XML inválida. -/
def ErrSifenXMLInvalido : GoError :=
  NewSifenResponseError (str "0101") (str "Estructura XML inválida")

/-- ErrSifenServicioNoDisponible indica servicio no disponible. -/
def ErrSifenServicioNoDisponible : GoError :=
  NewSifenResponseError (str "0500") (str "Servicio SIFEN no disponible")

/-- ErrEventoCDCRequerido indica que falta CDC para evento. -/
def ErrEventoCDCRequerido : GoError :=
  NewBusinessError (str "BUS_004") (str "CDC es requerido para registrar evento")

/-- ErrCancelacionFueraPlazo indica cancelación fuera del plazo permitido. -/
def ErrCancelacionFueraPlazo : GoError :=
  NewBusinessError (str "BUS_005") (str "Cancelación fuera del plazo permitido")

/-- IsSifenError verifica si un error es de tipo SifenError. -/
def IsSifenError : GoError → Bool
  | .sifen _ _ _ _ _ => true
  | _ => false

/-- IsRecoverable verifica si un error es recuperable. -/
def IsRecoverable : GoError → Bool
  | .sifen _ _ _ _ r => r
  | _ => false

/-- IsValidationError verifica si es error de validación. -/
def IsValidationError : GoError → Bool
  | .sifen t _ _ _ _ => t = .VALIDATION
  | _ => false

/-- IsNetworkError verifica si es error de red. -/
def IsNetworkError : GoError → Bool
  | .sifen t _ _ _ _ => t = .NETWORK
  | _ => false

/-- IsCryptoError verifica si es error de criptografía. -/
def IsCryptoError : GoError → Bool
  | .sifen t _ _ _ _ => t = .CRYPTOGRAPHY
  | _ => false

/-- The field `Type` of an error that is a `*SifenError`. -/
def GoError.Type : GoError → Option ErrorType
  | .sifen t _ _ _ _ => some t
  | _ => none

/-- The field `Code` of an error that is a `*SifenError`. -/
def GoError.Code : GoError → Option GoString
  | .sifen _ code _ _ _ => some code
  | _ => none

/-- The field `Cause` of an error that is a `*SifenError` (`Unwrap`). -/
def GoError.Cause : GoError → GoError
  | .sifen _ _ _ cause _ => cause
  | _ => .nil

/-- The errors predefined in the package, in the order of the source. -/
def predefinedErrors : List GoError :=
  [ErrCDCInvalido, ErrRUCInvalido, ErrRUCDigitoVerificador, ErrFechaInvalida,
    ErrMontoInvalido, ErrDocumentoVacio, ErrEstablecimientoInvalido,
    ErrPuntoExpedicionInvalido, ErrTimbradoInvalido, ErrMotivoCancelacionRequerido,
    ErrCertificadoNoEncontrado, ErrCertificadoExpirado, ErrContrasenaCertificado,
    ErrFirmaInvalida, ErrClavePrivadaNoRSA,
    ErrTimeoutConexion, ErrTimeoutLectura, ErrConexionRechazada, ErrTLSHandshake,
    ErrSifenCDCDuplicado, ErrSifenEmisorNoAutorizado, ErrSifenFirmaInvalida,
    ErrSifenXMLInvalido, ErrSifenServicioNoDisponible,
    ErrLoteVacio, ErrLoteExcedeMaximo, ErrLoteTipoMixto, ErrEventoCDCRequerido,
    ErrCancelacionFueraPlazo]

/-- An error value of the package: a result of one of its six constructors, or one of
its predefined errors. -/
def builtByPackage (e : GoError) : Prop :=
  (∃ code message, e = NewValidationError code message) ∨
    (∃ message cause, e = NewCryptoError message cause) ∨
    (∃ message cause, e = NewNetworkError message cause) ∨
    (∃ code message, e = NewSifenResponseError code message) ∨
    (∃ code message, e = NewBusinessError code message) ∨
    (∃ message cause, e = NewInternalError message cause) ∨
    e ∈ predefinedErrors

/-- The category `Wrap` gives to an error that is not a `SifenError`, from its lower-cased
text: NETWORK if it contains "timeout" or "connection refused", otherwise CRYPTOGRAPHY if
it contains "certificate" or "tls", otherwise INTERNAL. -/
def wrapCategory (lowered : GoString) : ErrorType :=
  if stringsContains lowered (str "timeout") ∨
      stringsContains lowered (str "connection refused") then .NETWORK
  else if stringsContains lowered (str "certificate") ∨ stringsContains lowered (str "tls")
  then .CRYPTOGRAPHY
  else .INTERNAL

/-! ## types/enums.go: the enumerations the event builders read

The enumerations are `int16` in the source; their values are integers here. -/

/-- TTiDE: Tipo de Documento Electronico. -/
def TTiDE_FacturaElectronica : Int := 1

/-- TTiDE: factura electrónica de exportación. -/
def TTiDE_FacturaElectronicaExportacion : Int := 2

/-- TTiDE: factura electrónica de importación. -/
def TTiDE_FacturaElectronicaImportacion : Int := 3

/-- TTiDE: autofactura electrónica. -/
def TTiDE_AutofacturaElectronica : Int := 4

/-- TTiDE: nota de crédito electrónica. -/
def TTiDE_NotaCreditoElectronica : Int := 5

/-- TTiDE: nota de débito electrónica. -/
def TTiDE_NotaDebitoElectronica : Int := 6

/-- TTiDE: nota de remisión electrónica. -/
def TTiDE_NotaRemisionElectronica : Int := 7

/-- TTiDE: comprobante de retención electrónico. -/
def TTiDE_ComprobanteRetencionElectronico : Int := 8

/-- The method `String` of `TTiDE`. -/
def TTiDE_String (t : Int) : GoString :=
  if t = TTiDE_FacturaElectronica then str "Factura electrónica"
  else if t = TTiDE_FacturaElectronicaExportacion then
    str "Factura electrónica de exportación"
  else if t = TTiDE_FacturaElectronicaImportacion then
    str "Factura electrónica de importación"
  else if t = TTiDE_AutofacturaElectronica then str "Autofactura electrónica"
  else if t = TTiDE_NotaCreditoElectronica then str "Nota de crédito electrónica"
  else if t = TTiDE_NotaDebitoElectronica then str "Nota de débito electrónica"
  else if t = TTiDE_NotaRemisionElectronica then str "Nota de remisión electrónica"
  else if t = TTiDE_ComprobanteRetencionElectronico then
    str "Comprobante de retención electrónico"
  else str "Tipo desconocido: " ++ Itoa t

/-- TiNatRec: Naturaleza del Receptor, contribuyente. -/
def TiNatRec_Contribuyente : Int := 1

/-- TiNatRec: no contribuyente. -/
def TiNatRec_NoContribuyente : Int := 2

/-- TTipDocRec: Tipo de Documento del Receptor. -/
def TTipDocRec_CedulaParaguaya : Int := 1

/-- TTipDocRec: pasaporte. -/
def TTipDocRec_Pasaporte : Int := 2

/-- TTipDocRec: cédula extranjera. -/
def TTipDocRec_CedulaExtranjera : Int := 3

/-- TTipDocRec: carnet de residencia. -/
def TTipDocRec_CarnetResidencia : Int := 4

/-- TTipDocRec: innominado. -/
def TTipDocRec_Innominado : Int := 5

/-- TTipDocRec: tarjeta diplomática. -/
def TTipDocRec_TarjetaDiplomatica : Int := 6

/-- TTipDocRec: otro. -/
def TTipDocRec_Otro : Int := 9

/-- The method `String` of `TTipDocRec`. -/
def TTipDocRec_String (t : Int) : GoString :=
  if t = TTipDocRec_CedulaParaguaya then str "Cédula paraguaya"
  else if t = TTipDocRec_Pasaporte then str "Pasaporte"
  else if t = TTipDocRec_CedulaExtranjera then str "Cédula extranjera"
  else if t = TTipDocRec_CarnetResidencia then str "Carnet de residencia"
  else if t = TTipDocRec_Innominado then str "Innominado"
  else if t = TTipDocRec_TarjetaDiplomatica then
    str "Tarjeta Diplomática de exoneración fiscal"
  else if t = TTipDocRec_Otro then str "Otro"
  else Itoa t

/-- TTiEvento: Tipo de Evento, cancelación. -/
def TTiEvento_Cancelacion : Int := 1

/-- TTiEvento: inutilización. -/
def TTiEvento_Inutilizacion : Int := 2

/-- TTiEvento: endoso. -/
def TTiEvento_Endoso : Int := 3

/-- TTiEvento: acuse del DE. -/
def TTiEvento_AcuseDE : Int := 10

/-- TTiEvento: conformidad del DE. -/
def TTiEvento_ConformidadDE : Int := 11

/-- TTiEvento: disconformidad del DE. -/
def TTiEvento_DisconformidadDE : Int := 12

/-- TTiEvento: desconocimiento del DE. -/
def TTiEvento_DesconocimientoDE : Int := 13

/-- TTiEvento: notificación de recepción. -/
def TTiEvento_NotificacionRecepcion : Int := 14

/-- TTiEvento: nominación. -/
def TTiEvento_Nominacion : Int := 20

/-- TTiEvento: actualización de datos del transporte. -/
def TTiEvento_ActualizacionTransporte : Int := 21

/-- TiTipoConformidad: conformidad total. -/
def TiTipoConformidad_Total : Int := 1

/-- TiTipoConformidad: conformidad parcial. -/
def TiTipoConformidad_Parcial : Int := 2

/-- The method `String` of `TiTipoConformidad`. -/
def TiTipoConformidad_String (t : Int) : GoString :=
  if t = TiTipoConformidad_Total then str "Conformidad total"
  else if t = TiTipoConformidad_Parcial then str "Conformidad parcial"
  else Itoa t

/-! ## events.go

Pointer fields are `Option`s.  A `time.Time` is an instant in nanoseconds since the Unix
epoch; a `float64` is carried as its bit pattern, the builders only copy it. -/

/-- GCamEveCan: the CDC to cancel. -/
structure GCamEveCan where
  DCDC : GoString
deriving DecidableEq

/-- GEvEmiDE: Grupo evento emisor - Cancelación. -/
structure GEvEmiDE where
  DRucEmi : GoString
  DDVEmi : GoString
  ITipEvt : Int
  MEvento : GoString
  GCamEve : GCamEveCan
deriving DecidableEq

/-- RGesEveDE: Estructura de cancelación de DE. -/
structure RGesEveDE where
  DId : Int
  MEvento : GoString
  GEvEmiDE : GEvEmiDE
deriving DecidableEq

/-- GEvInu. -/
structure GEvInu where
  ITiDE : Int
  DDesTiDE : GoString
  DEst : GoString
  DPunExp : GoString
  DNumDocI : Int
  DNumDocF : Int
deriving DecidableEq

/-- EventoInutilizacion: Estructura de inutilización. -/
structure EventoInutilizacion where
  DRucEmi : GoString
  DDVEmi : GoString
  ITipEvt : Int
  MEventoInu : GoString
  DCoEvInu : GEvInu
deriving DecidableEq

/-- EventoConformidad: Estructura de conformidad del receptor. -/
structure EventoConformidad where
  DRucRec : GoString
  DDVRec : GoString
  ITipEvt : Int
  DCDC : GoString
  ITiConf : Int
  DDesTiConf : GoString
  DFecRecep : GoString
  DFecEmiConf : GoString
deriving DecidableEq

/-- EventoDisconformidad: Estructura de disconformidad del receptor. -/
structure EventoDisconformidad where
  DRucRec : GoString
  DDVRec : GoString
  ITipEvt : Int
  DCDC : GoString
  MMotDisc : GoString
  DFecEmiDisc : GoString
deriving DecidableEq

/-- EventoDesconocimiento: Estructura de desconocimiento del DE. -/
structure EventoDesconocimiento where
  DRucRec : GoString
  DDVRec : GoString
  ITipEvt : Int
  DCDC : GoString
  DFecEmi : GoString
  DFecRecep : GoString
  ITiRec : Int
  DNomRec : GoString
  DRucRecDes : GoString
  ITipDocRec : Int
  DNumDocRec : GoString
  MMotDesc : GoString
  DFecEmiDesc : GoString
deriving DecidableEq

/-- EventoNotificacion: Estructura de notificación de recepción. -/
structure EventoNotificacion where
  DRucRec : GoString
  DDVRec : GoString
  ITipEvt : Int
  DCDC : GoString
  DFecEmi : GoString
  DFecRecep : GoString
  ITiRec : Int
  DNomRec : GoString
  DRucRecNot : GoString
  ITipDocRec : Int
  DNumDocRec : GoString
  DTotPyg : Nat
  DFecEmiNot : GoString
deriving DecidableEq

/-- EventoNominacion. -/
structure EventoNominacion where
  DRucEmi : GoString
  DDVEmi : GoString
  ITipEvt : Int
  DCDC : GoString
  DRucNom : GoString
  DDVNom : GoString
  DNomNom : GoString
  DFecEmiNom : GoString
deriving DecidableEq

/-- GCamLocEntrega: Grupo para cambio de local de entrega. -/
structure GCamLocEntrega where
  DDirLocEnt : GoString
  CDepEnt : Int
  DDesDepEnt : GoString
  CDisEnt : Int
  DDesDisEnt : GoString
  CCiuEnt : Int
  DDesCiuEnt : GoString
deriving DecidableEq

/-- GCamChofer: Grupo para cambio de chofer. -/
structure GCamChofer where
  DNomChof : GoString
  DNumIDChof : GoString
deriving DecidableEq

/-- GCamTransportista: Grupo para cambio de transportista. -/
structure GCamTransportista where
  INatTrans : Int
  DNomTrans : GoString
  DRucTrans : GoString
  DDVTrans : GoString
  ITipIDTrans : Int
  DDTipIDTrans : GoString
  DNumIDTrans : GoString
deriving DecidableEq

/-- GCamVehiculo: Grupo para cambio de vehículo. -/
structure GCamVehiculo where
  DTipVeh : GoString
  DMarVeh : GoString
  DNumPlaca : GoString
deriving DecidableEq

/-- EventoActTransporte: Estructura de actualización de datos del transporte. -/
structure EventoActTransporte where
  DRucEmi : GoString
  DDVEmi : GoString
  ITipEvt : Int
  DCDC : GoString
  DMotEv : Int
  DDesMotEv : GoString
  DFecEmiEvt : GoString
  GCamLocEnt : Option GCamLocEntrega
  GCamChof : Option GCamChofer
  GCamTrans : Option GCamTransportista
  GCamVeh : Option GCamVehiculo
deriving DecidableEq

/-- GGroupGesEve: Grupo para eventos del emisor (Cancelación, Inutilización, Nominación,
etc.). -/
structure GGroupGesEve where
  RGesEveDE : Option RGesEveDE
  RGesEveInu : Option EventoInutilizacion
  RGesEveNom : Option EventoNominacion
  RGesEveTra : Option EventoActTransporte
deriving DecidableEq

/-- GGroupTiEvt: Grupo para eventos del receptor. -/
structure GGroupTiEvt where
  RGeTrReceptorConf : Option EventoConformidad
  RGeTrReceptorDisc : Option EventoDisconformidad
  RGeTrReceptorDesc : Option EventoDesconocimiento
  RGeTrReceptorNot : Option EventoNotificacion
deriving DecidableEq

/-- GEvento: Grupo principal del evento. -/
structure GEvento where
  Id : GoString
  DFecFirma : GoString
  DVerFor : Int
  GGroupGesEvc : Option GGroupGesEve
  GGroupTiEvt : Option GGroupTiEvt
deriving DecidableEq

/-- REvento: Envelope para eventos SIFEN. -/
structure REvento where
  XmlnsXsi : GoString
  DId : Int
  DDTE : GoString
  GEvento : GEvento
deriving DecidableEq

/-- The element names `xml.Marshal` writes for the records of a `GGroupGesEve`, in the
order of the fields: the name is the one of the struct tag, and with `omitempty` a nil
pointer is left out. -/
def GGroupGesEve.xmlNames (g : GGroupGesEve) : List GoString :=
  (if g.RGesEveDE.isSome then [str "rGeVeCanworking"] else []) ++
    (if g.RGesEveInu.isSome then [str "rGeVeInu"] else []) ++
    (if g.RGesEveNom.isSome then [str "rGeVeNom"] else []) ++
    (if g.RGesEveTra.isSome then [str "rGeVeTra"] else [])

/-- The element names `xml.Marshal` writes for the records of a `GGroupTiEvt`, from the
struct tags. -/
def GGroupTiEvt.xmlNames (g : GGroupTiEvt) : List GoString :=
  (if g.RGeTrReceptorConf.isSome then [str "rGeTrReConf"] else []) ++
    (if g.RGeTrReceptorDisc.isSome then [str "rGeTrReDisc"] else []) ++
    (if g.RGeTrReceptorDesc.isSome then [str "rGeTrReDesc"] else []) ++
    (if g.RGeTrReceptorNot.isSome then [str "rGeTrReNot"] else [])

/-- The element paths, below `gEvento`, under which `xml.Marshal` writes the event records
of a `GEvento`: the name of the group (struct tags of `GEvento`), then the name of the
record. -/
def GEvento.xmlPaths (g : GEvento) : List (List GoString) :=
  (match g.GGroupGesEvc with
    | none => []
    | some x => x.xmlNames.map (fun n => [str "gGroupGesEve", n])) ++
    (match g.GGroupTiEvt with
    | none => []
    | some x => x.xmlNames.map (fun n => [str "gGroupTiEvt", n]))

/-- The clock of one call of a builder: `Now k` is what the call number `k` of
`time.Now()` returns, and `Format` is `time.Time.Format` with the layout
`2006-01-02T15:04:05`. -/
structure Clock where
  Now : Nat → Int
  Format : Int → GoString

/-- The zero `time.Time`: January 1, year 1, 00:00:00 UTC. -/
def zeroTime : Int := -62135596800 * 1000000000

/-- The method `IsZero` of `time.Time`. -/
def IsZero (t : Int) : Bool := t = zeroTime

/-- EventBuilder: Constructor de eventos base. -/
structure EventBuilder where
  dId : Int
  version : Int
  rucEmisor : GoString
  dvEmisor : GoString
deriving DecidableEq

/-- NewEventBuilder. -/
def NewEventBuilder (requestId : Int) (ruc dv : GoString) : EventBuilder :=
  { dId := requestId, version := 150, rucEmisor := ruc, dvEmisor := dv }

/-- The helper `generateEventId`; `now` is its reading of the clock (`UnixNano` of an
instant is the instant). -/
def EventBuilder.generateEventId (b : EventBuilder) (now : Int) : GoString :=
  b.rucEmisor ++ b.dvEmisor ++ Itoa now

/-- The namespace every builder puts into `XmlnsXsi`. -/
def xmlnsXsi : GoString := str "http://www.w3.org/2001/XMLSchema-instance"

/-- EventoCancelacion: Datos de evento de cancelación. -/
structure EventoCancelacion where
  CDC : GoString
  Motivo : GoString
deriving DecidableEq

/-- BuildCancelacion. -/
def EventBuilder.BuildCancelacion (b : EventBuilder) (clock : Clock)
    (data : EventoCancelacion) : Option REvento × GoError :=
  if data.CDC.length ≠ 44 then (none, .errorf (str "CDC debe tener 44 caracteres"))
  else if data.Motivo = [] then (none, .errorf (str "motivo es requerido"))
  else
    (some
      { XmlnsXsi := xmlnsXsi
        DId := b.dId
        DDTE := clock.Format (clock.Now 0)
        GEvento :=
          { Id := b.generateEventId (clock.Now 1)
            DFecFirma := clock.Format (clock.Now 2)
            DVerFor := b.version
            GGroupGesEvc := some
              { RGesEveDE := some
                  { DId := b.dId
                    MEvento := data.Motivo
                    GEvEmiDE :=
                      { DRucEmi := b.rucEmisor
                        DDVEmi := b.dvEmisor
                        ITipEvt := 1
                        MEvento := data.Motivo
                        GCamEve := { DCDC := data.CDC } } }
                RGesEveInu := none
                RGesEveNom := none
                RGesEveTra := none }
            GGroupTiEvt := none } }, .nil)

/-- EventoInutilizacionData: Datos para evento de inutilización. -/
structure EventoInutilizacionData where
  TipoDocumento : Int
  Establecimiento : GoString
  Punto : GoString
  Desde : Int
  Hasta : Int
  Motivo : GoString
deriving DecidableEq

/-- BuildInutilizacion. -/
def EventBuilder.BuildInutilizacion (b : EventBuilder) (clock : Clock)
    (data : EventoInutilizacionData) : Option REvento × GoError :=
  if data.Establecimiento = [] ∨ data.Establecimiento.length ≠ 3 then
    (none, .errorf (str "establecimiento debe tener 3 caracteres"))
  else if data.Punto = [] ∨ data.Punto.length ≠ 3 then
    (none, .errorf (str "punto debe tener 3 caracteres"))
  else if data.Desde > data.Hasta then
    (none, .errorf (str "rango inválido: desde debe ser menor o igual a hasta"))
  else if data.Motivo = [] then (none, .errorf (str "motivo es requerido"))
  else
    (some
      { XmlnsXsi := xmlnsXsi
        DId := b.dId
        DDTE := clock.Format (clock.Now 0)
        GEvento :=
          { Id := b.generateEventId (clock.Now 1)
            DFecFirma := clock.Format (clock.Now 2)
            DVerFor := b.version
            GGroupGesEvc := some
              { RGesEveDE := none
                RGesEveInu := some
                  { DRucEmi := b.rucEmisor
                    DDVEmi := b.dvEmisor
                    ITipEvt := 2
                    MEventoInu := data.Motivo
                    DCoEvInu :=
                      { ITiDE := data.TipoDocumento
                        DDesTiDE := TTiDE_String data.TipoDocumento
                        DEst := data.Establecimiento
                        DPunExp := data.Punto
                        DNumDocI := data.Desde
                        DNumDocF := data.Hasta } }
                RGesEveNom := none
                RGesEveTra := none }
            GGroupTiEvt := none } }, .nil)

/-- EventoConformidadData. -/
structure EventoConformidadData where
  CDC : GoString
  TipoConformidad : Int
  FechaRecepcion : Int
deriving DecidableEq

/-- BuildConformidad. -/
def EventBuilder.BuildConformidad (b : EventBuilder) (clock : Clock)
    (data : EventoConformidadData) : Option REvento × GoError :=
  if data.CDC.length ≠ 44 then (none, .errorf (str "CDC debe tener 44 caracteres"))
  else
    let k := if IsZero data.FechaRecepcion then 1 else 0
    let fechaRecep := if IsZero data.FechaRecepcion then clock.Now 0 else data.FechaRecepcion
    (some
      { XmlnsXsi := xmlnsXsi
        DId := b.dId
        DDTE := clock.Format (clock.Now k)
        GEvento :=
          { Id := b.generateEventId (clock.Now (k + 1))
            DFecFirma := clock.Format (clock.Now (k + 2))
            DVerFor := b.version
            GGroupGesEvc := none
            GGroupTiEvt := some
              { RGeTrReceptorConf := some
                  { DRucRec := b.rucEmisor
                    DDVRec := b.dvEmisor
                    ITipEvt := 11
                    DCDC := data.CDC
                    ITiConf := data.TipoConformidad
                    DDesTiConf := TiTipoConformidad_String data.TipoConformidad
                    DFecRecep := clock.Format fechaRecep
                    DFecEmiConf := clock.Format (clock.Now (k + 3)) }
                RGeTrReceptorDisc := none
                RGeTrReceptorDesc := none
                RGeTrReceptorNot := none } } }, .nil)

/-- EventoDisconformidadData. -/
structure EventoDisconformidadData where
  CDC : GoString
  Motivo : GoString
deriving DecidableEq

/-- BuildDisconformidad. -/
def EventBuilder.BuildDisconformidad (b : EventBuilder) (clock : Clock)
    (data : EventoDisconformidadData) : Option REvento × GoError :=
  if data.CDC.length ≠ 44 then (none, .errorf (str "CDC debe tener 44 caracteres"))
  else if data.Motivo = [] then (none, .errorf (str "motivo es requerido"))
  else
    (some
      { XmlnsXsi := xmlnsXsi
        DId := b.dId
        DDTE := clock.Format (clock.Now 0)
        GEvento :=
          { Id := b.generateEventId (clock.Now 1)
            DFecFirma := clock.Format (clock.Now 2)
            DVerFor := b.version
            GGroupGesEvc := none
            GGroupTiEvt := some
              { RGeTrReceptorConf := none
                RGeTrReceptorDisc := some
                  { DRucRec := b.rucEmisor
                    DDVRec := b.dvEmisor
                    ITipEvt := 12
                    DCDC := data.CDC
                    MMotDisc := data.Motivo
                    DFecEmiDisc := clock.Format (clock.Now 3) }
                RGeTrReceptorDesc := none
                RGeTrReceptorNot := none } } }, .nil)

/-- EventoDesconocimientoData. -/
structure EventoDesconocimientoData where
  CDC : GoString
  FechaEmision : Int
  FechaRecepcion : Int
  TipoReceptor : Int
  Nombre : GoString
  RUC : GoString
  TipoDocumento : Int
  NumeroDoc : GoString
  Motivo : GoString
deriving DecidableEq

/-- BuildDesconocimiento. -/
def EventBuilder.BuildDesconocimiento (b : EventBuilder) (clock : Clock)
    (data : EventoDesconocimientoData) : Option REvento × GoError :=
  if data.CDC.length ≠ 44 then (none, .errorf (str "CDC debe tener 44 caracteres"))
  else if data.Motivo = [] then (none, .errorf (str "motivo es requerido"))
  else if data.Nombre = [] then (none, .errorf (str "nombre es requerido"))
  else
    let k1 := if IsZero data.FechaEmision then 1 else 0
    let fechaEmi := if IsZero data.FechaEmision then clock.Now 0 else data.FechaEmision
    let k := if IsZero data.FechaRecepcion then k1 + 1 else k1
    let fechaRecep :=
      if IsZero data.FechaRecepcion then clock.Now k1 else data.FechaRecepcion
    (some
      { XmlnsXsi := xmlnsXsi
        DId := b.dId
        DDTE := clock.Format (clock.Now k)
        GEvento :=
          { Id := b.generateEventId (clock.Now (k + 1))
            DFecFirma := clock.Format (clock.Now (k + 2))
            DVerFor := b.version
            GGroupGesEvc := none
            GGroupTiEvt := some
              { RGeTrReceptorConf := none
                RGeTrReceptorDisc := none
                RGeTrReceptorDesc := some
                  { DRucRec := b.rucEmisor
                    DDVRec := b.dvEmisor
                    ITipEvt := 13
                    DCDC := data.CDC
                    DFecEmi := clock.Format fechaEmi
                    DFecRecep := clock.Format fechaRecep
                    ITiRec := data.TipoReceptor
                    DNomRec := data.Nombre
                    DRucRecDes := data.RUC
                    ITipDocRec := data.TipoDocumento
                    DNumDocRec := data.NumeroDoc
                    MMotDesc := data.Motivo
                    DFecEmiDesc := clock.Format (clock.Now (k + 3)) }
                RGeTrReceptorNot := none } } }, .nil)

/-- EventoNotificacionData. -/
structure EventoNotificacionData where
  CDC : GoString
  FechaEmision : Int
  FechaRecepcion : Int
  TipoReceptor : Int
  Nombre : GoString
  RUC : GoString
  TipoDocumento : Int
  NumeroDoc : GoString
  TotalPYG : Nat
deriving DecidableEq

/-- BuildNotificacion. -/
def EventBuilder.BuildNotificacion (b : EventBuilder) (clock : Clock)
    (data : EventoNotificacionData) : Option REvento × GoError :=
  if data.CDC.length ≠ 44 then (none, .errorf (str "CDC debe tener 44 caracteres"))
  else if data.Nombre = [] then (none, .errorf (str "nombre es requerido"))
  else
    let k1 := if IsZero data.FechaEmision then 1 else 0
    let fechaEmi := if IsZero data.FechaEmision then clock.Now 0 else data.FechaEmision
    let k := if IsZero data.FechaRecepcion then k1 + 1 else k1
    let fechaRecep :=
      if IsZero data.FechaRecepcion then clock.Now k1 else data.FechaRecepcion
    (some
      { XmlnsXsi := xmlnsXsi
        DId := b.dId
        DDTE := clock.Format (clock.Now k)
        GEvento :=
          { Id := b.generateEventId (clock.Now (k + 1))
            DFecFirma := clock.Format (clock.Now (k + 2))
            DVerFor := b.version
            GGroupGesEvc := none
            GGroupTiEvt := some
              { RGeTrReceptorConf := none
                RGeTrReceptorDisc := none
                RGeTrReceptorDesc := none
                RGeTrReceptorNot := some
                  { DRucRec := b.rucEmisor
                    DDVRec := b.dvEmisor
                    ITipEvt := 14
                    DCDC := data.CDC
                    DFecEmi := clock.Format fechaEmi
                    DFecRecep := clock.Format fechaRecep
                    ITiRec := data.TipoReceptor
                    DNomRec := data.Nombre
                    DRucRecNot := data.RUC
                    ITipDocRec := data.TipoDocumento
                    DNumDocRec := data.NumeroDoc
                    DTotPyg := data.TotalPYG
                    DFecEmiNot := clock.Format (clock.Now (k + 3)) } } } }, .nil)

/-- EventoNominacionData. -/
structure EventoNominacionData where
  CDC : GoString
  RUCNominado : GoString
  DVNominado : GoString
  NombreNominado : GoString
deriving DecidableEq

/-- BuildNominacion. -/
def EventBuilder.BuildNominacion (b : EventBuilder) (clock : Clock)
    (data : EventoNominacionData) : Option REvento × GoError :=
  if data.CDC.length ≠ 44 then (none, .errorf (str "CDC debe tener 44 caracteres"))
  else if data.RUCNominado = [] then (none, .errorf (str "RUC del nominado es requerido"))
  else if data.NombreNominado = [] then
    (none, .errorf (str "nombre del nominado es requerido"))
  else
    (some
      { XmlnsXsi := xmlnsXsi
        DId := b.dId
        DDTE := clock.Format (clock.Now 0)
        GEvento :=
          { Id := b.generateEventId (clock.Now 1)
            DFecFirma := clock.Format (clock.Now 2)
            DVerFor := b.version
            GGroupGesEvc := some
              { RGesEveDE := none
                RGesEveInu := none
                RGesEveNom := some
                  { DRucEmi := b.rucEmisor
                    DDVEmi := b.dvEmisor
                    ITipEvt := 20
                    DCDC := data.CDC
                    DRucNom := data.RUCNominado
                    DDVNom := data.DVNominado
                    DNomNom := data.NombreNominado
                    DFecEmiNom := clock.Format (clock.Now 3) }
                RGesEveTra := none }
            GGroupTiEvt := none } }, .nil)

/-- MotivoActTransp_CambioLocalEntrega: Cambio del local de entrega. -/
def MotivoActTransp_CambioLocalEntrega : Int := 1

/-- MotivoActTransp_CambioChofer: Cambio del chofer. -/
def MotivoActTransp_CambioChofer : Int := 2

/-- MotivoActTransp_CambioTransportista: Cambio del transportista. -/
def MotivoActTransp_CambioTransportista : Int := 3

/-- MotivoActTransp_CambioVehiculo: Cambio de vehículo. -/
def MotivoActTransp_CambioVehiculo : Int := 4

/-- The method `String` of `MotivoActualizacionTransporte`. -/
def MotivoActualizacionTransporte_String (m : Int) : GoString :=
  if m = MotivoActTransp_CambioLocalEntrega then str "Cambio del local de entrega"
  else if m = MotivoActTransp_CambioChofer then str "Cambio del chofer"
  else if m = MotivoActTransp_CambioTransportista then str "Cambio del transportista"
  else if m = MotivoActTransp_CambioVehiculo then str "Cambio de vehículo"
  else str "Motivo " ++ Itoa m

/-- EventoActTransporteData: Datos para evento de actualización de transporte. -/
structure EventoActTransporteData where
  CDC : GoString
  Motivo : Int
  NuevaDireccion : GoString
  NuevoDepartamento : Int
  NuevoDistrito : Int
  NuevaCiudad : Int
  DescDepartamento : GoString
  DescDistrito : GoString
  DescCiudad : GoString
  NombreChofer : GoString
  DocumentoChofer : GoString
  RUCTransportista : GoString
  DVTransportista : GoString
  DocTransportista : GoString
  TipoDocTransportista : Int
  NombreTransportista : GoString
  EsContribuyente : Bool
  TipoVehiculo : GoString
  MarcaVehiculo : GoString
  PlacaVehiculo : GoString
deriving DecidableEq

/-- The `switch` of `BuildActualizacionTransporte` over the motive: the error it returns,
or the event record with the data of the motive added. -/
def actualizacionSwitch (data : EventoActTransporteData) (evtTransp : EventoActTransporte) :
    Except GoError EventoActTransporte :=
  if data.Motivo = MotivoActTransp_CambioLocalEntrega then
    if data.NuevaDireccion = [] then
      .error (.errorf (str "nueva dirección es requerida para cambio de local"))
    else
      .ok { evtTransp with
        GCamLocEnt := some
          { DDirLocEnt := data.NuevaDireccion
            CDepEnt := data.NuevoDepartamento
            DDesDepEnt := data.DescDepartamento
            CDisEnt := data.NuevoDistrito
            DDesDisEnt := data.DescDistrito
            CCiuEnt := data.NuevaCiudad
            DDesCiuEnt := data.DescCiudad } }
  else if data.Motivo = MotivoActTransp_CambioChofer then
    if data.NombreChofer = [] ∨ data.DocumentoChofer = [] then
      .error (.errorf (str "nombre y documento del chofer son requeridos"))
    else
      .ok { evtTransp with
        GCamChof := some
          { DNomChof := data.NombreChofer, DNumIDChof := data.DocumentoChofer } }
  else if data.Motivo = MotivoActTransp_CambioTransportista then
    if data.NombreTransportista = [] then
      .error (.errorf (str "nombre del transportista es requerido"))
    else
      let camTrans : GCamTransportista :=
        { INatTrans := 0
          DNomTrans := data.NombreTransportista
          DRucTrans := []
          DDVTrans := []
          ITipIDTrans := 0
          DDTipIDTrans := []
          DNumIDTrans := [] }
      let camTrans :=
        if data.EsContribuyente then
          { camTrans with
            INatTrans := TiNatRec_Contribuyente
            DRucTrans := data.RUCTransportista
            DDVTrans := data.DVTransportista }
        else
          { camTrans with
            INatTrans := TiNatRec_NoContribuyente
            ITipIDTrans := data.TipoDocTransportista
            DDTipIDTrans := TTipDocRec_String data.TipoDocTransportista
            DNumIDTrans := data.DocTransportista }
      .ok { evtTransp with GCamTrans := some camTrans }
  else if data.Motivo = MotivoActTransp_CambioVehiculo then
    if data.TipoVehiculo = [] ∨ data.PlacaVehiculo = [] then
      .error (.errorf (str "tipo y placa del vehículo son requeridos"))
    else
      .ok { evtTransp with
        GCamVeh := some
          { DTipVeh := data.TipoVehiculo
            DMarVeh := data.MarcaVehiculo
            DNumPlaca := data.PlacaVehiculo } }
  else .ok evtTransp

/-- BuildActualizacionTransporte. -/
def EventBuilder.BuildActualizacionTransporte (b : EventBuilder) (clock : Clock)
    (data : EventoActTransporteData) : Option REvento × GoError :=
  if data.CDC.length ≠ 44 then (none, .errorf (str "CDC debe tener 44 caracteres"))
  else if data.Motivo < 1 ∨ data.Motivo > 4 then
    (none, .errorf (str "motivo debe ser 1, 2, 3 o 4"))
  else
    -- Construir estructura base del evento
    let evtTransp : EventoActTransporte :=
      { DRucEmi := b.rucEmisor
        DDVEmi := b.dvEmisor
        ITipEvt := 21
        DCDC := data.CDC
        DMotEv := data.Motivo
        DDesMotEv := MotivoActualizacionTransporte_String data.Motivo
        DFecEmiEvt := clock.Format (clock.Now 0)
        GCamLocEnt := none
        GCamChof := none
        GCamTrans := none
        GCamVeh := none }
    -- Agregar datos según el motivo
    match actualizacionSwitch data evtTransp with
    | .error err => (none, err)
    | .ok evtTransp =>
      (some
        { XmlnsXsi := xmlnsXsi
          DId := b.dId
          DDTE := clock.Format (clock.Now 1)
          GEvento :=
            { Id := b.generateEventId (clock.Now 2)
              DFecFirma := clock.Format (clock.Now 3)
              DVerFor := b.version
              GGroupGesEvc := some
                { RGesEveDE := none
                  RGesEveInu := none
                  RGesEveNom := none
                  RGesEveTra := some evtTransp }
              GGroupTiEvt := none } }, .nil)

/-! ## Reference definitions of the statements about the events -/

/-- The data of any of the eight builders. -/
inductive EventData where
  | cancelacion (data : EventoCancelacion)
  | inutilizacion (data : EventoInutilizacionData)
  | nominacion (data : EventoNominacionData)
  | actTransporte (data : EventoActTransporteData)
  | conformidad (data : EventoConformidadData)
  | disconformidad (data : EventoDisconformidadData)
  | desconocimiento (data : EventoDesconocimientoData)
  | notificacion (data : EventoNotificacionData)

/-- The builder of the kind of the data, applied to it. -/
def EventBuilder.Build (b : EventBuilder) (clock : Clock) : EventData → Option REvento × GoError
  | .cancelacion data => b.BuildCancelacion clock data
  | .inutilizacion data => b.BuildInutilizacion clock data
  | .nominacion data => b.BuildNominacion clock data
  | .actTransporte data => b.BuildActualizacionTransporte clock data
  | .conformidad data => b.BuildConformidad clock data
  | .disconformidad data => b.BuildDisconformidad clock data
  | .desconocimiento data => b.BuildDesconocimiento clock data
  | .notificacion data => b.BuildNotificacion clock data

/-- The event-kind code of the table of the specification. -/
def tableCode : EventData → Int
  | .cancelacion _ => 1
  | .inutilizacion _ => 2
  | .nominacion _ => 20
  | .actTransporte _ => 21
  | .conformidad _ => 11
  | .disconformidad _ => 12
  | .desconocimiento _ => 13
  | .notificacion _ => 14

/-- The constant of `TTiEvento` that corresponds to the kind. -/
def kindConstant : EventData → Int
  | .cancelacion _ => TTiEvento_Cancelacion
  | .inutilizacion _ => TTiEvento_Inutilizacion
  | .nominacion _ => TTiEvento_Nominacion
  | .actTransporte _ => TTiEvento_ActualizacionTransporte
  | .conformidad _ => TTiEvento_ConformidadDE
  | .disconformidad _ => TTiEvento_DisconformidadDE
  | .desconocimiento _ => TTiEvento_DesconocimientoDE
  | .notificacion _ => TTiEvento_NotificacionRecepcion

/-- The element path of the table of the specification ("assembled under"). -/
def tablePath : EventData → List GoString
  | .cancelacion _ => [str "gGroupGesEve", str "rGeVeCan"]
  | .inutilizacion _ => [str "gGroupGesEve", str "rGeVeInu"]
  | .nominacion _ => [str "gGroupGesEve", str "rGeVeNom"]
  | .actTransporte _ => [str "gGroupGesEve", str "rGeVeTra"]
  | .conformidad _ => [str "gGroupTiEvt", str "rGeTrReConf"]
  | .disconformidad _ => [str "gGroupTiEvt", str "rGeTrReDisc"]
  | .desconocimiento _ => [str "gGroupTiEvt", str "rGeTrReDesc"]
  | .notificacion _ => [str "gGroupTiEvt", str "rGeTrReNot"]

/-- The values of `iTipEvt` of the event records that are set in a `GGroupGesEve`. -/
def GGroupGesEve.iTipEvt (g : GGroupGesEve) : List Int :=
  (g.RGesEveDE.toList.map (fun r => r.GEvEmiDE.ITipEvt)) ++
    (g.RGesEveInu.toList.map (fun r => r.ITipEvt)) ++
    (g.RGesEveNom.toList.map (fun r => r.ITipEvt)) ++
    (g.RGesEveTra.toList.map (fun r => r.ITipEvt))

/-- The values of `iTipEvt` of the event records that are set in a `GGroupTiEvt`. -/
def GGroupTiEvt.iTipEvt (g : GGroupTiEvt) : List Int :=
  (g.RGeTrReceptorConf.toList.map (fun r => r.ITipEvt)) ++
    (g.RGeTrReceptorDisc.toList.map (fun r => r.ITipEvt)) ++
    (g.RGeTrReceptorDesc.toList.map (fun r => r.ITipEvt)) ++
    (g.RGeTrReceptorNot.toList.map (fun r => r.ITipEvt))

/-- The values of `iTipEvt` of all the event records that are set in an event. -/
def REvento.iTipEvt (e : REvento) : List Int :=
  (match e.GEvento.GGroupGesEvc with
    | none => []
    | some g => g.iTipEvt) ++
    (match e.GEvento.GGroupTiEvt with
    | none => []
    | some g => g.iTipEvt)

/-- How many of the two groups of a `GEvento` are set. -/
def GEvento.groupsSet (g : GEvento) : Nat :=
  g.GGroupGesEvc.toList.length + g.GGroupTiEvt.toList.length

/-- How many of the four event records of a `GGroupGesEve` are set. -/
def GGroupGesEve.recordsSet (g : GGroupGesEve) : Nat :=
  g.RGesEveDE.toList.length + g.RGesEveInu.toList.length + g.RGesEveNom.toList.length +
    g.RGesEveTra.toList.length

/-- How many of the four event records of a `GGroupTiEvt` are set. -/
def GGroupTiEvt.recordsSet (g : GGroupTiEvt) : Nat :=
  g.RGeTrReceptorConf.toList.length + g.RGeTrReceptorDisc.toList.length +
    g.RGeTrReceptorDesc.toList.length + g.RGeTrReceptorNot.toList.length

/-- How many of the four motive sub-groups of a transport update are set. -/
def EventoActTransporte.subGroupsSet (t : EventoActTransporte) : Nat :=
  t.GCamLocEnt.toList.length + t.GCamChof.toList.length + t.GCamTrans.toList.length +
    t.GCamVeh.toList.length

/-- Whether the sub-group of a transport update that matches the motive is set:
`gCamLocEnt` for 1, `gCamChof` for 2, `gCamTrans` for 3, `gCamVeh` for 4. -/
def EventoActTransporte.subGroupOfMotive (t : EventoActTransporte) (motivo : Int) : Bool :=
  if motivo = 1 then t.GCamLocEnt.isSome
  else if motivo = 2 then t.GCamChof.isSome
  else if motivo = 3 then t.GCamTrans.isSome
  else if motivo = 4 then t.GCamVeh.isSome
  else false

/-- The fields required for a motive of a transport update are non-empty (1: new address;
2: driver name and driver document number; 3: carrier name; 4: vehicle type and plate). -/
def requiredForMotive (data : EventoActTransporteData) : Prop :=
  (data.Motivo = 1 → data.NuevaDireccion ≠ []) ∧
    (data.Motivo = 2 → data.NombreChofer ≠ [] ∧ data.DocumentoChofer ≠ []) ∧
    (data.Motivo = 3 → data.NombreTransportista ≠ []) ∧
    (data.Motivo = 4 → data.TipoVehiculo ≠ [] ∧ data.PlacaVehiculo ≠ [])

/-- A clock for closed examples: the readings follow each other by one nanosecond, and
the layout is replaced by the decimal text of the instant. -/
def sampleClock : Clock where
  Now := fun k => 1700000000000000000 + k
  Format := fun t => Itoa t

/-- A builder for closed examples. -/
def sampleBuilder : EventBuilder := NewEventBuilder 2 (str "80069563") (str "1")

/-- Data of a transport update with every field empty but the CDC and the motive. -/
def transportData (motivo : Int) : EventoActTransporteData where
  CDC := sampleCDC
  Motivo := motivo
  NuevaDireccion := []
  NuevoDepartamento := 0
  NuevoDistrito := 0
  NuevaCiudad := 0
  DescDepartamento := []
  DescDistrito := []
  DescCiudad := []
  NombreChofer := []
  DocumentoChofer := []
  RUCTransportista := []
  DVTransportista := []
  DocTransportista := []
  TipoDocTransportista := 0
  NombreTransportista := []
  EsContribuyente := false
  TipoVehiculo := []
  MarcaVehiculo := []
  PlacaVehiculo := []

/-- Data of a cancellation of the sample CDC. -/
def cancelacionData : EventoCancelacion := ⟨sampleCDC, str "error en los datos"⟩

/-- Data of an inutilization of the numbers from `desde` to `hasta` of invoices. -/
def inutilizacionData (desde hasta : Int) : EventoInutilizacionData :=
  ⟨1, str "001", str "001", desde, hasta, str "salto de numeración"⟩

/-! ## client.go: single reception, batch query and events -/

/-- What the event methods take from outside in addition: `xml.Marshal` on an event. -/
structure EventRuntime (K : Type) extends Runtime K where
  MarshalEvento : REvento → Except GoString GoString

/-- RecepcionDE sends a single electronic document for processing; `none` is a panic. -/
def SifenClient.RecepcionDE {K : Type} (rt : Runtime K) (c : SifenClient K)
    (de : DocumentoElectronico) : Option (Reply K RespuestaRecepcionDE) :=
  -- 1. Marshal DE to XML
  match rt.MarshalDE de with
  | .error err => some ⟨none, Wrap rt.ToLower (.errorf err) (str "failed to marshal DE"), c, []⟩
  | .ok deBytes =>
    -- 2. Sign DE if configured
    match c.signIfConfigured rt deBytes de.DE.Id with
    | .error err =>
      some ⟨none, NewCryptoError (str "failed to sign DE") (.errorf err.Error), c, []⟩
    | .panic => none
    | .ok signedBytes =>
      -- 3. Wrap in Request
      let id := c.nextID
      let c := id.2
      let req := Payload.REnviDe id.1 signedBytes
      let url := c.getURL c.config.PathRecibe
      let sent := c.soapClient.Send rt url req
      match sent.2 with
      | .nil =>
        match rt.Unmarshal sent.1 with
        | .error err =>
          some ⟨none, NewSifenResponseError (str "XML_ERROR")
            (str "failed to unmarshal response: " ++ err), c, [⟨url, req⟩]⟩
        | .ok env =>
          match env.RRetEnviDe with
          | none =>
            some ⟨none, NewSifenResponseError (str "EMPTY_RESPONSE")
              (str "response body is empty or invalid type"), c, [⟨url, req⟩]⟩
          | some resp => some ⟨some resp, .nil, c, [⟨url, req⟩]⟩
      | err => some ⟨none, Wrap rt.ToLower err (str "RecepcionDE failed"), c, [⟨url, req⟩]⟩

/-- ConsultaLoteDE queries the status of a batch of documents. -/
def SifenClient.ConsultaLoteDE {K : Type} (rt : Runtime K) (c : SifenClient K)
    (protocoloLote : GoString) : Reply K RespuestaConsultaLoteDE :=
  let id := c.nextID
  let c := id.2
  let req := Payload.REnviConsLoteDe id.1 protocoloLote
  let url := c.getURL c.config.PathConsultaLote
  let sent := c.soapClient.Send rt url req
  match sent.2 with
  | .nil =>
    match rt.Unmarshal sent.1 with
    | .error err =>
      ⟨none, .errorf (str "failed to unmarshal response: " ++ err), c, [⟨url, req⟩]⟩
    | .ok env =>
      match env.RResEnviConsLoteDe with
      | none => ⟨none, .errorf (str "response body is empty or invalid type"), c, [⟨url, req⟩]⟩
      | some resp => ⟨some resp, .nil, c, [⟨url, req⟩]⟩
  | err => ⟨none, err, c, [⟨url, req⟩]⟩

/-- EnviarEvento sends an event to SIFEN; `none` is a panic. -/
def SifenClient.EnviarEvento {K : Type} (rt : EventRuntime K) (c : SifenClient K)
    (evento : REvento) : Option (Reply K RespuestaEvento) :=
  -- Marshal event to XML
  match rt.MarshalEvento evento with
  | .error err => some ⟨none, .errorf (str "failed to marshal event: " ++ err), c, []⟩
  | .ok eventoBytes =>
    -- Sign event if configured
    match c.signIfConfigured rt.toRuntime eventoBytes evento.GEvento.Id with
    | .error err =>
      some ⟨none, .errorf (str "failed to sign event: " ++ err.Error), c, []⟩
    | .panic => none
    | .ok signedBytes =>
      let id := c.nextID
      let c := id.2
      let req := Payload.REnviEventoDe id.1 signedBytes
      let url := c.getURL c.config.PathEvento
      let sent := c.soapClient.Send rt.toRuntime url req
      match sent.2 with
      | .nil =>
        match rt.Unmarshal sent.1 with
        | .error err =>
          some ⟨none, .errorf (str "failed to unmarshal response: " ++ err), c, [⟨url, req⟩]⟩
        | .ok env =>
          match env.RRetEnviEventoDe with
          | none =>
            some ⟨none, .errorf (str "response body is empty or invalid type"), c,
              [⟨url, req⟩]⟩
          | some resp => some ⟨some resp, .nil, c, [⟨url, req⟩]⟩
      | err => some ⟨none, err, c, [⟨url, req⟩]⟩

/-- The helper `splitRUC`. -/
def SifenClient.splitRUC {K : Type} (c : SifenClient K) : GoString × GoString :=
  (c.config.IdCSC, str "0")

/-- What the convenience methods do with the result of a builder: the error is returned
as it is, the event is sent.  A builder never returns a nil event with a nil error; that
case has no outcome here. -/
def SifenClient.sendBuilt {K : Type} (rt : EventRuntime K) (c : SifenClient K)
    (built : Option REvento × GoError) : Option (Reply K RespuestaEvento) :=
  match built.2 with
  | .nil =>
    match built.1 with
    | some evento => c.EnviarEvento rt evento
    | none => none
  | err => some ⟨none, err, c, []⟩

/-- CancelarDE cancels an electronic document; `none` is a panic. -/
def SifenClient.CancelarDE {K : Type} (rt : EventRuntime K) (c : SifenClient K)
    (clock : Clock) (cdc motivo : GoString) : Option (Reply K RespuestaEvento) :=
  let rd := c.splitRUC
  let id := c.nextID
  let c := id.2
  let builder := NewEventBuilder id.1 rd.1 rd.2
  c.sendBuilt rt (builder.BuildCancelacion clock { CDC := cdc, Motivo := motivo })

/-- InutilizarNumeracion invalidates a range of document numbers; `none` is a panic. -/
def SifenClient.InutilizarNumeracion {K : Type} (rt : EventRuntime K) (c : SifenClient K)
    (clock : Clock) (data : EventoInutilizacionData) : Option (Reply K RespuestaEvento) :=
  let rd := c.splitRUC
  let id := c.nextID
  let c := id.2
  let builder := NewEventBuilder id.1 rd.1 rd.2
  c.sendBuilt rt (builder.BuildInutilizacion clock data)

/-- ConfirmarRecepcion confirms receipt of a document; `none` is a panic. -/
def SifenClient.ConfirmarRecepcion {K : Type} (rt : EventRuntime K) (c : SifenClient K)
    (clock : Clock) (data : EventoConformidadData) : Option (Reply K RespuestaEvento) :=
  let rd := c.splitRUC
  let id := c.nextID
  let c := id.2
  let builder := NewEventBuilder id.1 rd.1 rd.2
  c.sendBuilt rt (builder.BuildConformidad clock data)

/-- ReportarDisconformidad reports non-conformity of a document; `none` is a panic. -/
def SifenClient.ReportarDisconformidad {K : Type} (rt : EventRuntime K) (c : SifenClient K)
    (clock : Clock) (cdc motivo : GoString) : Option (Reply K RespuestaEvento) :=
  let rd := c.splitRUC
  let id := c.nextID
  let c := id.2
  let builder := NewEventBuilder id.1 rd.1 rd.2
  c.sendBuilt rt (builder.BuildDisconformidad clock { CDC := cdc, Motivo := motivo })

/-! ## lote.go: sending a batch and querying its result -/

/-- LoteResult contiene el resultado del envío de lote. -/
structure LoteResult where
  NumeroLote : GoString
  TiempoEstimado : Int
  TamanoEnviadoKB : Int
  NumDocumentos : Int
deriving DecidableEq

/-- EnviarLoteDE envía un lote de documentos para procesamiento asíncrono; `none` is a
panic. -/
def SifenClient.EnviarLoteDE {K : Type} (rt : Runtime K) (c : SifenClient K)
    (params : LoteParams) : Option (Reply K LoteResult) :=
  -- 1. Crear el lote comprimido y codificado
  match c.CrearLoteDE rt params with
  | none => none
  | some created =>
    match created.2 with
    | .nil =>
      let base64Content := created.1
      -- 2. Construir request según especificación SIFEN
      let id := c.nextID
      let c := id.2
      let req := Payload.REnviLoteDe id.1 [base64Content]
      let url := c.getURL c.config.PathRecibeLote
      let sent := c.soapClient.Send rt url req
      match sent.2 with
      | .nil =>
        match rt.Unmarshal sent.1 with
        | .error err =>
          some ⟨none, .errorf (str "error al deserializar respuesta: " ++ err), c,
            [⟨url, req⟩]⟩
        | .ok env =>
          match env.RRetEnviLoteDe with
          | none => some ⟨none, .errorf (str "respuesta vacía o inválida"), c, [⟨url, req⟩]⟩
          | some resp =>
            some ⟨some
              { NumeroLote := resp.DProtConsLot
                TiempoEstimado := resp.DTmpLot
                TamanoEnviadoKB := (base64Content.length : Int) / 1024
                NumDocumentos := params.Documentos.length }, .nil, c, [⟨url, req⟩]⟩
      | err => some ⟨none, err, c, [⟨url, req⟩]⟩
    | err => some ⟨none, err, c, []⟩

/-- ConsultarResultadoLote consulta el estado de un lote enviado previamente. -/
def SifenClient.ConsultarResultadoLote {K : Type} (rt : Runtime K) (c : SifenClient K)
    (numeroLote : GoString) : Reply K RespuestaConsultaLoteDE :=
  if numeroLote = [] then ⟨none, .errorf (str "número de lote es requerido"), c, []⟩
  else
    let id := c.nextID
    let c := id.2
    let req := Payload.REnviConsLoteDe id.1 numeroLote
    let url := c.getURL c.config.PathConsultaLote
    let sent := c.soapClient.Send rt url req
    match sent.2 with
    | .nil =>
      match rt.Unmarshal sent.1 with
      | .error err =>
        ⟨none, .errorf (str "error al deserializar respuesta: " ++ err), c, [⟨url, req⟩]⟩
      | .ok env =>
        match env.RResEnviConsLoteDe with
        | none => ⟨none, .errorf (str "respuesta vacía o inválida"), c, [⟨url, req⟩]⟩
        | some resp => ⟨some resp, .nil, c, [⟨url, req⟩]⟩
    | err => ⟨none, err, c, [⟨url, req⟩]⟩

/-! ## Runtimes for closed examples of the replies -/

/-- The stand-in runtime with an `xml.Marshal` of events that always succeeds. -/
def sampleEventRuntime (reply : BodyRefResponse) : EventRuntime Unit where
  toRuntime := sampleRuntime reply
  MarshalEvento := fun e => .ok e.GEvento.Id

/-- The stand-in runtime with a server that answers every request with the given status
and body. -/
def statusRuntime (status : Int) (body : GoString) : Runtime Unit :=
  { sampleRuntime emptyBody with Do := fun _ => .ok ⟨status, .ok body⟩ }

/-- A reply body that carries the shape of a document query only. -/
def consultaDEBody : BodyRefResponse :=
  { emptyBody with RResEnviConsDe := some (consultaDEReply "0260") }

/-- The text of the error of `Send` for a status other than 200: the status and the body
read. -/
def statusText (status : Int) (body : GoString) : GoString :=
  str "sifen returned status " ++ Itoa status ++ str ": " ++ body

/-- An error is the one the wrapped operations return for a status other than 200: a
`SifenError` whose cause is the error of `Send` with the status and the body, and whose
category is the one `Wrap` derives from the lower-cased text of that cause. -/
def statusError (toLower : GoString → GoString) (status : Int) (body : GoString)
    (err : GoError) : Prop :=
  IsSifenError err = true ∧ err.Cause = .errorf (statusText status body) ∧
    err.Type = some (wrapCategory (toLower (statusText status body)))

/-- The error of the operations that report a reply of another shape through the package
of errors. -/
def emptyResponseError : GoError :=
  NewSifenResponseError (str "EMPTY_RESPONSE") (str "response body is empty or invalid type")

/-! ## util.go: totals and the QR address

A `float64` that is only stored, compared with a constant or printed is carried as its 64
bits (a `Nat`; the zero value is `0`).  The arithmetic of `CalculateTotals` is read
exactly: its numbers are rationals.  The layouts of package `time` and the verbs of
package `fmt` that print a time or a `float64` are functions taken from outside. -/

/-- What the QR functions take from the standard library: `time.Time.Format` with the
layout `"2006-01-02T15:04:05"`, the verb `%.2f` of `fmt.Sprintf` on a `float64`, the
function `sha256.Sum256` and the conversion `int64(f)` of a `float64`. -/
structure Formats where
  Format : Int → GoString
  Float2 : Nat → GoString
  Sum256 : GoString → GoString
  Int64 : Nat → Int

/-- TotalsInput represents an item for totals calculation. -/
structure TotalsInput where
  PrecioUnitario : ℚ
  Cantidad : ℚ
  Descuento : ℚ
  TasaIVA : ℚ
  EsExento : Bool
  EsExonerado : Bool

/-- TotalsResult contains calculated totals. -/
structure TotalsResult where
  SubtotalExe : ℚ
  SubtotalExo : ℚ
  Subtotal5 : ℚ
  Subtotal10 : ℚ
  TotalBruto : ℚ
  TotalDescuento : ℚ
  TotalNeto : ℚ
  BaseGravada5 : ℚ
  BaseGravada10 : ℚ
  IVA5 : ℚ
  IVA10 : ℚ
  TotalIVA : ℚ

/-- The body of the loop of `CalculateTotals` for one item. -/
def totalsStep (result : TotalsResult) (item : TotalsInput) : TotalsResult :=
  let bruto := item.PrecioUnitario * item.Cantidad
  let neto := bruto - item.Descuento
  let result := { result with
    TotalBruto := result.TotalBruto + bruto
    TotalDescuento := result.TotalDescuento + item.Descuento
    TotalNeto := result.TotalNeto + neto }
  if item.EsExento then { result with SubtotalExe := result.SubtotalExe + neto }
  else if item.EsExonerado then { result with SubtotalExo := result.SubtotalExo + neto }
  else if item.TasaIVA = 5 then
    { result with
      Subtotal5 := result.Subtotal5 + neto
      BaseGravada5 := result.BaseGravada5 + neto / 1.05
      IVA5 := result.IVA5 + (neto - neto / 1.05) }
  else if item.TasaIVA = 10 then
    { result with
      Subtotal10 := result.Subtotal10 + neto
      BaseGravada10 := result.BaseGravada10 + neto / 1.10
      IVA10 := result.IVA10 + (neto - neto / 1.10) }
  else result

/-- CalculateTotals calculates all totals for a DE. -/
def CalculateTotals (items : List TotalsInput) : TotalsResult :=
  let result := items.foldl totalsStep ⟨0, 0, 0, 0, 0, 0, 0, 0, 0, 0, 0, 0⟩
  { result with TotalIVA := result.IVA5 + result.IVA10 }

/-- The items of `TestCalculateTotals`. -/
def testItems : List TotalsInput :=
  [ { PrecioUnitario := 100000, Cantidad := 2, Descuento := 0, TasaIVA := 10,
      EsExento := false, EsExonerado := false },
    { PrecioUnitario := 50000, Cantidad := 1, Descuento := 5000, TasaIVA := 5,
      EsExento := false, EsExonerado := false },
    { PrecioUnitario := 25000, Cantidad := 1, Descuento := 0, TasaIVA := 0,
      EsExento := true, EsExonerado := false } ]

/-- QRParams contains parameters for QR code URL generation. -/
structure QRParams where
  CDC : GoString
  NroTimbrado : GoString
  FechaEmision : Int
  NroItem : Int
  FechaFirma : Int
  MontoTotal : Nat
  CSCid : GoString

/-- GenerateQRURL generates the URL for SIFEN QR code. -/
def GenerateQRURL (fmt : Formats) (baseURL : GoString) (params : QRParams) : GoString :=
  let fecha := fmt.Format params.FechaEmision
  baseURL ++ str "nVersion=150&Id=" ++ params.CDC ++ str "&dFeEmiDE=" ++ fecha ++
    str "&dRucRec=&dTotGralOpe=" ++ fmt.Float2 params.MontoTotal ++
    str "&dTotIVA=0&cItems=" ++ Itoa params.NroItem ++ str "&DigesValue=&IdCSC=" ++
    params.CSCid

/-- The bits of the `float64` 150000. -/
def float150000 : Nat := 0x41024F8000000000

/-- The parameters of `TestGenerateQRURL`; the instant is 2024-01-15 10:30:00 UTC in
nanoseconds since the epoch, the zero `FechaFirma` is not read. -/
def testQRParams : QRParams where
  CDC := str "01800695631001001000000612021112917595714694"
  NroTimbrado := str "12345678"
  FechaEmision := 1705314600000000000
  NroItem := 5
  FechaFirma := 0
  MontoTotal := float150000
  CSCid := str "0001"

/-- The base address of `TestGenerateQRURL`. -/
def testBaseURL : GoString := str "https://ekuatia.set.gov.py/consultas/qr?"

/-- Stand-ins for the functions of the standard library at the values of
`TestGenerateQRURL`: the instant of the test is printed as it is in UTC, the amount
150000 with two decimals; the digest is 32 zero bytes. -/
def testFormats : Formats where
  Format := fun t => if t = 1705314600000000000 then str "2024-01-15T10:30:00" else Itoa t
  Float2 := fun f => if f = float150000 then str "150000.00" else str "0.00"
  Sum256 := fun _ => List.replicate 32 0
  Int64 := fun _ => 0

/-! ## Reference definitions of the statements about the totals, the QR address and the RUC -/

/-- The gross amount of an item: price × quantity. -/
def TotalsInput.bruto (item : TotalsInput) : ℚ := item.PrecioUnitario * item.Cantidad

/-- The net amount of an item: the gross amount less the discount. -/
def TotalsInput.neto (item : TotalsInput) : ℚ := item.bruto - item.Descuento

/-- The item is neither exempt nor exonerated and its rate is `tasa`. -/
def TotalsInput.gravado (tasa : ℚ) (item : TotalsInput) : Bool :=
  !item.EsExento && !item.EsExonerado && decide (item.TasaIVA = tasa)

/-- A list of named parameters written as a query: `name=value` joined by `&`. -/
def joinParameters : List (GoString × GoString) → GoString
  | [] => []
  | [p] => p.1 ++ str "=" ++ p.2
  | p :: rest => p.1 ++ str "=" ++ p.2 ++ str "&" ++ joinParameters rest

/-- The names of the parameters of the SIFEN QR address, in their order. -/
def qrNames : List GoString :=
  [str "nVersion", str "Id", str "dFeEmiDE", str "dRucRec", str "dTotGralOpe",
    str "dTotIVA", str "cItems", str "DigestValue", str "IdCSC"]

/-- A byte is a lowercase hexadecimal digit. -/
def isLowerHex (b : UInt8) : Bool :=
  (48 ≤ b.toNat && b.toNat ≤ 57) || (97 ≤ b.toNat && b.toNat ≤ 102)

/-- The integer a text denotes in decimal: an optional sign followed by at least one
decimal digit; `none` for a text that is not a decimal integer. -/
def integerValue (s : GoString) : Option Int :=
  match s with
  | [] => none
  | c :: rest =>
    if c = 45 then (if rest ≠ [] ∧ allDigits rest then some (-(decimalValue rest : Int)) else none)
    else if c = 43 then
      (if rest ≠ [] ∧ allDigits rest then some (decimalValue rest : Int) else none)
    else if allDigits s then some (decimalValue s : Int) else none

/-- The integer fits a Go `int` (64 bits). -/
def fitsInt (v : Int) : Prop := -(2 : Int) ^ 63 ≤ v ∧ v < 2 ^ 63

instance (v : Int) : Decidable (fitsInt v) := by
  unfold fitsInt; infer_instance

/-- The text consists of exactly two parts separated by a single hyphen. -/
def twoParts (ruc base dv : GoString) : Prop :=
  ruc = base ++ str "-" ++ dv ∧ (45 : UInt8) ∉ base ∧ (45 : UInt8) ∉ dv

/-! ## cache.go: shutting down, and runs of the caches of the client -/

/-- Close detiene el cleanup loop y libera recursos: the channel `stopCh` is closed;
`none` is the panic of closing a channel that is closed already. -/
def Cache.Close {V : Type} (c : Cache V) : Option (Cache V) :=
  if c.stopChClosed then none else some { c with stopChClosed := true }

/-- NewRUCCache crea un caché especializado para RUC. -/
def NewRUCCache (config : CacheConfig) : RUCCache := ⟨NewCache config⟩

/-- NewDECache crea un caché especializado para DE. -/
def NewDECache (config : CacheConfig) : DECache := ⟨NewCache config⟩

/-- The sweep of the RUC cache, as the cleanup loop runs it at the instant `now`. -/
def RUCCache.cleanup (r : RUCCache) (now : Int) : RUCCache := ⟨r.cache.cleanup now⟩

/-- The sweep of the DE cache, as the cleanup loop runs it at the instant `now`. -/
def DECache.cleanup (d : DECache) (now : Int) : DECache := ⟨d.cache.cleanup now⟩

/-- One operation on a cache of the client with values of type `V`: a store (with the
instant of the clock and the order in which the eviction loop visits the map), a lookup,
an invalidation or a sweep. -/
inductive CacheOp (V : Type) where
  | set (id : GoString) (resp : V) (now : Int) (order : List (GoString × cacheEntry V))
  | get (id : GoString) (now : Int)
  | invalidate (id : GoString)
  | sweep (now : Int)

/-- The RUC cache after one operation. -/
def RUCCache.step (r : RUCCache) : CacheOp RespuestaConsultaRUC → RUCCache
  | .set ruc resp now order => r.SetRUC ruc resp now order
  | .get ruc now => (r.GetRUC ruc now).2
  | .invalidate ruc => r.InvalidateRUC ruc
  | .sweep now => r.cleanup now

/-- The DE cache after one operation. -/
def DECache.step (d : DECache) : CacheOp RespuestaConsultaDE → DECache
  | .set cdc resp now order => d.SetDE cdc resp now order
  | .get cdc now => (d.GetDE cdc now).2
  | .invalidate cdc => d.InvalidateDE cdc
  | .sweep now => d.cleanup now

/-- The RUC cache after a sequence of operations. -/
def RUCCache.run (r : RUCCache) (ops : List (CacheOp RespuestaConsultaRUC)) : RUCCache :=
  ops.foldl RUCCache.step r

/-- The DE cache after a sequence of operations. -/
def DECache.run (d : DECache) (ops : List (CacheOp RespuestaConsultaDE)) : DECache :=
  ops.foldl DECache.step d

/-- In a run of the RUC cache the order of every store is an order of the map the store
finds: a permutation of its pairs. -/
def RUCCache.ordersOfMap : RUCCache → List (CacheOp RespuestaConsultaRUC) → Prop
  | _, [] => True
  | r, op :: rest =>
    (match op with
      | .set _ _ _ order => order.Perm r.cache.entries
      | _ => True) ∧ RUCCache.ordersOfMap (r.step op) rest

/-- In a run of the DE cache the order of every store is an order of the map the store
finds: a permutation of its pairs. -/
def DECache.ordersOfMap : DECache → List (CacheOp RespuestaConsultaDE) → Prop
  | _, [] => True
  | d, op :: rest =>
    (match op with
      | .set _ _ _ order => order.Perm d.cache.entries
      | _ => True) ∧ DECache.ordersOfMap (d.step op) rest

/-- The state of a cache that the size bound rests on: the keys of the map are distinct,
none of them is the empty string, and the number of entries is at most `MaxSize`. -/
def Cache.bounded {V : Type} (c : Cache V) : Prop :=
  (c.entries.map Prod.fst).Nodup ∧ (∀ p ∈ c.entries, p.1 ≠ []) ∧
    (c.entries.length : Int) ≤ c.config.MaxSize

/-- The map `after` is the map `before` with exactly one pair removed, one whose
expiration is minimal among the stored ones, and the pair of `key` and `entry` stored
then. -/
def storedAfterEviction {V : Type} (before after : List (GoString × cacheEntry V))
    (key : GoString) (entry : cacheEntry V) : Prop :=
  ∃ victim ∈ before, (∀ q ∈ before, victim.2.expiration ≤ q.2.expiration) ∧
    (mapDelete victim.1 before).length + 1 = before.length ∧
    after = mapSet key entry (mapDelete victim.1 before)

/-- The configuration of a cache of capacity one. -/
def smallConfig : CacheConfig := { DefaultCacheConfig with MaxSize := 1 }

/-- A run of a RUC cache of capacity one: two stores, a lookup, a sweep and an
invalidation. -/
def sampleRUCOps : List (CacheOp RespuestaConsultaRUC) :=
  [ .set (str "1") (consultaRUCReply "0502") 100 [],
    .set (str "2") (consultaRUCReply "0502") 101
      [(str "ruc:1", ⟨consultaRUCReply "0502", 100 + 30 * minute, 0⟩)],
    .get (str "2") 102,
    .sweep 103,
    .invalidate (str "2") ]

/-! ## lote.go: the validations of `CrearLoteDE` -/

/-- The first stage of `CrearLoteDE` (`// 1. Validaciones`): the error it returns, nil
when the batch goes on to the signing loop. -/
def crearLoteValidaciones (params : LoteParams) : GoError :=
  if params.Documentos.length = 0 then .errorf (str "se requiere al menos un documento")
  else if (params.Documentos.length : Int) > MaxDocumentosLote then
    .errorf (str "máximo " ++ Itoa MaxDocumentosLote ++
      str " documentos por lote, recibidos: " ++ Itoa params.Documentos.length)
  else
    match firstOtherType params.TipoDocumento params.Documentos 0 with
    | some (i, doc) =>
      .errorf (str "documento " ++ Itoa i ++ str " tiene tipo " ++
        Itoa doc.DE.GTimb.ITiDE ++ str ", esperado " ++ Itoa params.TipoDocumento ++
        str " (todos deben ser del mismo tipo)")
    | none => .nil

/-- A batch of two documents of different types, declared as invoices. -/
def mixedBatch : LoteParams := ⟨[sampleDE "A" 1, sampleDE "B" 4], 1⟩

/-- A batch of two credit notes, declared as invoices. -/
def otherTypeBatch : LoteParams := ⟨[sampleDE "A" 5, sampleDE "B" 5], 1⟩

/-! ## encoding/hex -/

/-- The table `hextable` of package `encoding/hex`. -/
def hextable : GoString := str "0123456789abcdef"

/-- Go `hex.EncodeToString`: two digits of `hextable` for every byte, the high half
first. -/
def hexEncodeToString (src : GoString) : GoString :=
  src.flatMap (fun v => [hextable.getD (v.toNat / 16) 0, hextable.getD (v.toNat % 16) 0])

/-! ## models/de.go, models/de_fields.go: the document as package `kude` reads it

The structures keep the fields that `GenerateFromDE` reads.  A pointer to a group is an
`Option`; `none` is the nil pointer of a group that is absent. -/

/-- TgTimb: Datos del Timbrado. -/
structure models.TgTimb where
  ITiDE : Int
  DNumTim : Int
  DEst : GoString
  DPunExp : GoString
  DNumDoc : GoString
deriving DecidableEq

/-- TgOpeCom: Datos de la Operación Comercial. -/
structure models.TgOpeCom where
  CMoneOpe : GoString
deriving DecidableEq

/-- TgActEco: Actividad Económica del Emisor. -/
structure models.TgActEco where
  CActEco : GoString
  DDesActEco : GoString
deriving DecidableEq

/-- TgEmis: Datos del Emisor. -/
structure models.TgEmis where
  DRucEm : GoString
  DDVEmi : GoString
  DNomEmi : GoString
  DNomFanEmi : GoString
  DDirEmi : GoString
  DTelEmi : GoString
  DEmailE : GoString
  GActEcoList : List models.TgActEco
deriving DecidableEq

/-- TgDatRec: Datos del Receptor. -/
structure models.TgDatRec where
  DRucRec : GoString
  DNomRec : GoString
  DDirRec : GoString
  DTelRec : GoString
  DEmailRec : GoString
deriving DecidableEq

/-- TdDatGralOpe: Datos Generales de la Operación; `GOpeCom` is a pointer
(`gOpeCom,omitempty`). -/
structure models.TdDatGralOpe where
  DFeEmiDE : GoString
  GOpeCom : Option models.TgOpeCom
  GEmis : models.TgEmis
  GDatRec : models.TgDatRec
deriving DecidableEq

/-- TgValorRestaItem: Descuentos y Anticipos del Item. -/
structure models.TgValorRestaItem where
  DTotOpeItem : Nat
deriving DecidableEq

/-- TgValorItem: Valores del Item. -/
structure models.TgValorItem where
  DPUniProSer : Nat
  GValorRestaItem : models.TgValorRestaItem
deriving DecidableEq

/-- TgCamIVA: Campos del IVA por Item. -/
structure models.TgCamIVA where
  IAfecIVA : Int
  DTasaIVA : Nat
deriving DecidableEq

/-- TgCamItem: Descripción del Item; `GCamIVA` is a pointer (`gCamIVA,omitempty`). -/
structure models.TgCamItem where
  DCodInt : GoString
  DDesProSer : GoString
  DDesUniMed : GoString
  DCantProSer : Nat
  GValorItem : models.TgValorItem
  GCamIVA : Option models.TgCamIVA
deriving DecidableEq

/-- TgDtipDE: Campos Específicos por Tipo de Documento. -/
structure models.TgDtipDE where
  GCamItemList : List models.TgCamItem
deriving DecidableEq

/-- TgTotSub: Subtotales y Totales. -/
structure models.TgTotSub where
  DSubExe : Nat
  DSub5 : Nat
  DSub10 : Nat
  DTotGralOpe : Nat
  DLiqTotIVA5 : Nat
  DLiqTotIVA10 : Nat
  DTotIVA : Nat
deriving DecidableEq

/-- DE; `GTotSub` is a pointer (`gTotSub,omitempty`). -/
structure models.DE where
  Id : GoString
  GTimb : models.TgTimb
  GDatGralOpe : models.TdDatGralOpe
  GDtipDE : models.TgDtipDE
  GTotSub : Option models.TgTotSub
deriving DecidableEq

/-- DocumentoElectronico, the root `rDE`. -/
structure models.DocumentoElectronico where
  DE : models.DE
deriving DecidableEq

/-- TiAfecIVA: gravado IVA. -/
def TiAfecIVA_GravadoIVA : Int := 1

/-- TiAfecIVA: exonerado. -/
def TiAfecIVA_Exonerado : Int := 2

/-- TiAfecIVA: exento. -/
def TiAfecIVA_Exento : Int := 3

/-- TiAfecIVA: gravado parcial. -/
def TiAfecIVA_GravadoParcial : Int := 4

/-- The bits of the `float64` 5. -/
def float5 : Nat := 0x4014000000000000

/-! ## kude.go -/

/-- KuDEConfig contiene la configuración para generar el KuDE. -/
structure KuDEConfig where
  BaseURLQR : GoString
  CSC : GoString
  IdCSC : GoString
  LogoEmisorPath : GoString
  LogoEmisorBase64 : GoString
deriving DecidableEq

/-- KuDEItem representa un item del documento. -/
structure KuDEItem where
  Codigo : GoString
  Descripcion : GoString
  Cantidad : Nat
  Unidad : GoString
  PrecioUnit : Nat
  Descuento : Nat
  Exenta : Nat
  IVA5 : Nat
  IVA10 : Nat
deriving DecidableEq

/-- KuDEData contiene todos los datos necesarios para generar el KuDE. -/
structure KuDEData where
  CDC : GoString
  TipoDocumento : GoString
  NumeroTimbrado : GoString
  Establecimiento : GoString
  PuntoExpedicion : GoString
  NumeroDocumento : GoString
  FechaEmision : Int
  FechaFirma : Int
  RUCEmisor : GoString
  DVEmisor : GoString
  NombreEmisor : GoString
  NombreFantasia : GoString
  DireccionEmisor : GoString
  TelefonoEmisor : GoString
  EmailEmisor : GoString
  RUCReceptor : GoString
  DVReceptor : GoString
  NombreReceptor : GoString
  DireccionReceptor : GoString
  TelefonoReceptor : GoString
  EmailReceptor : GoString
  Items : List KuDEItem
  SubtotalExentas : Nat
  SubtotalIVA5 : Nat
  SubtotalIVA10 : Nat
  TotalIVA5 : Nat
  TotalIVA10 : Nat
  TotalIVA : Nat
  TotalGeneral : Nat
  Moneda : GoString
  MontoLetras : GoString
  CondicionPago : GoString
  FormaPago : GoString
  InformacionInteres : GoString
  ActividadEconomica : GoString
  URLCompleta : GoString
  QRCodeBase64 : GoString
deriving DecidableEq

/-- KuDEGenerator genera representaciones gráficas del DE. -/
structure KuDEGenerator where
  config : KuDEConfig
deriving DecidableEq

/-- NewKuDEGenerator crea un nuevo generador de KuDE. -/
def NewKuDEGenerator (config : KuDEConfig) : KuDEGenerator := ⟨config⟩

/-- GenerateQRURL genera la URL completa para el código QR según especificación SIFEN. -/
def KuDEGenerator.GenerateQRURL (fmt : Formats) (g : KuDEGenerator) (data : KuDEData) :
    GoString :=
  let fechaEmision := fmt.Format data.FechaEmision
  -- El hash se calcula sobre los parámetros + CSC
  let paramsForHash := str "nVersion=150&Id=" ++ data.CDC ++ str "&dFeEmiDE=" ++
    fechaEmision ++ str "&dRucRec=" ++ data.RUCReceptor ++ str "&dTotGralOpe=" ++
    fmt.Float2 data.TotalGeneral ++ str "&dTotIVA=" ++ fmt.Float2 data.TotalIVA ++
    str "&cItems=" ++ Itoa data.Items.length ++ str "&DigestValue=&IdCSC=" ++ g.config.IdCSC
  -- Calcular SHA-256 del string + CSC
  let hashInput := paramsForHash ++ g.config.CSC
  let hash := fmt.Sum256 hashInput
  let hashHex := hexEncodeToString hash
  -- URL completa
  g.config.BaseURLQR ++ paramsForHash ++ str "&cHashQR=" ++ hashHex

/-- The table `unidades` of `convertirNumero`. -/
def unidades : List GoString :=
  [str "", str "UN", str "DOS", str "TRES", str "CUATRO", str "CINCO", str "SEIS",
    str "SIETE", str "OCHO", str "NUEVE"]

/-- The table `decenas` of `convertirNumero`. -/
def decenas : List GoString :=
  [str "", str "DIEZ", str "VEINTE", str "TREINTA", str "CUARENTA", str "CINCUENTA",
    str "SESENTA", str "SETENTA", str "OCHENTA", str "NOVENTA"]

/-- The table `dieces` of `convertirNumero`. -/
def dieces : List GoString :=
  [str "DIEZ", str "ONCE", str "DOCE", str "TRECE", str "CATORCE", str "QUINCE",
    str "DIECISEIS", str "DIECISIETE", str "DIECIOCHO", str "DIECINUEVE"]

/-- The table `centenas` of `convertirNumero`. -/
def centenas : List GoString :=
  [str "", str "CIENTO", str "DOSCIENTOS", str "TRESCIENTOS", str "CUATROCIENTOS",
    str "QUINIENTOS", str "SEISCIENTOS", str "SETECIENTOS", str "OCHOCIENTOS",
    str "NOVECIENTOS"]

/-- Indexing `table[i]` of one of the four tables; every index `convertirNumero` uses
lies in 0..9. -/
def tableAt (table : List GoString) (i : Int) : GoString := table.getD i.toNat []

/-- The function `convertirNumero` on an `int64`; the first argument bounds the depth of
the recursion, and `none` is a recursion that is deeper. -/
def convertirNumero : Nat → Int → Option GoString
  | 0, _ => none
  | fuel + 1, n =>
    if n = 0 then some (str "CERO")
    else if n < 0 then
      (convertirNumero fuel (wrapInt64 (-n))).map (fun rest => str "MENOS " ++ rest)
    else if n < 10 then some (tableAt unidades n)
    else if n < 20 then some (tableAt dieces (n - 10))
    else if n < 100 then
      let d := n / 10
      let u := n % 10
      if u = 0 then some (tableAt decenas d)
      else if d = 2 then some (str "VEINTI" ++ tableAt unidades u)
      else some (tableAt decenas d ++ str " Y " ++ tableAt unidades u)
    else if n < 1000 then
      let c := n / 100
      let r := n % 100
      if n = 100 then some (str "CIEN")
      else (convertirNumero fuel r).map (fun rest => tableAt centenas c ++ str " " ++ rest)
    else if n < 1000000 then
      let m := n / 1000
      let r := n % 1000
      if m = 1 then (convertirNumero fuel r).map (fun rest => str "MIL " ++ rest)
      else
        match convertirNumero fuel m, convertirNumero fuel r with
        | some miles, some rest => some (miles ++ str " MIL " ++ rest)
        | _, _ => none
    else if n < 1000000000000 then
      let m := n / 1000000
      let r := n % 1000000
      if m = 1 then (convertirNumero fuel r).map (fun rest => str "UN MILLON " ++ rest)
      else
        match convertirNumero fuel m, convertirNumero fuel r with
        | some millones, some rest => some (millones ++ str " MILLONES " ++ rest)
        | _, _ => none
    else some (Itoa n)

/-- The depth allowed to `convertirNumero`: the recursion of every `int64` other than the
least one ends within it, and the recursion of the least one, whose negation is itself,
does not end. -/
def convertirDepth : Nat := 8

/-- The function `numeroALetras`; `none` is a call whose recursion does not end. -/
def numeroALetras (fmt : Formats) (n : Nat) (moneda : GoString) : Option GoString :=
  let entero := fmt.Int64 n
  match convertirNumero convertirDepth entero with
  | none => none
  | some letras =>
    let monedaNombre := if moneda = str "USD" then str "DOLARES" else str "GUARANIES"
    some (letras ++ str " " ++ monedaNombre)

/-- How a call of `GenerateFromDE` ends: it returns a value, it panics on the dereference
of a nil pointer, or it does not return. -/
inductive Ending (α : Type) where
  | returns (value : α)
  | nilDereference
  | noReturn
deriving DecidableEq

/-- The item of the KuDE for one item of the document (the body of the loop over
`GCamItemList`). -/
def kudeItemOf (item : models.TgCamItem) : KuDEItem :=
  let kudeItem : KuDEItem :=
    { Codigo := item.DCodInt
      Descripcion := item.DDesProSer
      Cantidad := item.DCantProSer
      Unidad := item.DDesUniMed
      PrecioUnit := item.GValorItem.DPUniProSer
      Descuento := 0
      Exenta := 0
      IVA5 := 0
      IVA10 := 0 }
  -- Calcular por afectación IVA
  match item.GCamIVA with
  | some gCamIVA =>
    if gCamIVA.IAfecIVA = TiAfecIVA_Exento ∨ gCamIVA.IAfecIVA = TiAfecIVA_Exonerado then
      { kudeItem with Exenta := item.GValorItem.GValorRestaItem.DTotOpeItem }
    else if gCamIVA.DTasaIVA = float5 then
      { kudeItem with IVA5 := item.GValorItem.GValorRestaItem.DTotOpeItem }
    else { kudeItem with IVA10 := item.GValorItem.GValorRestaItem.DTotOpeItem }
  | none => kudeItem

/-- GenerateFromDE genera KuDEData desde un DocumentoElectronico; `now` is the reading of
`time.Now()`.  The composite literal reads `GOpeCom.CMoneOpe` through the pointer
`GOpeCom`. -/
def KuDEGenerator.GenerateFromDE (fmt : Formats) (g : KuDEGenerator) (now : Int)
    (de : models.DocumentoElectronico) : Ending KuDEData :=
  match de.DE.GDatGralOpe.GOpeCom with
  | none => .nilDereference
  | some gOpeCom =>
    let data : KuDEData :=
      { CDC := de.DE.Id
        TipoDocumento := TTiDE_String de.DE.GTimb.ITiDE
        NumeroTimbrado := Itoa de.DE.GTimb.DNumTim
        Establecimiento := de.DE.GTimb.DEst
        PuntoExpedicion := de.DE.GTimb.DPunExp
        NumeroDocumento := de.DE.GTimb.DNumDoc
        FechaEmision := now
        FechaFirma := zeroTime
        -- Emisor
        RUCEmisor := de.DE.GDatGralOpe.GEmis.DRucEm
        DVEmisor := de.DE.GDatGralOpe.GEmis.DDVEmi
        NombreEmisor := de.DE.GDatGralOpe.GEmis.DNomEmi
        NombreFantasia := de.DE.GDatGralOpe.GEmis.DNomFanEmi
        DireccionEmisor := de.DE.GDatGralOpe.GEmis.DDirEmi
        TelefonoEmisor := de.DE.GDatGralOpe.GEmis.DTelEmi
        EmailEmisor := de.DE.GDatGralOpe.GEmis.DEmailE
        -- Receptor
        RUCReceptor := de.DE.GDatGralOpe.GDatRec.DRucRec
        DVReceptor := []
        NombreReceptor := de.DE.GDatGralOpe.GDatRec.DNomRec
        DireccionReceptor := de.DE.GDatGralOpe.GDatRec.DDirRec
        TelefonoReceptor := de.DE.GDatGralOpe.GDatRec.DTelRec
        EmailReceptor := de.DE.GDatGralOpe.GDatRec.DEmailRec
        Items := []
        SubtotalExentas := 0
        SubtotalIVA5 := 0
        SubtotalIVA10 := 0
        TotalIVA5 := 0
        TotalIVA10 := 0
        TotalIVA := 0
        TotalGeneral := 0
        Moneda := gOpeCom.CMoneOpe
        MontoLetras := []
        CondicionPago := []
        FormaPago := []
        InformacionInteres := str ""
        ActividadEconomica := []
        URLCompleta := []
        QRCodeBase64 := [] }
    -- Actividad Económica
    let data :=
      match de.DE.GDatGralOpe.GEmis.GActEcoList with
      | first :: _ => { data with ActividadEconomica := first.DDesActEco }
      | [] => data
    -- Items
    let data := { data with Items := data.Items ++ de.DE.GDtipDE.GCamItemList.map kudeItemOf }
    -- Totales
    let data :=
      match de.DE.GTotSub with
      | some gTotSub =>
        { data with
          SubtotalExentas := gTotSub.DSubExe
          SubtotalIVA5 := gTotSub.DSub5
          SubtotalIVA10 := gTotSub.DSub10
          TotalIVA5 := gTotSub.DLiqTotIVA5
          TotalIVA10 := gTotSub.DLiqTotIVA10
          TotalIVA := gTotSub.DTotIVA
          TotalGeneral := gTotSub.DTotGralOpe }
      | none => data
    -- Monto en Letras
    match numeroALetras fmt data.TotalGeneral data.Moneda with
    | none => .noReturn
    | some letras =>
      let data := { data with MontoLetras := letras }
      -- Generar URL QR
      .returns { data with URLCompleta := g.GenerateQRURL fmt data }

/-- The document of `createDummyDE` (integration test) for the identifier `id`: timbrado,
issuer with one economic activity and receiver are set; `GOpeCom`, the items and `GTotSub`
are not. -/
def createDummyDE (id : GoString) : models.DocumentoElectronico :=
  { DE :=
    { Id := id
      GTimb :=
        { ITiDE := TTiDE_FacturaElectronica
          DNumTim := 12560156
          DEst := str "001"
          DPunExp := str "001"
          DNumDoc := str "0000001" }
      GDatGralOpe :=
        { DFeEmiDE := str "2024-01-15T10:30:00"
          GOpeCom := none
          GEmis :=
            { DRucEm := str "80000001"
              DDVEmi := str "7"
              DNomEmi := str "Empresa de Prueba S.A."
              DNomFanEmi := []
              DDirEmi := str "Calle Falsa 123"
              DTelEmi := str "021123456"
              DEmailE := str "test@empresa.com.py"
              GActEcoList := [⟨str "47119", str "COMERCIO AL POR MENOR"⟩] }
          GDatRec :=
            { DRucRec := []
              DNomRec := str "Consumidor Final"
              DDirRec := []
              DTelRec := []
              DEmailRec := [] } }
      GDtipDE := { GCamItemList := [] }
      GTotSub := none } }

/-- The document of `createDummyDE` with the group `gOpeCom` present (guaraníes); the
items and `GTotSub` stay absent. -/
def dummyWithOpeCom (id : GoString) : models.DocumentoElectronico :=
  { createDummyDE id with
    DE := { (createDummyDE id).DE with
      GDatGralOpe := { (createDummyDE id).DE.GDatGralOpe with
        GOpeCom := some ⟨str "PYG"⟩ } } }

/-- A generator with the configuration of the sample client. -/
def sampleGenerator : KuDEGenerator :=
  NewKuDEGenerator
    { BaseURLQR := testBaseURL
      CSC := str "EFGH0000000000000000000000000000"
      IdCSC := str "0002"
      LogoEmisorPath := []
      LogoEmisorBase64 := [] }

/-! ## Reference definitions of the statements about the QR addresses -/

/-- The parameters that `KuDEGenerator.GenerateQRURL` writes before the hash, with their
values, in the order of the format string. -/
def kudeQRParameters (fmt : Formats) (g : KuDEGenerator) (data : KuDEData) :
    List (GoString × GoString) :=
  [ (str "nVersion", str "150"),
    (str "Id", data.CDC),
    (str "dFeEmiDE", fmt.Format data.FechaEmision),
    (str "dRucRec", data.RUCReceptor),
    (str "dTotGralOpe", fmt.Float2 data.TotalGeneral),
    (str "dTotIVA", fmt.Float2 data.TotalIVA),
    (str "cItems", Itoa data.Items.length),
    (str "DigestValue", []),
    (str "IdCSC", g.config.IdCSC) ]

/-- The parameters that `util.GenerateQRURL` writes, with their values, in the order of
the format string. -/
def utilQRParameters (fmt : Formats) (params : QRParams) : List (GoString × GoString) :=
  [ (str "nVersion", str "150"),
    (str "Id", params.CDC),
    (str "dFeEmiDE", fmt.Format params.FechaEmision),
    (str "dRucRec", []),
    (str "dTotGralOpe", fmt.Float2 params.MontoTotal),
    (str "dTotIVA", str "0"),
    (str "cItems", Itoa params.NroItem),
    (str "DigesValue", []),
    (str "IdCSC", params.CSCid) ]

/-- Data of a KuDE with an identifier, a receiver, totals and two items, for the closed
statements. -/
def sampleKuDEData : KuDEData :=
  { CDC := sampleCDC
    TipoDocumento := TTiDE_String TTiDE_FacturaElectronica
    NumeroTimbrado := str "12560156"
    Establecimiento := str "001"
    PuntoExpedicion := str "001"
    NumeroDocumento := str "0000001"
    FechaEmision := 1705314600000000000
    FechaFirma := zeroTime
    RUCEmisor := str "80000001"
    DVEmisor := str "7"
    NombreEmisor := str "Empresa de Prueba S.A."
    NombreFantasia := []
    DireccionEmisor := str "Calle Falsa 123"
    TelefonoEmisor := str "021123456"
    EmailEmisor := str "test@empresa.com.py"
    RUCReceptor := str "80069563"
    DVReceptor := str "1"
    NombreReceptor := str "Consumidor Final"
    DireccionReceptor := []
    TelefonoReceptor := []
    EmailReceptor := []
    Items := [⟨str "A1", str "Producto", 0, str "UNI", 0, 0, 0, 0, 0⟩,
      ⟨str "A2", str "Servicio", 0, str "UNI", 0, 0, 0, 0, 0⟩]
    SubtotalExentas := 0
    SubtotalIVA5 := 0
    SubtotalIVA10 := float150000
    TotalIVA5 := 0
    TotalIVA10 := 0
    TotalIVA := 0
    TotalGeneral := float150000
    Moneda := str "PYG"
    MontoLetras := []
    CondicionPago := []
    FormaPago := []
    InformacionInteres := []
    ActividadEconomica := []
    URLCompleta := []
    QRCodeBase64 := [] }

/-! ## Bytes and decimal text -/

theorem ofNat_toNat_byte (b : UInt8) : UInt8.ofNat b.toNat = b := by
  cases b with
  | mk v =>
    apply UInt8.ext
    simp [UInt8.ofNat, UInt8.toNat, Fin.ofNat, Nat.mod_eq_of_lt v.isLt]

set_option maxRecDepth 100000 in
theorem atoiByte_ofNat : ∀ n, n < 256 → atoiByte (UInt8.ofNat n) = digitVal (UInt8.ofNat n) := by
  decide

theorem atoiByte_eq (b : UInt8) : atoiByte b = digitVal b := by
  have h := atoiByte_ofNat b.toNat b.toNat_lt
  rwa [ofNat_toNat_byte] at h

theorem decimalAux_length (fuel : Nat) : ∀ (k n : Nat) (acc : GoString),
    n < 10 ^ (k + 1) → n < fuel →
      acc.length + 1 ≤ (decimalAux fuel n acc).length ∧
      (decimalAux fuel n acc).length ≤ acc.length + (k + 1) := by
  induction fuel with
  | zero => intro k n acc _ h; omega
  | succ fuel ih =>
    intro k n acc hk hf
    unfold decimalAux
    split
    · simp
    · rename_i hne
      cases k with
      | zero => omega
      | succ k =>
        have h1 : n / 10 < 10 ^ (k + 1) := by
          rw [Nat.div_lt_iff_lt_mul (by decide)]
          calc n < 10 ^ (k + 1 + 1) := hk
            _ = 10 ^ (k + 1) * 10 := by ring
        have h2 : n / 10 < fuel := by omega
        have := ih k (n / 10) (UInt8.ofNat (48 + n % 10) :: acc) h1 h2
        simp only [List.length_cons] at this
        omega

theorem decimal_length_pos (n : Nat) : 1 ≤ (decimal n).length := by
  have h := decimalAux_length (n + 1) n n [] (Nat.lt_of_lt_of_le (Nat.lt_pow_self (by decide) n) (Nat.pow_le_pow_right (by decide) (by omega))) (by omega)
  simpa [decimal] using h.1

theorem decimal_length_le (n k : Nat) (h : n < 10 ^ (k + 1)) : (decimal n).length ≤ k + 1 := by
  have h := decimalAux_length (n + 1) k n [] h (by omega)
  simpa [decimal] using h.2

/-! ## The check-digit loops against the Module-11 reference -/

theorem module11Result_eq (sum : Int) : module11Result sum = module11 sum := by
  unfold module11Result module11
  by_cases h1 : 11 - sum % 11 = 10
  · simp [h1]
  · by_cases h2 : 11 - sum % 11 = 11 <;> simp [h1, h2]

theorem module11Result_range (sum : Int) :
    0 ≤ module11Result sum ∧ module11Result sum ≤ 9 := by
  have h0 : 0 ≤ sum % 11 := Int.emod_nonneg _ (by decide)
  have h1 : sum % 11 < 11 := Int.emod_lt_of_pos _ (by decide)
  unfold module11Result
  simp only
  split
  · omega
  · split <;> omega

theorem cdcLoop_eq (l : GoString) : ∀ (sum : Int) (wi : Nat),
    cdcLoop l sum wi =
      sum + weightedSum (fun i => cdcWeights.getD (i % 6) 0) (l.filterMap digitVal) wi := by
  induction l with
  | nil => intro sum wi; simp [cdcLoop, weightedSum]
  | cons b rest ih =>
    intro sum wi
    unfold cdcLoop
    rw [atoiByte_eq]
    cases hb : digitVal b with
    | none => simp [List.filterMap_cons, hb, ih]
    | some d =>
      have hw : cdcWeights.get ⟨wi % cdcWeights.length, Nat.mod_lt _ (by decide)⟩ =
          cdcWeights.getD (wi % 6) 0 := by
        have h6 : wi % 6 < cdcWeights.length := Nat.mod_lt _ (by decide)
        rw [List.getD_eq_getElem _ _ h6]
        simp [cdcWeights]
      simp only [List.filterMap_cons, hb, ih, weightedSum, List.enumFrom_cons, List.map_cons,
        List.sum_cons]
      rw [hw]
      ring

theorem rucLoop_eq (l : GoString) : ∀ (sum : Int) (wi : Nat),
    rucLoop l sum wi =
      sum + weightedSum (fun i => rucWeights.getD i 0) (l.filterMap digitVal) wi := by
  induction l with
  | nil => intro sum wi; simp [rucLoop, weightedSum]
  | cons b rest ih =>
    intro sum wi
    unfold rucLoop
    rw [atoiByte_eq]
    cases hb : digitVal b with
    | none => simp [List.filterMap_cons, hb, ih]
    | some d =>
      simp only [List.filterMap_cons, hb, ih, weightedSum, List.enumFrom_cons, List.map_cons,
        List.sum_cons]
      by_cases h : wi < rucWeights.length
      · rw [dif_pos h, List.getD_eq_getElem _ _ h]
        simp only [List.get_eq_getElem]
        ring
      · rw [dif_neg h, List.getD_eq_default _ _ (by omega)]
        ring

theorem weightedSum_take (l : List Int) : ∀ (wi : Nat),
    weightedSum (fun i => rucWeights.getD i 0) l wi =
      weightedSum (fun i => rucWeights.getD i 0) (l.take (9 - wi)) wi := by
  induction l with
  | nil => intro wi; simp
  | cons d rest ih =>
    intro wi
    by_cases h : wi < 9
    · have e : 9 - wi = (9 - (wi + 1)) + 1 := by omega
      rw [e, List.take_succ_cons]
      simp only [weightedSum, List.enumFrom_cons, List.map_cons, List.sum_cons]
      have := ih (wi + 1)
      simp only [weightedSum] at this
      rw [this]
    · have e : 9 - wi = 0 := by omega
      rw [e, List.take_zero]
      simp only [weightedSum, List.enumFrom_cons, List.map_cons, List.sum_cons,
        List.enumFrom_nil, List.map_nil, List.sum_nil]
      have h9 : rucWeights.length ≤ wi := by simp [rucWeights]; omega
      rw [List.getD_eq_default _ _ h9]
      have := ih (wi + 1)
      have e2 : 9 - (wi + 1) = 0 := by omega
      simp only [weightedSum, e2, List.take_zero, List.enumFrom_nil, List.map_nil,
        List.sum_nil] at this
      rw [this]; ring

theorem CalculateCDCVerifyDigit_eq (s : GoString) :
    CalculateCDCVerifyDigit s = module11CDC s := by
  unfold CalculateCDCVerifyDigit module11CDC digitsRightToLeft
  rw [module11Result_eq, cdcLoop_eq, zero_add]

theorem CalculateRUCVerifyDigit_eq (s : GoString) :
    CalculateRUCVerifyDigit s = module11RUC s := by
  unfold CalculateRUCVerifyDigit module11RUC digitsRightToLeft
  rw [module11Result_eq, rucLoop_eq, zero_add, weightedSum_take]

/-! ## Padding, decimal text and date layout: lengths -/

theorem runeString_zero : runeString 48 = [48] := by decide

theorem stringsRepeat_single (b : UInt8) (k : Nat) :
    stringsRepeat [b] k = List.replicate k b := by
  induction k with
  | zero => rfl
  | succ k ih =>
    simp only [stringsRepeat] at ih
    simp [stringsRepeat, List.replicate_succ, ih]

theorem LeftPad_zero (s : GoString) (n : Nat) :
    LeftPad s 48 n = List.replicate (n - s.length) 48 ++ s := by
  unfold LeftPad
  split
  · rename_i h
    have : n - s.length = 0 := by omega
    simp [this]
  · rename_i h
    have : ((n : Int) - (s.length : Int)).toNat = n - s.length := by omega
    rw [runeString_zero, stringsRepeat_single, this]

theorem LeftPad_zero_length (s : GoString) (n : Nat) :
    (LeftPad s 48 n).length = max s.length n := by
  rw [LeftPad_zero]; simp; omega

theorem Itoa_digit : ∀ n : Nat, n < 10 → Itoa (n : Int) = [UInt8.ofNat (48 + n)] := by decide

theorem Itoa_length_nonneg (x : Int) (k : Nat) (h0 : 0 ≤ x) (hk : x < 10 ^ (k + 1)) :
    1 ≤ (Itoa x).length ∧ (Itoa x).length ≤ k + 1 := by
  have hx : ¬ x < 0 := by omega
  have hn : x.natAbs < 10 ^ (k + 1) := by
    have : ((x.natAbs : Nat) : Int) < ((10 ^ (k + 1) : Nat) : Int) := by
      rw [Int.natAbs_of_nonneg h0]; push_cast; exact hk
    exact_mod_cast this
  simp only [Itoa, hx, if_false]
  exact ⟨decimal_length_pos _, decimal_length_le _ _ hn⟩

theorem appendInt_length (x : Int) (k : Nat) (h0 : 0 ≤ x) (hk : x < 10 ^ (k + 1)) :
    (appendInt x (k + 1)).length = k + 1 := by
  have hx : ¬ x < 0 := by omega
  have hn : x.natAbs < 10 ^ (k + 1) := by
    have : ((x.natAbs : Nat) : Int) < ((10 ^ (k + 1) : Nat) : Int) := by
      rw [Int.natAbs_of_nonneg h0]; push_cast; exact hk
    exact_mod_cast this
  have h1 := decimal_length_le _ _ hn
  simp only [appendInt, hx, if_false, List.nil_append, List.length_append,
    List.length_replicate]
  omega

theorem Format20060102_length (t : Time) (h0 : 0 ≤ t.year) (h1 : t.year ≤ 9999) :
    t.Format20060102.length = 8 := by
  have hy : (appendInt t.year 4).length = 4 := appendInt_length t.year 3 h0 (by norm_num; omega)
  have hm : (appendInt (t.month : Int) 2).length = 2 := appendInt_length (t.month : Int) 1 (by omega) (by have := t.month_ok; norm_num; omega)
  have hd : (appendInt (t.day : Int) 2).length = 2 := appendInt_length (t.day : Int) 1 (by omega) (by have := t.day_ok; norm_num; omega)
  simp only [Time.Format20060102, List.length_append]
  omega

theorem GenerateCDC_of_accepted (p : CDCParams) (h : widthsAccepted p) :
    GenerateCDC p =
      (cdcWithoutDV p ++ Itoa (CalculateCDCVerifyDigit (cdcWithoutDV p)), none) := by
  obtain ⟨h1, h2, h3, h4, h5⟩ := h
  simp [GenerateCDC, cdcWithoutDV, h1, h2, h3, h4, h5]

theorem GenerateCDC_of_rejected (p : CDCParams) (h : ¬ widthsAccepted p) :
    (GenerateCDC p).1 = [] ∧ (GenerateCDC p).2 ≠ none := by
  unfold GenerateCDC
  split
  · simp
  · split
    · simp
    · split
      · simp
      · split
        · simp
        · split
          · simp
          · exfalso; apply h; unfold widthsAccepted
            refine ⟨by assumption, ?_, ?_, ?_, ?_⟩ <;> omega

theorem Itoa_verifyDigit (s : GoString) :
    Itoa (CalculateCDCVerifyDigit s) =
      [UInt8.ofNat (48 + (CalculateCDCVerifyDigit s).toNat)] := by
  have h := module11Result_range (cdcLoop s.reverse 0 0)
  have e : CalculateCDCVerifyDigit s = ((CalculateCDCVerifyDigit s).toNat : Int) := by
    unfold CalculateCDCVerifyDigit; omega
  have hlt : (CalculateCDCVerifyDigit s).toNat < 10 := by
    unfold CalculateCDCVerifyDigit; omega
  conv_lhs => rw [e]
  exact Itoa_digit _ hlt

/-! ## RUC validation: auxiliary facts -/

theorem parseDigits_of_allDigits (s : GoString) : ∀ (n : Nat), allDigits s →
    parseDigits s n = some (s.foldl (fun n b => n * 10 + (b.toNat - 48)) n) := by
  induction s with
  | nil => intro n _; rfl
  | cons b rest ih =>
    intro n h
    have hb : isDigit b = true := h b (List.mem_cons_self _ _)
    have hr : allDigits rest := fun x hx => h x (List.mem_cons_of_mem _ hx)
    simp [parseDigits, hb, ih _ hr]

theorem isDigit_not_sign (b : UInt8) (h : isDigit b = true) : b ≠ 45 ∧ b ≠ 43 := by
  simp only [isDigit, Bool.and_eq_true, decide_eq_true_eq] at h
  constructor <;> intro e <;> rw [e] at h <;> revert h <;> decide

theorem Atoi_of_allDigits (s : GoString) (hne : s ≠ []) (h : allDigits s) :
    Atoi s = if decimalValue s < 2 ^ 63 then some (decimalValue s : Int) else none := by
  cases s with
  | nil => exact absurd rfl hne
  | cons c rest =>
    have hc := isDigit_not_sign c (h c (List.mem_cons_self _ _))
    simp only [Atoi, hc.1, hc.2, or_self, if_false, decide_False, reduceCtorEq,
      parseDigits_of_allDigits _ 0 h, Bool.false_eq_true]
    rfl

theorem stringsSplit_append (sep : UInt8) (s rest : GoString) (h : ∀ b ∈ s, b ≠ sep) :
    stringsSplit sep (s ++ sep :: rest) = s :: stringsSplit sep rest := by
  induction s with
  | nil => simp [stringsSplit]
  | cons b t ih =>
    have hb : b ≠ sep := h b (List.mem_cons_self _ _)
    have ht : ∀ x ∈ t, x ≠ sep := fun x hx => h x (List.mem_cons_of_mem _ hx)
    simp [stringsSplit, hb, ih ht]

theorem stringsSplit_none (sep : UInt8) (s : GoString) (h : ∀ b ∈ s, b ≠ sep) :
    stringsSplit sep s = [s] := by
  induction s with
  | nil => rfl
  | cons b t ih =>
    have hb : b ≠ sep := h b (List.mem_cons_self _ _)
    have ht : ∀ x ∈ t, x ≠ sep := fun x hx => h x (List.mem_cons_of_mem _ hx)
    simp [stringsSplit, hb, ih ht]

theorem allDigits_no_hyphen (s : GoString) (h : allDigits s) : ∀ b ∈ s, b ≠ 45 :=
  fun b hb => (isDigit_not_sign b (h b hb)).1

theorem stringsSplit_base_dv (base dv : GoString) (hb : allDigits base) (hd : allDigits dv) :
    stringsSplit 45 (base ++ str "-" ++ dv) = [base, dv] := by
  have e : base ++ str "-" ++ dv = base ++ 45 :: dv := by
    have : str "-" = [45] := by decide
    simp [this]
  rw [e, stringsSplit_append _ _ _ (allDigits_no_hyphen _ hb),
    stringsSplit_none _ _ (allDigits_no_hyphen _ hd)]

theorem digitVal_of_isDigit (b : UInt8) (h : isDigit b = true) :
    digitVal b = some ((b.toNat : Int) - 48) := by
  simp [digitVal, h]

theorem filterMap_digitVal_of_allDigits (s : GoString) (h : allDigits s) :
    s.filterMap digitVal = s.map (fun b => (b.toNat : Int) - 48) := by
  induction s with
  | nil => rfl
  | cons b t ih =>
    have hb : isDigit b = true := h b (List.mem_cons_self _ _)
    have ht : allDigits t := fun x hx => h x (List.mem_cons_of_mem _ hx)
    simp [List.filterMap_cons, digitVal_of_isDigit b hb, ih ht]

theorem digitsRightToLeft_of_allDigits (s : GoString) (h : allDigits s) :
    digitsRightToLeft s = s.reverse.map (fun b => (b.toNat : Int) - 48) := by
  unfold digitsRightToLeft
  exact filterMap_digitVal_of_allDigits _ (fun b hb => h b (List.mem_reverse.mp hb))

theorem module11RUC_prepend (p b : GoString) (hb : allDigits b) (h9 : 9 ≤ b.length) :
    module11RUC (p ++ b) = module11RUC b := by
  have hlen : 9 ≤ (digitsRightToLeft b).length := by
    rw [digitsRightToLeft_of_allDigits b hb]; simpa using h9
  unfold module11RUC
  have e : digitsRightToLeft (p ++ b) = digitsRightToLeft b ++ digitsRightToLeft p := by
    simp [digitsRightToLeft, List.reverse_append, List.filterMap_append]
  rw [e, List.take_append_of_le_length hlen]

/-! ## Claims about the CDC -/

/-- Claim C1: a bundle whose fields have their contractual widths is accepted by
`GenerateCDC`, the CDC has 44 bytes, and its last byte is the decimal digit
(`'0' + d`, with `d` in 0..9) that `CalculateCDCVerifyDigit` returns on the first 43. -/
theorem GenerateCDC_contract (p : CDCParams)
    (hTipo : 0 ≤ p.TipoDocumento ∧ p.TipoDocumento ≤ 99)
    (hRUC : p.RUC ≠ [] ∧ p.RUC.length ≤ 8)
    (hDV : p.DigitoVerificador.length ≤ 1)
    (hEst : p.Establecimiento.length = 3)
    (hPun : p.PuntoExpedicion.length = 3)
    (hNum : p.NumeroDocumento.length = 7)
    (hCod : p.CodigoSeguridad.length = 9)
    (hContrib : 0 ≤ p.TipoContribuyente ∧ p.TipoContribuyente ≤ 9)
    (hEmi : 0 ≤ p.TipoEmision ∧ p.TipoEmision ≤ 9)
    (hYear : 0 ≤ p.FechaEmision.year ∧ p.FechaEmision.year ≤ 9999) :
    (GenerateCDC p).2 = none ∧ (GenerateCDC p).1.length = 44 ∧
      0 ≤ CalculateCDCVerifyDigit ((GenerateCDC p).1.take 43) ∧
      CalculateCDCVerifyDigit ((GenerateCDC p).1.take 43) ≤ 9 ∧
      (GenerateCDC p).1.drop 43 =
        [UInt8.ofNat (48 + (CalculateCDCVerifyDigit ((GenerateCDC p).1.take 43)).toNat)] := by
  have hacc : widthsAccepted p := ⟨hRUC.1, hEst, hPun, hNum, hCod⟩
  have h1 := Itoa_length_nonneg p.TipoDocumento 1 hTipo.1 (by norm_num; omega)
  have h2 := Itoa_length_nonneg p.TipoContribuyente 0 hContrib.1 (by norm_num; omega)
  have h3 := Itoa_length_nonneg p.TipoEmision 0 hEmi.1 (by norm_num; omega)
  have h4 := Format20060102_length p.FechaEmision hYear.1 hYear.2
  have h5 := LeftPad_zero_length (Itoa p.TipoDocumento) 2
  have h6 := LeftPad_zero_length p.RUC 8
  have h7 := LeftPad_zero_length p.DigitoVerificador 1
  have hlen : (cdcWithoutDV p).length = 43 := by
    simp only [cdcWithoutDV, List.length_append]
    have e2 : ((2 : Nat) : Int) = 2 := rfl
    have e8 : ((8 : Nat) : Int) = 8 := rfl
    have e1 : ((1 : Nat) : Int) = 1 := rfl
    rw [e2] at h5; rw [e8] at h6; rw [e1] at h7
    omega
  have hrange := module11Result_range (cdcLoop (cdcWithoutDV p).reverse 0 0)
  rw [GenerateCDC_of_accepted p hacc, Itoa_verifyDigit]
  have htake : List.take 43 (cdcWithoutDV p ++
      [UInt8.ofNat (48 + (CalculateCDCVerifyDigit (cdcWithoutDV p)).toNat)]) =
      cdcWithoutDV p := by
    rw [← hlen]; exact List.take_left' rfl
  have hdrop : List.drop 43 (cdcWithoutDV p ++
      [UInt8.ofNat (48 + (CalculateCDCVerifyDigit (cdcWithoutDV p)).toNat)]) =
      [UInt8.ofNat (48 + (CalculateCDCVerifyDigit (cdcWithoutDV p)).toNat)] := by
    rw [← hlen]; exact List.drop_left' rfl
  refine ⟨rfl, ?_, ?_, ?_, ?_⟩
  · simp [hlen]
  · simp only [htake]; exact hrange.1
  · simp only [htake]; exact hrange.2
  · simp only [htake, hdrop]

/-- Witness of `GenerateCDC_contract` at the bundle of `TestGenerateCDC`. -/
theorem GenerateCDC_contract_witness :
    (GenerateCDC testParams).2 = none ∧ (GenerateCDC testParams).1.length = 44 ∧
      0 ≤ CalculateCDCVerifyDigit ((GenerateCDC testParams).1.take 43) ∧
      CalculateCDCVerifyDigit ((GenerateCDC testParams).1.take 43) ≤ 9 ∧
      (GenerateCDC testParams).1.drop 43 =
        [UInt8.ofNat
          (48 + (CalculateCDCVerifyDigit ((GenerateCDC testParams).1.take 43)).toNat)] :=
  GenerateCDC_contract testParams (by decide) (by decide) (by decide) (by decide) (by decide)
    (by decide) (by decide) (by decide) (by decide) (by decide)

/-- Claim C2 at a bundle with a two-character RUC check digit: `GenerateCDC` returns no
error and a CDC of 45 bytes, and the first 43 bytes of the result are not the
concatenation of the fields, which is 44 bytes long. -/
theorem GenerateCDC_wide_DV :
    GenerateCDC wideDVParams =
        (str "018006956310001001000000121202401151234567899", none) ∧
      (GenerateCDC wideDVParams).1.length = 45 ∧
      (LeftPad (Itoa wideDVParams.TipoDocumento) 48 2 ++ LeftPad wideDVParams.RUC 48 8 ++
          LeftPad wideDVParams.DigitoVerificador 48 1 ++ wideDVParams.Establecimiento ++
          wideDVParams.PuntoExpedicion ++ wideDVParams.NumeroDocumento ++
          Itoa wideDVParams.TipoContribuyente ++ Itoa wideDVParams.TipoEmision ++
          wideDVParams.FechaEmision.Format20060102 ++ wideDVParams.CodigoSeguridad).length =
        44 ∧
      (GenerateCDC wideDVParams).1.take 43 ≠
        LeftPad (Itoa wideDVParams.TipoDocumento) 48 2 ++ LeftPad wideDVParams.RUC 48 8 ++
          LeftPad wideDVParams.DigitoVerificador 48 1 ++ wideDVParams.Establecimiento ++
          wideDVParams.PuntoExpedicion ++ wideDVParams.NumeroDocumento ++
          Itoa wideDVParams.TipoContribuyente ++ Itoa wideDVParams.TipoEmision ++
          wideDVParams.FechaEmision.Format20060102 ++ wideDVParams.CodigoSeguridad := by
  decide

/-- The order of the fields, outside the bundles that are too wide: for every bundle that
`GenerateCDC` accepts and for which the result has 44 bytes (the length its documentation
fixes), the first 43 bytes are the concatenation, in this order, of the
document type left-padded with `'0'` to 2, the RUC left-padded with `'0'` to 8, the RUC
check digit left-padded to 1, establishment, expedition point, document number, taxpayer
type (decimal), emission type (decimal), emission date as YYYYMMDD and security code. -/
theorem GenerateCDC_prefix (p : CDCParams) (hok : (GenerateCDC p).2 = none)
    (hlen : (GenerateCDC p).1.length = 44) :
    (GenerateCDC p).1.take 43 =
      LeftPad (Itoa p.TipoDocumento) 48 2 ++ LeftPad p.RUC 48 8 ++
        LeftPad p.DigitoVerificador 48 1 ++ p.Establecimiento ++ p.PuntoExpedicion ++
        p.NumeroDocumento ++ Itoa p.TipoContribuyente ++ Itoa p.TipoEmision ++
        p.FechaEmision.Format20060102 ++ p.CodigoSeguridad := by
  by_cases hacc : widthsAccepted p
  · rw [GenerateCDC_of_accepted p hacc, Itoa_verifyDigit] at hlen ⊢
    simp only [List.length_append, List.length_singleton] at hlen
    have h43 : (cdcWithoutDV p).length = 43 := by omega
    have : List.take 43 (cdcWithoutDV p ++
        [UInt8.ofNat (48 + (CalculateCDCVerifyDigit (cdcWithoutDV p)).toNat)]) =
        cdcWithoutDV p := by
      rw [← h43]; exact List.take_left' rfl
    simpa [cdcWithoutDV] using this
  · exact absurd hok (GenerateCDC_of_rejected p hacc).2

set_option maxRecDepth 10000 in
/-- Witness of `GenerateCDC_prefix` at the bundle of `TestGenerateCDC`. -/
theorem GenerateCDC_prefix_witness :
    (GenerateCDC testParams).1.take 43 =
      LeftPad (Itoa testParams.TipoDocumento) 48 2 ++ LeftPad testParams.RUC 48 8 ++
        LeftPad testParams.DigitoVerificador 48 1 ++ testParams.Establecimiento ++
        testParams.PuntoExpedicion ++ testParams.NumeroDocumento ++
        Itoa testParams.TipoContribuyente ++ Itoa testParams.TipoEmision ++
        testParams.FechaEmision.Format20060102 ++ testParams.CodigoSeguridad :=
  GenerateCDC_prefix testParams (by decide) (by decide)

/-- Claim C3: `CalculateCDCVerifyDigit` equals the Module-11 reference (digits read
right to left, non-digits skipped without consuming a weight, weights `(2,3,4,5,6,7)`
cycled, `11 - (sum mod 11)` with 10 and 11 replaced by 0), and its result lies in 0..9. -/
theorem CalculateCDCVerifyDigit_module11 (s : GoString) :
    CalculateCDCVerifyDigit s = module11CDC s ∧
      0 ≤ CalculateCDCVerifyDigit s ∧ CalculateCDCVerifyDigit s ≤ 9 :=
  ⟨CalculateCDCVerifyDigit_eq s, module11Result_range _⟩

/-- Claim C7 at a bundle with a nine-character RUC: `GenerateCDC` returns no error and a
CDC of 45 bytes. -/
theorem GenerateCDC_wide_RUC :
    GenerateCDC wideRUCParams =
      (str "011234567891001001000000121202401151234567891", none) ∧
      (GenerateCDC wideRUCParams).1.length = 45 := by
  decide

/-- Claim C8: `GenerateCDC` returns an error exactly when the RUC is empty or one of
establishment, expedition point, document number, security code does not have its width
(3, 3, 7, 9); whenever it returns an error the returned string is empty. -/
theorem GenerateCDC_error_iff (p : CDCParams) :
    ((GenerateCDC p).2 ≠ none ↔
      (p.RUC = [] ∨ p.Establecimiento.length ≠ 3 ∨ p.PuntoExpedicion.length ≠ 3 ∨
        p.NumeroDocumento.length ≠ 7 ∨ p.CodigoSeguridad.length ≠ 9)) ∧
      ((GenerateCDC p).2 = none ∨ (GenerateCDC p).1 = []) := by
  by_cases hacc : widthsAccepted p
  · rw [GenerateCDC_of_accepted p hacc]
    obtain ⟨h1, h2, h3, h4, h5⟩ := hacc
    simp [h1, h2, h3, h4, h5]
  · have h := GenerateCDC_of_rejected p hacc
    refine ⟨⟨fun _ => ?_, fun _ => h.2⟩, Or.inr h.1⟩
    unfold widthsAccepted at hacc
    by_contra hc
    push_neg at hc
    exact hacc ⟨hc.1, hc.2.1, hc.2.2.1, hc.2.2.2.1, hc.2.2.2.2⟩

/-! ## Claims about the RUC -/

/-- Claim C4, as stated, fails: the base of twenty nines is a non-empty digit string whose
check digit is 9, yet `ValidateRUC` answers false with an error on `base-9`, because the
base does not fit an `int`. -/
theorem ValidateRUC_iff_counterexample :
    str "99999999999999999999" ≠ [] ∧ allDigits (str "99999999999999999999") ∧
      allDigits (str "9") ∧
      CalculateRUCVerifyDigit (str "99999999999999999999") = decimalValue (str "9") ∧
      ValidateRUC (str "99999999999999999999" ++ str "-" ++ str "9") =
        (false, some "RUC base must be numeric") := by
  decide

/-- Claim C4 (amended): for every non-empty digit string `base` whose value fits an
`int` (below `2^63`) and every non-empty digit string `dv`, `ValidateRUC(base-dv)` returns
true with no error if and only if `CalculateRUCVerifyDigit(base)` is the value of `dv`. -/
theorem ValidateRUC_iff (base dv : GoString)
    (hb : base ≠ []) (hbd : allDigits base) (hbv : decimalValue base < 2 ^ 63)
    (hd : dv ≠ []) (hdd : allDigits dv) :
    ValidateRUC (base ++ str "-" ++ dv) = (true, none) ↔
      CalculateRUCVerifyDigit base = (decimalValue dv : Int) := by
  unfold ValidateRUC
  rw [stringsSplit_base_dv base dv hbd hdd]
  simp only
  rw [Atoi_of_allDigits base hb hbd, if_pos hbv]
  simp only
  rw [Atoi_of_allDigits dv hd hdd]
  by_cases hv : decimalValue dv < 2 ^ 63
  · rw [if_pos hv]; simp
  · have h9 := (module11Result_range (rucLoop base.reverse 0 0)).2
    have hne : CalculateRUCVerifyDigit base ≠ (decimalValue dv : Int) := by
      unfold CalculateRUCVerifyDigit
      have : (2 : Int) ^ 63 ≤ (decimalValue dv : Int) := by exact_mod_cast Nat.le_of_not_lt hv
      intro e; rw [e] at h9; omega
    rw [if_neg hv]; simp [hne]

/-- Witness of `ValidateRUC_iff` at the RUC `80069563-1`. -/
theorem ValidateRUC_iff_witness :
    ValidateRUC (str "80069563" ++ str "-" ++ str "1") = (true, none) ↔
      CalculateRUCVerifyDigit (str "80069563") = (decimalValue (str "1") : Int) :=
  ValidateRUC_iff (str "80069563") (str "1") (by decide) (by decide) (by decide) (by decide)
    (by decide)

/-- Claim C5: on a digit string, `CalculateRUCVerifyDigit` equals the Module-11 reference
with the weights `(2,...,10)` applied to the nine right-most digits only; prepending
anything to a base of nine or more digits does not change the check digit; the result
lies in 0..9. -/
theorem CalculateRUCVerifyDigit_module11 (b : GoString) (hb : allDigits b) :
    CalculateRUCVerifyDigit b =
        module11 (weightedSum (fun i => rucWeights.getD i 0)
          ((b.reverse.map (fun x => (x.toNat : Int) - 48)).take 9) 0) ∧
      (∀ p : GoString, 9 ≤ b.length →
        CalculateRUCVerifyDigit (p ++ b) = CalculateRUCVerifyDigit b) ∧
      0 ≤ CalculateRUCVerifyDigit b ∧ CalculateRUCVerifyDigit b ≤ 9 := by
  refine ⟨?_, ?_, module11Result_range _⟩
  · rw [CalculateRUCVerifyDigit_eq, module11RUC, digitsRightToLeft_of_allDigits b hb]
  · intro p h9
    rw [CalculateRUCVerifyDigit_eq, CalculateRUCVerifyDigit_eq, module11RUC_prepend p b hb h9]

/-- Witness of `CalculateRUCVerifyDigit_module11` at the nine-digit base `123456789`. -/
theorem CalculateRUCVerifyDigit_module11_witness :
    CalculateRUCVerifyDigit (str "123456789") =
        module11 (weightedSum (fun i => rucWeights.getD i 0)
          (((str "123456789").reverse.map (fun x => (x.toNat : Int) - 48)).take 9) 0) ∧
      (∀ p : GoString, 9 ≤ (str "123456789").length →
        CalculateRUCVerifyDigit (p ++ str "123456789") =
          CalculateRUCVerifyDigit (str "123456789")) ∧
      0 ≤ CalculateRUCVerifyDigit (str "123456789") ∧
      CalculateRUCVerifyDigit (str "123456789") ≤ 9 :=
  CalculateRUCVerifyDigit_module11 (str "123456789") (by decide)

/-- Claim C6: the literal seeds of the tests: the check digits of `80069563` and `50062360`
are 1 and 0; `80069563-1` and `50062360-0` validate to true, `80069563-0` to false, all
three without error. -/
theorem RUC_literal_seeds :
    CalculateRUCVerifyDigit (str "80069563") = 1 ∧
      CalculateRUCVerifyDigit (str "50062360") = 0 ∧
      ValidateRUC (str "80069563-1") = (true, none) ∧
      ValidateRUC (str "50062360-0") = (true, none) ∧
      ValidateRUC (str "80069563-0") = (false, none) := by
  decide

/-! ## The elements built by the signer -/

theorem buildSignedInfo_eq (elementID digestBase64 : GoString) :
    buildSignedInfo elementID digestBase64 = signedInfoTree elementID digestBase64 := by
  have h : buildSignedInfo elementID digestBase64 =
      elem "SignedInfo" [xmldsigAttr]
        [elem "CanonicalizationMethod"
           [algorithmAttr "http://www.w3.org/2001/10/xml-exc-c14n#"] [],
         elem "SignatureMethod"
           [algorithmAttr "http://www.w3.org/2001/04/xmldsig-more#rsa-sha256"] [],
         elem "Reference" [⟨[], str "URI", str "#" ++ elementID⟩]
           [elem "Transforms" []
              [elem "Transform"
                 [algorithmAttr "http://www.w3.org/2000/09/xmldsig#enveloped-signature"] [],
               elem "Transform" [algorithmAttr "http://www.w3.org/2001/10/xml-exc-c14n#"] []],
            elem "DigestMethod" [algorithmAttr "http://www.w3.org/2001/04/xmlenc#sha256"] [],
            elem "DigestValue" [] (textContent digestBase64 ++ [])]] := rfl
  rw [h, List.append_nil]; rfl

theorem buildSignature_eq (signedInfo : Node) (signatureBase64 certBase64 : GoString) :
    (buildSignature signedInfo signatureBase64).1.modifyAt (fun e => e.SetText certBase64)
        (buildSignature signedInfo signatureBase64).2 =
      elem "Signature" [xmldsigAttr]
        [signedInfo,
         elem "SignatureValue" [] (textContent signatureBase64),
         elem "KeyInfo" []
           [elem "X509Data" [] [elem "X509Certificate" [] (textContent certBase64)]]] := by
  have h : (buildSignature signedInfo signatureBase64).1.modifyAt
        (fun e => e.SetText certBase64) (buildSignature signedInfo signatureBase64).2 =
      elem "Signature" [xmldsigAttr]
        [signedInfo,
         elem "SignatureValue" [] (textContent signatureBase64 ++ []),
         elem "KeyInfo" []
           [elem "X509Data" []
             [elem "X509Certificate" [] (textContent certBase64 ++ [])]]] := rfl
  rw [h, List.append_nil, List.append_nil]

/-! ## Pointers and the search -/

theorem getElem?_modifyNth_self {α : Type} (f : α → α) : ∀ (i : Nat) (l : List α) (x : α),
    l[i]? = some x → (modifyNth f i l)[i]? = some (f x) := by
  intro i
  induction i with
  | zero =>
    intro l x h
    cases l with
    | nil => simp at h
    | cons y ys => simp at h; simp [modifyNth, h]
  | succ i ih =>
    intro l x h
    cases l with
    | nil => simp at h
    | cons y ys => simp at h; simpa [modifyNth] using ih ys x h

theorem Node.at_modifyAt (f : Node → Node) : ∀ (p : Pointer) (root e : Node),
    root.at p = some e → (root.modifyAt f p).at p = some (f e) := by
  intro p
  induction p with
  | nil => intro root e h; simp [Node.at] at h; simp [Node.at, Node.modifyAt, h]
  | cons i p ih =>
    intro root e h
    cases root with
    | element s t a ch =>
      simp only [Node.at] at h
      cases hc : ch[i]? with
      | none => simp [hc] at h
      | some c =>
        simp only [hc] at h
        simp only [Node.modifyAt, Node.at, getElem?_modifyNth_self _ i ch c hc]
        exact ih c e h
    | charData d => simp [Node.at] at h
    | other d => simp [Node.at] at h

theorem Node.at_append_singleton : ∀ (p : Pointer) (root n c : Node) (i : Nat),
    root.at p = some n → n.Child[i]? = some c → root.at (p ++ [i]) = some c := by
  intro p
  induction p with
  | nil =>
    intro root n c i h hc
    simp [Node.at] at h
    subst h
    cases root with
    | element s t a ch => simp [Node.Child] at hc; simp [Node.at, hc]
    | charData d => simp [Node.Child] at hc
    | other d => simp [Node.Child] at hc
  | cons j p ih =>
    intro root n c i h hc
    cases root with
    | element s t a ch =>
      simp only [Node.at] at h
      cases hj : ch[j]? with
      | none => simp [hj] at h
      | some d =>
        simp only [hj] at h
        simp only [List.cons_append, Node.at, hj]
        exact ih d n c i h hc
    | charData d => simp [Node.at] at h
    | other d => simp [Node.at] at h

theorem elementChildren_at (root : Node) (pn : Pointer × Node) (h : root.at pn.1 = some pn.2) :
    ∀ c ∈ elementChildren pn, root.at c.1 = some c.2 := by
  intro c hc
  simp only [elementChildren, List.mem_map, List.mem_filter] at hc
  obtain ⟨ic, ⟨hmem, _⟩, rfl⟩ := hc
  exact Node.at_append_singleton pn.1 root pn.2 ic.2 ic.1 h (List.mem_enum_iff_getElem?.mp hmem)

theorem findLevels_sound (root : Node) (key value : GoString) : ∀ (fuel : Nat)
    (level : List (Pointer × Node)) (r : Pointer × Node),
    (∀ pn ∈ level, root.at pn.1 = some pn.2) →
    findLevels key value fuel level = some r →
    root.at r.1 = some r.2 ∧ hasAttrVal key value r.2 = true := by
  intro fuel
  induction fuel with
  | zero => intro level r _ h; simp [findLevels] at h
  | succ fuel ih =>
    intro level r hinv h
    simp only [findLevels] at h
    cases hf : level.find? (fun pn => hasAttrVal key value pn.2) with
    | some pn =>
      simp only [hf, Option.some.injEq] at h
      subst h
      exact ⟨hinv pn (List.mem_of_find?_eq_some hf), by simpa using List.find?_some hf⟩
    | none =>
      simp only [hf] at h
      split at h
      · simp at h
      · apply ih _ r _ h
        intro c hc
        simp only [List.mem_flatMap] at hc
        obtain ⟨pn, hpn, hc⟩ := hc
        exact elementChildren_at root pn (hinv pn hpn) c hc

theorem findByID_sound (doc : Node) (elementID : GoString) (r : Pointer × Node)
    (h : findByID doc elementID = some r) :
    doc.at r.1 = some r.2 ∧ hasAttrVal (str "Id") elementID r.2 = true := by
  apply findLevels_sound doc _ _ _ _ r _ h
  exact elementChildren_at doc ([], doc) rfl

theorem isElement_of_hasAttrVal (key value : GoString) (e : Node)
    (h : hasAttrVal key value e = true) : e.isElement = true := by
  cases e with
  | element s g a ch => rfl
  | charData d => simp [hasAttrVal] at h
  | other d => simp [hasAttrVal] at h

theorem FindElement_safe {K : Type} (lib : Library K) (doc : Node) (elementID : GoString)
    (hsafe : pathSafe elementID = true) :
    FindElement lib doc elementID =
      match findByID doc elementID with
      | some e => .elem e
      | none => .nil := by
  simp only [FindElement, hsafe, if_true]

theorem FindElement_elem {K : Type} (lib : Library K) (doc : Node) (elementID : GoString)
    (E : Pointer × Node) (h : FindElement lib doc elementID = .elem E) :
    doc.at E.1 = some E.2 ∧ E.2.isElement = true ∧
      (pathSafe elementID = true →
        findByID doc elementID = some E ∧ hasAttrVal (str "Id") elementID E.2 = true) := by
  by_cases hsafe : pathSafe elementID = true
  · rw [FindElement_safe lib doc elementID hsafe] at h
    cases hf : findByID doc elementID with
    | none => rw [hf] at h; simp at h
    | some e =>
      rw [hf] at h
      simp only [Found.elem.injEq] at h
      subst h
      have hs := findByID_sound doc elementID e hf
      exact ⟨hs.1, isElement_of_hasAttrVal _ _ _ hs.2, fun _ => ⟨rfl, hs.2⟩⟩
  · simp only [FindElement, hsafe, if_false, Bool.false_eq_true] at h
    cases hp : lib.FindPath doc (idPath elementID) with
    | panic => rw [hp] at h; simp at h
    | result r =>
      rw [hp] at h
      cases r with
      | none => simp at h
      | some p =>
        simp only at h
        cases ha : doc.at p with
        | none => rw [ha] at h; simp at h
        | some e =>
          rw [ha] at h
          by_cases he : e.isElement = true
          · simp only [he, if_true, Found.elem.injEq] at h
            subst h
            exact ⟨ha, he, fun hs => absurd hs hsafe⟩
          · simp [he] at h

/-! ## Signing -/

theorem Sign_ok {K : Type} (lib : Library K) (s : Signer K)
    (xmlBytes elementID out : GoString) (h : s.Sign lib xmlBytes elementID = .ok out) :
    ∃ (doc : Node) (E : Pointer × Node) (c1 c2 signature leafCert : GoString),
      lib.ReadFromBytes xmlBytes = .ok doc ∧ FindElement lib doc elementID = .elem E ∧
      C14N lib E.2 = .ok c1 ∧
      C14N lib (signedInfoTree elementID (lib.EncodeToString (lib.Sum256 c1))) = .ok c2 ∧
      out = lib.WriteToBytes (doc.modifyAt (fun e => e.AddChild
        (signatureTree elementID (lib.EncodeToString (lib.Sum256 c1))
          (lib.EncodeToString signature) (lib.EncodeToString leafCert))) E.1) := by
  unfold Signer.Sign at h
  cases h1 : lib.ReadFromBytes xmlBytes with
  | error err => simp [h1] at h
  | ok doc =>
    simp only [h1] at h
    cases h2 : FindElement lib doc elementID with
    | panic => simp [h2] at h
    | nil => simp [h2] at h
    | elem E =>
      simp only [h2] at h
      cases h3 : lib.Canonicalize (lib.WriteToBytes (NewDocument.SetRoot E.2.Copy)) with
      | error err => simp [h3] at h
      | ok c1 =>
        simp only [h3, buildSignedInfo_eq] at h
        cases h4 : lib.Canonicalize (lib.WriteToBytes (NewDocument.SetRoot
            (signedInfoTree elementID (lib.EncodeToString (lib.Sum256 c1))).Copy)) with
        | error err => simp [h4] at h
        | ok c2 =>
          simp only [h4] at h
          cases h5 : s.Cert.PrivateKey with
          | notRSA => simp [h5] at h
          | nil => simp [h5] at h
          | rsa key =>
            simp only [h5] at h
            cases h6 : lib.SignPKCS1v15 key (lib.Sum256 c2) with
            | error err => simp [h6] at h
            | ok signature =>
              simp only [h6] at h
              cases h7 : s.Cert.Certificate with
              | nil => simp [h7] at h
              | cons leafCert rest =>
                simp only [h7, buildSignature_eq, Outcome.ok.injEq] at h
                exact ⟨doc, E, c1, c2, signature, leafCert, rfl, h2, h3, h4, h.symm⟩

theorem digestValueOf_signatureTree (elementID d sv cert : GoString) :
    digestValueOf (signatureTree elementID d sv cert) = some d := by
  have h : digestValueOf (signatureTree elementID d sv cert) =
      some (Node.Text (elem "DigestValue" [] (textContent d))) := rfl
  rw [h]
  by_cases hd : d = []
  · subst hd; rfl
  · simp [Node.Text, elem, Node.Child, textContent, hd, List.takeWhile, Node.isCharData,
      Node.Data]

theorem lastChild_AddChild (e t : Node) (h : e.isElement = true) :
    (e.AddChild t).lastChild = some t ∧ (e.AddChild t).Child = e.Child ++ [t] := by
  cases e with
  | element s g a ch => simp [Node.AddChild, Node.lastChild, Node.Child]
  | charData d => simp [Node.isElement] at h
  | other d => simp [Node.isElement] at h

/-! ## Claims about the signer -/

theorem Sign_spliced :
    sampleSigner.Sign (libraryReading splicedDocument) (Node.renderList splicedDocument.Child)
        splicedID = .ok (sampleLibrary.WriteToBytes splicedSigned) ∧
      FindElement (libraryReading splicedDocument) splicedDocument splicedID =
        .elem ([0], elem "r" [⟨[], str "Id", str "a"⟩] []) ∧
      hasAttrVal (str "Id") splicedID (elem "r" [⟨[], str "Id", str "a"⟩] []) = false ∧
      Node.anyElementList (hasAttrVal (str "Id") splicedID) splicedDocument.Child = false :=
  ⟨by rfl, by rfl, by rfl, by rfl⟩

/-- Claim C9 against the code: after a successful `Sign(xml, id)` the text of
`SignedInfo/Reference/DigestValue` in the `Signature` appended to the located element is
`base64(SHA-256(C14N(E)))`, where `E` is the located element as it stands in the parsed
input, before the `Signature` is added; `E` carries `Id = id` when `id` has no character
of the path syntax.  The identifier is spliced into the path as it is: with
`a'][@Id='a` on `<r Id="a"/>` the call succeeds on the element whose `Id` is `a`, and no
element carries the requested `Id`. -/
theorem Sign_digest {K : Type} (lib : Library K) (s : Signer K)
    (xmlBytes elementID out : GoString) (h : s.Sign lib xmlBytes elementID = .ok out) :
    (∃ (doc signed : Node) (E : Pointer × Node) (canonical : GoString),
      lib.ReadFromBytes xmlBytes = .ok doc ∧
      FindElement lib doc elementID = .elem E ∧ doc.at E.1 = some E.2 ∧
      (pathSafe elementID = true →
        findByID doc elementID = some E ∧ hasAttrVal (str "Id") elementID E.2 = true) ∧
      C14N lib E.2 = .ok canonical ∧
      out = lib.WriteToBytes signed ∧
      (((signed.at E.1).bind Node.lastChild).bind digestValueOf) =
        some (lib.EncodeToString (lib.Sum256 canonical))) ∧
      (∃ out E, sampleSigner.Sign (libraryReading splicedDocument)
          (Node.renderList splicedDocument.Child) splicedID = .ok out ∧
        FindElement (libraryReading splicedDocument) splicedDocument splicedID = .elem E ∧
        hasAttrVal (str "Id") splicedID E.2 = false ∧
        Node.anyElementList (hasAttrVal (str "Id") splicedID) splicedDocument.Child =
          false) := by
  obtain ⟨doc, E, c1, c2, signature, leafCert, h1, h2, h3, _, h5⟩ :=
    Sign_ok lib s xmlBytes elementID out h
  have hs := FindElement_elem lib doc elementID E h2
  refine ⟨⟨doc, _, E, c1, h1, h2, hs.1, hs.2.2, h3, h5, ?_⟩,
    ⟨_, _, Sign_spliced.1, Sign_spliced.2.1, Sign_spliced.2.2.1, Sign_spliced.2.2.2⟩⟩
  rw [Node.at_modifyAt _ E.1 doc E.2 hs.1]
  rw [Option.some_bind, (lastChild_AddChild E.2 _ hs.2.1).1,
    Option.some_bind, digestValueOf_signatureTree]

/-- Claim C10 against the code: after a successful `Sign(xml, id)` the output is the parsed
input in which the located element has received one more child at the end: the `Signature`
element of the specification (`signatureTree`: SignedInfo with CanonicalizationMethod,
SignatureMethod and one Reference to `#id` holding Transforms, DigestMethod and
DigestValue; then SignatureValue; then KeyInfo/X509Data/X509Certificate); the located
element carries `Id = id` when `id` has no character of the path syntax.  The identifier
is spliced into the path as it is: with `a'][@Id='a` on `<r Id="a"/>` the `Signature`,
with its reference to `#a'][@Id='a`, is appended to the element whose `Id` is `a`. -/
theorem Sign_output {K : Type} (lib : Library K) (s : Signer K)
    (xmlBytes elementID out : GoString) (h : s.Sign lib xmlBytes elementID = .ok out) :
    (∃ (doc : Node) (E : Pointer × Node) (digestValue signatureValue certificate : GoString),
      lib.ReadFromBytes xmlBytes = .ok doc ∧
      FindElement lib doc elementID = .elem E ∧ doc.at E.1 = some E.2 ∧
      (pathSafe elementID = true →
        findByID doc elementID = some E ∧ hasAttrVal (str "Id") elementID E.2 = true) ∧
      out = lib.WriteToBytes (doc.modifyAt (fun e => e.AddChild
        (signatureTree elementID digestValue signatureValue certificate)) E.1) ∧
      (doc.modifyAt (fun e => e.AddChild
        (signatureTree elementID digestValue signatureValue certificate)) E.1).at E.1 =
        some (E.2.AddChild (signatureTree elementID digestValue signatureValue certificate)) ∧
      (E.2.AddChild (signatureTree elementID digestValue signatureValue certificate)).Child =
        E.2.Child ++ [signatureTree elementID digestValue signatureValue certificate]) ∧
      (sampleSigner.Sign (libraryReading splicedDocument)
          (Node.renderList splicedDocument.Child) splicedID =
          .ok (sampleLibrary.WriteToBytes splicedSigned) ∧
        splicedSigned.Child = [elem "r" [⟨[], str "Id", str "a"⟩]
          [signatureTree splicedID
            (Node.renderList [elem "r" [⟨[], str "Id", str "a"⟩] []])
            (Node.renderList [signedInfoTree splicedID
              (Node.renderList [elem "r" [⟨[], str "Id", str "a"⟩] []])])
            (str "CERT")]] ∧
        hasAttrVal (str "Id") splicedID (elem "r" [⟨[], str "Id", str "a"⟩] []) = false) := by
  obtain ⟨doc, E, c1, c2, signature, leafCert, h1, h2, _, _, h5⟩ :=
    Sign_ok lib s xmlBytes elementID out h
  have hs := FindElement_elem lib doc elementID E h2
  exact ⟨⟨doc, E, _, _, _, h1, h2, hs.1, hs.2.2, h5, Node.at_modifyAt _ E.1 doc E.2 hs.1,
    (lastChild_AddChild E.2 _ hs.2.1).2⟩, Sign_spliced.1, rfl, Sign_spliced.2.2.1⟩

/-- Witness of `Sign_digest`: signing the sample document with the stand-in library; the
identifier `7` has no character of the path syntax and the located element carries it. -/
theorem Sign_digest_witness :
    ∃ (doc signed : Node) (E : Pointer × Node) (canonical : GoString),
      sampleLibrary.ReadFromBytes (Node.renderList sampleDocument.Child) = .ok doc ∧
      FindElement sampleLibrary doc (str "7") = .elem E ∧ doc.at E.1 = some E.2 ∧
      (pathSafe (str "7") = true →
        findByID doc (str "7") = some E ∧ hasAttrVal (str "Id") (str "7") E.2 = true) ∧
      C14N sampleLibrary E.2 = .ok canonical ∧
      sampleLibrary.WriteToBytes sampleSigned = sampleLibrary.WriteToBytes signed ∧
      (((signed.at E.1).bind Node.lastChild).bind digestValueOf) =
        some (sampleLibrary.EncodeToString (sampleLibrary.Sum256 canonical)) :=
  (Sign_digest sampleLibrary sampleSigner (Node.renderList sampleDocument.Child) (str "7")
    (sampleLibrary.WriteToBytes sampleSigned) (by rfl)).1

/-- Witness of `Sign_output`: signing the sample document with the stand-in library; the
identifier `7` has no character of the path syntax and the located element carries it. -/
theorem Sign_output_witness :
    ∃ (doc : Node) (E : Pointer × Node) (digestValue signatureValue certificate : GoString),
      sampleLibrary.ReadFromBytes (Node.renderList sampleDocument.Child) = .ok doc ∧
      FindElement sampleLibrary doc (str "7") = .elem E ∧ doc.at E.1 = some E.2 ∧
      (pathSafe (str "7") = true →
        findByID doc (str "7") = some E ∧ hasAttrVal (str "Id") (str "7") E.2 = true) ∧
      sampleLibrary.WriteToBytes sampleSigned = sampleLibrary.WriteToBytes (doc.modifyAt
        (fun e => e.AddChild
          (signatureTree (str "7") digestValue signatureValue certificate)) E.1) ∧
      (doc.modifyAt (fun e => e.AddChild
        (signatureTree (str "7") digestValue signatureValue certificate)) E.1).at E.1 =
        some (E.2.AddChild (signatureTree (str "7") digestValue signatureValue certificate)) ∧
      (E.2.AddChild (signatureTree (str "7") digestValue signatureValue certificate)).Child =
        E.2.Child ++ [signatureTree (str "7") digestValue signatureValue certificate] :=
  (Sign_output sampleLibrary sampleSigner (Node.renderList sampleDocument.Child) (str "7")
    (sampleLibrary.WriteToBytes sampleSigned) (by rfl)).1

/-! ## Signing a document without the requested `Id` -/

theorem anyElementList_of_mem (p : Node → Bool) : ∀ (l : List Node) (c : Node),
    c ∈ l → c.anyElement p = true → Node.anyElementList p l = true := by
  intro l
  induction l with
  | nil => intro c h; simp at h
  | cons n ns ih =>
    intro c h hc
    simp only [Node.anyElementList, Bool.or_eq_true]
    rcases List.mem_cons.mp h with rfl | h'
    · exact Or.inl hc
    · exact Or.inr (ih c h' hc)

theorem anyElement_of_at (key value : GoString) : ∀ (p : Pointer) (root e : Node),
    root.at p = some e → hasAttrVal key value e = true →
    root.anyElement (hasAttrVal key value) = true := by
  intro p
  induction p with
  | nil =>
    intro root e h he
    simp [Node.at] at h
    subst h
    cases root with
    | element s t a ch => simp [Node.anyElement, he]
    | charData d => simp [hasAttrVal] at he
    | other d => simp [hasAttrVal] at he
  | cons i p ih =>
    intro root e h he
    cases root with
    | element s t a ch =>
      simp only [Node.at] at h
      cases hc : ch[i]? with
      | none => simp [hc] at h
      | some c =>
        simp only [hc] at h
        have hmem : c ∈ ch := List.getElem?_mem hc
        simp only [Node.anyElement, Bool.or_eq_true]
        exact Or.inr (anyElementList_of_mem _ ch c hmem (ih c e h he))
    | charData d => simp [Node.at] at h
    | other d => simp [Node.at] at h

theorem elementChildren_mem (pn c : Pointer × Node) (h : c ∈ elementChildren pn) :
    c.2 ∈ pn.2.Child := by
  simp only [elementChildren, List.mem_map, List.mem_filter] at h
  obtain ⟨ic, ⟨hmem, _⟩, rfl⟩ := h
  exact List.getElem?_mem (List.mem_enum_iff_getElem?.mp hmem)

theorem anyElement_child (p : Node → Bool) (n c : Node) (h : c ∈ n.Child)
    (hc : c.anyElement p = true) : n.anyElement p = true := by
  cases n with
  | element s t a ch =>
    simp only [Node.anyElement, Bool.or_eq_true]
    exact Or.inr (anyElementList_of_mem p ch c h hc)
  | charData d => simp [Node.Child] at h
  | other d => simp [Node.Child] at h

theorem findLevels_none (key value : GoString) : ∀ (fuel : Nat)
    (level : List (Pointer × Node)),
    (∀ pn ∈ level, pn.2.anyElement (hasAttrVal key value) = false) →
    findLevels key value fuel level = none := by
  intro fuel
  induction fuel with
  | zero => intro level _; rfl
  | succ fuel ih =>
    intro level hno
    simp only [findLevels]
    have hfind : level.find? (fun pn => hasAttrVal key value pn.2) = none := by
      rw [List.find?_eq_none]
      intro pn hpn hattr
      have h1 := hno pn hpn
      have h2 := anyElement_of_at key value [] pn.2 pn.2 rfl hattr
      rw [h1] at h2
      exact Bool.false_ne_true h2
    rw [hfind]
    simp only
    split
    · rfl
    · apply ih
      intro c hc
      simp only [List.mem_flatMap] at hc
      obtain ⟨pn, hpn, hc⟩ := hc
      have h1 := hno pn hpn
      cases hcv : c.2.anyElement (hasAttrVal key value) with
      | false => rfl
      | true =>
        have := anyElement_child _ pn.2 c.2 (elementChildren_mem pn c hc) hcv
        rw [h1] at this
        exact absurd this Bool.false_ne_true

theorem findByID_none (doc : Node) (elementID : GoString)
    (h : Node.anyElementList (hasAttrVal (str "Id") elementID) doc.Child = false) :
    findByID doc elementID = none := by
  apply findLevels_none
  intro c hc
  have hmem := elementChildren_mem ([], doc) c hc
  cases hcv : c.2.anyElement (hasAttrVal (str "Id") elementID) with
  | false => rfl
  | true =>
    have := anyElementList_of_mem _ doc.Child c.2 hmem hcv
    rw [h] at this
    exact absurd this Bool.false_ne_true

/-- Claim C11 against the code: when no element of the parsed input carries an attribute
whose name is exactly `Id` (byte for byte, so `id` and `ID` do not count) with the
requested value, and the value has no character of the path syntax, `Sign` returns an
error and no document: the "not found" error, or the parse error when the input cannot be
read at all.  The identifier is spliced into the path as it is: with `a'][@Id='a` on
`<r Id="a"/>`, where no element carries that `Id`, the call returns a signed document, and
with `a'b` the path is invalid and the call panics. -/
theorem Sign_not_found {K : Type} (lib : Library K) (s : Signer K)
    (xmlBytes elementID : GoString)
    (h : ∀ doc, lib.ReadFromBytes xmlBytes = .ok doc →
      Node.anyElementList (hasAttrVal (str "Id") elementID) doc.Child = false)
    (hsafe : pathSafe elementID = true) :
    (s.Sign lib xmlBytes elementID = .error (.notFound elementID) ∨
        ∃ cause, s.Sign lib xmlBytes elementID = .error (.parse cause)) ∧
      (Node.anyElementList (hasAttrVal (str "Id") splicedID) splicedDocument.Child = false ∧
        sampleSigner.Sign (libraryReading splicedDocument)
          (Node.renderList splicedDocument.Child) splicedID =
          .ok (sampleLibrary.WriteToBytes splicedSigned)) ∧
      (Node.anyElementList (hasAttrVal (str "Id") quoteID) splicedDocument.Child = false ∧
        sampleSigner.Sign (libraryReading splicedDocument)
          (Node.renderList splicedDocument.Child) quoteID = .panic) := by
  refine ⟨?_, ⟨Sign_spliced.2.2.2, Sign_spliced.1⟩, ⟨by rfl, by rfl⟩⟩
  unfold Signer.Sign
  cases h1 : lib.ReadFromBytes xmlBytes with
  | error err => exact Or.inr ⟨err, rfl⟩
  | ok doc =>
    left
    simp only [FindElement_safe lib doc elementID hsafe, findByID_none doc elementID (h doc h1)]

/-- Witness of `Sign_not_found`: a document whose only attributes are `id` and `ID`. -/
theorem Sign_not_found_witness :
    sampleSigner.Sign (libraryReading otherCaseDocument)
        (Node.renderList otherCaseDocument.Child) (str "7") = .error (.notFound (str "7")) ∨
      ∃ cause, sampleSigner.Sign (libraryReading otherCaseDocument)
        (Node.renderList otherCaseDocument.Child) (str "7") = .error (.parse cause) :=
  (Sign_not_found (libraryReading otherCaseDocument) sampleSigner
    (Node.renderList otherCaseDocument.Child) (str "7")
    (fun doc hdoc => by
      have e : (libraryReading otherCaseDocument).ReadFromBytes
          (Node.renderList otherCaseDocument.Child) = .ok otherCaseDocument := by rfl
      rw [e] at hdoc
      cases hdoc
      rfl) (by decide)).1

/-! ## The cache -/

theorem mapGet_mapSet {α : Type} (key : GoString) (v : α) (m : List (GoString × α)) :
    mapGet (mapSet key v m) key = some v := by
  simp [mapGet, mapSet]

/-- Claim C12, as stated, fails at the boundary: an entry set at time 100 with a time to
live of 10 is still served at time 110. -/
theorem Cache_Get_boundary_counterexample :
    ((smallCache.Set (str "k") 7 10 100 []).Get (str "k") (100 + 10)).1 = some 7 := by
  decide

/-- Claim C12 (amended): after `Set(k, v, ttl)` at time `t0`, `Get(k)` at time `t` returns
`v` (a hit) for every `t` not after `t0 + ttl`, and a miss for every `t` after
`t0 + ttl`. -/
theorem Cache_Get_after_Set {V : Type} (c : Cache V) (k : GoString) (v : V)
    (ttl t0 t : Int) (order : List (GoString × cacheEntry V)) :
    ((c.Set k v ttl t0 order).Get k t).1 = if t0 + ttl < t then none else some v := by
  simp only [Cache.Set, Cache.Get, mapGet_mapSet, cacheEntry.isExpired]
  by_cases h : t0 + ttl < t <;> simp [h]

/-- Claim C13 at a cache of capacity 1: after `Set("", 1)` and `Set("a", 2)` two entries
are stored; the eviction loop takes the empty key for "nothing chosen yet". -/
theorem Cache_empty_key_exceeds_MaxSize :
    smallCache.config.MaxSize = 1 ∧
      ((smallCache.Set [] 1 10 100 []).Set (str "a") 2 10 101
        (smallCache.Set [] 1 10 100 []).entries).entries.length = 2 := by
  decide

theorem evictLoop_spec {V : Type} : ∀ (l : List (GoString × cacheEntry V)) (k : GoString)
    (t : Int), k ≠ [] → (∀ p ∈ l, p.1 ≠ []) →
    ((evictLoop l k t = (k, t)) ∨ ∃ p ∈ l, evictLoop l k t = (p.1, p.2.expiration)) ∧
      (evictLoop l k t).2 ≤ t ∧ (∀ q ∈ l, (evictLoop l k t).2 ≤ q.2.expiration) ∧
      (evictLoop l k t).1 ≠ [] := by
  intro l
  induction l with
  | nil => intro k t hk _; simp [evictLoop, hk]
  | cons p rest ih =>
    intro k t hk hkeys
    obtain ⟨key, entry⟩ := p
    have hkey : key ≠ [] := hkeys (key, entry) (List.mem_cons_self _ _)
    have hrest : ∀ p ∈ rest, p.1 ≠ [] := fun p hp => hkeys p (List.mem_cons_of_mem _ hp)
    simp only [evictLoop, hk, false_or]
    by_cases hlt : entry.expiration < t
    · simp only [hlt, if_true]
      obtain ⟨h1, h2, h3, h4⟩ := ih key entry.expiration hkey hrest
      refine ⟨Or.inr ?_, by omega, ?_, h4⟩
      · rcases h1 with h1 | ⟨p, hp, h1⟩
        · exact ⟨(key, entry), List.mem_cons_self _ _, h1⟩
        · exact ⟨p, List.mem_cons_of_mem _ hp, h1⟩
      · intro q hq
        rcases List.mem_cons.mp hq with rfl | hq
        · exact h2
        · exact h3 q hq
    · simp only [hlt, if_false]
      obtain ⟨h1, h2, h3, h4⟩ := ih k t hk hrest
      refine ⟨?_, h2, ?_, h4⟩
      · rcases h1 with h1 | ⟨p, hp, h1⟩
        · exact Or.inl h1
        · exact Or.inr ⟨p, List.mem_cons_of_mem _ hp, h1⟩
      · intro q hq
        rcases List.mem_cons.mp hq with rfl | hq
        · simp only; omega
        · exact h3 q hq

theorem evictLoop_start {V : Type} (l : List (GoString × cacheEntry V)) (hne : l ≠ [])
    (hkeys : ∀ p ∈ l, p.1 ≠ []) :
    ∃ victim ∈ l, (evictLoop l [] 0).1 = victim.1 ∧ victim.1 ≠ [] ∧
      ∀ q ∈ l, victim.2.expiration ≤ q.2.expiration := by
  cases l with
  | nil => exact absurd rfl hne
  | cons p rest =>
    obtain ⟨key, entry⟩ := p
    have hkey : key ≠ [] := hkeys (key, entry) (List.mem_cons_self _ _)
    have hrest : ∀ p ∈ rest, p.1 ≠ [] := fun p hp => hkeys p (List.mem_cons_of_mem _ hp)
    obtain ⟨h1, h2, h3, _⟩ := evictLoop_spec rest key entry.expiration hkey hrest
    have hstep : evictLoop ((key, entry) :: rest) [] 0 = evictLoop rest key entry.expiration := by
      simp [evictLoop]
    rw [hstep]
    rcases h1 with h1 | ⟨p, hp, h1⟩
    · refine ⟨(key, entry), List.mem_cons_self _ _, by rw [h1], hkey, ?_⟩
      intro q hq
      rw [h1] at h3
      rcases List.mem_cons.mp hq with rfl | hq
      · exact le_refl _
      · exact h3 q hq
    · refine ⟨p, List.mem_cons_of_mem _ hp, by rw [h1], hrest p hp, ?_⟩
      intro q hq
      rw [h1] at h2 h3
      rcases List.mem_cons.mp hq with rfl | hq
      · exact h2
      · exact h3 q hq

theorem mapDelete_length {α : Type} : ∀ (m : List (GoString × α)) (p : GoString × α),
    (m.map Prod.fst).Nodup → p ∈ m → (mapDelete p.1 m).length + 1 = m.length := by
  intro m
  induction m with
  | nil => intro p _ h; simp at h
  | cons x xs ih =>
    intro p hnd hp
    simp only [List.map_cons, List.nodup_cons] at hnd
    rcases List.mem_cons.mp hp with rfl | hp
    · have hall : ∀ q ∈ xs, q.1 ≠ p.1 := by
        intro q hq e
        exact hnd.1 (e ▸ List.mem_map_of_mem Prod.fst hq)
      have : mapDelete p.1 xs = xs := by
        simp only [mapDelete]
        rw [List.filter_eq_self]
        intro q hq
        simpa using hall q hq
      have e : mapDelete p.1 (p :: xs) = mapDelete p.1 xs := by
        simp [mapDelete, List.filter_cons]
      rw [e, this, List.length_cons]
    · have hne : x.1 ≠ p.1 := by
        intro e
        exact hnd.1 (e ▸ List.mem_map_of_mem Prod.fst hp)
      have := ih p hnd.2 hp
      have e : mapDelete p.1 (x :: xs) = x :: mapDelete p.1 xs := by
        simp [mapDelete, List.filter_cons, hne]
      rw [e, List.length_cons, List.length_cons, this]

/-- Claim C14, as stated, fails: in a full cache of capacity two, overwriting the key `b`
removes the other entry `a`. -/
theorem Cache_Set_overwrite_counterexample :
    mapGet fullCache.entries (str "a") ≠ none ∧ mapGet fullCache.entries (str "b") ≠ none ∧
      mapGet (fullCache.Set (str "b") 3 10 5 fullCache.entries).entries (str "a") = none := by
  decide

/-- Claim C14 (amended): `Set` evicts exactly when `MaxSize > 0` and the number of stored
entries is already at least `MaxSize`, whether or not the key is present; when it does and
no stored key is the empty string, it removes exactly one entry, one whose expiration is
the earliest among the stored entries, before it stores the key.  (`order` is the order in
which the eviction loop visits the map.) -/
theorem Cache_Set_eviction {V : Type} (c : Cache V) (key : GoString) (value : V)
    (ttl now : Int) (order : List (GoString × cacheEntry V))
    (hmap : (c.entries.map Prod.fst).Nodup) (hkeys : ∀ p ∈ c.entries, p.1 ≠ [])
    (hord : order.Perm c.entries) :
    (¬ (c.config.MaxSize > 0 ∧ (c.entries.length : Int) ≥ c.config.MaxSize) ∧
        (c.Set key value ttl now order).entries =
          mapSet key ⟨value, now + ttl, 0⟩ c.entries) ∨
      ((c.config.MaxSize > 0 ∧ (c.entries.length : Int) ≥ c.config.MaxSize) ∧
        ∃ victim ∈ c.entries,
          (∀ q ∈ c.entries, victim.2.expiration ≤ q.2.expiration) ∧
          (mapDelete victim.1 c.entries).length + 1 = c.entries.length ∧
          (c.Set key value ttl now order).entries =
            mapSet key ⟨value, now + ttl, 0⟩ (mapDelete victim.1 c.entries)) := by
  by_cases hfull : c.config.MaxSize > 0 ∧ (c.entries.length : Int) ≥ c.config.MaxSize
  · right
    refine ⟨hfull, ?_⟩
    have hne : order ≠ [] := by
      intro e
      have hlen := hord.length_eq
      rw [e] at hlen
      simp at hlen
      have : (c.entries.length : Int) = 0 := by omega
      omega
    have hkeys' : ∀ p ∈ order, p.1 ≠ [] := fun p hp => hkeys p (hord.mem_iff.mp hp)
    obtain ⟨victim, hv, hkey, hvne, hmin⟩ := evictLoop_start order hne hkeys'
    have hvmem : victim ∈ c.entries := hord.mem_iff.mp hv
    refine ⟨victim, hvmem, fun q hq => hmin q (hord.mem_iff.mpr hq),
      mapDelete_length c.entries victim hmap hvmem, ?_⟩
    simp only [Cache.Set, hfull, and_self, if_true, Cache.evictOldest, hkey, ne_eq, hvne,
      not_false_eq_true]
  · left
    refine ⟨hfull, ?_⟩
    simp only [Cache.Set, hfull, if_false]

/-- Witness of `Cache_Set_eviction`: inserting a third key into the full cache. -/
theorem Cache_Set_eviction_witness :
    (¬ (fullCache.config.MaxSize > 0 ∧
          (fullCache.entries.length : Int) ≥ fullCache.config.MaxSize) ∧
        (fullCache.Set (str "c") 3 10 5 fullCache.entries).entries =
          mapSet (str "c") ⟨3, 5 + 10, 0⟩ fullCache.entries) ∨
      ((fullCache.config.MaxSize > 0 ∧
          (fullCache.entries.length : Int) ≥ fullCache.config.MaxSize) ∧
        ∃ victim ∈ fullCache.entries,
          (∀ q ∈ fullCache.entries, victim.2.expiration ≤ q.2.expiration) ∧
          (mapDelete victim.1 fullCache.entries).length + 1 = fullCache.entries.length ∧
          (fullCache.Set (str "c") 3 10 5 fullCache.entries).entries =
            mapSet (str "c") ⟨3, 5 + 10, 0⟩ (mapDelete victim.1 fullCache.entries)) :=
  Cache_Set_eviction fullCache (str "c") 3 10 5 fullCache.entries (by decide) (by decide)
    (List.Perm.refl _)

/-! ## The client: queries and their cache -/

theorem mapGet_mapDelete {α : Type} (key : GoString) (m : List (GoString × α)) :
    mapGet (mapDelete key m) key = none := by
  simp [mapGet, mapDelete, List.find?_eq_none]

theorem Cache_Get_Set {V : Type} (c : Cache V) (k : GoString) (v : V)
    (ttl t0 t : Int) (order : List (GoString × cacheEntry V)) (h : t ≤ t0 + ttl) :
    ((c.Set k v ttl t0 order).Get k t).1 = some v := by
  have h' : ¬ t0 + ttl < t := by omega
  simp [Cache.Set, Cache.Get, mapGet_mapSet, cacheEntry.isExpired, h']

theorem Cache_Get_config {V : Type} (c : Cache V) (k : GoString) (t : Int) :
    (c.Get k t).2.config = c.config := by
  unfold Cache.Get
  split
  · rfl
  · split <;> rfl

theorem Cache_Get_absent {V : Type} (c : Cache V) (k : GoString) (t : Int)
    (h : mapGet c.entries k = none) : (c.Get k t).1 = none := by
  unfold Cache.Get
  rw [h]

theorem Cache_Get_miss_entries {V : Type} (c : Cache V) (k : GoString) (t : Int)
    (h : (c.Get k t).1 = none) : mapGet (c.Get k t).2.entries k = none := by
  unfold Cache.Get at h ⊢
  split
  · rename_i h0; simpa using h0
  · rename_i entry h0
    rw [h0] at h
    simp only at h
    split
    · exact mapGet_mapDelete k c.entries
    · rename_i hexp; simp [hexp] at h

theorem Cache_Get_miss_again {V : Type} (c : Cache V) (k : GoString) (t t' : Int)
    (h : (c.Get k t).1 = none) : ((c.Get k t).2.Get k t').1 = none :=
  Cache_Get_absent _ k t' (Cache_Get_miss_entries c k t h)

theorem ConsultaDE_short {K : Type} (rt : Runtime K) (c : SifenClient K) (cdc : GoString)
    (tGet tSet : Int) (order : List (GoString × cacheEntry RespuestaConsultaDE))
    (h : cdc.length ≠ 44) :
    c.ConsultaDE rt cdc tGet tSet order = ⟨none, ErrCDCInvalido, c, []⟩ := by
  simp [SifenClient.ConsultaDE, h]

theorem ConsultaDE_hit {K : Type} (rt : Runtime K) (c : SifenClient K) (cdc : GoString)
    (tGet tSet : Int) (order : List (GoString × cacheEntry RespuestaConsultaDE))
    (resp : RespuestaConsultaDE)
    (hlen : cdc.length = 44) (h : (c.cache.DE.GetDE cdc tGet).1 = some resp) :
    (c.ConsultaDE rt cdc tGet tSet order).resp = some resp ∧
      (c.ConsultaDE rt cdc tGet tSet order).err = .nil ∧
      (c.ConsultaDE rt cdc tGet tSet order).calls = [] := by
  simp [SifenClient.ConsultaDE, hlen, h]

theorem ConsultaDE_miss {K : Type} (rt : Runtime K) (c : SifenClient K) (cdc : GoString)
    (tGet tSet : Int) (order : List (GoString × cacheEntry RespuestaConsultaDE))
    (hlen : cdc.length = 44) (h : (c.cache.DE.GetDE cdc tGet).1 = none) :
    (c.ConsultaDE rt cdc tGet tSet order).calls ≠ [] ∧
      (∀ call ∈ (c.ConsultaDE rt cdc tGet tSet order).calls,
        call.payload.DId = wrapInt64 (c.requestID + 1)) ∧
      (c.ConsultaDE rt cdc tGet tSet order).client.requestID = wrapInt64 (c.requestID + 1) ∧
      ((c.ConsultaDE rt cdc tGet tSet order).err = .nil →
        ∃ resp, (c.ConsultaDE rt cdc tGet tSet order).resp = some resp ∧
          (c.ConsultaDE rt cdc tGet tSet order).client.cache.DE =
            if resp.DCodRes = str "0260" ∨ resp.DCodRes = str "0530" then
              (c.cache.DE.GetDE cdc tGet).2.SetDE cdc resp tSet order
            else (c.cache.DE.GetDE cdc tGet).2) := by
  simp only [SifenClient.ConsultaDE, hlen, ne_eq, not_true_eq_false, if_false, h]
  split
  · split
    · simp [SifenClient.nextID, Payload.DId, NewSifenResponseError]
    · split
      · simp [SifenClient.nextID, Payload.DId, NewSifenResponseError]
      · rename_i resp _
        by_cases hc : resp.DCodRes = str "0260" ∨ resp.DCodRes = str "0530"
        · simp [hc, SifenClient.nextID, Payload.DId]
        · simp [hc, SifenClient.nextID, Payload.DId]
  · rename_i err hne
    refine ⟨by simp, by simp [SifenClient.nextID, Payload.DId], by simp [SifenClient.nextID],
      ?_⟩
    intro hnil
    exfalso
    simp only at hnil
    revert hnil hne
    generalize (SoapClient.Send rt _ _ _).2 = e
    intro hne hnil
    cases e with
    | nil => exact hne rfl
    | errorf text =>
      simp only [Wrap] at hnil
      split at hnil
      · simp [NewNetworkError] at hnil
      · split at hnil
        · simp [NewNetworkError] at hnil
        · split at hnil
          · simp [NewCryptoError] at hnil
          · simp [NewInternalError] at hnil
    | sifen t code m cause r => simp [Wrap] at hnil

theorem ConsultaRUC_hit {K : Type} (rt : Runtime K) (c : SifenClient K) (ruc : GoString)
    (tGet tSet : Int) (order : List (GoString × cacheEntry RespuestaConsultaRUC))
    (resp : RespuestaConsultaRUC) (h : (c.cache.RUC.GetRUC ruc tGet).1 = some resp) :
    (c.ConsultaRUC rt ruc tGet tSet order).resp = some resp ∧
      (c.ConsultaRUC rt ruc tGet tSet order).err = .nil ∧
      (c.ConsultaRUC rt ruc tGet tSet order).calls = [] ∧
      (c.ConsultaRUC rt ruc tGet tSet order).client.requestID = c.requestID := by
  simp [SifenClient.ConsultaRUC, h]

theorem Wrap_ne_nil (toLower : GoString → GoString) (err : GoError) (message : GoString)
    (h : err ≠ .nil) : Wrap toLower err message ≠ .nil := by
  cases err with
  | nil => exact absurd rfl h
  | errorf text =>
    simp only [Wrap]
    split
    · simp [NewNetworkError]
    · split
      · simp [NewNetworkError]
      · split
        · simp [NewCryptoError]
        · simp [NewInternalError]
  | sifen t code m cause r => simp [Wrap]

theorem ConsultaRUC_miss {K : Type} (rt : Runtime K) (c : SifenClient K) (ruc : GoString)
    (tGet tSet : Int) (order : List (GoString × cacheEntry RespuestaConsultaRUC))
    (h : (c.cache.RUC.GetRUC ruc tGet).1 = none) :
    (c.ConsultaRUC rt ruc tGet tSet order).calls ≠ [] ∧
      (∀ call ∈ (c.ConsultaRUC rt ruc tGet tSet order).calls,
        call.payload.DId = wrapInt64 (c.requestID + 1)) ∧
      (c.ConsultaRUC rt ruc tGet tSet order).client.requestID = wrapInt64 (c.requestID + 1) ∧
      ((c.ConsultaRUC rt ruc tGet tSet order).err = .nil →
        ∃ resp, (c.ConsultaRUC rt ruc tGet tSet order).resp = some resp ∧
          (c.ConsultaRUC rt ruc tGet tSet order).client.cache.RUC =
            if resp.DCodRes = str "0500" ∨ resp.DCodRes = str "0501" then
              (c.cache.RUC.GetRUC ruc tGet).2
            else (c.cache.RUC.GetRUC ruc tGet).2.SetRUC ruc resp tSet order) := by
  simp only [SifenClient.ConsultaRUC, h]
  split
  · split
    · simp [SifenClient.nextID, Payload.DId, NewSifenResponseError]
    · split
      · simp [SifenClient.nextID, Payload.DId, NewSifenResponseError]
      · rename_i resp _
        by_cases hc : resp.DCodRes = str "0500" ∨ resp.DCodRes = str "0501"
        · simp [hc, SifenClient.nextID, Payload.DId]
        · simp [hc, SifenClient.nextID, Payload.DId]
  · rename_i err hne
    refine ⟨by simp, by simp [SifenClient.nextID, Payload.DId], by simp [SifenClient.nextID],
      ?_⟩
    intro hnil
    exact absurd hnil (Wrap_ne_nil _ _ _ (fun e => hne e))

theorem ConsultaDE_second {K : Type} (rt : Runtime K) (c : SifenClient K) (cdc : GoString)
    (t1 t2 : Int) (order1 : List (GoString × cacheEntry RespuestaConsultaDE))
    (r : RespuestaConsultaDE)
    (hresp : (c.ConsultaDE rt cdc t1 t2 order1).resp = some r)
    (herr : (c.ConsultaDE rt cdc t1 t2 order1).err = .nil)
    (hcalls : (c.ConsultaDE rt cdc t1 t2 order1).calls ≠ []) :
    ((r.DCodRes = str "0260" ∨ r.DCodRes = str "0530") →
      ∀ (t3 t4 : Int) (order2 : List (GoString × cacheEntry RespuestaConsultaDE)),
        t3 ≤ t2 + c.cache.DE.cache.config.DETTL →
        ((c.ConsultaDE rt cdc t1 t2 order1).client.ConsultaDE rt cdc t3 t4 order2).resp =
            some r ∧
          ((c.ConsultaDE rt cdc t1 t2 order1).client.ConsultaDE rt cdc t3 t4 order2).err =
            .nil ∧
          ((c.ConsultaDE rt cdc t1 t2 order1).client.ConsultaDE rt cdc t3 t4 order2).calls =
            []) ∧
      (¬ (r.DCodRes = str "0260" ∨ r.DCodRes = str "0530") →
        ∀ (t3 t4 : Int) (order2 : List (GoString × cacheEntry RespuestaConsultaDE)),
          ((c.ConsultaDE rt cdc t1 t2 order1).client.ConsultaDE rt cdc t3 t4 order2).calls ≠
            []) := by
  have hlen : cdc.length = 44 := by
    by_contra hne
    rw [ConsultaDE_short rt c cdc t1 t2 order1 hne] at hresp
    simp at hresp
  have hmiss : (c.cache.DE.GetDE cdc t1).1 = none := by
    cases hg : (c.cache.DE.GetDE cdc t1).1 with
    | none => rfl
    | some resp => exact absurd (ConsultaDE_hit rt c cdc t1 t2 order1 resp hlen hg).2.2 hcalls
  obtain ⟨_, _, _, h4⟩ := ConsultaDE_miss rt c cdc t1 t2 order1 hlen hmiss
  obtain ⟨resp, hr, hcache⟩ := h4 herr
  rw [hresp] at hr
  cases hr
  constructor
  · intro hterm t3 t4 order2 ht
    rw [if_pos hterm] at hcache
    apply ConsultaDE_hit _ _ _ _ _ _ _ hlen
    rw [hcache]
    simp only [DECache.GetDE, DECache.SetDE]
    apply Cache_Get_Set
    have : (c.cache.DE.cache.Get (str "de:" ++ cdc) t1).2.config = c.cache.DE.cache.config :=
      Cache_Get_config _ _ _
    simp only [DECache.GetDE, this]
    exact ht
  · intro hterm t3 t4 order2
    rw [if_neg hterm] at hcache
    apply (ConsultaDE_miss _ _ _ _ _ _ hlen _).1
    rw [hcache]
    simp only [DECache.GetDE] at hmiss ⊢
    exact Cache_Get_miss_again _ _ _ _ hmiss

theorem ConsultaRUC_second {K : Type} (rt : Runtime K) (c : SifenClient K) (ruc : GoString)
    (t1 t2 : Int) (order1 : List (GoString × cacheEntry RespuestaConsultaRUC))
    (r : RespuestaConsultaRUC)
    (hresp : (c.ConsultaRUC rt ruc t1 t2 order1).resp = some r)
    (herr : (c.ConsultaRUC rt ruc t1 t2 order1).err = .nil)
    (hcalls : (c.ConsultaRUC rt ruc t1 t2 order1).calls ≠ []) :
    (¬ (r.DCodRes = str "0500" ∨ r.DCodRes = str "0501") →
      ∀ (t3 t4 : Int) (order2 : List (GoString × cacheEntry RespuestaConsultaRUC)),
        t3 ≤ t2 + c.cache.RUC.cache.config.RUCTTL →
        ((c.ConsultaRUC rt ruc t1 t2 order1).client.ConsultaRUC rt ruc t3 t4 order2).resp =
            some r ∧
          ((c.ConsultaRUC rt ruc t1 t2 order1).client.ConsultaRUC rt ruc t3 t4 order2).err =
            .nil ∧
          ((c.ConsultaRUC rt ruc t1 t2 order1).client.ConsultaRUC rt ruc t3 t4 order2).calls =
            []) ∧
      ((r.DCodRes = str "0500" ∨ r.DCodRes = str "0501") →
        ∀ (t3 t4 : Int) (order2 : List (GoString × cacheEntry RespuestaConsultaRUC)),
          ((c.ConsultaRUC rt ruc t1 t2 order1).client.ConsultaRUC rt ruc t3 t4 order2).calls ≠
            []) := by
  have hmiss : (c.cache.RUC.GetRUC ruc t1).1 = none := by
    cases hg : (c.cache.RUC.GetRUC ruc t1).1 with
    | none => rfl
    | some resp => exact absurd (ConsultaRUC_hit rt c ruc t1 t2 order1 resp hg).2.2.1 hcalls
  obtain ⟨_, _, _, h4⟩ := ConsultaRUC_miss rt c ruc t1 t2 order1 hmiss
  obtain ⟨resp, hr, hcache⟩ := h4 herr
  rw [hresp] at hr
  cases hr
  constructor
  · intro hterm t3 t4 order2 ht
    rw [if_neg hterm] at hcache
    have := ConsultaRUC_hit rt (c.ConsultaRUC rt ruc t1 t2 order1).client ruc t3 t4 order2 r
      (by
        rw [hcache]
        simp only [RUCCache.GetRUC, RUCCache.SetRUC]
        apply Cache_Get_Set
        have : (c.cache.RUC.cache.Get (str "ruc:" ++ ruc) t1).2.config =
            c.cache.RUC.cache.config := Cache_Get_config _ _ _
        simp only [RUCCache.GetRUC, this]
        exact ht)
    exact ⟨this.1, this.2.1, this.2.2.1⟩
  · intro hterm t3 t4 order2
    rw [if_pos hterm] at hcache
    apply (ConsultaRUC_miss _ _ _ _ _ _ _).1
    rw [hcache]
    simp only [RUCCache.GetRUC] at hmiss ⊢
    exact Cache_Get_miss_again _ _ _ _ hmiss

theorem wrapInt64_succ (x : Int) (hlo : -(2 ^ 63) ≤ x) (hhi : x + 1 < 2 ^ 63) :
    wrapInt64 (x + 1) = x + 1 := by
  unfold wrapInt64
  have h1 : (0 : Int) ≤ x + 1 + 2 ^ 63 := by omega
  have h2 : x + 1 + 2 ^ 63 < 2 ^ 64 := by omega
  rw [Int.emod_eq_of_lt h1 h2]
  omega

theorem sentIDs_increasing {K : Type} : ∀ (uses : List IDUse) (c : SifenClient K),
    -(2 ^ 63) ≤ c.requestID → c.requestID + uses.length < 2 ^ 63 →
    (∀ id ∈ sentIDs c uses, c.requestID < id) ∧ (sentIDs c uses).Pairwise (fun a b => a < b) := by
  intro uses
  induction uses with
  | nil => intro c _ _; simp [sentIDs]
  | cons u rest ih =>
    intro c hlo hhi
    simp only [List.length_cons, Nat.cast_add, Nat.cast_one] at hhi
    have hnext : wrapInt64 (c.requestID + 1) = c.requestID + 1 :=
      wrapInt64_succ _ hlo (by omega)
    have hreq : c.nextID.2.requestID = c.requestID + 1 := by
      simp [SifenClient.nextID, hnext]
    have hid : c.nextID.1 = c.requestID + 1 := by
      simp [SifenClient.nextID, hnext]
    obtain ⟨h1, h2⟩ := ih c.nextID.2 (by rw [hreq]; omega) (by rw [hreq]; omega)
    rw [hreq] at h1
    cases u with
    | builder =>
      simp only [sentIDs]
      exact ⟨fun id hmem => by have := h1 id hmem; omega, h2⟩
    | request =>
      simp only [sentIDs, List.mem_cons, List.pairwise_cons]
      refine ⟨?_, ?_, h2⟩
      · intro id hmem
        rcases hmem with rfl | hmem
        · omega
        · have := h1 id hmem; omega
      · intro id hmem
        have := h1 id hmem; omega

theorem recepcionLoteLoop_failed {K : Type} (rt : Runtime K) (c : SifenClient K) :
    ∀ (docs : List DocumentoElectronico) (acc : List GoString) (err : GoError),
    c.recepcionLoteLoop rt docs acc = .failed err →
    ∃ t code m cause r, err = .sifen t code m cause r ∧ t ≠ .BUSINESS := by
  intro docs
  induction docs with
  | nil => intro acc err h; simp [SifenClient.recepcionLoteLoop] at h
  | cons de rest ih =>
    intro acc err h
    simp only [SifenClient.recepcionLoteLoop] at h
    split at h
    · simp only [LoopOutcome.failed.injEq, Wrap] at h
      split at h
      · exact ⟨_, _, _, _, _, h.symm, by decide⟩
      · split at h
        · exact ⟨_, _, _, _, _, h.symm, by decide⟩
        · split at h
          · exact ⟨_, _, _, _, _, h.symm, by decide⟩
          · exact ⟨_, _, _, _, _, h.symm, by decide⟩
    · split at h
      · simp only [LoopOutcome.failed.injEq] at h
        exact ⟨_, _, _, _, _, h.symm, by decide⟩
      · simp at h
      · exact ih _ _ h

theorem Wrap_not_business (toLower : GoString → GoString) (err : GoError)
    (message : GoString) (h : ∀ t code m cause r, err = .sifen t code m cause r → False) :
    ∀ code m, Wrap toLower err message ≠ .sifen .BUSINESS code m .nil false := by
  intro code m
  cases err with
  | nil => simp [Wrap]
  | errorf text =>
    simp only [Wrap]
    split
    · simp [NewNetworkError]
    · split
      · simp [NewNetworkError]
      · split
        · simp [NewCryptoError]
        · simp [NewInternalError]
  | sifen t code' m' cause r => exact absurd rfl (fun e => h t code' m' cause r e)

theorem Send_not_sifen {K : Type} (rt : Runtime K) (s : SoapClient K) (url : GoString)
    (payload : Payload) :
    ∀ t code m cause r, (s.Send rt url payload).2 = .sifen t code m cause r → False := by
  intro t code m cause r h
  unfold SoapClient.Send at h
  split at h
  · simp at h
  · split at h
    · simp at h
    · simp only at h
      split at h
      · simp at h
      · split at h
        · simp at h
        · split at h <;> simp at h

theorem ConsultaDE_miss_one {K : Type} (rt : Runtime K) (c : SifenClient K) (cdc : GoString)
    (tGet tSet : Int) (order : List (GoString × cacheEntry RespuestaConsultaDE))
    (hlen : cdc.length = 44) (h : (c.cache.DE.GetDE cdc tGet).1 = none) :
    (c.ConsultaDE rt cdc tGet tSet order).calls.length = 1 := by
  simp only [SifenClient.ConsultaDE, hlen, ne_eq, not_true_eq_false, if_false, h]
  repeat' split
  all_goals rfl

theorem ConsultaRUC_miss_one {K : Type} (rt : Runtime K) (c : SifenClient K) (ruc : GoString)
    (tGet tSet : Int) (order : List (GoString × cacheEntry RespuestaConsultaRUC))
    (h : (c.cache.RUC.GetRUC ruc tGet).1 = none) :
    (c.ConsultaRUC rt ruc tGet tSet order).calls.length = 1 := by
  simp only [SifenClient.ConsultaRUC, h]
  repeat' split
  all_goals rfl

theorem ConsultaDE_ids {K : Type} (rt : Runtime K) (c : SifenClient K) (cdc : GoString)
    (tGet tSet : Int) (order : List (GoString × cacheEntry RespuestaConsultaDE)) :
    (c.ConsultaDE rt cdc tGet tSet order).calls.length ≤ 1 ∧
      (∀ call ∈ (c.ConsultaDE rt cdc tGet tSet order).calls,
        call.payload.DId = c.nextID.1) ∧
      (c.ConsultaDE rt cdc tGet tSet order).client.requestID =
        if (c.ConsultaDE rt cdc tGet tSet order).calls = [] then c.requestID
        else c.nextID.1 := by
  by_cases hlen : cdc.length = 44
  · cases hg : (c.cache.DE.GetDE cdc tGet).1 with
    | some resp =>
      have hreq : (c.ConsultaDE rt cdc tGet tSet order).client.requestID = c.requestID := by
        simp [SifenClient.ConsultaDE, hlen, hg]
      have h := (ConsultaDE_hit rt c cdc tGet tSet order resp hlen hg).2.2
      rw [h, hreq]
      simp
    | none =>
      obtain ⟨h1, h2, h3, _⟩ := ConsultaDE_miss rt c cdc tGet tSet order hlen hg
      have h4 := ConsultaDE_miss_one rt c cdc tGet tSet order hlen hg
      refine ⟨by omega, h2, ?_⟩
      rw [if_neg h1, h3]
      rfl
  · rw [ConsultaDE_short rt c cdc tGet tSet order hlen]
    simp

theorem ConsultaRUC_ids {K : Type} (rt : Runtime K) (c : SifenClient K) (ruc : GoString)
    (tGet tSet : Int) (order : List (GoString × cacheEntry RespuestaConsultaRUC)) :
    (c.ConsultaRUC rt ruc tGet tSet order).calls.length ≤ 1 ∧
      (∀ call ∈ (c.ConsultaRUC rt ruc tGet tSet order).calls,
        call.payload.DId = c.nextID.1) ∧
      (c.ConsultaRUC rt ruc tGet tSet order).client.requestID =
        if (c.ConsultaRUC rt ruc tGet tSet order).calls = [] then c.requestID
        else c.nextID.1 := by
  cases hg : (c.cache.RUC.GetRUC ruc tGet).1 with
  | some resp =>
    obtain ⟨_, _, h, hreq⟩ := ConsultaRUC_hit rt c ruc tGet tSet order resp hg
    rw [h, hreq]
    simp
  | none =>
    obtain ⟨h1, h2, h3, _⟩ := ConsultaRUC_miss rt c ruc tGet tSet order hg
    have h4 := ConsultaRUC_miss_one rt c ruc tGet tSet order hg
    refine ⟨by omega, h2, ?_⟩
    rw [if_neg h1, h3]
    rfl

theorem RecepcionLoteDE_ids {K : Type} (rt : Runtime K) (c : SifenClient K)
    (docs : List DocumentoElectronico) (r : Reply K RespuestaRecepcionLoteDE)
    (h : c.RecepcionLoteDE rt docs = some r) :
    r.calls.length ≤ 1 ∧ (∀ call ∈ r.calls, call.payload.DId = c.nextID.1) ∧
      r.client.requestID = if r.calls = [] then c.requestID else c.nextID.1 := by
  simp only [SifenClient.RecepcionLoteDE] at h
  repeat' split at h
  all_goals first
    | (cases h; simp [SifenClient.nextID, Payload.DId])
    | simp at h

theorem RecepcionLoteDE_not_size_error {K : Type} (rt : Runtime K) (c : SifenClient K)
    (docs : List DocumentoElectronico) (r : Reply K RespuestaRecepcionLoteDE)
    (h1 : 1 ≤ docs.length) (h50 : docs.length ≤ 50)
    (h : c.RecepcionLoteDE rt docs = some r) :
    r.err ≠ ErrLoteVacio ∧ r.err ≠ ErrLoteExcedeMaximo := by
  have hb : ∀ code m, r.err ≠ .sifen .BUSINESS code m .nil false := by
    intro code m
    have h0 : ¬ docs.length = 0 := by omega
    have h51 : ¬ docs.length > 50 := by omega
    simp only [SifenClient.RecepcionLoteDE, h0, h51, if_false] at h
    split at h
    · simp at h
    · rename_i err hloop
      cases h
      obtain ⟨t, code', m', cause, rec, he, ht⟩ := recepcionLoteLoop_failed rt c docs [] err hloop
      simp only [he]
      intro e
      cases e
      exact ht rfl
    · split at h
      · split at h
        · cases h; simp [NewSifenResponseError]
        · split at h
          · cases h; simp [NewSifenResponseError]
          · cases h; simp
      · cases h
        exact Wrap_not_business _ _ _ (Send_not_sifen rt _ _ _) code m
  exact ⟨hb _ _, hb _ _⟩

/-! ## Claims about the client -/

/-- Claim C15: query caching admits terminal responses only.  When a `ConsultaDE(cdc)`
went to the transport and returned the record `r`, the next `ConsultaDE(cdc)` within the
time to live returns `r` without any call of the transport if the code of `r` is 0260 or
0530, and calls the transport again for every other code; likewise for `ConsultaRUC`,
which serves the next query from the cache exactly when the code is neither 0500 nor
0501. -/
theorem query_caching {K : Type} (rt : Runtime K) (c : SifenClient K) :
    (∀ (cdc : GoString) (t1 t2 : Int)
        (order1 : List (GoString × cacheEntry RespuestaConsultaDE)) (r : RespuestaConsultaDE),
      (c.ConsultaDE rt cdc t1 t2 order1).resp = some r →
      (c.ConsultaDE rt cdc t1 t2 order1).err = .nil →
      (c.ConsultaDE rt cdc t1 t2 order1).calls ≠ [] →
      ((r.DCodRes = str "0260" ∨ r.DCodRes = str "0530") →
        ∀ (t3 t4 : Int) (order2 : List (GoString × cacheEntry RespuestaConsultaDE)),
          t3 ≤ t2 + c.cache.DE.cache.config.DETTL →
          ((c.ConsultaDE rt cdc t1 t2 order1).client.ConsultaDE rt cdc t3 t4 order2).resp =
              some r ∧
            ((c.ConsultaDE rt cdc t1 t2 order1).client.ConsultaDE rt cdc t3 t4 order2).err =
              .nil ∧
            ((c.ConsultaDE rt cdc t1 t2 order1).client.ConsultaDE rt cdc t3 t4 order2).calls =
              []) ∧
        (¬ (r.DCodRes = str "0260" ∨ r.DCodRes = str "0530") →
          ∀ (t3 t4 : Int) (order2 : List (GoString × cacheEntry RespuestaConsultaDE)),
            ((c.ConsultaDE rt cdc t1 t2 order1).client.ConsultaDE rt cdc t3 t4 order2).calls ≠
              [])) ∧
      (∀ (ruc : GoString) (t1 t2 : Int)
          (order1 : List (GoString × cacheEntry RespuestaConsultaRUC))
          (r : RespuestaConsultaRUC),
        (c.ConsultaRUC rt ruc t1 t2 order1).resp = some r →
        (c.ConsultaRUC rt ruc t1 t2 order1).err = .nil →
        (c.ConsultaRUC rt ruc t1 t2 order1).calls ≠ [] →
        (¬ (r.DCodRes = str "0500" ∨ r.DCodRes = str "0501") →
          ∀ (t3 t4 : Int) (order2 : List (GoString × cacheEntry RespuestaConsultaRUC)),
            t3 ≤ t2 + c.cache.RUC.cache.config.RUCTTL →
            ((c.ConsultaRUC rt ruc t1 t2 order1).client.ConsultaRUC rt ruc t3 t4 order2).resp =
                some r ∧
              ((c.ConsultaRUC rt ruc t1 t2 order1).client.ConsultaRUC rt ruc t3 t4 order2).err =
                .nil ∧
              ((c.ConsultaRUC rt ruc t1 t2 order1).client.ConsultaRUC rt ruc t3 t4
                order2).calls = []) ∧
          ((r.DCodRes = str "0500" ∨ r.DCodRes = str "0501") →
            ∀ (t3 t4 : Int) (order2 : List (GoString × cacheEntry RespuestaConsultaRUC)),
              ((c.ConsultaRUC rt ruc t1 t2 order1).client.ConsultaRUC rt ruc t3 t4
                order2).calls ≠ [])) :=
  ⟨fun cdc t1 t2 order1 r h1 h2 h3 => ConsultaDE_second rt c cdc t1 t2 order1 r h1 h2 h3,
    fun ruc t1 t2 order1 r h1 h2 h3 => ConsultaRUC_second rt c ruc t1 t2 order1 r h1 h2 h3⟩

set_option maxRecDepth 100000 in
/-- Witness of `query_caching`: a document query answered 0260 is served from the cache
five minutes later, one answered 0500 is sent again. -/
theorem query_caching_witness :
    (((sampleClient.ConsultaDE
          (sampleRuntime { emptyBody with RResEnviConsDe := some (consultaDEReply "0260") })
          sampleCDC 0 1 []).client.ConsultaDE
        (sampleRuntime { emptyBody with RResEnviConsDe := some (consultaDEReply "0260") })
        sampleCDC (5 * minute) (5 * minute) []).calls = []) ∧
      (((sampleClient.ConsultaDE
          (sampleRuntime { emptyBody with RResEnviConsDe := some (consultaDEReply "0500") })
          sampleCDC 0 1 []).client.ConsultaDE
        (sampleRuntime { emptyBody with RResEnviConsDe := some (consultaDEReply "0500") })
        sampleCDC (5 * minute) (5 * minute) []).calls ≠ []) :=
  ⟨((((query_caching
        (sampleRuntime { emptyBody with RResEnviConsDe := some (consultaDEReply "0260") })
        sampleClient).1 sampleCDC 0 1 [] (consultaDEReply "0260")
        (by decide) (by decide) (by decide)).1 (by decide)) (5 * minute) (5 * minute) []
        (by decide)).2.2,
    ((query_caching
        (sampleRuntime { emptyBody with RResEnviConsDe := some (consultaDEReply "0500") })
        sampleClient).1 sampleCDC 0 1 [] (consultaDEReply "0500")
        (by decide) (by decide) (by decide)).2 (by decide) (5 * minute) (5 * minute) []⟩

/-- Claim C16: for a `cdc` whose length is not 44, `ConsultaDE` returns no response and the
error `ErrCDCInvalido`, makes no call of the transport, and leaves the client (its request
counter, its cache) as it was. -/
theorem ConsultaDE_invalid_CDC {K : Type} (rt : Runtime K) (c : SifenClient K)
    (cdc : GoString) (tGet tSet : Int)
    (order : List (GoString × cacheEntry RespuestaConsultaDE)) (h : cdc.length ≠ 44) :
    (c.ConsultaDE rt cdc tGet tSet order).resp = none ∧
      (c.ConsultaDE rt cdc tGet tSet order).err = ErrCDCInvalido ∧
      (c.ConsultaDE rt cdc tGet tSet order).calls = [] ∧
      (c.ConsultaDE rt cdc tGet tSet order).client.requestID = c.requestID ∧
      (c.ConsultaDE rt cdc tGet tSet order).client.cache = c.cache := by
  rw [ConsultaDE_short rt c cdc tGet tSet order h]
  exact ⟨rfl, rfl, rfl, rfl, rfl⟩

/-- Witness of `ConsultaDE_invalid_CDC` at a CDC of three characters. -/
theorem ConsultaDE_invalid_CDC_witness :
    (sampleClient.ConsultaDE (sampleRuntime emptyBody) (str "123") 0 1 []).resp = none ∧
      (sampleClient.ConsultaDE (sampleRuntime emptyBody) (str "123") 0 1 []).err =
        ErrCDCInvalido ∧
      (sampleClient.ConsultaDE (sampleRuntime emptyBody) (str "123") 0 1 []).calls = [] ∧
      (sampleClient.ConsultaDE (sampleRuntime emptyBody) (str "123") 0 1 []).client.requestID =
        sampleClient.requestID ∧
      (sampleClient.ConsultaDE (sampleRuntime emptyBody) (str "123") 0 1 []).client.cache =
        sampleClient.cache :=
  ConsultaDE_invalid_CDC (sampleRuntime emptyBody) sampleClient (str "123") 0 1 []
    (by decide)

/-- Claim C17: absent overflow of the 64-bit counter, `nextID` returns the previous
identifier plus one, so the `dId` of the requests sent in a run are strictly increasing
and all greater than the counter at the start; and each of `ConsultaDE`, `ConsultaRUC` and
`RecepcionLoteDE` sends at most one request, whose `dId` is the value `nextID` hands out,
and advances the counter to it (leaving it unchanged when nothing is sent). -/
theorem nextID_strictly_increasing {K : Type} (c : SifenClient K) (uses : List IDUse)
    (hlo : -(2 ^ 63) ≤ c.requestID) (hhi : c.requestID + uses.length < 2 ^ 63) :
    (uses ≠ [] → c.nextID.1 = c.requestID + 1 ∧ c.nextID.2.requestID = c.requestID + 1) ∧
      (∀ id ∈ sentIDs c uses, c.requestID < id) ∧
      (sentIDs c uses).Pairwise (fun a b => a < b) ∧
      (∀ (rt : Runtime K) (cdc : GoString) (tGet tSet : Int)
          (order : List (GoString × cacheEntry RespuestaConsultaDE)),
        (c.ConsultaDE rt cdc tGet tSet order).calls.length ≤ 1 ∧
          (∀ call ∈ (c.ConsultaDE rt cdc tGet tSet order).calls,
            call.payload.DId = c.nextID.1) ∧
          (c.ConsultaDE rt cdc tGet tSet order).client.requestID =
            if (c.ConsultaDE rt cdc tGet tSet order).calls = [] then c.requestID
            else c.nextID.1) ∧
      (∀ (rt : Runtime K) (ruc : GoString) (tGet tSet : Int)
          (order : List (GoString × cacheEntry RespuestaConsultaRUC)),
        (c.ConsultaRUC rt ruc tGet tSet order).calls.length ≤ 1 ∧
          (∀ call ∈ (c.ConsultaRUC rt ruc tGet tSet order).calls,
            call.payload.DId = c.nextID.1) ∧
          (c.ConsultaRUC rt ruc tGet tSet order).client.requestID =
            if (c.ConsultaRUC rt ruc tGet tSet order).calls = [] then c.requestID
            else c.nextID.1) ∧
      (∀ (rt : Runtime K) (docs : List DocumentoElectronico)
          (r : Reply K RespuestaRecepcionLoteDE), c.RecepcionLoteDE rt docs = some r →
        r.calls.length ≤ 1 ∧ (∀ call ∈ r.calls, call.payload.DId = c.nextID.1) ∧
          r.client.requestID = if r.calls = [] then c.requestID else c.nextID.1) := by
  refine ⟨?_, (sentIDs_increasing uses c hlo hhi).1, (sentIDs_increasing uses c hlo hhi).2,
    fun rt cdc tGet tSet order => ConsultaDE_ids rt c cdc tGet tSet order,
    fun rt ruc tGet tSet order => ConsultaRUC_ids rt c ruc tGet tSet order,
    fun rt docs r h => RecepcionLoteDE_ids rt c docs r h⟩
  intro hne
  have hlen : 1 ≤ uses.length := by
    cases uses with
    | nil => exact absurd rfl hne
    | cons u rest => simp
  have h1 : ((1 : Nat) : Int) ≤ (uses.length : Int) := by exact_mod_cast hlen
  have := wrapInt64_succ c.requestID hlo (by omega)
  simp [SifenClient.nextID, this]

/-- Witness of `nextID_strictly_increasing`: a fresh client that calls `nextID` for a
request, for a builder and for a request sends the identifiers 2 and 4. -/
theorem nextID_strictly_increasing_witness :
    sentIDs sampleClient [.request, .builder, .request] = [2, 4] ∧
      (sentIDs sampleClient [.request, .builder, .request]).Pairwise (fun a b => a < b) :=
  ⟨by decide,
    (nextID_strictly_increasing sampleClient [.request, .builder, .request] (by decide)
      (by decide)).2.2.1⟩

/-- Claim C18: `RecepcionLoteDE` returns `ErrLoteVacio` for an empty list and
`ErrLoteExcedeMaximo` for every list of more than 50 documents, in both cases with no
response, no call of the transport and the client (its request counter included)
unchanged; a list of 1 to 50 documents is rejected by neither check. -/
theorem RecepcionLoteDE_size_checks {K : Type} (rt : Runtime K) (c : SifenClient K)
    (docs : List DocumentoElectronico) :
    (docs.length = 0 → c.RecepcionLoteDE rt docs = some ⟨none, ErrLoteVacio, c, []⟩) ∧
      (docs.length > 50 →
        c.RecepcionLoteDE rt docs = some ⟨none, ErrLoteExcedeMaximo, c, []⟩) ∧
      (1 ≤ docs.length → docs.length ≤ 50 →
        ∀ r, c.RecepcionLoteDE rt docs = some r →
          r.err ≠ ErrLoteVacio ∧ r.err ≠ ErrLoteExcedeMaximo) := by
  refine ⟨?_, ?_, fun h1 h50 r h => RecepcionLoteDE_not_size_error rt c docs r h1 h50 h⟩
  · intro h0
    simp [SifenClient.RecepcionLoteDE, h0]
  · intro h51
    have h0 : ¬ docs.length = 0 := by omega
    simp [SifenClient.RecepcionLoteDE, h0, h51]

/-- Witness of `RecepcionLoteDE_size_checks`: a batch of 51 documents. -/
theorem RecepcionLoteDE_size_checks_witness :
    sampleClient.RecepcionLoteDE (sampleRuntime emptyBody) batch51 =
      some ⟨none, ErrLoteExcedeMaximo, sampleClient, []⟩ :=
  (RecepcionLoteDE_size_checks (sampleRuntime emptyBody) sampleClient batch51).2.1
    (by decide)

/-- Claim C19 at a batch of two documents of types 1 and 4: `RecepcionLoteDE` does not
compare the types; it sends the batch and returns the reply of the server without
error. -/
theorem RecepcionLoteDE_mixed_types :
    (sampleDE "A" 1).DE.GTimb.ITiDE ≠ (sampleDE "B" 4).DE.GTimb.ITiDE ∧
      (sampleClient.RecepcionLoteDE
          (sampleRuntime { emptyBody with RRetEnviLoteDe := some loteReply })
          [sampleDE "A" 1, sampleDE "B" 4]).map (fun r => (r.resp, r.err, r.calls.length)) =
        some (some loteReply, .nil, 1) := by
  decide

/-! ## The batch -/

theorem base64Encode_length : ∀ (n : Nat) (s : GoString), s.length ≤ n →
    (base64Encode s).length = (s.length + 2) / 3 * 4 := by
  intro n
  induction n using Nat.strong_induction_on with
  | _ n ih =>
    intro s hs
    match s with
    | [] => rfl
    | [a] => simp [base64Encode]
    | [a, b] => simp [base64Encode]
    | a :: b :: c :: rest =>
      simp only [base64Encode, List.length_cons] at hs ⊢
      rw [ih rest.length (by omega) rest (le_refl _)]
      omega

theorem crearLoteLoop_failed {K : Type} (rt : Runtime K) (c : SifenClient K) :
    ∀ (docs : List DocumentoElectronico) (acc : List GoString) (err : GoError),
    c.crearLoteLoop rt docs acc = .failed err → err ≠ .nil := by
  intro docs
  induction docs with
  | nil => intro acc err h; simp [SifenClient.crearLoteLoop] at h
  | cons de rest ih =>
    intro acc err h
    simp only [SifenClient.crearLoteLoop] at h
    split at h
    · simp only [LoopOutcome.failed.injEq] at h
      rw [← h]; simp
    · split at h
      · simp only [LoopOutcome.failed.injEq] at h
        rw [← h]; simp
      · simp at h
      · exact ih _ _ h

theorem CrearLoteDE_archive (archive : GoString)
    (h : (archive.length : Int) / 1024 ≤ 10000) :
    sampleClient.CrearLoteDE (archiveRuntime archive) oneInvoice =
      some (base64Encode archive, .nil) := by
  have hgate : ¬ (archive.length : Int) / 1024 > MaxSizeLoteKB := by
    simp only [MaxSizeLoteKB]; omega
  have e : sampleClient.CrearLoteDE (archiveRuntime archive) oneInvoice =
      if (archive.length : Int) / 1024 > MaxSizeLoteKB then
        some ([], .errorf (str "tamaño del lote " ++ Itoa ((archive.length : Int) / 1024) ++
          str " KB excede máximo permitido " ++ Itoa MaxSizeLoteKB ++ str " KB"))
      else some (base64Encode archive, .nil) := rfl
  rw [e, if_neg hgate]

/-- Claim C20, as stated, fails: an archive of 7,680,001 bytes passes the size gate
(7,500 KB), and its Base64 text is 10,240,004 bytes long, more than 10,000 KiB. -/
theorem CrearLoteDE_encoded_size_counterexample :
    sampleClient.CrearLoteDE (archiveRuntime bigArchive) oneInvoice =
        some (base64Encode bigArchive, .nil) ∧
      (base64Encode bigArchive).length = 10240004 ∧
      (10240000 : Nat) < (base64Encode bigArchive).length := by
  have hlen : bigArchive.length = 7680001 := List.length_replicate _ _
  have h64 : (base64Encode bigArchive).length = 10240004 := by
    rw [base64Encode_length _ bigArchive (le_refl _), hlen]
  refine ⟨CrearLoteDE_archive bigArchive ?_, h64, ?_⟩
  · rw [hlen]; decide
  · rw [h64]; decide

/-- Claim C20 (amended): whenever `CrearLoteDE` succeeds, the text it returns is the Base64
encoding of a ZIP archive whose size in whole KB (its length divided by 1024, rounded
down) is at most 10,000, so the archive has fewer than 10,241,024 bytes: the size gate is
applied to the archive, before it is encoded.  With the length of Base64 text
(`4 * ceil(n / 3)`) the returned text is at most 13,654,700 bytes long. -/
theorem CrearLoteDE_size_gate {K : Type} (rt : Runtime K) (c : SifenClient K)
    (params : LoteParams) (out : GoString)
    (h : c.CrearLoteDE rt params = some (out, .nil)) :
    ∃ archive : GoString, out = rt.lib.EncodeToString archive ∧
      (archive.length : Int) / 1024 ≤ 10000 ∧ archive.length < 10241024 ∧
      ((∀ b, (rt.lib.EncodeToString b).length = (b.length + 2) / 3 * 4) →
        out.length ≤ 13654700) := by
  simp only [SifenClient.CrearLoteDE] at h
  split at h
  · simp at h
  · split at h
    · simp at h
    · split at h
      · simp at h
      · split at h
        · simp at h
        · rename_i err hloop
          simp only [Option.some.injEq, Prod.mk.injEq] at h
          exact absurd h.2 (crearLoteLoop_failed rt c _ _ err hloop)
        · split at h
          · simp at h
          · split at h
            · simp at h
            · simp at h
            · simp at h
            · rename_i archive _
              split at h
              · simp at h
              · rename_i hgate
                simp only [Option.some.injEq, Prod.mk.injEq, and_true] at h
                simp only [MaxSizeLoteKB, gt_iff_lt, not_lt] at hgate
                have hlt : archive.length < 10241024 := by omega
                refine ⟨archive, h.symm, hgate, hlt, ?_⟩
                intro hb
                rw [← h, hb]
                omega

/-- Witness of `CrearLoteDE_size_gate`: a batch of one document and an archive of two
bytes. -/
theorem CrearLoteDE_size_gate_witness :
    ∃ archive : GoString,
      base64Encode (str "PK") = (archiveRuntime (str "PK")).lib.EncodeToString archive ∧
      (archive.length : Int) / 1024 ≤ 10000 ∧ archive.length < 10241024 ∧
      ((∀ b, ((archiveRuntime (str "PK")).lib.EncodeToString b).length =
          (b.length + 2) / 3 * 4) →
        (base64Encode (str "PK")).length ≤ 13654700) :=
  CrearLoteDE_size_gate (archiveRuntime (str "PK")) sampleClient oneInvoice
    (base64Encode (str "PK")) (by decide)
/-! ## The errors of the package -/

set_option maxRecDepth 100000 in
theorem predefined_recoverable (e : GoError) (h : e ∈ predefinedErrors) :
    IsRecoverable e = true ↔
      (e.Type = some .NETWORK ∧ e.Code ≠ some (str "NET_004")) ∨
        (e.Type = some .SIFEN ∧
          (e.Code = some (str "0500") ∨ e.Code = some (str "0501") ∨
            e.Code = some (str "0100"))) := by
  simp only [predefinedErrors, List.mem_cons, List.mem_singleton, List.not_mem_nil,
    or_false] at h
  rcases h with h | h | h | h | h | h | h | h | h | h | h | h | h | h | h | h | h | h | h | h |
    h | h | h | h | h | h | h | h | h <;> subst h <;> decide

/-- Claim C27, as the code has it: for every error value built by the constructors of the
package or predefined in it, the flag `Recoverable` is true if and only if the error is of
category NETWORK and is not the predefined `ErrTLSHandshake` (code NET_004), or of category
SIFEN with code 0500, 0501 or 0100; every other error is non-recoverable. -/
theorem Recoverable_iff (e : GoError) (h : builtByPackage e) :
    IsRecoverable e = true ↔
      (e.Type = some .NETWORK ∧ e.Code ≠ some (str "NET_004")) ∨
        (e.Type = some .SIFEN ∧
          (e.Code = some (str "0500") ∨ e.Code = some (str "0501") ∨
            e.Code = some (str "0100"))) := by
  rcases h with ⟨code, message, rfl⟩ | ⟨message, cause, rfl⟩ | ⟨message, cause, rfl⟩ |
    ⟨code, message, rfl⟩ | ⟨code, message, rfl⟩ | ⟨message, cause, rfl⟩ | h
  · simp [NewValidationError, IsRecoverable, GoError.Type]
  · simp [NewCryptoError, IsRecoverable, GoError.Type]
  · have h4 : str "NETWORK_ERROR" ≠ str "NET_004" := by decide
    simp [NewNetworkError, IsRecoverable, GoError.Type, GoError.Code, h4]
  · simp [NewSifenResponseError, IsRecoverable, GoError.Type, GoError.Code,
      isRecoverableSifenCode, or_assoc]
  · simp [NewBusinessError, IsRecoverable, GoError.Type]
  · simp [NewInternalError, IsRecoverable, GoError.Type]
  · exact predefined_recoverable e h

/-- Witness of `Recoverable_iff`: the predefined connection timeout is recoverable. -/
theorem Recoverable_iff_witness :
    IsRecoverable ErrTimeoutConexion = true ↔
      (ErrTimeoutConexion.Type = some .NETWORK ∧
          ErrTimeoutConexion.Code ≠ some (str "NET_004")) ∨
        (ErrTimeoutConexion.Type = some .SIFEN ∧
          (ErrTimeoutConexion.Code = some (str "0500") ∨
            ErrTimeoutConexion.Code = some (str "0501") ∨
            ErrTimeoutConexion.Code = some (str "0100"))) :=
  Recoverable_iff ErrTimeoutConexion
    (Or.inr (Or.inr (Or.inr (Or.inr (Or.inr (Or.inr (by decide)))))))

/-- Counterexample to claim C27 as stated: the predefined error `ErrTLSHandshake` is of
category NETWORK (`IsNetworkError` holds) and its flag `Recoverable` is false. -/
theorem ErrTLSHandshake_counterexample :
    builtByPackage ErrTLSHandshake ∧ ErrTLSHandshake.Type = some .NETWORK ∧
      IsNetworkError ErrTLSHandshake = true ∧ IsRecoverable ErrTLSHandshake = false ∧
      ¬ (IsRecoverable ErrTLSHandshake = true ↔
        (ErrTLSHandshake.Type = some .NETWORK ∨
          (ErrTLSHandshake.Type = some .SIFEN ∧
            (ErrTLSHandshake.Code = some (str "0500") ∨
              ErrTLSHandshake.Code = some (str "0501") ∨
              ErrTLSHandshake.Code = some (str "0100"))))) :=
  ⟨Or.inr (Or.inr (Or.inr (Or.inr (Or.inr (Or.inr (by decide)))))), rfl, rfl, rfl,
    by decide⟩

/-- What `Wrap` makes of an error that is not a `SifenError`. -/
theorem Wrap_errorf (toLower : GoString → GoString) (text m : GoString) :
    IsSifenError (Wrap toLower (.errorf text) m) = true ∧
      (Wrap toLower (.errorf text) m).Cause = .errorf text ∧
      (Wrap toLower (.errorf text) m).Type = some (wrapCategory (toLower text)) := by
  simp only [Wrap, GoError.Error, wrapCategory]
  by_cases h1 : stringsContains (toLower text) (str "timeout") = true
  · simp [h1, NewNetworkError, IsSifenError, GoError.Cause, GoError.Type]
  · by_cases h2 : stringsContains (toLower text) (str "connection refused") = true
    · simp [h1, h2, NewNetworkError, IsSifenError, GoError.Cause, GoError.Type]
    · by_cases h3 : stringsContains (toLower text) (str "certificate") = true
      · simp [h1, h2, h3, NewCryptoError, IsSifenError, GoError.Cause, GoError.Type]
      · by_cases h4 : stringsContains (toLower text) (str "tls") = true
        · simp [h1, h2, h3, h4, NewCryptoError, IsSifenError, GoError.Cause, GoError.Type]
        · simp [h1, h2, h3, h4, NewInternalError, IsSifenError, GoError.Cause,
            GoError.Type]

/-- Claim C28: `Wrap(nil, m)` is nil, and for every non-nil error that is not already a
`SifenError`, `Wrap` returns a `SifenError` that keeps the original as `Cause` and whose
category is NETWORK if the lower-cased text contains "timeout" or "connection refused",
otherwise CRYPTOGRAPHY if it contains "certificate" or "tls", otherwise INTERNAL. -/
theorem Wrap_classification (toLower : GoString → GoString) (m : GoString) :
    Wrap toLower .nil m = .nil ∧
      ∀ text : GoString,
        IsSifenError (Wrap toLower (.errorf text) m) = true ∧
          (Wrap toLower (.errorf text) m).Cause = .errorf text ∧
          (Wrap toLower (.errorf text) m).Type =
            some (if stringsContains (toLower text) (str "timeout") = true ∨
                stringsContains (toLower text) (str "connection refused") = true
              then .NETWORK
              else if stringsContains (toLower text) (str "certificate") = true ∨
                stringsContains (toLower text) (str "tls") = true
              then .CRYPTOGRAPHY
              else .INTERNAL) :=
  ⟨rfl, fun text => Wrap_errorf toLower text m⟩

/-! ## The event builders -/

theorem motivo_cases (m : Int) (h1 : ¬ (m < 1 ∨ m > 4)) : m = 1 ∨ m = 2 ∨ m = 3 ∨ m = 4 := by
  omega

/-- The `switch` over the motive, for a motive in 1..4 and a record without sub-groups:
it fails exactly when a required field is empty, and otherwise it sets the sub-group of
the motive and nothing else. -/
theorem actualizacionSwitch_spec (data : EventoActTransporteData) (t : EventoActTransporte)
    (hm : ¬ (data.Motivo < 1 ∨ data.Motivo > 4))
    (h0 : t.GCamLocEnt = none ∧ t.GCamChof = none ∧ t.GCamTrans = none ∧ t.GCamVeh = none) :
    (¬ requiredForMotive data ∧ ∃ text, actualizacionSwitch data t = .error (.errorf text)) ∨
      (requiredForMotive data ∧ ∃ r, actualizacionSwitch data t = .ok r ∧
        r.ITipEvt = t.ITipEvt ∧ r.DMotEv = t.DMotEv ∧ r.subGroupsSet = 1 ∧
        r.subGroupOfMotive data.Motivo = true) := by
  obtain ⟨h1, h2, h3, h4⟩ := h0
  rcases motivo_cases data.Motivo hm with h | h | h | h
  · by_cases hd : data.NuevaDireccion = []
    · left
      refine ⟨fun hr => hr.1 h hd,
        str "nueva dirección es requerida para cambio de local", ?_⟩
      simp [actualizacionSwitch, h, hd, MotivoActTransp_CambioLocalEntrega]
    · right
      refine ⟨⟨fun _ => hd, ?_, ?_, ?_⟩, ?_⟩
      · intro h'; rw [h] at h'; exact absurd h' (by decide)
      · intro h'; rw [h] at h'; exact absurd h' (by decide)
      · intro h'; rw [h] at h'; exact absurd h' (by decide)
      · simp [actualizacionSwitch, h, hd, MotivoActTransp_CambioLocalEntrega,
          EventoActTransporte.subGroupsSet, EventoActTransporte.subGroupOfMotive, h2, h3, h4]
  · by_cases hd : data.NombreChofer = [] ∨ data.DocumentoChofer = []
    · left
      refine ⟨fun hr => ?_, str "nombre y documento del chofer son requeridos", ?_⟩
      · have := hr.2.1 h
        tauto
      · simp [actualizacionSwitch, h, hd, MotivoActTransp_CambioLocalEntrega,
          MotivoActTransp_CambioChofer]
    · right
      refine ⟨⟨?_, fun _ => by tauto, ?_, ?_⟩, ?_⟩
      · intro h'; rw [h] at h'; exact absurd h' (by decide)
      · intro h'; rw [h] at h'; exact absurd h' (by decide)
      · intro h'; rw [h] at h'; exact absurd h' (by decide)
      · simp [actualizacionSwitch, h, hd, MotivoActTransp_CambioLocalEntrega,
          MotivoActTransp_CambioChofer, EventoActTransporte.subGroupsSet,
          EventoActTransporte.subGroupOfMotive, h1, h3, h4]
  · by_cases hd : data.NombreTransportista = []
    · left
      refine ⟨fun hr => hr.2.2.1 h hd, str "nombre del transportista es requerido", ?_⟩
      simp [actualizacionSwitch, h, hd, MotivoActTransp_CambioLocalEntrega,
        MotivoActTransp_CambioChofer, MotivoActTransp_CambioTransportista]
    · right
      refine ⟨⟨?_, ?_, fun _ => hd, ?_⟩, ?_⟩
      · intro h'; rw [h] at h'; exact absurd h' (by decide)
      · intro h'; rw [h] at h'; exact absurd h' (by decide)
      · intro h'; rw [h] at h'; exact absurd h' (by decide)
      · simp [actualizacionSwitch, h, hd, MotivoActTransp_CambioLocalEntrega,
          MotivoActTransp_CambioChofer, MotivoActTransp_CambioTransportista,
          EventoActTransporte.subGroupsSet, EventoActTransporte.subGroupOfMotive, h1, h2, h4]
  · by_cases hd : data.TipoVehiculo = [] ∨ data.PlacaVehiculo = []
    · left
      refine ⟨fun hr => ?_, str "tipo y placa del vehículo son requeridos", ?_⟩
      · have := hr.2.2.2 h
        tauto
      · simp [actualizacionSwitch, h, hd, MotivoActTransp_CambioLocalEntrega,
          MotivoActTransp_CambioChofer, MotivoActTransp_CambioTransportista,
          MotivoActTransp_CambioVehiculo]
    · right
      refine ⟨⟨?_, ?_, ?_, fun _ => by tauto⟩, ?_⟩
      · intro h'; rw [h] at h'; exact absurd h' (by decide)
      · intro h'; rw [h] at h'; exact absurd h' (by decide)
      · intro h'; rw [h] at h'; exact absurd h' (by decide)
      · simp [actualizacionSwitch, h, hd, MotivoActTransp_CambioLocalEntrega,
          MotivoActTransp_CambioChofer, MotivoActTransp_CambioTransportista,
          MotivoActTransp_CambioVehiculo, EventoActTransporte.subGroupsSet,
          EventoActTransporte.subGroupOfMotive, h1, h2, h3]


/-- BuildCancelacion either rejects the data (no event, an error) or returns an event and
no error, and it rejects exactly when the CDC has not 44 bytes or the motive is empty. -/
theorem BuildCancelacion_spec (b : EventBuilder) (clock : Clock) (data : EventoCancelacion) :
    ((data.CDC.length ≠ 44 ∨ data.Motivo = []) ∧
        (b.BuildCancelacion clock data).1 = none ∧
        ∃ text, (b.BuildCancelacion clock data).2 = .errorf text) ∨
      (¬ (data.CDC.length ≠ 44 ∨ data.Motivo = []) ∧
        ∃ e, b.BuildCancelacion clock data = (some e, .nil)) := by
  by_cases h1 : data.CDC.length ≠ 44
  · left
    exact ⟨Or.inl h1, by simp [EventBuilder.BuildCancelacion, h1],
      ⟨_, by simp only [EventBuilder.BuildCancelacion, if_pos h1]; rfl⟩⟩
  · by_cases h2 : data.Motivo = []
    · left
      exact ⟨Or.inr h2, by simp [EventBuilder.BuildCancelacion, h1, h2],
        ⟨_, by simp only [EventBuilder.BuildCancelacion, if_neg h1, if_pos h2]; rfl⟩⟩
    · right
      exact ⟨by tauto,
        ⟨_, by simp only [EventBuilder.BuildCancelacion, if_neg h1, if_neg h2]; rfl⟩⟩

/-- BuildInutilizacion either rejects the data or returns an event and no error, and it
rejects exactly when one of its four checks fails. -/
theorem BuildInutilizacion_spec (b : EventBuilder) (clock : Clock)
    (data : EventoInutilizacionData) :
    ((data.Establecimiento.length ≠ 3 ∨ data.Punto.length ≠ 3 ∨ data.Desde > data.Hasta ∨
          data.Motivo = []) ∧
        (b.BuildInutilizacion clock data).1 = none ∧
        ∃ text, (b.BuildInutilizacion clock data).2 = .errorf text) ∨
      (¬ (data.Establecimiento.length ≠ 3 ∨ data.Punto.length ≠ 3 ∨
          data.Desde > data.Hasta ∨ data.Motivo = []) ∧
        ∃ e, b.BuildInutilizacion clock data = (some e, .nil)) := by
  by_cases h1 : data.Establecimiento = [] ∨ data.Establecimiento.length ≠ 3
  · left
    refine ⟨Or.inl ?_, by simp [EventBuilder.BuildInutilizacion, h1],
      ⟨_, by simp only [EventBuilder.BuildInutilizacion, if_pos h1]; rfl⟩⟩
    rcases h1 with h | h
    · rw [h]; decide
    · exact h
  · by_cases h2 : data.Punto = [] ∨ data.Punto.length ≠ 3
    · left
      refine ⟨Or.inr (Or.inl ?_), by simp [EventBuilder.BuildInutilizacion, h1, h2],
        ⟨_, by simp only [EventBuilder.BuildInutilizacion, if_neg h1, if_pos h2]; rfl⟩⟩
      rcases h2 with h | h
      · rw [h]; decide
      · exact h
    · by_cases h3 : data.Desde > data.Hasta
      · left
        exact ⟨Or.inr (Or.inr (Or.inl h3)),
          by simp [EventBuilder.BuildInutilizacion, h1, h2, h3],
          ⟨_, by simp only [EventBuilder.BuildInutilizacion, if_neg h1, if_neg h2,
            if_pos h3]; rfl⟩⟩
      · by_cases h4 : data.Motivo = []
        · left
          exact ⟨Or.inr (Or.inr (Or.inr h4)),
            by simp [EventBuilder.BuildInutilizacion, h1, h2, h3, h4],
            ⟨_, by simp only [EventBuilder.BuildInutilizacion, if_neg h1, if_neg h2,
              if_neg h3, if_pos h4]; rfl⟩⟩
        · right
          refine ⟨?_, ⟨_, by simp only [EventBuilder.BuildInutilizacion, if_neg h1,
            if_neg h2, if_neg h3, if_neg h4]; rfl⟩⟩
          tauto

/-- BuildActualizacionTransporte either rejects the data or returns an event and no
error; it accepts exactly when the CDC has 44 bytes, the motive is in 1..4 and the fields
required for the motive are non-empty, and the event it returns carries one transport
update, with the code 21 and the sub-group of the motive and no other. -/
theorem BuildActualizacionTransporte_spec (b : EventBuilder) (clock : Clock)
    (data : EventoActTransporteData) :
    (¬ (data.CDC.length = 44 ∧ 1 ≤ data.Motivo ∧ data.Motivo ≤ 4 ∧ requiredForMotive data) ∧
        (b.BuildActualizacionTransporte clock data).1 = none ∧
        ∃ text, (b.BuildActualizacionTransporte clock data).2 = .errorf text) ∨
      ((data.CDC.length = 44 ∧ 1 ≤ data.Motivo ∧ data.Motivo ≤ 4 ∧ requiredForMotive data) ∧
        ∃ e t, b.BuildActualizacionTransporte clock data = (some e, .nil) ∧
          e.GEvento.GGroupGesEvc = some ⟨none, none, none, some t⟩ ∧
          e.GEvento.GGroupTiEvt = none ∧ t.ITipEvt = 21 ∧ t.DMotEv = data.Motivo ∧
          t.subGroupsSet = 1 ∧ t.subGroupOfMotive data.Motivo = true) := by
  by_cases h1 : data.CDC.length ≠ 44
  · left
    exact ⟨fun h => h1 h.1, by simp [EventBuilder.BuildActualizacionTransporte, h1],
      ⟨_, by simp only [EventBuilder.BuildActualizacionTransporte, if_pos h1]; rfl⟩⟩
  · by_cases h2 : data.Motivo < 1 ∨ data.Motivo > 4
    · left
      refine ⟨fun h => ?_, by simp [EventBuilder.BuildActualizacionTransporte, h1, h2],
        ⟨_, by simp only [EventBuilder.BuildActualizacionTransporte, if_neg h1, if_pos h2]; rfl⟩⟩
      omega
    · have hr : 1 ≤ data.Motivo ∧ data.Motivo ≤ 4 := by omega
      rcases actualizacionSwitch_spec data
        { DRucEmi := b.rucEmisor
          DDVEmi := b.dvEmisor
          ITipEvt := 21
          DCDC := data.CDC
          DMotEv := data.Motivo
          DDesMotEv := MotivoActualizacionTransporte_String data.Motivo
          DFecEmiEvt := clock.Format (clock.Now 0)
          GCamLocEnt := none
          GCamChof := none
          GCamTrans := none
          GCamVeh := none } h2 ⟨rfl, rfl, rfl, rfl⟩ with
        ⟨hn, text, hs⟩ | ⟨hreq, r, hs, hr1, hr2, hr3, hr4⟩
      · left
        refine ⟨fun h => hn h.2.2.2, ?_, ⟨text, ?_⟩⟩
        · simp only [EventBuilder.BuildActualizacionTransporte, if_neg h1, if_neg h2, hs]
        · simp only [EventBuilder.BuildActualizacionTransporte, if_neg h1, if_neg h2, hs]
      · right
        refine ⟨⟨by omega, hr.1, hr.2, hreq⟩, ?_⟩
        simp only [EventBuilder.BuildActualizacionTransporte, if_neg h1, if_neg h2, hs]
        exact ⟨_, r, rfl, rfl, rfl, hr1, hr2, hr3, hr4⟩

/-- What every builder returns when it succeeds: one group with one event record, which
carries the code of the kind, under the element names of the struct tags. -/
theorem Build_shape (b : EventBuilder) (clock : Clock) (d : EventData) (e : REvento)
    (h : b.Build clock d = (some e, .nil)) :
    e.GEvento.groupsSet = 1 ∧
      (∀ g, e.GEvento.GGroupGesEvc = some g → g.recordsSet = 1) ∧
      (∀ g, e.GEvento.GGroupTiEvt = some g → g.recordsSet = 1) ∧
      e.iTipEvt = [tableCode d] ∧
      e.GEvento.xmlPaths =
        [match d with
          | .cancelacion _ => [str "gGroupGesEve", str "rGeVeCanworking"]
          | other => tablePath other] := by
  cases d with
  | cancelacion data =>
    rcases BuildCancelacion_spec b clock data with ⟨_, h1, _⟩ | ⟨hc, e1, he⟩
    · simp only [EventBuilder.Build] at h
      rw [h] at h1
      exact absurd h1 (by simp)
    · simp only [EventBuilder.Build] at h
      have h1 := hc
      simp only [not_or, not_not] at h1
      simp only [EventBuilder.BuildCancelacion, if_neg (not_not.mpr h1.1), if_neg h1.2,
        Prod.mk.injEq, Option.some.injEq, and_true] at h
      subst h
      refine ⟨rfl, ?_, ?_, rfl, rfl⟩
      · intro g hg
        simp only [Option.some.injEq] at hg
        subst hg
        rfl
      · intro g hg
        simp at hg
  | inutilizacion data =>
    rcases BuildInutilizacion_spec b clock data with ⟨_, h1, _⟩ | ⟨hc, e1, he⟩
    · simp only [EventBuilder.Build] at h
      rw [h] at h1
      exact absurd h1 (by simp)
    · simp only [EventBuilder.Build] at h
      have hh := he
      rw [h] at hh
      simp only [Prod.mk.injEq, Option.some.injEq, and_true] at hh
      subst hh
      simp only [not_or, not_not] at hc
      have c1 : ¬ (data.Establecimiento = [] ∨ data.Establecimiento.length ≠ 3) := by
        rintro (h | h)
        · rw [h] at hc; exact absurd hc.1 (by decide)
        · exact h hc.1
      have c2 : ¬ (data.Punto = [] ∨ data.Punto.length ≠ 3) := by
        rintro (h | h)
        · rw [h] at hc; exact absurd hc.2.1 (by decide)
        · exact h hc.2.1
      simp only [EventBuilder.BuildInutilizacion, if_neg c1, if_neg c2, if_neg hc.2.2.1,
        if_neg hc.2.2.2, Prod.mk.injEq, Option.some.injEq, and_true] at he
      subst he
      refine ⟨rfl, ?_, ?_, rfl, rfl⟩
      · intro g hg
        simp only [Option.some.injEq] at hg
        subst hg
        rfl
      · intro g hg
        simp at hg
  | nominacion data =>
    simp only [EventBuilder.Build, EventBuilder.BuildNominacion] at h
    by_cases h1 : data.CDC.length ≠ 44
    · simp [h1] at h
    by_cases h2 : data.RUCNominado = []
    · simp [h1, h2] at h
    by_cases h3 : data.NombreNominado = []
    · simp [h1, h2, h3] at h
    simp only [if_neg h1, if_neg h2, if_neg h3, Prod.mk.injEq, Option.some.injEq, and_true] at h
    subst h
    refine ⟨rfl, ?_, ?_, rfl, rfl⟩
    · intro g hg
      simp only [Option.some.injEq] at hg
      subst hg
      rfl
    · intro g hg
      simp at hg
  | actTransporte data =>
    rcases BuildActualizacionTransporte_spec b clock data with
      ⟨_, h1, _⟩ | ⟨_, e1, t, he, hg1, hg2, ht, _, _, _⟩
    · simp only [EventBuilder.Build] at h
      rw [h] at h1
      exact absurd h1 (by simp)
    · simp only [EventBuilder.Build] at h
      rw [h] at he
      simp only [Prod.mk.injEq, Option.some.injEq, and_true] at he
      subst he
      refine ⟨?_, ?_, ?_, ?_, ?_⟩
      · simp [GEvento.groupsSet, hg1, hg2]
      · intro g hg
        rw [hg1] at hg
        simp only [Option.some.injEq] at hg
        subst hg
        rfl
      · intro g hg
        rw [hg2] at hg
        simp at hg
      · simp [REvento.iTipEvt, GGroupGesEve.iTipEvt, hg1, hg2, ht, tableCode]
      · simp [GEvento.xmlPaths, GGroupGesEve.xmlNames, hg1, hg2, tablePath]
  | conformidad data =>
    simp only [EventBuilder.Build, EventBuilder.BuildConformidad] at h
    by_cases h1 : data.CDC.length ≠ 44
    · simp [h1] at h
    simp only [if_neg h1, Prod.mk.injEq, Option.some.injEq, and_true] at h
    subst h
    refine ⟨rfl, ?_, ?_, rfl, rfl⟩
    · intro g hg
      simp at hg
    · intro g hg
      simp only [Option.some.injEq] at hg
      subst hg
      rfl
  | disconformidad data =>
    simp only [EventBuilder.Build, EventBuilder.BuildDisconformidad] at h
    by_cases h1 : data.CDC.length ≠ 44
    · simp [h1] at h
    by_cases h2 : data.Motivo = []
    · simp [h1, h2] at h
    simp only [if_neg h1, if_neg h2, Prod.mk.injEq, Option.some.injEq, and_true] at h
    subst h
    refine ⟨rfl, ?_, ?_, rfl, rfl⟩
    · intro g hg
      simp at hg
    · intro g hg
      simp only [Option.some.injEq] at hg
      subst hg
      rfl
  | desconocimiento data =>
    simp only [EventBuilder.Build, EventBuilder.BuildDesconocimiento] at h
    by_cases h1 : data.CDC.length ≠ 44
    · simp [h1] at h
    by_cases h2 : data.Motivo = []
    · simp [h1, h2] at h
    by_cases h3 : data.Nombre = []
    · simp [h1, h2, h3] at h
    simp only [if_neg h1, if_neg h2, if_neg h3, Prod.mk.injEq, Option.some.injEq, and_true] at h
    subst h
    refine ⟨rfl, ?_, ?_, rfl, rfl⟩
    · intro g hg
      simp at hg
    · intro g hg
      simp only [Option.some.injEq] at hg
      subst hg
      rfl
  | notificacion data =>
    simp only [EventBuilder.Build, EventBuilder.BuildNotificacion] at h
    by_cases h1 : data.CDC.length ≠ 44
    · simp [h1] at h
    by_cases h2 : data.Nombre = []
    · simp [h1, h2] at h
    simp only [if_neg h1, if_neg h2, Prod.mk.injEq, Option.some.injEq, and_true] at h
    subst h
    refine ⟨rfl, ?_, ?_, rfl, rfl⟩
    · intro g hg
      simp at hg
    · intro g hg
      simp only [Option.some.injEq] at hg
      subst hg
      rfl


/-! ## Claims about the events -/

/-- Claim C21: BuildCancelacion returns an error and no event if and only if the CDC is
not exactly 44 characters (bytes) long or the motive is empty; consequently CancelarDE
with such input returns an error, and no response, without the transport ever being
invoked. -/
theorem BuildCancelacion_error_iff {K : Type} (clock : Clock) :
    (∀ (b : EventBuilder) (data : EventoCancelacion),
      ((b.BuildCancelacion clock data).1 = none ∧ (b.BuildCancelacion clock data).2 ≠ .nil) ↔
        (data.CDC.length ≠ 44 ∨ data.Motivo = [])) ∧
      ∀ (rt : EventRuntime K) (c : SifenClient K) (cdc motivo : GoString),
        (cdc.length ≠ 44 ∨ motivo = []) →
        ∃ r, c.CancelarDE rt clock cdc motivo = some r ∧ r.resp = none ∧ r.err ≠ .nil ∧
          r.calls = [] := by
  refine ⟨fun b data => ?_, fun rt c cdc motivo hbad => ?_⟩
  · rcases BuildCancelacion_spec b clock data with ⟨hc, h1, text, h2⟩ | ⟨hc, e, he⟩
    · rw [h2]
      simp [hc, h1]
    · rw [he]
      simp [hc]
  · rcases BuildCancelacion_spec (NewEventBuilder c.nextID.1 c.splitRUC.1 c.splitRUC.2)
      clock ⟨cdc, motivo⟩ with ⟨_, h1, text, h2⟩ | ⟨hc, _⟩
    · refine ⟨⟨none, .errorf text, c.nextID.2, []⟩, ?_, rfl, by simp, rfl⟩
      simp only [SifenClient.CancelarDE, SifenClient.sendBuilt, h2]
    · exact absurd hbad hc

/-- Witness of `BuildCancelacion_error_iff`: cancelling with a CDC of three characters
does not reach the transport. -/
theorem BuildCancelacion_error_iff_witness :
    ∃ r, sampleClient.CancelarDE (sampleEventRuntime emptyBody) sampleClock (str "123")
        (str "error") = some r ∧ r.resp = none ∧ r.err ≠ .nil ∧ r.calls = [] :=
  (BuildCancelacion_error_iff sampleClock).2 (sampleEventRuntime emptyBody) sampleClient
    (str "123") (str "error") (Or.inl (by decide))

/-- Claim C22: BuildInutilizacion returns an error and no event if and only if the
establishment is not exactly 3 characters (bytes), or the point is not exactly 3
characters, or desde > hasta, or the motive is empty; in particular every range with
desde > hasta is rejected and desde = hasta is accepted. -/
theorem BuildInutilizacion_error_iff (b : EventBuilder) (clock : Clock)
    (data : EventoInutilizacionData) :
    (((b.BuildInutilizacion clock data).1 = none ∧
          (b.BuildInutilizacion clock data).2 ≠ .nil) ↔
        (data.Establecimiento.length ≠ 3 ∨ data.Punto.length ≠ 3 ∨
          data.Desde > data.Hasta ∨ data.Motivo = [])) ∧
      (data.Desde > data.Hasta →
        (b.BuildInutilizacion clock data).1 = none ∧
          (b.BuildInutilizacion clock data).2 ≠ .nil) ∧
      (data.Establecimiento.length = 3 → data.Punto.length = 3 → data.Motivo ≠ [] →
        data.Desde = data.Hasta →
        ∃ e, b.BuildInutilizacion clock data = (some e, .nil)) := by
  rcases BuildInutilizacion_spec b clock data with ⟨hc, h1, text, h2⟩ | ⟨hc, e, he⟩
  · refine ⟨?_, ?_, ?_⟩
    · rw [h2]
      simp [hc, h1]
    · intro _
      rw [h2]
      simp [h1]
    · intro a1 a2 a3 a4
      exfalso
      rcases hc with h | h | h | h
      · exact h a1
      · exact h a2
      · omega
      · exact a3 h
  · refine ⟨?_, ?_, ?_⟩
    · rw [he]
      simp [hc]
    · intro h
      exact absurd (Or.inr (Or.inr (Or.inl h))) hc
    · intro _ _ _ _
      exact ⟨e, he⟩

/-- Witness of `BuildInutilizacion_error_iff`: the range from 7 to 7 is accepted. -/
theorem BuildInutilizacion_error_iff_witness :
    ∃ e, sampleBuilder.BuildInutilizacion sampleClock (inutilizacionData 7 7) =
      (some e, .nil) :=
  (BuildInutilizacion_error_iff sampleBuilder sampleClock (inutilizacionData 7 7)).2.2
    (by decide) (by decide) (by decide) (by decide)

/-- Claim C23: BuildActualizacionTransporte succeeds (an event and no error) if and only
if the CDC has 44 characters (bytes), the motive is in 1..4, and the fields marked
required for that motive are non-empty (1: new address; 2: driver name and driver
document number; 3: carrier name; 4: vehicle type and plate); otherwise it returns an
error and no event; in particular motive 2 with a missing driver document is rejected. -/
theorem BuildActualizacionTransporte_iff (b : EventBuilder) (clock : Clock)
    (data : EventoActTransporteData) :
    ((∃ e, b.BuildActualizacionTransporte clock data = (some e, .nil)) ↔
        (data.CDC.length = 44 ∧ 1 ≤ data.Motivo ∧ data.Motivo ≤ 4 ∧
          requiredForMotive data)) ∧
      (¬ (∃ e, b.BuildActualizacionTransporte clock data = (some e, .nil)) →
        (b.BuildActualizacionTransporte clock data).1 = none ∧
          (b.BuildActualizacionTransporte clock data).2 ≠ .nil) ∧
      (data.Motivo = 2 → data.DocumentoChofer = [] →
        (b.BuildActualizacionTransporte clock data).1 = none ∧
          (b.BuildActualizacionTransporte clock data).2 ≠ .nil) := by
  rcases BuildActualizacionTransporte_spec b clock data with
    ⟨hc, h1, text, h2⟩ | ⟨hc, e, t, he, _⟩
  · have hne : (b.BuildActualizacionTransporte clock data).2 ≠ .nil := by
      rw [h2]
      simp
    have hno : ¬ ∃ e, b.BuildActualizacionTransporte clock data = (some e, .nil) := by
      rintro ⟨e, he⟩
      rw [he] at h1
      simp at h1
    exact ⟨⟨fun h => absurd h hno, fun h => absurd h hc⟩, fun _ => ⟨h1, hne⟩,
      fun _ _ => ⟨h1, hne⟩⟩
  · refine ⟨⟨fun _ => hc, fun _ => ⟨e, he⟩⟩, fun h => absurd ⟨e, he⟩ h, fun m2 hd => ?_⟩
    exact absurd hd (hc.2.2.2.2.1 m2).2

/-- Witness of `BuildActualizacionTransporte_iff`: a change of driver without the
document of the driver is rejected. -/
theorem BuildActualizacionTransporte_iff_witness :
    (sampleBuilder.BuildActualizacionTransporte sampleClock
        { transportData 2 with NombreChofer := str "Juan" }).1 = none ∧
      (sampleBuilder.BuildActualizacionTransporte sampleClock
        { transportData 2 with NombreChofer := str "Juan" }).2 ≠ .nil :=
  (BuildActualizacionTransporte_iff sampleBuilder sampleClock
    { transportData 2 with NombreChofer := str "Juan" }).2.2 rfl rfl

/-- Claim C24: every event returned successfully by any of the eight builders populates
exactly one alternative at every discriminated level: exactly one of gGroupGesEve /
gGroupTiEvt is set, exactly one event record is set inside it, and for a transport update
exactly one of the four motive sub-groups (gCamLocEnt, gCamChof, gCamTrans, gCamVeh) is
set, namely the one matching its motive. -/
theorem events_one_alternative (b : EventBuilder) (clock : Clock) :
    (∀ (d : EventData) (e : REvento), b.Build clock d = (some e, .nil) →
      e.GEvento.groupsSet = 1 ∧
        (∀ g, e.GEvento.GGroupGesEvc = some g → g.recordsSet = 1) ∧
        (∀ g, e.GEvento.GGroupTiEvt = some g → g.recordsSet = 1)) ∧
      ∀ (data : EventoActTransporteData) (e : REvento),
        b.BuildActualizacionTransporte clock data = (some e, .nil) →
        ∃ g t, e.GEvento.GGroupGesEvc = some g ∧ g.RGesEveTra = some t ∧
          t.DMotEv = data.Motivo ∧ t.subGroupsSet = 1 ∧
          t.subGroupOfMotive data.Motivo = true := by
  refine ⟨fun d e h => ?_, fun data e h => ?_⟩
  · obtain ⟨h1, h2, h3, _⟩ := Build_shape b clock d e h
    exact ⟨h1, h2, h3⟩
  · rcases BuildActualizacionTransporte_spec b clock data with
      ⟨_, h1, _⟩ | ⟨_, e1, t, he, hg, _, _, hm, hs, ho⟩
    · rw [h] at h1
      simp at h1
    · rw [h] at he
      simp only [Prod.mk.injEq, Option.some.injEq, and_true] at he
      subst he
      exact ⟨_, t, hg, rfl, hm, hs, ho⟩

/-- Witness of `events_one_alternative`: the event of a change of vehicle carries the
sub-group of the vehicle and no other. -/
theorem events_one_alternative_witness :
    ∃ e g t, sampleBuilder.BuildActualizacionTransporte sampleClock
        { transportData 4 with TipoVehiculo := str "camión", PlacaVehiculo := str "ABC123" } =
          (some e, .nil) ∧
      e.GEvento.GGroupGesEvc = some g ∧ g.RGesEveTra = some t ∧ t.DMotEv = 4 ∧
      t.subGroupsSet = 1 ∧ t.GCamVeh.isSome = true := by
  have h : ∃ e, sampleBuilder.BuildActualizacionTransporte sampleClock
      { transportData 4 with TipoVehiculo := str "camión", PlacaVehiculo := str "ABC123" } =
        (some e, .nil) := ⟨_, rfl⟩
  obtain ⟨e, he⟩ := h
  obtain ⟨g, t, h1, h2, h3, h4, h5⟩ :=
    (events_one_alternative sampleBuilder sampleClock).2 _ e he
  exact ⟨e, g, t, he, h1, h2, h3, h4, h5⟩

/-- Claim C25: each builder stamps the event-kind code of the table into iTipEvt:
cancellation 1, inutilization 2, nomination 20, transport update 21, conformity 11,
non-conformity 12, ignorance (desconocimiento) 13, notification 14; these equal the
corresponding TTiEvento constants. -/
theorem iTipEvt_codes (b : EventBuilder) (clock : Clock) (d : EventData) :
    (∀ e : REvento, b.Build clock d = (some e, .nil) → e.iTipEvt = [tableCode d]) ∧
      tableCode d = kindConstant d := by
  refine ⟨fun e h => (Build_shape b clock d e h).2.2.2.1, ?_⟩
  cases d <;> rfl

/-- Witness of `iTipEvt_codes`: the event of a cancellation carries the code 1. -/
theorem iTipEvt_codes_witness :
    ∃ e, sampleBuilder.BuildCancelacion sampleClock cancelacionData = (some e, .nil) ∧
      e.iTipEvt = [1] := by
  have h : ∃ e, sampleBuilder.Build sampleClock (.cancelacion cancelacionData) =
      (some e, .nil) := ⟨_, rfl⟩
  obtain ⟨e, he⟩ := h
  exact ⟨e, he, (iTipEvt_codes sampleBuilder sampleClock (.cancelacion cancelacionData)).1 e he⟩

/-- Claim C26, as the code has it: the record of a cancellation is serialized under
gGroupGesEve/rGeVeCanworking, which is not the name of the table (rGeVeCan); the records of
the seven other kinds are serialized under the names of the table. -/
theorem event_element_names (b : EventBuilder) (clock : Clock) :
    (∀ (data : EventoCancelacion) (e : REvento),
      b.BuildCancelacion clock data = (some e, .nil) →
      e.GEvento.xmlPaths = [[str "gGroupGesEve", str "rGeVeCanworking"]] ∧
        e.GEvento.xmlPaths ≠ [tablePath (.cancelacion data)]) ∧
      ∀ (d : EventData) (e : REvento), (∀ data, d ≠ .cancelacion data) →
        b.Build clock d = (some e, .nil) → e.GEvento.xmlPaths = [tablePath d] := by
  refine ⟨fun data e h => ?_, fun d e hd h => ?_⟩
  · have h1 := (Build_shape b clock (.cancelacion data) e h).2.2.2.2
    simp only at h1
    rw [h1]
    refine ⟨rfl, ?_⟩
    simp only [tablePath]
    decide
  · have h1 := (Build_shape b clock d e h).2.2.2.2
    cases d with
    | cancelacion data => exact absurd rfl (hd data)
    | _ => exact h1

/-- Witness of `event_element_names`: the element name of the cancellation of the sample
CDC. -/
theorem event_element_names_witness :
    ∃ e, sampleBuilder.BuildCancelacion sampleClock cancelacionData = (some e, .nil) ∧
      e.GEvento.xmlPaths = [[str "gGroupGesEve", str "rGeVeCanworking"]] ∧
      e.GEvento.xmlPaths ≠ [[str "gGroupGesEve", str "rGeVeCan"]] := by
  have h : ∃ e, sampleBuilder.BuildCancelacion sampleClock cancelacionData =
      (some e, .nil) := ⟨_, rfl⟩
  obtain ⟨e, he⟩ := h
  exact ⟨e, he, (event_element_names sampleBuilder sampleClock).1 cancelacionData e he⟩


/-! ## Replies with a status other than 200, and replies of another shape -/

/-- `Send` on a server that answers every request with a status other than 200. -/
theorem Send_status {K : Type} (rt : Runtime K) (s : SoapClient K) (url : GoString)
    (payload : Payload) (status : Int) (body : GoString) (hs : status ≠ 200)
    (hEnv : ∀ p, ∃ b, rt.MarshalEnvelope p = .ok b)
    (hReq : ∀ u, rt.NewRequestError u = none)
    (hDo : ∀ req, rt.Do req = .ok ⟨status, .ok body⟩) :
    s.Send rt url payload = (body, .errorf (statusText status body)) := by
  obtain ⟨b, hb⟩ := hEnv payload
  simp [SoapClient.Send, hb, hReq, hDo, hs, statusText]

/-- `Send` on a server that answers every request with the status 200. -/
theorem Send_ok {K : Type} (rt : Runtime K) (s : SoapClient K) (url : GoString)
    (payload : Payload) (body : GoString)
    (hEnv : ∀ p, ∃ b, rt.MarshalEnvelope p = .ok b)
    (hReq : ∀ u, rt.NewRequestError u = none)
    (hDo : ∀ req, rt.Do req = .ok ⟨200, .ok body⟩) :
    s.Send rt url payload = (body, .nil) := by
  obtain ⟨b, hb⟩ := hEnv payload
  simp [SoapClient.Send, hb, hReq, hDo]

theorem ConsultaRUC_status {K : Type} (rt : Runtime K) (c : SifenClient K) (status : Int)
    (body : GoString) (hs : status ≠ 200)
    (hEnv : ∀ p, ∃ b, rt.MarshalEnvelope p = .ok b)
    (hReq : ∀ u, rt.NewRequestError u = none)
    (hDo : ∀ req, rt.Do req = .ok ⟨status, .ok body⟩)
    (ruc : GoString) (tGet tSet : Int)
    (order : List (GoString × cacheEntry RespuestaConsultaRUC))
    (h : (c.ConsultaRUC rt ruc tGet tSet order).calls ≠ []) :
    (c.ConsultaRUC rt ruc tGet tSet order).resp = none ∧
      (c.ConsultaRUC rt ruc tGet tSet order).err =
        Wrap rt.ToLower (.errorf (statusText status body)) (str "ConsultaRUC failed") := by
  have hSend : ∀ (s : SoapClient K) url p,
      s.Send rt url p = (body, .errorf (statusText status body)) :=
    fun s url p => Send_status rt s url p status body hs hEnv hReq hDo
  cases hg : (c.cache.RUC.GetRUC ruc tGet).1 with
  | some resp => simp [SifenClient.ConsultaRUC, hg] at h
  | none => simp [SifenClient.ConsultaRUC, hg, hSend]

theorem ConsultaDE_status {K : Type} (rt : Runtime K) (c : SifenClient K) (status : Int)
    (body : GoString) (hs : status ≠ 200)
    (hEnv : ∀ p, ∃ b, rt.MarshalEnvelope p = .ok b)
    (hReq : ∀ u, rt.NewRequestError u = none)
    (hDo : ∀ req, rt.Do req = .ok ⟨status, .ok body⟩)
    (cdc : GoString) (tGet tSet : Int)
    (order : List (GoString × cacheEntry RespuestaConsultaDE))
    (h : (c.ConsultaDE rt cdc tGet tSet order).calls ≠ []) :
    (c.ConsultaDE rt cdc tGet tSet order).resp = none ∧
      (c.ConsultaDE rt cdc tGet tSet order).err =
        Wrap rt.ToLower (.errorf (statusText status body)) (str "ConsultaDE failed") := by
  have hSend : ∀ (s : SoapClient K) url p,
      s.Send rt url p = (body, .errorf (statusText status body)) :=
    fun s url p => Send_status rt s url p status body hs hEnv hReq hDo
  by_cases hlen : cdc.length ≠ 44
  · simp [SifenClient.ConsultaDE, hlen] at h
  · cases hg : (c.cache.DE.GetDE cdc tGet).1 with
    | some resp => simp [SifenClient.ConsultaDE, hlen, hg] at h
    | none => simp [SifenClient.ConsultaDE, hlen, hg, hSend]

theorem RecepcionDE_status {K : Type} (rt : Runtime K) (c : SifenClient K) (status : Int)
    (body : GoString) (hs : status ≠ 200)
    (hEnv : ∀ p, ∃ b, rt.MarshalEnvelope p = .ok b)
    (hReq : ∀ u, rt.NewRequestError u = none)
    (hDo : ∀ req, rt.Do req = .ok ⟨status, .ok body⟩)
    (de : DocumentoElectronico) (r : Reply K RespuestaRecepcionDE)
    (hr : c.RecepcionDE rt de = some r) (h : r.calls ≠ []) :
    r.resp = none ∧
      r.err = Wrap rt.ToLower (.errorf (statusText status body)) (str "RecepcionDE failed") := by
  have hSend : ∀ (s : SoapClient K) url p,
      s.Send rt url p = (body, .errorf (statusText status body)) :=
    fun s url p => Send_status rt s url p status body hs hEnv hReq hDo
  unfold SifenClient.RecepcionDE at hr
  cases hm : rt.MarshalDE de with
  | error err =>
    simp only [hm, Option.some.injEq] at hr
    subst hr
    simp at h
  | ok deBytes =>
    simp only [hm] at hr
    cases hsig : c.signIfConfigured rt deBytes de.DE.Id with
    | error err =>
      simp only [hsig, Option.some.injEq] at hr
      subst hr
      simp at h
    | panic => simp [hsig] at hr
    | ok signedBytes =>
      simp only [hsig, hSend, Option.some.injEq] at hr
      subst hr
      exact ⟨rfl, rfl⟩

theorem RecepcionLoteDE_status {K : Type} (rt : Runtime K) (c : SifenClient K)
    (status : Int) (body : GoString) (hs : status ≠ 200)
    (hEnv : ∀ p, ∃ b, rt.MarshalEnvelope p = .ok b)
    (hReq : ∀ u, rt.NewRequestError u = none)
    (hDo : ∀ req, rt.Do req = .ok ⟨status, .ok body⟩)
    (docs : List DocumentoElectronico) (r : Reply K RespuestaRecepcionLoteDE)
    (hr : c.RecepcionLoteDE rt docs = some r) (h : r.calls ≠ []) :
    r.resp = none ∧
      r.err =
        Wrap rt.ToLower (.errorf (statusText status body)) (str "RecepcionLoteDE failed") := by
  have hSend : ∀ (s : SoapClient K) url p,
      s.Send rt url p = (body, .errorf (statusText status body)) :=
    fun s url p => Send_status rt s url p status body hs hEnv hReq hDo
  unfold SifenClient.RecepcionLoteDE at hr
  by_cases h0 : docs.length = 0
  · simp only [if_pos h0, Option.some.injEq] at hr
    subst hr
    simp at h
  · by_cases h50 : docs.length > 50
    · simp only [if_neg h0, if_pos h50, Option.some.injEq] at hr
      subst hr
      simp at h
    · simp only [if_neg h0, if_neg h50] at hr
      cases hl : c.recepcionLoteLoop rt docs [] with
      | panicked => simp [hl] at hr
      | failed err =>
        simp only [hl, Option.some.injEq] at hr
        subst hr
        simp at h
      | done xdeList =>
        simp only [hl, hSend, Option.some.injEq] at hr
        subst hr
        exact ⟨rfl, rfl⟩


theorem statusError_Wrap (toLower : GoString → GoString) (status : Int) (body m : GoString) :
    statusError toLower status body (Wrap toLower (.errorf (statusText status body)) m) :=
  Wrap_errorf toLower (statusText status body) m

/-- Claim C29, as the code has it: when the server answers with an HTTP status other than
200, the client operations ConsultaRUC, RecepcionDE, RecepcionLoteDE and ConsultaDE return
no response and a `SifenError` whose cause carries the status and the response body, for
every status and body; its category is the one `Wrap` derives from the lower-cased text
"sifen returned status <status>: <body>": NETWORK if it contains "timeout" or "connection
refused", otherwise CRYPTOGRAPHY if it contains "certificate" or "tls", otherwise INTERNAL.
An operation has reached the server when its list of calls of the transport is not empty. -/
theorem non200_error {K : Type} (rt : Runtime K) (c : SifenClient K) (status : Int)
    (body : GoString) (hs : status ≠ 200)
    (hEnv : ∀ p, ∃ b, rt.MarshalEnvelope p = .ok b)
    (hReq : ∀ u, rt.NewRequestError u = none)
    (hDo : ∀ req, rt.Do req = .ok ⟨status, .ok body⟩) :
    (∀ (ruc : GoString) (tGet tSet : Int)
        (order : List (GoString × cacheEntry RespuestaConsultaRUC)),
      (c.ConsultaRUC rt ruc tGet tSet order).calls ≠ [] →
      (c.ConsultaRUC rt ruc tGet tSet order).resp = none ∧
        statusError rt.ToLower status body (c.ConsultaRUC rt ruc tGet tSet order).err) ∧
      (∀ (de : DocumentoElectronico) (r : Reply K RespuestaRecepcionDE),
        c.RecepcionDE rt de = some r → r.calls ≠ [] →
        r.resp = none ∧ statusError rt.ToLower status body r.err) ∧
      (∀ (docs : List DocumentoElectronico) (r : Reply K RespuestaRecepcionLoteDE),
        c.RecepcionLoteDE rt docs = some r → r.calls ≠ [] →
        r.resp = none ∧ statusError rt.ToLower status body r.err) ∧
      (∀ (cdc : GoString) (tGet tSet : Int)
          (order : List (GoString × cacheEntry RespuestaConsultaDE)),
        (c.ConsultaDE rt cdc tGet tSet order).calls ≠ [] →
        (c.ConsultaDE rt cdc tGet tSet order).resp = none ∧
          statusError rt.ToLower status body (c.ConsultaDE rt cdc tGet tSet order).err) := by
  refine ⟨fun ruc tGet tSet order h => ?_, fun de r hr h => ?_, fun docs r hr h => ?_,
    fun cdc tGet tSet order h => ?_⟩
  · obtain ⟨h1, h2⟩ := ConsultaRUC_status rt c status body hs hEnv hReq hDo ruc tGet tSet
      order h
    rw [h2]
    exact ⟨h1, statusError_Wrap _ _ _ _⟩
  · obtain ⟨h1, h2⟩ := RecepcionDE_status rt c status body hs hEnv hReq hDo de r hr h
    rw [h2]
    exact ⟨h1, statusError_Wrap _ _ _ _⟩
  · obtain ⟨h1, h2⟩ := RecepcionLoteDE_status rt c status body hs hEnv hReq hDo docs r hr h
    rw [h2]
    exact ⟨h1, statusError_Wrap _ _ _ _⟩
  · obtain ⟨h1, h2⟩ := ConsultaDE_status rt c status body hs hEnv hReq hDo cdc tGet tSet
      order h
    rw [h2]
    exact ⟨h1, statusError_Wrap _ _ _ _⟩

set_option maxRecDepth 100000 in
/-- Witness of `non200_error`: a RUC query answered with the status 503 and the body
"timeout" returns an error that carries both. -/
theorem non200_error_witness :
    (sampleClient.ConsultaRUC (statusRuntime 503 (str "timeout")) (str "80069563-1") 0 0
        []).resp = none ∧
      statusError (fun s => s) 503 (str "timeout")
        (sampleClient.ConsultaRUC (statusRuntime 503 (str "timeout")) (str "80069563-1") 0 0
          []).err :=
  (non200_error (statusRuntime 503 (str "timeout")) sampleClient 503 (str "timeout")
    (by decide) (fun _ => ⟨_, rfl⟩) (fun _ => rfl) (fun _ => rfl)).1 (str "80069563-1") 0 0 []
    (by decide)

set_option maxRecDepth 100000 in
/-- Counterexample to claim C29 as stated: a RUC query answered with the status 500 and an
empty body reaches the server and returns an error of category INTERNAL, for which
`IsNetworkError` does not hold.  The text "sifen returned status 500: " has no upper-case
letter, so that `strings.ToLower` leaves it as it is. -/
theorem non200_not_network_counterexample :
    (sampleClient.ConsultaRUC (statusRuntime 500 []) (str "80069563-1") 0 0 []).calls ≠ [] ∧
      (sampleClient.ConsultaRUC (statusRuntime 500 []) (str "80069563-1") 0 0 []).err.Type =
        some .INTERNAL ∧
      IsNetworkError
        (sampleClient.ConsultaRUC (statusRuntime 500 []) (str "80069563-1") 0 0 []).err =
          false ∧
      (sampleClient.ConsultaRUC (statusRuntime 500 []) (str "80069563-1") 0 0 []).err.Cause =
        .errorf (str "sifen returned status 500: ") := by
  decide

theorem ConsultaRUC_empty {K : Type} (rt : Runtime K) (c : SifenClient K)
    (raw : GoString) (env : BodyRefResponse)
    (hEnv : ∀ p, ∃ b, rt.MarshalEnvelope p = .ok b)
    (hReq : ∀ u, rt.NewRequestError u = none)
    (hDo : ∀ req, rt.Do req = .ok ⟨200, .ok raw⟩) (hUn : rt.Unmarshal raw = .ok env)
    (ruc : GoString) (tGet tSet : Int)
    (order : List (GoString × cacheEntry RespuestaConsultaRUC))
    (hshape : env.RResEnviConsRuc = none)
    (h : (c.ConsultaRUC rt ruc tGet tSet order).calls ≠ []) :
    (c.ConsultaRUC rt ruc tGet tSet order).resp = none ∧
      (c.ConsultaRUC rt ruc tGet tSet order).err = emptyResponseError := by
  have hSend : ∀ (s : SoapClient K) url p, s.Send rt url p = (raw, .nil) :=
    fun s url p => Send_ok rt s url p raw hEnv hReq hDo
  cases hg : (c.cache.RUC.GetRUC ruc tGet).1 with
  | some resp => simp [SifenClient.ConsultaRUC, hg] at h
  | none => simp [SifenClient.ConsultaRUC, hg, hSend, hUn, hshape, emptyResponseError]

theorem ConsultaDE_empty {K : Type} (rt : Runtime K) (c : SifenClient K)
    (raw : GoString) (env : BodyRefResponse)
    (hEnv : ∀ p, ∃ b, rt.MarshalEnvelope p = .ok b)
    (hReq : ∀ u, rt.NewRequestError u = none)
    (hDo : ∀ req, rt.Do req = .ok ⟨200, .ok raw⟩) (hUn : rt.Unmarshal raw = .ok env)
    (cdc : GoString) (tGet tSet : Int)
    (order : List (GoString × cacheEntry RespuestaConsultaDE))
    (hshape : env.RResEnviConsDe = none)
    (h : (c.ConsultaDE rt cdc tGet tSet order).calls ≠ []) :
    (c.ConsultaDE rt cdc tGet tSet order).resp = none ∧
      (c.ConsultaDE rt cdc tGet tSet order).err = emptyResponseError := by
  have hSend : ∀ (s : SoapClient K) url p, s.Send rt url p = (raw, .nil) :=
    fun s url p => Send_ok rt s url p raw hEnv hReq hDo
  by_cases hlen : cdc.length ≠ 44
  · simp [SifenClient.ConsultaDE, hlen] at h
  · cases hg : (c.cache.DE.GetDE cdc tGet).1 with
    | some resp => simp [SifenClient.ConsultaDE, hlen, hg] at h
    | none =>
      simp [SifenClient.ConsultaDE, hlen, hg, hSend, hUn, hshape, emptyResponseError]

theorem RecepcionDE_empty {K : Type} (rt : Runtime K) (c : SifenClient K)
    (raw : GoString) (env : BodyRefResponse)
    (hEnv : ∀ p, ∃ b, rt.MarshalEnvelope p = .ok b)
    (hReq : ∀ u, rt.NewRequestError u = none)
    (hDo : ∀ req, rt.Do req = .ok ⟨200, .ok raw⟩) (hUn : rt.Unmarshal raw = .ok env)
    (de : DocumentoElectronico) (r : Reply K RespuestaRecepcionDE)
    (hshape : env.RRetEnviDe = none)
    (hr : c.RecepcionDE rt de = some r) (h : r.calls ≠ []) :
    r.resp = none ∧ r.err = emptyResponseError := by
  have hSend : ∀ (s : SoapClient K) url p, s.Send rt url p = (raw, .nil) :=
    fun s url p => Send_ok rt s url p raw hEnv hReq hDo
  unfold SifenClient.RecepcionDE at hr
  cases hm : rt.MarshalDE de with
  | error err =>
    simp only [hm, Option.some.injEq] at hr
    subst hr
    simp at h
  | ok deBytes =>
    simp only [hm] at hr
    cases hsig : c.signIfConfigured rt deBytes de.DE.Id with
    | error err =>
      simp only [hsig, Option.some.injEq] at hr
      subst hr
      simp at h
    | panic => simp [hsig] at hr
    | ok signedBytes =>
      simp only [hsig, hSend, hUn, hshape, Option.some.injEq] at hr
      subst hr
      exact ⟨rfl, rfl⟩

theorem RecepcionLoteDE_empty {K : Type} (rt : Runtime K) (c : SifenClient K)
    (raw : GoString) (env : BodyRefResponse)
    (hEnv : ∀ p, ∃ b, rt.MarshalEnvelope p = .ok b)
    (hReq : ∀ u, rt.NewRequestError u = none)
    (hDo : ∀ req, rt.Do req = .ok ⟨200, .ok raw⟩) (hUn : rt.Unmarshal raw = .ok env)
    (docs : List DocumentoElectronico) (r : Reply K RespuestaRecepcionLoteDE)
    (hshape : env.RRetEnviLoteDe = none)
    (hr : c.RecepcionLoteDE rt docs = some r) (h : r.calls ≠ []) :
    r.resp = none ∧ r.err = emptyResponseError := by
  have hSend : ∀ (s : SoapClient K) url p, s.Send rt url p = (raw, .nil) :=
    fun s url p => Send_ok rt s url p raw hEnv hReq hDo
  unfold SifenClient.RecepcionLoteDE at hr
  by_cases h0 : docs.length = 0
  · simp only [if_pos h0, Option.some.injEq] at hr
    subst hr
    simp at h
  · by_cases h50 : docs.length > 50
    · simp only [if_neg h0, if_pos h50, Option.some.injEq] at hr
      subst hr
      simp at h
    · simp only [if_neg h0, if_neg h50] at hr
      cases hl : c.recepcionLoteLoop rt docs [] with
      | panicked => simp [hl] at hr
      | failed err =>
        simp only [hl, Option.some.injEq] at hr
        subst hr
        simp at h
      | done xdeList =>
        simp only [hl, hSend, hUn, hshape, Option.some.injEq] at hr
        subst hr
        exact ⟨rfl, rfl⟩

theorem ConsultaLoteDE_empty {K : Type} (rt : Runtime K) (c : SifenClient K)
    (raw : GoString) (env : BodyRefResponse)
    (hEnv : ∀ p, ∃ b, rt.MarshalEnvelope p = .ok b)
    (hReq : ∀ u, rt.NewRequestError u = none)
    (hDo : ∀ req, rt.Do req = .ok ⟨200, .ok raw⟩) (hUn : rt.Unmarshal raw = .ok env)
    (protocoloLote : GoString) (hshape : env.RResEnviConsLoteDe = none) :
    (c.ConsultaLoteDE rt protocoloLote).resp = none ∧
      (c.ConsultaLoteDE rt protocoloLote).err =
        .errorf (str "response body is empty or invalid type") := by
  have hSend : ∀ (s : SoapClient K) url p, s.Send rt url p = (raw, .nil) :=
    fun s url p => Send_ok rt s url p raw hEnv hReq hDo
  simp [SifenClient.ConsultaLoteDE, hSend, hUn, hshape]

theorem ConsultarResultadoLote_empty {K : Type} (rt : Runtime K) (c : SifenClient K)
    (raw : GoString) (env : BodyRefResponse)
    (hEnv : ∀ p, ∃ b, rt.MarshalEnvelope p = .ok b)
    (hReq : ∀ u, rt.NewRequestError u = none)
    (hDo : ∀ req, rt.Do req = .ok ⟨200, .ok raw⟩) (hUn : rt.Unmarshal raw = .ok env)
    (numeroLote : GoString) (hshape : env.RResEnviConsLoteDe = none)
    (h : (c.ConsultarResultadoLote rt numeroLote).calls ≠ []) :
    (c.ConsultarResultadoLote rt numeroLote).resp = none ∧
      (c.ConsultarResultadoLote rt numeroLote).err =
        .errorf (str "respuesta vacía o inválida") := by
  have hSend : ∀ (s : SoapClient K) url p, s.Send rt url p = (raw, .nil) :=
    fun s url p => Send_ok rt s url p raw hEnv hReq hDo
  by_cases hn : numeroLote = []
  · simp [SifenClient.ConsultarResultadoLote, hn] at h
  · simp [SifenClient.ConsultarResultadoLote, hn, hSend, hUn, hshape]

theorem EnviarEvento_empty {K : Type} (rt : EventRuntime K) (c : SifenClient K)
    (raw : GoString) (env : BodyRefResponse)
    (hEnv : ∀ p, ∃ b, rt.MarshalEnvelope p = .ok b)
    (hReq : ∀ u, rt.NewRequestError u = none)
    (hDo : ∀ req, rt.Do req = .ok ⟨200, .ok raw⟩) (hUn : rt.Unmarshal raw = .ok env)
    (evento : REvento) (r : Reply K RespuestaEvento)
    (hshape : env.RRetEnviEventoDe = none)
    (hr : c.EnviarEvento rt evento = some r) (h : r.calls ≠ []) :
    r.resp = none ∧ r.err = .errorf (str "response body is empty or invalid type") := by
  have hSend : ∀ (s : SoapClient K) url p, s.Send rt.toRuntime url p = (raw, .nil) :=
    fun s url p => Send_ok rt.toRuntime s url p raw hEnv hReq hDo
  unfold SifenClient.EnviarEvento at hr
  cases hm : rt.MarshalEvento evento with
  | error err =>
    simp only [hm, Option.some.injEq] at hr
    subst hr
    simp at h
  | ok eventoBytes =>
    simp only [hm] at hr
    cases hsig : c.signIfConfigured rt.toRuntime eventoBytes evento.GEvento.Id with
    | error err =>
      simp only [hsig, Option.some.injEq] at hr
      subst hr
      simp at h
    | panic => simp [hsig] at hr
    | ok signedBytes =>
      simp only [hsig, hSend, hUn, hshape, Option.some.injEq] at hr
      subst hr
      exact ⟨rfl, rfl⟩

theorem EnviarLoteDE_empty {K : Type} (rt : Runtime K) (c : SifenClient K)
    (raw : GoString) (env : BodyRefResponse)
    (hEnv : ∀ p, ∃ b, rt.MarshalEnvelope p = .ok b)
    (hReq : ∀ u, rt.NewRequestError u = none)
    (hDo : ∀ req, rt.Do req = .ok ⟨200, .ok raw⟩) (hUn : rt.Unmarshal raw = .ok env)
    (params : LoteParams) (r : Reply K LoteResult)
    (hshape : env.RRetEnviLoteDe = none)
    (hr : c.EnviarLoteDE rt params = some r) (h : r.calls ≠ []) :
    r.resp = none ∧ r.err = .errorf (str "respuesta vacía o inválida") := by
  have hSend : ∀ (s : SoapClient K) url p, s.Send rt url p = (raw, .nil) :=
    fun s url p => Send_ok rt s url p raw hEnv hReq hDo
  unfold SifenClient.EnviarLoteDE at hr
  cases hc : c.CrearLoteDE rt params with
  | none => simp [hc] at hr
  | some created =>
    simp only [hc] at hr
    cases he : created.2 with
    | nil =>
      simp only [he, hSend, hUn, hshape, Option.some.injEq] at hr
      subst hr
      exact ⟨rfl, rfl⟩
    | errorf text =>
      simp only [he, Option.some.injEq] at hr
      subst hr
      simp at h
    | sifen t code m cause rec =>
      simp only [he, Option.some.injEq] at hr
      subst hr
      simp at h

/-- Claim C30, as the code has it: when the decoded SOAP body does not carry the reply
shape the operation expects, ConsultaRUC, RecepcionDE, RecepcionLoteDE and ConsultaDE
return no response record and an error whose code is EMPTY_RESPONSE, while ConsultaLoteDE,
EnviarEvento, EnviarLoteDE and ConsultarResultadoLote return no response record and an
error that is not a `SifenError` and has no code.  The server answers every request with
the status 200 and a body that is decoded as `env`; an operation has reached the server
when its list of calls of the transport is not empty. -/
theorem empty_reply_errors {K : Type} (rt : EventRuntime K) (c : SifenClient K)
    (raw : GoString) (env : BodyRefResponse)
    (hEnv : ∀ p, ∃ b, rt.MarshalEnvelope p = .ok b)
    (hReq : ∀ u, rt.NewRequestError u = none)
    (hDo : ∀ req, rt.Do req = .ok ⟨200, .ok raw⟩) (hUn : rt.Unmarshal raw = .ok env) :
    (env.RResEnviConsRuc = none →
      ∀ (ruc : GoString) (tGet tSet : Int)
        (order : List (GoString × cacheEntry RespuestaConsultaRUC)),
        (c.ConsultaRUC rt.toRuntime ruc tGet tSet order).calls ≠ [] →
        (c.ConsultaRUC rt.toRuntime ruc tGet tSet order).resp = none ∧
          (c.ConsultaRUC rt.toRuntime ruc tGet tSet order).err.Code =
            some (str "EMPTY_RESPONSE")) ∧
      (env.RRetEnviDe = none →
        ∀ (de : DocumentoElectronico) (r : Reply K RespuestaRecepcionDE),
          c.RecepcionDE rt.toRuntime de = some r → r.calls ≠ [] →
          r.resp = none ∧ r.err.Code = some (str "EMPTY_RESPONSE")) ∧
      (env.RRetEnviLoteDe = none →
        ∀ (docs : List DocumentoElectronico) (r : Reply K RespuestaRecepcionLoteDE),
          c.RecepcionLoteDE rt.toRuntime docs = some r → r.calls ≠ [] →
          r.resp = none ∧ r.err.Code = some (str "EMPTY_RESPONSE")) ∧
      (env.RResEnviConsDe = none →
        ∀ (cdc : GoString) (tGet tSet : Int)
          (order : List (GoString × cacheEntry RespuestaConsultaDE)),
          (c.ConsultaDE rt.toRuntime cdc tGet tSet order).calls ≠ [] →
          (c.ConsultaDE rt.toRuntime cdc tGet tSet order).resp = none ∧
            (c.ConsultaDE rt.toRuntime cdc tGet tSet order).err.Code =
              some (str "EMPTY_RESPONSE")) ∧
      (env.RResEnviConsLoteDe = none →
        ∀ protocoloLote : GoString,
          (c.ConsultaLoteDE rt.toRuntime protocoloLote).resp = none ∧
            (c.ConsultaLoteDE rt.toRuntime protocoloLote).err =
              .errorf (str "response body is empty or invalid type") ∧
            (c.ConsultaLoteDE rt.toRuntime protocoloLote).err.Code = none) ∧
      (env.RRetEnviEventoDe = none →
        ∀ (evento : REvento) (r : Reply K RespuestaEvento),
          c.EnviarEvento rt evento = some r → r.calls ≠ [] →
          r.resp = none ∧ r.err = .errorf (str "response body is empty or invalid type") ∧
            r.err.Code = none) ∧
      (env.RRetEnviLoteDe = none →
        ∀ (params : LoteParams) (r : Reply K LoteResult),
          c.EnviarLoteDE rt.toRuntime params = some r → r.calls ≠ [] →
          r.resp = none ∧ r.err = .errorf (str "respuesta vacía o inválida") ∧
            r.err.Code = none) ∧
      (env.RResEnviConsLoteDe = none →
        ∀ numeroLote : GoString,
          (c.ConsultarResultadoLote rt.toRuntime numeroLote).calls ≠ [] →
          (c.ConsultarResultadoLote rt.toRuntime numeroLote).resp = none ∧
            (c.ConsultarResultadoLote rt.toRuntime numeroLote).err =
              .errorf (str "respuesta vacía o inválida") ∧
            (c.ConsultarResultadoLote rt.toRuntime numeroLote).err.Code = none) := by
  refine ⟨fun hsh ruc tGet tSet order h => ?_, fun hsh de r hr h => ?_,
    fun hsh docs r hr h => ?_, fun hsh cdc tGet tSet order h => ?_,
    fun hsh protocoloLote => ?_, fun hsh evento r hr h => ?_,
    fun hsh params r hr h => ?_, fun hsh numeroLote h => ?_⟩
  · obtain ⟨h1, h2⟩ := ConsultaRUC_empty rt.toRuntime c raw env hEnv hReq hDo hUn ruc tGet
      tSet order hsh h
    rw [h2]
    exact ⟨h1, rfl⟩
  · obtain ⟨h1, h2⟩ := RecepcionDE_empty rt.toRuntime c raw env hEnv hReq hDo hUn de r hsh
      hr h
    rw [h2]
    exact ⟨h1, rfl⟩
  · obtain ⟨h1, h2⟩ := RecepcionLoteDE_empty rt.toRuntime c raw env hEnv hReq hDo hUn docs r
      hsh hr h
    rw [h2]
    exact ⟨h1, rfl⟩
  · obtain ⟨h1, h2⟩ := ConsultaDE_empty rt.toRuntime c raw env hEnv hReq hDo hUn cdc tGet
      tSet order hsh h
    rw [h2]
    exact ⟨h1, rfl⟩
  · obtain ⟨h1, h2⟩ := ConsultaLoteDE_empty rt.toRuntime c raw env hEnv hReq hDo hUn
      protocoloLote hsh
    rw [h2]
    exact ⟨h1, rfl, rfl⟩
  · obtain ⟨h1, h2⟩ := EnviarEvento_empty rt c raw env hEnv hReq hDo hUn evento r hsh hr h
    rw [h2]
    exact ⟨h1, rfl, rfl⟩
  · obtain ⟨h1, h2⟩ := EnviarLoteDE_empty rt.toRuntime c raw env hEnv hReq hDo hUn params r
      hsh hr h
    rw [h2]
    exact ⟨h1, rfl, rfl⟩
  · obtain ⟨h1, h2⟩ := ConsultarResultadoLote_empty rt.toRuntime c raw env hEnv hReq hDo hUn
      numeroLote hsh h
    rw [h2]
    exact ⟨h1, rfl, rfl⟩

/-- Witness of `empty_reply_errors`: a batch query whose reply carries the shape of a
document query returns an error without code. -/
theorem empty_reply_errors_witness :
    (sampleClient.ConsultaLoteDE (sampleRuntime consultaDEBody) (str "12345")).resp = none ∧
      (sampleClient.ConsultaLoteDE (sampleRuntime consultaDEBody) (str "12345")).err =
        .errorf (str "response body is empty or invalid type") ∧
      (sampleClient.ConsultaLoteDE (sampleRuntime consultaDEBody) (str "12345")).err.Code =
        none :=
  (empty_reply_errors (sampleEventRuntime consultaDEBody) sampleClient [] consultaDEBody
    (fun _ => ⟨_, rfl⟩) (fun _ => rfl) (fun _ => rfl) rfl).2.2.2.2.1 rfl (str "12345")

/-! ## Padding: any pad character and width -/

theorem runeString_length_pos (r : Int) : 1 ≤ (runeString r).length := by
  unfold runeString
  split
  · rw [String.length_utf8EncodeChar]; exact Char.utf8Size_pos _
  · simp

set_option maxRecDepth 100000 in
theorem runeString_ascii_nat : ∀ n : Nat, n < 128 → runeString (n : Int) = [UInt8.ofNat n] := by
  decide

theorem runeString_ascii (c : Int) (h0 : 0 ≤ c) (h1 : c < 128) :
    runeString c = [UInt8.ofNat c.toNat] := by
  have h := runeString_ascii_nat c.toNat (by omega)
  rwa [Int.toNat_of_nonneg h0] at h

theorem stringsRepeat_length (s : GoString) (k : Nat) :
    (stringsRepeat s k).length = k * s.length := by
  induction k with
  | zero => simp [stringsRepeat]
  | succ k ih =>
    simp only [stringsRepeat] at ih
    simp only [stringsRepeat, List.replicate_succ, List.flatten_cons, List.length_append, ih]
    ring

theorem LeftPad_length_ge (s : GoString) (c n : Int) : n ≤ ((LeftPad s c n).length : Int) := by
  unfold LeftPad
  split
  · rename_i h; exact h
  · rename_i h
    have h1 := runeString_length_pos c
    have h2 : (n - (s.length : Int)).toNat ≤ (n - (s.length : Int)).toNat * (runeString c).length :=
      Nat.le_mul_of_pos_right _ h1
    simp only [List.length_append, stringsRepeat_length]
    push_cast
    have h3 : ((n - (s.length : Int)).toNat : Int) = n - s.length := by omega
    have h4 : (((n - (s.length : Int)).toNat : Nat) : Int) ≤
        (((n - (s.length : Int)).toNat * (runeString c).length : Nat) : Int) := by
      exact_mod_cast h2
    push_cast at h4
    omega

/-- Claim C34: `LeftPad` is idempotent at a fixed target: for every string `s`, pad
character `c` and width `n`, `LeftPad(LeftPad(s, c, n), c, n) = LeftPad(s, c, n)`. -/
theorem LeftPad_idempotent (s : GoString) (c n : Int) :
    LeftPad (LeftPad s c n) c n = LeftPad s c n := by
  have h := LeftPad_length_ge s c n
  generalize LeftPad s c n = padded at h
  simp only [LeftPad, ge_iff_le, h, if_true]

theorem LeftPad_ascii (s : GoString) (c n : Int) (h0 : 0 ≤ c) (h1 : c < 128) :
    LeftPad s c n = List.replicate (n - s.length).toNat (UInt8.ofNat c.toNat) ++ s := by
  unfold LeftPad
  split
  · rename_i h
    have : (n - (s.length : Int)).toNat = 0 := by omega
    simp [this]
  · rw [runeString_ascii c h0 h1, stringsRepeat_single]

theorem RightPad_ascii (s : GoString) (c n : Int) (h0 : 0 ≤ c) (h1 : c < 128) :
    RightPad s c n = s ++ List.replicate (n - s.length).toNat (UInt8.ofNat c.toNat) := by
  unfold RightPad
  split
  · rename_i h
    have : (n - (s.length : Int)).toNat = 0 := by omega
    simp [this]
  · rw [runeString_ascii c h0 h1, stringsRepeat_single]

/-- Claim C35: for every string `s`, single-byte pad character `c` (a rune in 0..127) and
width `n`, `LeftPad(s, c, n)` (resp. `RightPad`) returns `s` unchanged when
`len(s) ≥ n`, and otherwise `s` preceded (resp. followed) by exactly `n − len(s)` copies
of `c`; the result always has length `max(len(s), n)`. -/
theorem Pad_single_byte (s : GoString) (c n : Int) (h0 : 0 ≤ c) (h1 : c < 128) :
    ((s.length : Int) ≥ n → LeftPad s c n = s ∧ RightPad s c n = s) ∧
      ((s.length : Int) < n →
        LeftPad s c n = List.replicate (n - s.length).toNat (UInt8.ofNat c.toNat) ++ s ∧
        RightPad s c n = s ++ List.replicate (n - s.length).toNat (UInt8.ofNat c.toNat) ∧
        ((n - s.length).toNat : Int) = n - s.length) ∧
      ((LeftPad s c n).length : Int) = max (s.length : Int) n ∧
      ((RightPad s c n).length : Int) = max (s.length : Int) n := by
  refine ⟨?_, ?_, ?_, ?_⟩
  · intro h
    simp [LeftPad, RightPad, h]
  · intro h
    exact ⟨LeftPad_ascii s c n h0 h1, RightPad_ascii s c n h0 h1, by omega⟩
  · rw [LeftPad_ascii s c n h0 h1]
    simp only [List.length_append, List.length_replicate]
    push_cast
    omega
  · rw [RightPad_ascii s c n h0 h1]
    simp only [List.length_append, List.length_replicate]
    push_cast
    omega

/-- Witness of `Pad_single_byte` at the first row of `TestLeftPad` and `TestRightPad`:
the string `123`, the pad character `0` and the width 5. -/
theorem Pad_single_byte_witness :
    (((str "123").length : Int) ≥ 5 →
        LeftPad (str "123") 48 5 = str "123" ∧ RightPad (str "123") 48 5 = str "123") ∧
      (((str "123").length : Int) < 5 →
        LeftPad (str "123") 48 5 =
          List.replicate ((5 : Int) - (str "123").length).toNat (UInt8.ofNat (48 : Int).toNat) ++
            str "123" ∧
        RightPad (str "123") 48 5 =
          str "123" ++
            List.replicate ((5 : Int) - (str "123").length).toNat (UInt8.ofNat (48 : Int).toNat) ∧
        (((5 : Int) - (str "123").length).toNat : Int) = 5 - (str "123").length) ∧
      ((LeftPad (str "123") 48 5).length : Int) = max ((str "123").length : Int) 5 ∧
      ((RightPad (str "123") 48 5).length : Int) = max ((str "123").length : Int) 5 :=
  Pad_single_byte (str "123") 48 5 (by decide) (by decide)

/-! ## RUC validation: which inputs give an error -/

theorem parseDigits_not_allDigits (s : GoString) : ∀ (n : Nat), ¬ allDigits s →
    parseDigits s n = none := by
  induction s with
  | nil => intro n h; exact absurd (fun b hb => absurd hb (List.not_mem_nil b)) h
  | cons b rest ih =>
    intro n h
    by_cases hb : isDigit b = true
    · have hr : ¬ allDigits rest := by
        intro hr
        apply h
        intro x hx
        rcases List.mem_cons.mp hx with rfl | hx
        · exact hb
        · exact hr x hx
      simp [parseDigits, hb, ih _ hr]
    · simp [parseDigits, hb]

theorem parseDigits_eq (s : GoString) :
    parseDigits s 0 = if allDigits s then some (decimalValue s) else none := by
  by_cases h : allDigits s
  · rw [if_pos h, parseDigits_of_allDigits s 0 h]; rfl
  · rw [if_neg h, parseDigits_not_allDigits s 0 h]

theorem Atoi_plus (rest : GoString) :
    Atoi (43 :: rest) = if rest = [] then none else
      match parseDigits rest 0 with
      | none => none
      | some n => if n < 2 ^ 63 then some (n : Int) else none := by
  have e45 : ¬ ((43 : UInt8) = 45) := by decide
  simp only [Atoi, e45, false_or, if_true, decide_False, Bool.false_eq_true, if_false]

theorem Atoi_minus (rest : GoString) :
    Atoi (45 :: rest) = if rest = [] then none else
      match parseDigits rest 0 with
      | none => none
      | some n => if n ≤ 2 ^ 63 then some (-(n : Int)) else none := by
  simp only [Atoi, true_or, if_true, decide_True]

theorem Atoi_unsigned (c : UInt8) (rest : GoString) (h45 : ¬ c = 45) (h43 : ¬ c = 43) :
    Atoi (c :: rest) =
      match parseDigits (c :: rest) 0 with
      | none => none
      | some n => if n < 2 ^ 63 then some (n : Int) else none := by
  simp only [Atoi, h45, h43, or_self, if_false, decide_False, Bool.false_eq_true,
    reduceCtorEq]

theorem fitsInt_nonneg (n : Nat) : fitsInt (n : Int) ↔ n < 2 ^ 63 := by
  unfold fitsInt
  constructor
  · intro h
    have := h.2
    exact_mod_cast this
  · intro h
    have : (n : Int) < 2 ^ 63 := by exact_mod_cast h
    constructor <;> omega

theorem fitsInt_neg (n : Nat) : fitsInt (-(n : Int)) ↔ n ≤ 2 ^ 63 := by
  unfold fitsInt
  constructor
  · intro h
    have : (n : Int) ≤ 2 ^ 63 := by omega
    exact_mod_cast this
  · intro h
    have : (n : Int) ≤ 2 ^ 63 := by exact_mod_cast h
    constructor <;> omega

theorem Atoi_integerValue (s : GoString) :
    Atoi s = (integerValue s).bind (fun v => if fitsInt v then some v else none) := by
  cases s with
  | nil => rfl
  | cons c rest =>
    by_cases h45 : c = 45
    · subst h45
      have hI : integerValue (45 :: rest) =
          if rest ≠ [] ∧ allDigits rest then some (-(decimalValue rest : Int)) else none := rfl
      rw [Atoi_minus, hI, parseDigits_eq]
      by_cases hr : rest = []
      · rw [if_pos hr, if_neg (fun h => h.1 hr)]; rfl
      · rw [if_neg hr]
        by_cases hd : allDigits rest
        · rw [if_pos hd, if_pos ⟨hr, hd⟩, Option.some_bind]
          by_cases hv : decimalValue rest ≤ 2 ^ 63
          · rw [if_pos ((fitsInt_neg _).mpr hv)]
            simp only [hv, if_true]
          · rw [if_neg (fun h => hv ((fitsInt_neg _).mp h))]
            simp only [hv, if_false]
        · rw [if_neg hd, if_neg (fun h => hd h.2)]; rfl
    · by_cases h43 : c = 43
      · subst h43
        have hI : integerValue (43 :: rest) =
            if rest ≠ [] ∧ allDigits rest then some (decimalValue rest : Int) else none := rfl
        rw [Atoi_plus, hI, parseDigits_eq]
        by_cases hr : rest = []
        · rw [if_pos hr, if_neg (fun h => h.1 hr)]; rfl
        · rw [if_neg hr]
          by_cases hd : allDigits rest
          · rw [if_pos hd, if_pos ⟨hr, hd⟩, Option.some_bind]
            by_cases hv : decimalValue rest < 2 ^ 63
            · rw [if_pos ((fitsInt_nonneg _).mpr hv)]
              simp only [hv, if_true]
            · rw [if_neg (fun h => hv ((fitsInt_nonneg _).mp h))]
              simp only [hv, if_false]
          · rw [if_neg hd, if_neg (fun h => hd h.2)]; rfl
      · have hI : integerValue (c :: rest) =
            if allDigits (c :: rest) then some (decimalValue (c :: rest) : Int) else none := by
          simp only [integerValue, h45, h43, if_false]
        rw [Atoi_unsigned c rest h45 h43, hI, parseDigits_eq]
        by_cases hd : allDigits (c :: rest)
        · rw [if_pos hd, if_pos hd, Option.some_bind]
          by_cases hv : decimalValue (c :: rest) < 2 ^ 63
          · rw [if_pos ((fitsInt_nonneg _).mpr hv)]
            simp only [hv, if_true]
          · rw [if_neg (fun h => hv ((fitsInt_nonneg _).mp h))]
            simp only [hv, if_false]
        · rw [if_neg hd, if_neg hd]; rfl

theorem Atoi_isSome_iff (s : GoString) :
    (∃ v, Atoi s = some v) ↔ ∃ v, integerValue s = some v ∧ fitsInt v := by
  rw [Atoi_integerValue]
  cases h : integerValue s with
  | none => simp
  | some v =>
    by_cases hf : fitsInt v
    · simp [hf]
    · simp [hf]

theorem stringsSplit_ne_nil (sep : UInt8) (s : GoString) : stringsSplit sep s ≠ [] := by
  induction s with
  | nil => simp [stringsSplit]
  | cons b rest ih =>
    simp only [stringsSplit]
    split
    · simp
    · split
      · simp
      · simp

theorem stringsSplit_single (sep : UInt8) : ∀ (s a : GoString),
    stringsSplit sep s = [a] → s = a ∧ sep ∉ a := by
  intro s
  induction s with
  | nil => intro a h; simp [stringsSplit] at h; subst h; simp
  | cons b rest ih =>
    intro a h
    simp only [stringsSplit] at h
    by_cases hb : b = sep
    · simp only [hb, if_true, List.cons.injEq] at h
      exact absurd h.2 (stringsSplit_ne_nil sep rest)
    · simp only [hb, if_false] at h
      cases hs : stringsSplit sep rest with
      | nil => exact absurd hs (stringsSplit_ne_nil sep rest)
      | cons piece pieces =>
        rw [hs] at h
        simp only [List.cons.injEq] at h
        obtain ⟨h1, h2⟩ := h
        subst h2
        obtain ⟨e, hn⟩ := ih piece hs
        subst h1
        refine ⟨by rw [e], ?_⟩
        intro hmem
        rcases List.mem_cons.mp hmem with h | h
        · exact hb h.symm
        · exact hn h

theorem stringsSplit_pair (sep : UInt8) : ∀ (s a b : GoString),
    stringsSplit sep s = [a, b] → s = a ++ sep :: b ∧ sep ∉ a ∧ sep ∉ b := by
  intro s
  induction s with
  | nil => intro a b h; simp [stringsSplit] at h
  | cons x rest ih =>
    intro a b h
    simp only [stringsSplit] at h
    by_cases hx : x = sep
    · simp only [hx, if_true, List.cons.injEq] at h
      obtain ⟨h1, h2⟩ := h
      subst h1
      obtain ⟨e, hn⟩ := stringsSplit_single sep rest b h2
      subst hx
      exact ⟨by rw [e]; rfl, by simp, hn⟩
    · simp only [hx, if_false] at h
      cases hs : stringsSplit sep rest with
      | nil => exact absurd hs (stringsSplit_ne_nil sep rest)
      | cons piece pieces =>
        rw [hs] at h
        simp only [List.cons.injEq] at h
        obtain ⟨h1, h2⟩ := h
        subst h2
        obtain ⟨e, hna, hnb⟩ := ih piece b hs
        subst h1
        refine ⟨by rw [e]; rfl, ?_, hnb⟩
        intro hmem
        rcases List.mem_cons.mp hmem with h | h
        · exact hx h.symm
        · exact hna h

theorem stringsSplit_twoParts (ruc base dv : GoString) :
    stringsSplit 45 ruc = [base, dv] ↔ twoParts ruc base dv := by
  have e : str "-" = [45] := by decide
  constructor
  · intro h
    obtain ⟨h1, h2, h3⟩ := stringsSplit_pair 45 ruc base dv h
    exact ⟨by rw [h1, e]; simp, h2, h3⟩
  · rintro ⟨h1, h2, h3⟩
    have e2 : ruc = base ++ 45 :: dv := by rw [h1, e]; simp
    rw [e2, stringsSplit_append _ _ _ (fun b hb hx => by subst hx; exact h2 hb),
      stringsSplit_none _ _ (fun b hb hx => by subst hx; exact h3 hb)]

theorem ValidateRUC_no_error (ruc : GoString) :
    (ValidateRUC ruc).2 = none ↔
      ∃ base dv, stringsSplit 45 ruc = [base, dv] ∧ (∃ v, Atoi base = some v) ∧
        ∃ w, Atoi dv = some w := by
  unfold ValidateRUC
  split
  · rename_i base dv hs
    cases hb : Atoi base with
    | none =>
      simp only [reduceCtorEq, false_iff, not_exists, not_and]
      intro b d hbd
      rw [hs] at hbd
      simp only [List.cons.injEq, and_true] at hbd
      rw [← hbd.1, hb]
      simp
    | some v =>
      cases hd : Atoi dv with
      | none =>
        simp only [reduceCtorEq, false_iff, not_exists, not_and]
        intro b d hbd _
        rw [hs] at hbd
        simp only [List.cons.injEq, and_true] at hbd
        rw [← hbd.2, hd]
        simp
      | some w =>
        simp only [true_iff]
        exact ⟨base, dv, hs, ⟨v, hb⟩, ⟨w, hd⟩⟩
  · rename_i hne
    simp only [reduceCtorEq, false_iff, not_exists, not_and]
    intro b d hbd
    exact absurd hbd (hne b d)

theorem ValidateRUC_error_false (ruc : GoString) (h : (ValidateRUC ruc).2 ≠ none) :
    (ValidateRUC ruc).1 = false := by
  unfold ValidateRUC at h ⊢
  split
  · rename_i base dv hs
    simp only [hs] at h
    cases hb : Atoi base with
    | none => rfl
    | some v =>
      cases hd : Atoi dv with
      | none => rfl
      | some w => simp [hb, hd] at h
  · rfl

/-- Claim C36, as stated, fails: `12345-99999999999999999999` consists of exactly two
parts separated by a single hyphen and both parts are decimal integers, yet `ValidateRUC`
returns an error (with false), because the second part does not fit an `int`. -/
theorem ValidateRUC_error_counterexample :
    twoParts (str "12345-99999999999999999999") (str "12345")
        (str "99999999999999999999") ∧
      integerValue (str "12345") = some 12345 ∧
      integerValue (str "99999999999999999999") = some 99999999999999999999 ∧
      ValidateRUC (str "12345-99999999999999999999") =
        (false, some "verify digit must be numeric") := by
  refine ⟨⟨by decide, by decide, by decide⟩, by decide, by decide, by decide⟩

/-- Claim C36 (amended): `ValidateRUC` returns no error exactly for the inputs that
consist of two parts separated by a single hyphen, each part a decimal integer (an
optional sign and at least one digit) that fits a Go `int`; for every other input, such as
`invalid` and `12345-X`, it returns an error together with false. -/
theorem ValidateRUC_error_iff (ruc : GoString) :
    ((ValidateRUC ruc).2 = none ↔
        ∃ base dv v w, twoParts ruc base dv ∧ integerValue base = some v ∧ fitsInt v ∧
          integerValue dv = some w ∧ fitsInt w) ∧
      ((ValidateRUC ruc).2 ≠ none → (ValidateRUC ruc).1 = false) ∧
      (ValidateRUC (str "invalid")).2 ≠ none ∧ (ValidateRUC (str "12345-X")).2 ≠ none := by
  refine ⟨?_, ValidateRUC_error_false ruc, by decide, by decide⟩
  rw [ValidateRUC_no_error]
  constructor
  · rintro ⟨base, dv, hs, hb, hd⟩
    obtain ⟨v, hv, hfv⟩ := (Atoi_isSome_iff base).mp hb
    obtain ⟨w, hw, hfw⟩ := (Atoi_isSome_iff dv).mp hd
    exact ⟨base, dv, v, w, (stringsSplit_twoParts ruc base dv).mp hs, hv, hfv, hw, hfw⟩
  · rintro ⟨base, dv, v, w, ht, hv, hfv, hw, hfw⟩
    exact ⟨base, dv, (stringsSplit_twoParts ruc base dv).mpr ht,
      (Atoi_isSome_iff base).mpr ⟨v, hv, hfv⟩, (Atoi_isSome_iff dv).mpr ⟨w, hw, hfw⟩⟩

/-- Witness of `ValidateRUC_error_iff`: the RUC `80069563-1` returns no error. -/
theorem ValidateRUC_error_iff_witness :
    (ValidateRUC (str "80069563-1")).2 = none ∧
      ∃ base dv v w, twoParts (str "80069563-1") base dv ∧ integerValue base = some v ∧
        fitsInt v ∧ integerValue dv = some w ∧ fitsInt w :=
  ⟨by decide, (ValidateRUC_error_iff (str "80069563-1")).1.mp (by decide)⟩

/-! ## The totals -/

theorem totals_foldl (items : List TotalsInput) : ∀ acc : TotalsResult,
    (items.foldl totalsStep acc).TotalBruto =
        acc.TotalBruto + (items.map TotalsInput.bruto).sum ∧
      (items.foldl totalsStep acc).TotalDescuento =
        acc.TotalDescuento + (items.map (fun i => i.Descuento)).sum ∧
      (items.foldl totalsStep acc).TotalNeto =
        acc.TotalNeto + (items.map TotalsInput.neto).sum ∧
      (items.foldl totalsStep acc).SubtotalExe =
        acc.SubtotalExe + ((items.filter (fun i => i.EsExento)).map TotalsInput.neto).sum ∧
      (items.foldl totalsStep acc).IVA10 =
        acc.IVA10 + ((items.filter (TotalsInput.gravado 10)).map
          (fun i => i.neto - i.neto / 1.10)).sum ∧
      (items.foldl totalsStep acc).IVA5 =
        acc.IVA5 + ((items.filter (TotalsInput.gravado 5)).map
          (fun i => i.neto - i.neto / 1.05)).sum := by
  induction items with
  | nil => intro acc; simp
  | cons item rest ih =>
    intro acc
    obtain ⟨h1, h2, h3, h4, h5, h6⟩ := ih (totalsStep acc item)
    simp only [List.foldl_cons, h1, h2, h3, h4, h5, h6, List.map_cons, List.sum_cons,
      List.filter_cons]
    have h510 : ¬ ((5 : ℚ) = 10) := by norm_num
    have h105 : ¬ ((10 : ℚ) = 5) := by norm_num
    by_cases he : item.EsExento = true
    · simp [totalsStep, TotalsInput.gravado, TotalsInput.neto, TotalsInput.bruto, he]
      refine ⟨?_, ?_, ?_, ?_⟩ <;> ring
    · by_cases hx : item.EsExonerado = true
      · simp [totalsStep, TotalsInput.gravado, TotalsInput.neto, TotalsInput.bruto, he, hx]
        refine ⟨?_, ?_, ?_⟩ <;> ring
      · by_cases h5 : item.TasaIVA = 5
        · simp [totalsStep, TotalsInput.gravado, TotalsInput.neto, TotalsInput.bruto, he, hx,
            h5, h510]
          refine ⟨?_, ?_, ?_, ?_⟩ <;> ring
        · by_cases h10 : item.TasaIVA = 10
          · simp [totalsStep, TotalsInput.gravado, TotalsInput.neto, TotalsInput.bruto, he,
              hx, h10, h105]
            refine ⟨?_, ?_, ?_, ?_⟩ <;> ring
          · simp [totalsStep, TotalsInput.gravado, TotalsInput.neto, TotalsInput.bruto, he,
              hx, h5, h10]
            refine ⟨?_, ?_, ?_⟩ <;> ring

theorem sum_neto (items : List TotalsInput) :
    (items.map TotalsInput.neto).sum =
      (items.map TotalsInput.bruto).sum - (items.map (fun i => i.Descuento)).sum := by
  induction items with
  | nil => simp
  | cons item rest ih =>
    simp only [List.map_cons, List.sum_cons, ih, TotalsInput.neto]
    ring

/-- Claim C33: with exact (rational) arithmetic, for every item list `CalculateTotals`
returns `TotalBruto` = Σ price × quantity, `TotalDescuento` = Σ discount, `TotalNeto` =
`TotalBruto − TotalDescuento`, `SubtotalExe` = Σ net of the exempt items, `IVA10` =
Σ (net − net/1.10) over the non-exempt, non-exonerated items at rate 10, `IVA5` =
Σ (net − net/1.05) over those at rate 5, and `TotalIVA = IVA5 + IVA10`; on the three items
of the test this gives 275000, 5000, 25000, `200000 − 200000/1.10` and
`45000 − 45000/1.05`. -/
theorem CalculateTotals_sums (items : List TotalsInput) :
    (CalculateTotals items).TotalBruto =
        (items.map (fun i => i.PrecioUnitario * i.Cantidad)).sum ∧
      (CalculateTotals items).TotalDescuento = (items.map (fun i => i.Descuento)).sum ∧
      (CalculateTotals items).TotalNeto =
        (CalculateTotals items).TotalBruto - (CalculateTotals items).TotalDescuento ∧
      (CalculateTotals items).SubtotalExe =
        ((items.filter (fun i => i.EsExento)).map TotalsInput.neto).sum ∧
      (CalculateTotals items).IVA10 =
        ((items.filter (TotalsInput.gravado 10)).map (fun i => i.neto - i.neto / 1.10)).sum ∧
      (CalculateTotals items).IVA5 =
        ((items.filter (TotalsInput.gravado 5)).map (fun i => i.neto - i.neto / 1.05)).sum ∧
      (CalculateTotals items).TotalIVA =
        (CalculateTotals items).IVA5 + (CalculateTotals items).IVA10 ∧
      (CalculateTotals testItems).TotalBruto = 275000 ∧
      (CalculateTotals testItems).TotalDescuento = 5000 ∧
      (CalculateTotals testItems).SubtotalExe = 25000 ∧
      (CalculateTotals testItems).IVA10 = 200000 - 200000 / 1.10 ∧
      (CalculateTotals testItems).IVA5 = 45000 - 45000 / 1.05 := by
  obtain ⟨h1, h2, h3, h4, h5, h6⟩ := totals_foldl items ⟨0, 0, 0, 0, 0, 0, 0, 0, 0, 0, 0, 0⟩
  simp only [zero_add] at h1 h2 h3 h4 h5 h6
  refine ⟨h1, h2, ?_, h4, h5, h6, rfl, ?_, ?_, ?_, ?_, ?_⟩
  · show (items.foldl totalsStep _).TotalNeto =
      (items.foldl totalsStep _).TotalBruto - (items.foldl totalsStep _).TotalDescuento
    rw [h1, h2, h3, sum_neto]
  all_goals norm_num [CalculateTotals, testItems, totalsStep, List.foldl]

/-! ## The QR addresses -/

theorem hexEncodeToString_length (src : GoString) :
    (hexEncodeToString src).length = 2 * src.length := by
  induction src with
  | nil => rfl
  | cons b rest ih =>
    have e : hexEncodeToString (b :: rest) =
        hextable.getD (b.toNat / 16) 0 :: hextable.getD (b.toNat % 16) 0 ::
          hexEncodeToString rest := rfl
    rw [e, List.length_cons, List.length_cons, ih, List.length_cons]
    omega

theorem hextable_lower : ∀ n : Nat, n < 16 → isLowerHex (hextable.getD n 0) = true := by
  decide

theorem hexEncodeToString_lower (src : GoString) :
    ∀ b ∈ hexEncodeToString src, isLowerHex b = true := by
  intro b hb
  simp only [hexEncodeToString, List.mem_flatMap, List.mem_cons, List.mem_singleton,
    List.not_mem_nil, or_false] at hb
  obtain ⟨v, _, h | h⟩ := hb
  · rw [h]
    have hv : v.toNat < 256 := v.val.isLt
    exact hextable_lower _ (by omega)
  · rw [h]
    exact hextable_lower _ (Nat.mod_lt _ (by decide))

theorem kude_paramsForHash (fmt : Formats) (g : KuDEGenerator) (data : KuDEData) :
    str "nVersion=150&Id=" ++ data.CDC ++ str "&dFeEmiDE=" ++
        fmt.Format data.FechaEmision ++ str "&dRucRec=" ++ data.RUCReceptor ++
        str "&dTotGralOpe=" ++ fmt.Float2 data.TotalGeneral ++ str "&dTotIVA=" ++
        fmt.Float2 data.TotalIVA ++ str "&cItems=" ++ Itoa data.Items.length ++
        str "&DigestValue=&IdCSC=" ++ g.config.IdCSC =
      joinParameters (kudeQRParameters fmt g data) := by
  have e1 : str "nVersion=150&Id=" =
      str "nVersion" ++ (str "=" ++ (str "150" ++ (str "&" ++ (str "Id" ++ str "=")))) := by
    decide
  have e2 : str "&dFeEmiDE=" = str "&" ++ (str "dFeEmiDE" ++ str "=") := by decide
  have e3 : str "&dRucRec=" = str "&" ++ (str "dRucRec" ++ str "=") := by decide
  have e4 : str "&dTotGralOpe=" = str "&" ++ (str "dTotGralOpe" ++ str "=") := by decide
  have e5 : str "&dTotIVA=" = str "&" ++ (str "dTotIVA" ++ str "=") := by decide
  have e6 : str "&cItems=" = str "&" ++ (str "cItems" ++ str "=") := by decide
  have e7 : str "&DigestValue=&IdCSC=" =
      str "&" ++ (str "DigestValue" ++ (str "=" ++ (str "&" ++ (str "IdCSC" ++ str "=")))) := by
    decide
  rw [e1, e2, e3, e4, e5, e6, e7]
  simp only [kudeQRParameters, joinParameters, List.append_assoc, List.append_nil]

/-- Claim C31: `KuDEGenerator.GenerateQRURL` returns `BaseURLQR + P + "&cHashQR=" + H`,
where `P` is the parameter string `nVersion=150`, `Id`, `dFeEmiDE`, `dRucRec`,
`dTotGralOpe`, `dTotIVA`, `cItems`, `DigestValue`, `IdCSC` in exactly that order, and `H`
is the hexadecimal text of the SHA-256 of `P` immediately followed by the CSC secret: 64
characters, all lowercase hexadecimal digits (SHA-256, a function that returns 32 bytes,
and the formatting of numbers and dates are taken as given). -/
theorem KuDE_GenerateQRURL_shape (fmt : Formats) (g : KuDEGenerator) (data : KuDEData)
    (hsum : ∀ x, (fmt.Sum256 x).length = 32) :
    g.GenerateQRURL fmt data =
        g.config.BaseURLQR ++ joinParameters (kudeQRParameters fmt g data) ++
          str "&cHashQR=" ++
          hexEncodeToString
            (fmt.Sum256 (joinParameters (kudeQRParameters fmt g data) ++ g.config.CSC)) ∧
      (kudeQRParameters fmt g data).map Prod.fst = qrNames ∧
      (kudeQRParameters fmt g data).head? = some (str "nVersion", str "150") ∧
      (hexEncodeToString
        (fmt.Sum256 (joinParameters (kudeQRParameters fmt g data) ++
          g.config.CSC))).length = 64 ∧
      ∀ b ∈ hexEncodeToString
          (fmt.Sum256 (joinParameters (kudeQRParameters fmt g data) ++ g.config.CSC)),
        isLowerHex b = true := by
  refine ⟨?_, rfl, rfl, ?_, hexEncodeToString_lower _⟩
  · rw [← kude_paramsForHash]
    simp only [KuDEGenerator.GenerateQRURL, List.append_assoc]
  · rw [hexEncodeToString_length, hsum]

set_option maxRecDepth 100000 in
/-- Witness of `KuDE_GenerateQRURL_shape`: the sample generator on the sample data, with
a digest of 32 zero bytes. -/
theorem KuDE_GenerateQRURL_shape_witness :
    sampleGenerator.GenerateQRURL testFormats sampleKuDEData =
        str "https://ekuatia.set.gov.py/consultas/qr?nVersion=150&Id=01800695631001001000000612021112917595714694&dFeEmiDE=2024-01-15T10:30:00&dRucRec=80069563&dTotGralOpe=150000.00&dTotIVA=0.00&cItems=2&DigestValue=&IdCSC=0002&cHashQR=0000000000000000000000000000000000000000000000000000000000000000" ∧
      (hexEncodeToString (testFormats.Sum256
        (joinParameters (kudeQRParameters testFormats sampleGenerator sampleKuDEData) ++
          sampleGenerator.config.CSC))).length = 64 :=
  ⟨by decide,
    (KuDE_GenerateQRURL_shape testFormats sampleGenerator sampleKuDEData
      (fun _ => rfl)).2.2.2.1⟩

theorem util_params (fmt : Formats) (baseURL : GoString) (params : QRParams) :
    GenerateQRURL fmt baseURL params =
      baseURL ++ joinParameters (utilQRParameters fmt params) := by
  have e1 : str "nVersion=150&Id=" =
      str "nVersion" ++ (str "=" ++ (str "150" ++ (str "&" ++ (str "Id" ++ str "=")))) := by
    decide
  have e2 : str "&dFeEmiDE=" = str "&" ++ (str "dFeEmiDE" ++ str "=") := by decide
  have e3 : str "&dRucRec=&dTotGralOpe=" =
      str "&" ++ (str "dRucRec" ++ (str "=" ++ (str "&" ++ (str "dTotGralOpe" ++ str "=")))) := by
    decide
  have e4 : str "&dTotIVA=0&cItems=" =
      str "&" ++ (str "dTotIVA" ++ (str "=" ++ (str "0" ++ (str "&" ++
        (str "cItems" ++ str "="))))) := by
    decide
  have e5 : str "&DigesValue=&IdCSC=" =
      str "&" ++ (str "DigesValue" ++ (str "=" ++ (str "&" ++ (str "IdCSC" ++ str "=")))) := by
    decide
  simp only [GenerateQRURL]
  rw [e1, e2, e3, e4, e5]
  simp only [utilQRParameters, joinParameters, List.append_assoc, List.append_nil,
    List.nil_append]

theorem utilQRParameters_names (fmt : Formats) (params : QRParams) :
    (utilQRParameters fmt params).map Prod.fst ≠ qrNames := by
  simp only [utilQRParameters, List.map]
  decide

set_option maxRecDepth 100000 in
/-- Claim C32 against the code: for every base URL and parameter set, the URL returned by
`util.GenerateQRURL` is the base URL followed by nine parameters in the order of the
claim, of which the eighth is named `DigesValue`, not `DigestValue`; on the input of
`TestGenerateQRURL` the name `DigestValue` does not occur in the URL. -/
theorem util_GenerateQRURL_names (fmt : Formats) (baseURL : GoString) (params : QRParams) :
    GenerateQRURL fmt baseURL params =
        baseURL ++ joinParameters (utilQRParameters fmt params) ∧
      (utilQRParameters fmt params).map Prod.fst =
        [str "nVersion", str "Id", str "dFeEmiDE", str "dRucRec", str "dTotGralOpe",
          str "dTotIVA", str "cItems", str "DigesValue", str "IdCSC"] ∧
      (utilQRParameters fmt params).map Prod.fst ≠ qrNames ∧
      GenerateQRURL testFormats testBaseURL testQRParams =
        str "https://ekuatia.set.gov.py/consultas/qr?nVersion=150&Id=01800695631001001000000612021112917595714694&dFeEmiDE=2024-01-15T10:30:00&dRucRec=&dTotGralOpe=150000.00&dTotIVA=0&cItems=5&DigesValue=&IdCSC=0001" ∧
      stringsContains (GenerateQRURL testFormats testBaseURL testQRParams)
        (str "DigestValue") = false := by
  refine ⟨util_params fmt baseURL params, rfl, utilQRParameters_names fmt params, by decide,
    by decide⟩

/-! ## The cache after `Close`, and the size of the caches of the client -/

/-- Claim C37, as stated, fails: after `Close` on a cache of capacity one, `Set` stores
the entry and the following `Get` of the key is a hit. -/
theorem Cache_Set_after_Close_counterexample :
    ∃ closed : Cache Nat, smallCache.Close = some closed ∧ closed.stopChClosed = true ∧
      (closed.Set (str "k") 7 10 100 []).entries.length = 1 ∧
      ((closed.Set (str "k") 7 10 100 []).Get (str "k") 105).1 = some 7 :=
  ⟨{ smallCache with stopChClosed := true }, by decide, by decide, by decide, by decide⟩

/-- Claim C37 (amended): `Close` only closes the stop channel of the sweep loop and leaves
the map as it is; inserts are still accepted afterwards: a `Set` performed after `Close`
stores the entry exactly as on the open cache, so a `Get` for a key set only after `Close`
hits until the entry expires. -/
theorem Cache_Set_after_Close {V : Type} (c closed : Cache V) (key : GoString) (value : V)
    (ttl now t : Int) (order : List (GoString × cacheEntry V))
    (h : c.Close = some closed) :
    closed.entries = c.entries ∧ closed.stopChClosed = true ∧
      (closed.Set key value ttl now order).entries = (c.Set key value ttl now order).entries ∧
      mapGet (closed.Set key value ttl now order).entries key = some ⟨value, now + ttl, 0⟩ ∧
      ((closed.Set key value ttl now order).Get key t).1 =
        if now + ttl < t then none else some value := by
  unfold Cache.Close at h
  by_cases hc : c.stopChClosed = true
  · simp [hc] at h
  · simp only [hc, if_false, Option.some.injEq, Bool.false_eq_true] at h
    subst h
    refine ⟨rfl, rfl, ?_, ?_, ?_⟩
    · simp only [Cache.Set, Cache.evictOldest]
      split <;> [split; skip] <;> rfl
    · simp only [Cache.Set, mapGet_mapSet]
    · simp only [Cache.Set, Cache.Get, mapGet_mapSet, cacheEntry.isExpired]
      by_cases hlt : now + ttl < t <;> simp [hlt]

/-- Witness of `Cache_Set_after_Close`: the cache of capacity one, closed, then a `Set`
at time 100 with a time to live of 10 and a `Get` at time 105. -/
theorem Cache_Set_after_Close_witness :
    ((({ smallCache with stopChClosed := true } : Cache Nat).Set (str "k") 7 10 100 []).Get
      (str "k") 105).1 = if (100 : Int) + 10 < 105 then none else some 7 :=
  (Cache_Set_after_Close smallCache { smallCache with stopChClosed := true } (str "k") 7 10
    100 105 [] (by decide)).2.2.2.2

theorem mapDelete_keys_nodup {α : Type} (key : GoString) (m : List (GoString × α))
    (h : (m.map Prod.fst).Nodup) : ((mapDelete key m).map Prod.fst).Nodup :=
  h.sublist ((List.filter_sublist m).map Prod.fst)

theorem mapDelete_mem {α : Type} (key : GoString) (m : List (GoString × α))
    (p : GoString × α) (h : p ∈ mapDelete key m) : p ∈ m ∧ p.1 ≠ key := by
  simpa [mapDelete] using h

theorem mapDelete_length_le {α : Type} (key : GoString) (m : List (GoString × α)) :
    (mapDelete key m).length ≤ m.length :=
  List.length_filter_le _ _

theorem mapSet_keys_nodup {α : Type} (key : GoString) (v : α) (m : List (GoString × α))
    (h : (m.map Prod.fst).Nodup) : ((mapSet key v m).map Prod.fst).Nodup := by
  simp only [mapSet, List.map_cons, List.nodup_cons]
  refine ⟨?_, mapDelete_keys_nodup key m h⟩
  intro hmem
  obtain ⟨p, hp, hk⟩ := List.mem_map.mp hmem
  exact (mapDelete_mem key m p hp).2 hk

theorem mapSet_length_le {α : Type} (key : GoString) (v : α) (m : List (GoString × α)) :
    (mapSet key v m).length ≤ m.length + 1 := by
  simp only [mapSet, List.length_cons]
  have := mapDelete_length_le key m
  omega

theorem mapSet_keys_ne {α : Type} (key : GoString) (v : α) (m : List (GoString × α))
    (hkey : key ≠ []) (h : ∀ p ∈ m, p.1 ≠ []) : ∀ p ∈ mapSet key v m, p.1 ≠ [] := by
  intro p hp
  simp only [mapSet, List.mem_cons] at hp
  rcases hp with rfl | hp
  · exact hkey
  · exact h p (mapDelete_mem key m p hp).1

theorem mapModify_keys {α : Type} (key : GoString) (f : α → α) (m : List (GoString × α)) :
    (mapModify key f m).map Prod.fst = m.map Prod.fst := by
  induction m with
  | nil => rfl
  | cons x xs ih =>
    simp only [mapModify, List.map_cons, List.cons.injEq] at ih ⊢
    refine ⟨?_, ih⟩
    split <;> rfl

theorem mapModify_keys_ne {α : Type} (key : GoString) (f : α → α) (m : List (GoString × α))
    (h : ∀ p ∈ m, p.1 ≠ []) : ∀ p ∈ mapModify key f m, p.1 ≠ [] := by
  intro p hp
  have hk : p.1 ∈ (mapModify key f m).map Prod.fst := List.mem_map_of_mem Prod.fst hp
  rw [mapModify_keys] at hk
  obtain ⟨q, hq, e⟩ := List.mem_map.mp hk
  rw [← e]
  exact h q hq

theorem Cache_Set_entries {V : Type} (c : Cache V) (key : GoString) (value : V)
    (ttl now : Int) (order : List (GoString × cacheEntry V))
    (hmap : (c.entries.map Prod.fst).Nodup) (hkeys : ∀ p ∈ c.entries, p.1 ≠ [])
    (hord : order.Perm c.entries) :
    (c.Set key value ttl now order).config = c.config ∧
      ((¬ (c.config.MaxSize > 0 ∧ (c.entries.length : Int) ≥ c.config.MaxSize) ∧
          (c.Set key value ttl now order).entries =
            mapSet key ⟨value, now + ttl, 0⟩ c.entries) ∨
        ((c.config.MaxSize > 0 ∧ (c.entries.length : Int) ≥ c.config.MaxSize) ∧
          storedAfterEviction c.entries (c.Set key value ttl now order).entries key
            ⟨value, now + ttl, 0⟩)) := by
  by_cases hfull : c.config.MaxSize > 0 ∧ (c.entries.length : Int) ≥ c.config.MaxSize
  · have hne : order ≠ [] := by
      intro e
      have hlen := hord.length_eq
      rw [e] at hlen
      simp at hlen
      have : (c.entries.length : Int) = 0 := by omega
      omega
    have hkeys' : ∀ p ∈ order, p.1 ≠ [] := fun p hp => hkeys p (hord.mem_iff.mp hp)
    obtain ⟨victim, hv, hkey, hvne, hmin⟩ := evictLoop_start order hne hkeys'
    have hvmem : victim ∈ c.entries := hord.mem_iff.mp hv
    constructor
    · simp only [Cache.Set, hfull, and_self, if_true, Cache.evictOldest, hkey, ne_eq, hvne,
        not_false_eq_true]
    · right
      refine ⟨hfull, victim, hvmem, fun q hq => hmin q (hord.mem_iff.mpr hq),
        mapDelete_length c.entries victim hmap hvmem, ?_⟩
      simp only [Cache.Set, hfull, and_self, if_true, Cache.evictOldest, hkey, ne_eq, hvne,
        not_false_eq_true]
  · constructor
    · simp only [Cache.Set, hfull, if_false]
    · left
      refine ⟨hfull, ?_⟩
      simp only [Cache.Set, hfull, if_false]

theorem Cache_Set_bounded {V : Type} (c : Cache V) (key : GoString) (value : V)
    (ttl now : Int) (order : List (GoString × cacheEntry V)) (hkey : key ≠ [])
    (hmax : c.config.MaxSize > 0) (hb : c.bounded) (hord : order.Perm c.entries) :
    (c.Set key value ttl now order).config = c.config ∧
      (c.Set key value ttl now order).bounded := by
  obtain ⟨hmap, hkeys, hlen⟩ := hb
  obtain ⟨hcfg, hcase⟩ := Cache_Set_entries c key value ttl now order hmap hkeys hord
  refine ⟨hcfg, ?_⟩
  unfold Cache.bounded
  rw [hcfg]
  rcases hcase with ⟨hnot, he⟩ | ⟨_, victim, hv, _, hl, he⟩
  · rw [he]
    refine ⟨mapSet_keys_nodup _ _ _ hmap, mapSet_keys_ne _ _ _ hkey hkeys, ?_⟩
    have h1 := mapSet_length_le key (⟨value, now + ttl, 0⟩ : cacheEntry V) c.entries
    have h2 : (c.entries.length : Int) < c.config.MaxSize := by
      by_contra hcon
      exact hnot ⟨hmax, by omega⟩
    omega
  · rw [he]
    refine ⟨mapSet_keys_nodup _ _ _ (mapDelete_keys_nodup _ _ hmap),
      mapSet_keys_ne _ _ _ hkey (fun p hp => hkeys p (mapDelete_mem _ _ p hp).1), ?_⟩
    have h1 := mapSet_length_le key (⟨value, now + ttl, 0⟩ : cacheEntry V)
      (mapDelete victim.1 c.entries)
    omega

theorem Cache_Get_bounded {V : Type} (c : Cache V) (key : GoString) (now : Int)
    (hb : c.bounded) : (c.Get key now).2.config = c.config ∧ (c.Get key now).2.bounded := by
  obtain ⟨hmap, hkeys, hlen⟩ := hb
  refine ⟨Cache_Get_config c key now, ?_⟩
  unfold Cache.bounded
  rw [Cache_Get_config]
  unfold Cache.Get
  split
  · exact ⟨hmap, hkeys, hlen⟩
  · split
    · refine ⟨mapDelete_keys_nodup _ _ hmap, fun p hp => hkeys p (mapDelete_mem _ _ p hp).1, ?_⟩
      have := mapDelete_length_le key c.entries
      simp only
      omega
    · refine ⟨?_, mapModify_keys_ne key
        (fun e : cacheEntry V => { e with hitCount := e.hitCount + 1 }) c.entries hkeys, ?_⟩
      · simp only [mapModify_keys]; exact hmap
      · have e : (mapModify key (fun e : cacheEntry V => { e with hitCount := e.hitCount + 1 })
            c.entries).length = c.entries.length := by
          simp [mapModify]
        simp only [e]
        exact hlen

theorem Cache_Delete_bounded {V : Type} (c : Cache V) (key : GoString) (hb : c.bounded) :
    (c.Delete key).config = c.config ∧ (c.Delete key).bounded := by
  obtain ⟨hmap, hkeys, hlen⟩ := hb
  refine ⟨rfl, mapDelete_keys_nodup _ _ hmap, fun p hp => hkeys p (mapDelete_mem _ _ p hp).1, ?_⟩
  have := mapDelete_length_le key c.entries
  simp only [Cache.Delete]
  omega

theorem Cache_cleanup_bounded {V : Type} (c : Cache V) (now : Int) (hb : c.bounded) :
    (c.cleanup now).config = c.config ∧ (c.cleanup now).bounded := by
  obtain ⟨hmap, hkeys, hlen⟩ := hb
  refine ⟨rfl, hmap.sublist ((List.filter_sublist c.entries).map Prod.fst),
    fun p hp => hkeys p (List.mem_filter.mp hp).1, ?_⟩
  have : (c.entries.filter (fun p => decide (¬ p.2.expiration < now))).length ≤
      c.entries.length := List.length_filter_le _ _
  simp only [Cache.cleanup]
  omega

theorem NewCache_bounded {V : Type} (config : CacheConfig) (hmax : config.MaxSize > 0) :
    (NewCache config : Cache V).bounded := by
  refine ⟨List.nodup_nil, fun p hp => absurd hp (List.not_mem_nil p), ?_⟩
  simp only [NewCache, List.length_nil]
  omega

theorem ruc_key_ne (ruc : GoString) : str "ruc:" ++ ruc ≠ [] := by
  have : str "ruc:" = 114 :: str "uc:" := by decide
  rw [this]; simp

theorem de_key_ne (cdc : GoString) : str "de:" ++ cdc ≠ [] := by
  have : str "de:" = 100 :: str "e:" := by decide
  rw [this]; simp

theorem RUCCache_step_bounded (r : RUCCache) (op : CacheOp RespuestaConsultaRUC)
    (hmax : r.cache.config.MaxSize > 0) (hb : r.cache.bounded)
    (hord : match op with
      | .set _ _ _ order => order.Perm r.cache.entries
      | _ => True) :
    (r.step op).cache.config = r.cache.config ∧ (r.step op).cache.bounded := by
  cases op with
  | set ruc resp now order =>
    exact Cache_Set_bounded r.cache _ resp _ now order (ruc_key_ne ruc) hmax hb hord
  | get ruc now => exact Cache_Get_bounded r.cache _ now hb
  | invalidate ruc => exact Cache_Delete_bounded r.cache _ hb
  | sweep now => exact Cache_cleanup_bounded r.cache now hb

theorem DECache_step_bounded (d : DECache) (op : CacheOp RespuestaConsultaDE)
    (hmax : d.cache.config.MaxSize > 0) (hb : d.cache.bounded)
    (hord : match op with
      | .set _ _ _ order => order.Perm d.cache.entries
      | _ => True) :
    (d.step op).cache.config = d.cache.config ∧ (d.step op).cache.bounded := by
  cases op with
  | set cdc resp now order =>
    exact Cache_Set_bounded d.cache _ resp _ now order (de_key_ne cdc) hmax hb hord
  | get cdc now => exact Cache_Get_bounded d.cache _ now hb
  | invalidate cdc => exact Cache_Delete_bounded d.cache _ hb
  | sweep now => exact Cache_cleanup_bounded d.cache now hb

theorem RUCCache_run_bounded (ops : List (CacheOp RespuestaConsultaRUC)) :
    ∀ r : RUCCache, r.cache.config.MaxSize > 0 → r.cache.bounded → r.ordersOfMap ops →
      (r.run ops).cache.config = r.cache.config ∧ (r.run ops).cache.bounded := by
  induction ops with
  | nil => intro r _ hb _; exact ⟨rfl, hb⟩
  | cons op rest ih =>
    intro r hmax hb hord
    obtain ⟨h1, h2⟩ := hord
    obtain ⟨hc, hb'⟩ := RUCCache_step_bounded r op hmax hb h1
    obtain ⟨hc2, hb2⟩ := ih (r.step op) (by rw [hc]; exact hmax) hb' h2
    exact ⟨by rw [← hc]; exact hc2, hb2⟩

theorem DECache_run_bounded (ops : List (CacheOp RespuestaConsultaDE)) :
    ∀ d : DECache, d.cache.config.MaxSize > 0 → d.cache.bounded → d.ordersOfMap ops →
      (d.run ops).cache.config = d.cache.config ∧ (d.run ops).cache.bounded := by
  induction ops with
  | nil => intro d _ hb _; exact ⟨rfl, hb⟩
  | cons op rest ih =>
    intro d hmax hb hord
    obtain ⟨h1, h2⟩ := hord
    obtain ⟨hc, hb'⟩ := DECache_step_bounded d op hmax hb h1
    obtain ⟨hc2, hb2⟩ := ih (d.step op) (by rw [hc]; exact hmax) hb' h2
    exact ⟨by rw [← hc]; exact hc2, hb2⟩

theorem Cache_Set_full {V : Type} (c : Cache V) (key : GoString) (value : V)
    (ttl now : Int) (order : List (GoString × cacheEntry V))
    (hmax : c.config.MaxSize > 0) (hb : c.bounded) (hord : order.Perm c.entries)
    (hfull : (c.entries.length : Int) = c.config.MaxSize) :
    storedAfterEviction c.entries (c.Set key value ttl now order).entries key
      ⟨value, now + ttl, 0⟩ := by
  obtain ⟨hmap, hkeys, _⟩ := hb
  rcases (Cache_Set_entries c key value ttl now order hmap hkeys hord).2 with
    ⟨hnot, _⟩ | ⟨_, h⟩
  · exact absurd ⟨hmax, by omega⟩ hnot
  · exact h

/-- Claim C39: for the RUC and DE sub-caches, whose keys are always prefixed with `ruc:` /
`de:` and therefore never empty, the size bound holds: with `MaxSize > 0`, after any
sequence of SetRUC/GetRUC/InvalidateRUC (resp. SetDE/GetDE/InvalidateDE) and sweep
operations on a new cache the number of stored entries is at most `MaxSize`, and each Set
on a full cache removes exactly one entry with minimal expiration before it stores the
key.  (The order in which an eviction loop visits the map is an order of that map.) -/
theorem subcache_size_bound (config : CacheConfig) (hmax : config.MaxSize > 0) :
    (∀ ops : List (CacheOp RespuestaConsultaRUC), (NewRUCCache config).ordersOfMap ops →
      (((NewRUCCache config).run ops).cache.entries.length : Int) ≤ config.MaxSize ∧
      ∀ (ruc : GoString) (resp : RespuestaConsultaRUC) (now : Int)
        (order : List (GoString × cacheEntry RespuestaConsultaRUC)),
        order.Perm ((NewRUCCache config).run ops).cache.entries →
        (((NewRUCCache config).run ops).cache.entries.length : Int) = config.MaxSize →
        storedAfterEviction ((NewRUCCache config).run ops).cache.entries
          (((NewRUCCache config).run ops).SetRUC ruc resp now order).cache.entries
          (str "ruc:" ++ ruc) ⟨resp, now + config.RUCTTL, 0⟩) ∧
      (∀ ops : List (CacheOp RespuestaConsultaDE), (NewDECache config).ordersOfMap ops →
        (((NewDECache config).run ops).cache.entries.length : Int) ≤ config.MaxSize ∧
        ∀ (cdc : GoString) (resp : RespuestaConsultaDE) (now : Int)
          (order : List (GoString × cacheEntry RespuestaConsultaDE)),
          order.Perm ((NewDECache config).run ops).cache.entries →
          (((NewDECache config).run ops).cache.entries.length : Int) = config.MaxSize →
          storedAfterEviction ((NewDECache config).run ops).cache.entries
            (((NewDECache config).run ops).SetDE cdc resp now order).cache.entries
            (str "de:" ++ cdc) ⟨resp, now + config.DETTL, 0⟩) := by
  constructor
  · intro ops hord
    obtain ⟨hc, hb⟩ := RUCCache_run_bounded ops (NewRUCCache config) hmax
      (NewCache_bounded config hmax) hord
    have hc' : ((NewRUCCache config).run ops).cache.config = config := hc
    refine ⟨by have := hb.2.2; rw [hc'] at this; exact this, ?_⟩
    intro ruc resp now order hperm hfull
    have h := Cache_Set_full ((NewRUCCache config).run ops).cache (str "ruc:" ++ ruc) resp
      ((NewRUCCache config).run ops).cache.config.RUCTTL now order (by rw [hc']; exact hmax) hb
      hperm (by rw [hc']; exact hfull)
    unfold RUCCache.SetRUC
    simp only [hc'] at h ⊢
    exact h
  · intro ops hord
    obtain ⟨hc, hb⟩ := DECache_run_bounded ops (NewDECache config) hmax
      (NewCache_bounded config hmax) hord
    have hc' : ((NewDECache config).run ops).cache.config = config := hc
    refine ⟨by have := hb.2.2; rw [hc'] at this; exact this, ?_⟩
    intro cdc resp now order hperm hfull
    have h := Cache_Set_full ((NewDECache config).run ops).cache (str "de:" ++ cdc) resp
      ((NewDECache config).run ops).cache.config.DETTL now order (by rw [hc']; exact hmax) hb
      hperm (by rw [hc']; exact hfull)
    unfold DECache.SetDE
    simp only [hc'] at h ⊢
    exact h

/-- Witness of `subcache_size_bound`: a RUC cache of capacity one after two stores, a
lookup, a sweep and an invalidation. -/
theorem subcache_size_bound_witness :
    smallConfig.MaxSize > 0 ∧
      (((NewRUCCache smallConfig).run sampleRUCOps).cache.entries.length : Int) ≤
        smallConfig.MaxSize :=
  ⟨by decide,
    ((subcache_size_bound smallConfig (by decide)).1 sampleRUCOps
      ⟨List.Perm.refl _, List.Perm.refl _, trivial, trivial, trivial, trivial⟩).1⟩

/-! ## The validations of `CrearLoteDE` -/

theorem firstOtherType_none_iff (tipo : Int) (docs : List DocumentoElectronico) :
    ∀ i : Nat, firstOtherType tipo docs i = none ↔ ∀ doc ∈ docs, doc.DE.GTimb.ITiDE = tipo := by
  induction docs with
  | nil => intro i; simp [firstOtherType]
  | cons d rest ih =>
    intro i
    by_cases h : d.DE.GTimb.ITiDE = tipo
    · simp [firstOtherType, h, ih (i + 1)]
    · simp [firstOtherType, h]

theorem crearLoteValidaciones_nil_iff (params : LoteParams) :
    crearLoteValidaciones params = .nil ↔
      1 ≤ params.Documentos.length ∧ params.Documentos.length ≤ 50 ∧
        ∀ doc ∈ params.Documentos, doc.DE.GTimb.ITiDE = params.TipoDocumento := by
  unfold crearLoteValidaciones
  by_cases h0 : params.Documentos.length = 0
  · simp [h0]
  · by_cases h50 : (params.Documentos.length : Int) > MaxDocumentosLote
    · simp only [h0, h50, if_false, if_true, reduceCtorEq, false_iff, not_and]
      intro _ hle
      simp only [MaxDocumentosLote] at h50
      omega
    · simp only [h0, h50, if_false]
      simp only [MaxDocumentosLote] at h50
      cases hf : firstOtherType params.TipoDocumento params.Documentos 0 with
      | none =>
        simp only [true_iff]
        exact ⟨by omega, by omega, (firstOtherType_none_iff _ _ 0).mp hf⟩
      | some found =>
        simp only [reduceCtorEq, false_iff, not_and]
        intro _ _ hall
        rw [(firstOtherType_none_iff _ _ 0).mpr hall] at hf
        simp at hf

theorem CrearLoteDE_rejected {K : Type} (rt : Runtime K) (c : SifenClient K)
    (params : LoteParams) (h : crearLoteValidaciones params ≠ .nil) :
    c.CrearLoteDE rt params = some ([], crearLoteValidaciones params) := by
  unfold crearLoteValidaciones at h ⊢
  unfold SifenClient.CrearLoteDE
  by_cases h0 : params.Documentos.length = 0
  · simp only [h0, if_true]
  · by_cases h50 : (params.Documentos.length : Int) > MaxDocumentosLote
    · simp only [h0, h50, if_false, if_true]
    · simp only [h0, h50, if_false] at h ⊢
      cases hf : firstOtherType params.TipoDocumento params.Documentos 0 with
      | none => rw [hf] at h; exact absurd rfl h
      | some found => rfl

theorem CrearLoteDE_reaches_loop {K : Type} (rt : Runtime K) (c : SifenClient K)
    (params : LoteParams) (d : DocumentoElectronico) (e : GoString)
    (h : crearLoteValidaciones params = .nil) (hd : params.Documentos.head? = some d)
    (he : rt.MarshalDE d = .error e) :
    c.CrearLoteDE rt params =
      some ([], .errorf (str "error al serializar DE " ++ d.DE.Id ++ str ": " ++ e)) := by
  unfold crearLoteValidaciones at h
  unfold SifenClient.CrearLoteDE
  by_cases h0 : params.Documentos.length = 0
  · simp [h0] at h
  · by_cases h50 : (params.Documentos.length : Int) > MaxDocumentosLote
    · simp [h0, h50] at h
    · simp only [h0, h50, if_false] at h ⊢
      cases hf : firstOtherType params.TipoDocumento params.Documentos 0 with
      | some found => rw [hf] at h; simp at h
      | none =>
        simp only
        cases hdocs : params.Documentos with
        | nil => rw [hdocs] at hd; simp at hd
        | cons first rest =>
          rw [hdocs] at hd
          simp only [List.head?_cons, Option.some.injEq] at hd
          subst hd
          simp only [SifenClient.crearLoteLoop, he]

/-- Claim C38: `CrearLoteDE` passes its validation stage if and only if the batch has
between 1 and 50 documents and every document's iTiDE equals `params.TipoDocumento`; a
batch that does not pass is rejected with the error of the stage whatever the runtime, so
before any document is serialized or signed, and a batch that passes reaches the loop that
serializes and signs; hence every batch containing two different iTiDE is rejected, and so
is a homogeneous batch whose type differs from the declared one. -/
theorem CrearLoteDE_validation (params : LoteParams) :
    (crearLoteValidaciones params = .nil ↔
        1 ≤ params.Documentos.length ∧ params.Documentos.length ≤ 50 ∧
          ∀ doc ∈ params.Documentos, doc.DE.GTimb.ITiDE = params.TipoDocumento) ∧
      (crearLoteValidaciones params ≠ .nil →
        ∀ (K : Type) (rt : Runtime K) (c : SifenClient K),
          c.CrearLoteDE rt params = some ([], crearLoteValidaciones params)) ∧
      (crearLoteValidaciones params = .nil →
        ∀ (K : Type) (rt : Runtime K) (c : SifenClient K) (d : DocumentoElectronico)
          (e : GoString), params.Documentos.head? = some d → rt.MarshalDE d = .error e →
          c.CrearLoteDE rt params =
            some ([], .errorf (str "error al serializar DE " ++ d.DE.Id ++ str ": " ++ e))) ∧
      ((∃ a ∈ params.Documentos, ∃ b ∈ params.Documentos,
          a.DE.GTimb.ITiDE ≠ b.DE.GTimb.ITiDE) → crearLoteValidaciones params ≠ .nil) ∧
      ((∃ t : Int, t ≠ params.TipoDocumento ∧ params.Documentos ≠ [] ∧
          ∀ doc ∈ params.Documentos, doc.DE.GTimb.ITiDE = t) →
        crearLoteValidaciones params ≠ .nil) := by
  refine ⟨crearLoteValidaciones_nil_iff params,
    fun h K rt c => CrearLoteDE_rejected rt c params h,
    fun h K rt c d e hd he => CrearLoteDE_reaches_loop rt c params d e h hd he, ?_, ?_⟩
  · rintro ⟨a, ha, b, hb, hab⟩ hnil
    obtain ⟨_, _, hall⟩ := (crearLoteValidaciones_nil_iff params).mp hnil
    exact hab ((hall a ha).trans (hall b hb).symm)
  · rintro ⟨t, ht, hne, hall⟩ hnil
    obtain ⟨_, _, hall'⟩ := (crearLoteValidaciones_nil_iff params).mp hnil
    cases hdocs : params.Documentos with
    | nil => exact hne hdocs
    | cons d rest =>
      have hd : d ∈ params.Documentos := by rw [hdocs]; exact List.mem_cons_self _ _
      exact ht ((hall d hd).symm.trans (hall' d hd))

/-- Witness of `CrearLoteDE_validation`: a batch of an invoice and an autofactura declared
as invoices is rejected by the sample client, and so is a batch of two credit notes
declared as invoices. -/
theorem CrearLoteDE_validation_witness :
    crearLoteValidaciones mixedBatch ≠ .nil ∧
      sampleClient.CrearLoteDE (sampleRuntime emptyBody) mixedBatch =
        some ([], crearLoteValidaciones mixedBatch) ∧
      crearLoteValidaciones otherTypeBatch ≠ .nil :=
  ⟨by decide,
    (CrearLoteDE_validation mixedBatch).2.1 (by decide) Unit (sampleRuntime emptyBody)
      sampleClient,
    (CrearLoteDE_validation otherTypeBatch).2.2.2.2 ⟨5, by decide, by decide, by decide⟩⟩

/-! ## The KuDE of a document -/

theorem convertirNumero_lt_100 (fuel : Nat) (n : Int) (h0 : 0 ≤ n) (h : n < 100) :
    ∃ s, convertirNumero (fuel + 1) n = some s := by
  rw [convertirNumero]
  simp only []
  split_ifs <;> first | exact ⟨_, rfl⟩ | omega

theorem convertirNumero_lt_1000 (fuel : Nat) (n : Int) (h0 : 0 ≤ n) (h : n < 1000) :
    ∃ s, convertirNumero (fuel + 2) n = some s := by
  by_cases h100 : n < 100
  · exact convertirNumero_lt_100 (fuel + 1) n h0 h100
  · obtain ⟨r, hr⟩ := convertirNumero_lt_100 fuel (n % 100) (by omega) (by omega)
    rw [convertirNumero]
    simp only [hr, Option.map_some']
    split_ifs <;> first | exact ⟨_, rfl⟩ | omega

theorem convertirNumero_lt_million (fuel : Nat) (n : Int) (h0 : 0 ≤ n) (h : n < 1000000) :
    ∃ s, convertirNumero (fuel + 3) n = some s := by
  by_cases h1000 : n < 1000
  · exact convertirNumero_lt_1000 (fuel + 1) n h0 h1000
  · obtain ⟨r, hr⟩ := convertirNumero_lt_1000 fuel (n % 1000) (by omega) (by omega)
    obtain ⟨m, hm⟩ := convertirNumero_lt_1000 fuel (n / 1000) (by omega) (by omega)
    rw [convertirNumero]
    simp only [hr, hm, Option.map_some']
    split_ifs <;> first | exact ⟨_, rfl⟩ | omega

theorem convertirNumero_nonneg (fuel : Nat) (n : Int) (h0 : 0 ≤ n) :
    ∃ s, convertirNumero (fuel + 4) n = some s := by
  by_cases hm : n < 1000000
  · exact convertirNumero_lt_million (fuel + 1) n h0 hm
  · by_cases hb : n < 1000000000000
    · obtain ⟨r, hr⟩ := convertirNumero_lt_million fuel (n % 1000000) (by omega) (by omega)
      obtain ⟨m, hm'⟩ := convertirNumero_lt_million fuel (n / 1000000) (by omega) (by omega)
      rw [convertirNumero]
      simp only [hr, hm', Option.map_some']
      split_ifs <;> first | exact ⟨_, rfl⟩ | omega
    · rw [convertirNumero]
      simp only []
      split_ifs <;> first | exact ⟨_, rfl⟩ | omega

theorem convertirNumero_neg (fuel : Nat) (n : Int) (hn : n < 0) :
    convertirNumero (fuel + 1) n =
      (convertirNumero fuel (wrapInt64 (-n))).map (fun rest => str "MENOS " ++ rest) := by
  have h0 : ¬ n = 0 := by omega
  rw [convertirNumero]
  simp only [h0, hn, if_false, if_true]

theorem convertirNumero_int64 (n : Int) (hlo : -(2 : Int) ^ 63 < n) (hhi : n < 2 ^ 63) :
    ∃ s, convertirNumero convertirDepth n = some s := by
  by_cases h0 : 0 ≤ n
  · exact convertirNumero_nonneg 4 n h0
  · have hw : wrapInt64 (-n) = -n := by
      unfold wrapInt64
      omega
    obtain ⟨r, hr⟩ := convertirNumero_nonneg 3 (-n) (by omega)
    have hr' : convertirNumero 7 (-n) = some r := hr
    have e : convertirNumero convertirDepth n = convertirNumero (7 + 1) n := rfl
    rw [e, convertirNumero_neg 7 n (by omega), hw, hr']
    exact ⟨_, rfl⟩

theorem convertirNumero_least : ∀ fuel : Nat, convertirNumero fuel (-(2 : Int) ^ 63) = none := by
  intro fuel
  induction fuel with
  | zero => rfl
  | succ k ih =>
    have hw : wrapInt64 (-(-(2 : Int) ^ 63)) = -(2 : Int) ^ 63 := by decide
    rw [convertirNumero_neg k _ (by decide), hw, ih]
    rfl

theorem GenerateFromDE_returns (fmt : Formats) (g : KuDEGenerator) (now : Int)
    (de : models.DocumentoElectronico) (gOpeCom : models.TgOpeCom)
    (h : de.DE.GDatGralOpe.GOpeCom = some gOpeCom)
    (hint : ∀ f, -(2 : Int) ^ 63 < fmt.Int64 f ∧ fmt.Int64 f < 2 ^ 63) :
    ∃ data, g.GenerateFromDE fmt now de = .returns data := by
  unfold KuDEGenerator.GenerateFromDE
  simp only [h]
  generalize hT : KuDEData.TotalGeneral _ = total
  generalize hM : KuDEData.Moneda _ = moneda
  obtain ⟨s, hs⟩ := convertirNumero_int64 (fmt.Int64 total) (hint total).1 (hint total).2
  simp only [numeroALetras, hs]
  exact ⟨_, rfl⟩

/-- Claim C40 against the code: `GenerateFromDE` reads `GOpeCom.CMoneOpe` through the
pointer `GOpeCom` without testing it, so for every document whose group gOpeCom is absent,
such as the one of `createDummyDE`, the call panics on a nil dereference and returns no
`KuDEData`; the groups gTotSub and gCamIVA are tested, and with gOpeCom present the call
returns a value whether or not they are present (the conversion to `int64` taken as a
function into the range above the least `int64`). -/
theorem GenerateFromDE_absent_gOpeCom (fmt : Formats) (g : KuDEGenerator) (now : Int)
    (de : models.DocumentoElectronico) :
    (de.DE.GDatGralOpe.GOpeCom = none → g.GenerateFromDE fmt now de = .nilDereference) ∧
      (de.DE.GDatGralOpe.GOpeCom ≠ none →
        (∀ f, -(2 : Int) ^ 63 < fmt.Int64 f ∧ fmt.Int64 f < 2 ^ 63) →
        ∃ data, g.GenerateFromDE fmt now de = .returns data) ∧
      ∀ id : GoString, g.GenerateFromDE fmt now (createDummyDE id) = .nilDereference := by
  refine ⟨?_, ?_, fun id => rfl⟩
  · intro h
    unfold KuDEGenerator.GenerateFromDE
    simp only [h]
  · intro h hint
    cases hg : de.DE.GDatGralOpe.GOpeCom with
    | none => exact absurd hg h
    | some gOpeCom => exact GenerateFromDE_returns fmt g now de gOpeCom hg hint

/-- Witness of `GenerateFromDE_absent_gOpeCom`: the document of `createDummyDE` makes the
call panic; with the group gOpeCom added (and gTotSub and the items still absent) the call
returns the KuDE of zero guaraníes. -/
theorem GenerateFromDE_absent_gOpeCom_witness :
    sampleGenerator.GenerateFromDE testFormats 1705314600000000000
        (createDummyDE sampleCDC) = .nilDereference ∧
      ∃ data, sampleGenerator.GenerateFromDE testFormats 1705314600000000000
          (dummyWithOpeCom sampleCDC) = .returns data ∧
        data.MontoLetras = str "CERO GUARANIES" :=
  ⟨(GenerateFromDE_absent_gOpeCom testFormats sampleGenerator 1705314600000000000
      (createDummyDE sampleCDC)).1 rfl, _, rfl, by decide⟩

end Sifen
